import Mathlib

/-!
# Suppression engine (`userspace/libsinsp/sinsp_suppress.cpp`)

Shallow embedding of `libsinsp::sinsp_suppress`.

* `uint64_t` thread ids are natural numbers; no arithmetic is done on them.
* `std::string` is a list of bytes (`List Nat`).
* `std::unordered_set` is a list used as a set: `set_insert` adds an element
  only when it is absent, `set_erase` removes the element.  The code never
  iterates over either set, so only membership and emptiness are observable.
* `std::map<uint64_t, tid_tree_node>` is an association list kept in strictly
  ascending key order, which is the order `finalize` iterates in.
* `std::unique_ptr<std::map<...>>` is an `Option`; `none` is `nullptr`.
* A result `none` of a function returning `Option` stands for undefined
  behaviour of the C++ code (a null dereference, or a read outside the
  event record).
* Multi-byte values are read with `memcpy` on a little-endian host.
* `ASSERT` is compiled out (release build).
* `m_num_suppressed_events` is a natural number; its wrap-around is not
  modelled.
-/

/-- Event type tags (`enum ppm_event_code` of `driver/ppm_events_public.h`,
which is not part of the sources).  Only the tags that the embedded functions
name are listed; `other c` is any tag different from all of them. -/
inductive ppm_event_code where
  | PPME_SYSCALL_CLONE_20_X
  | PPME_SYSCALL_FORK_20_X
  | PPME_SYSCALL_VFORK_20_X
  | PPME_SYSCALL_EXECVE_19_X
  | PPME_SYSCALL_EXECVEAT_X
  | PPME_SYSCALL_CLONE3_X
  | PPME_PROCEXIT_1_E
  | PPME_SOCKET_SENDTO_X
  | PPME_SOCKET_RECVFROM_X
  | PPME_SOCKET_RECVMSG_X
  | PPME_SOCKET_SENDMSG_X
  | other (code : Nat)
  deriving DecidableEq, Repr

namespace libsinsp

/-- The two return codes of `process_event` (`libscap/scap_const.h`). -/
inductive scap_rc where
  | SCAP_SUCCESS
  | SCAP_FILTERED_EVENT
  deriving DecidableEq, Repr

/-- The event types of the first `case` group of `process_event`:
process-creation exit events. -/
def is_lineage_type : ppm_event_code → Bool
  | .PPME_SYSCALL_CLONE_20_X => true
  | .PPME_SYSCALL_FORK_20_X => true
  | .PPME_SYSCALL_VFORK_20_X => true
  | .PPME_SYSCALL_EXECVE_19_X => true
  | .PPME_SYSCALL_EXECVEAT_X => true
  | .PPME_SYSCALL_CLONE3_X => true
  | _ => false

/-- Modelled from the spec: `sizeof(ppm_evt_hdr)`, whose declaration
(`driver/ppm_events_public.h`) is not part of the sources.  The header is the
packed sequence timestamp (8 bytes), thread id (8), total length (4),
event type (2), parameter count (4). -/
def sizeof_ppm_evt_hdr : Nat := 26

/-- An event record as `process_event` sees it: the header fields and
`payload`, the bytes of memory that follow the header (the array of 16-bit
length prefixes, then the parameter values, then whatever lies behind the
record).  `len` is the total length the header declares. -/
structure scap_evt where
  ts : Nat
  tid : Nat
  len : Nat
  type : ppm_event_code
  nparams : Nat
  payload : List Nat
  deriving DecidableEq, Repr

/-- Read one byte at offset `off` after the header; `none` when the byte is
outside the declared total length of the record (or outside `payload`). -/
def read_u8 (e : scap_evt) (off : Nat) : Option Nat :=
  if sizeof_ppm_evt_hdr + off < e.len then (e.payload.get? off).map (fun b => b % 256)
  else none

/-- The `memcpy` of an `n`-byte little-endian unsigned integer from offset
`off` after the header. -/
def read_le (e : scap_evt) (off : Nat) : Nat → Option Nat
  | 0 => some 0
  | n + 1 =>
    match read_u8 e off, read_le e (off + 1) n with
    | some b, some r => some (b + 256 * r)
    | _, _ => none

/-- Construction of a `std::string` from the `const char *` at offset `off`:
the bytes before the first NUL, read one after the other.  `fuel` bounds the
number of bytes read; `none` when a byte outside the record is reached. -/
def read_cstr_aux (e : scap_evt) : Nat → Nat → Option (List Nat)
  | 0, _ => none
  | fuel + 1, off =>
    match read_u8 e off with
    | none => none
    | some b =>
      if b = 0 then some []
      else
        match read_cstr_aux e fuel (off + 1) with
        | none => none
        | some s => some (b :: s)

/-- Construction of a `std::string` from the `const char *` at offset `off`.
No byte at or after offset `len` is inside the record, so `len` reads are
enough to reach the NUL or the end of the record. -/
def read_cstr (e : scap_evt) (off : Nat) : Option (List Nat) :=
  read_cstr_aux e e.len off

/-- One iteration `j` of the loop `for(j = 0; j < 13; j++)`; the loop state is
`(valptr, ptid_ptr)`, both offsets after the header. -/
def walk_step (e : scap_evt) (acc : Option (Nat × Option Nat)) (j : Nat) :
    Option (Nat × Option Nat) :=
  match acc with
  | none => none
  | some (valptr, ptid_ptr) =>
    let ptid_ptr := if j = 5 then some valptr else ptid_ptr
    match read_le e (2 * j) 2 with
    | none => none
    | some scratch => some (valptr + scratch, ptid_ptr)

/-- The whole loop, started with `valptr = lens + nparams * sizeof(uint16_t)`
and `ptid_ptr = nullptr`. -/
def walk_params (e : scap_evt) : Option (Nat × Option Nat) :=
  (List.range 13).foldl (walk_step e) (some (2 * e.nparams, none))

/-- A node of the lineage tree (`sinsp_suppress.h`); a node created by
`operator[]` is value-initialised. -/
structure tid_tree_node where
  m_tid : Nat := 0
  m_comm : List Nat := []
  m_children : List Nat := []
  deriving DecidableEq, Repr

/-- The map `std::map<uint64_t, tid_tree_node>`, in ascending key order. -/
abbrev tid_tree := List (Nat × tid_tree_node)

/-- The statement `m[k].field = ...`: `operator[]` finds the node with key `k`,
inserting a value-initialised one at its place in key order when there is
none, and `f` is applied to it. -/
def tree_update (k : Nat) (f : tid_tree_node → tid_tree_node) : tid_tree → tid_tree
  | [] => [(k, f {})]
  | (k', n) :: rest =>
    if k < k' then (k, f {}) :: (k', n) :: rest
    else if k = k' then (k', f n) :: rest
    else (k', n) :: tree_update k f rest

/-- Insertion into an unordered set. -/
def set_insert {α : Type} [DecidableEq α] (x : α) (l : List α) : List α :=
  if x ∈ l then l else x :: l

/-- Removal from an unordered set. -/
def set_erase {α : Type} [DecidableEq α] (x : α) (l : List α) : List α :=
  l.filter (fun y => decide (y ≠ x))

/-- The data members of `libsinsp::sinsp_suppress`. -/
structure sinsp_suppress where
  m_suppressed_comms : List (List Nat) := []
  m_suppressed_tids : List Nat := []
  m_num_suppressed_events : Nat := 0
  m_tids_tree : Option tid_tree := none
  deriving DecidableEq, Repr

def sinsp_suppress.suppress_comm (s : sinsp_suppress) (comm : List Nat) : sinsp_suppress :=
  { s with m_suppressed_comms := set_insert comm s.m_suppressed_comms }

def sinsp_suppress.suppress_tid (s : sinsp_suppress) (tid : Nat) : sinsp_suppress :=
  { s with m_suppressed_tids := set_insert tid s.m_suppressed_tids }

def sinsp_suppress.clear_suppress_comm (s : sinsp_suppress) : sinsp_suppress :=
  { s with m_suppressed_comms := [] }

def sinsp_suppress.clear_suppress_tid (s : sinsp_suppress) : sinsp_suppress :=
  { s with m_suppressed_tids := [] }

def sinsp_suppress.is_suppressed_tid (s : sinsp_suppress) (tid : Nat) : Bool :=
  if tid = 0 then false
  else decide (tid ∈ s.m_suppressed_tids)

def sinsp_suppress.initialize (s : sinsp_suppress) : sinsp_suppress :=
  match s.m_tids_tree with
  | none => { s with m_tids_tree := some [] }
  | some _ => { s with m_tids_tree := some [] }

def sinsp_suppress.handle_thread (s : sinsp_suppress) (tid parent_tid : Nat)
    (comm : List Nat) : sinsp_suppress :=
  if tid = 0 then s
  else
    match s.m_tids_tree with
    | none => s
    | some t =>
      let t1 := tree_update tid (fun n => { n with m_comm := comm }) t
      let t2 := tree_update tid (fun n => { n with m_tid := tid }) t1
      let t3 := tree_update parent_tid
        (fun n => { n with m_children := n.m_children ++ [tid] }) t2
      { s with m_tids_tree := some t3 }

def sinsp_suppress.check_suppressed_comm (s : sinsp_suppress) (tid parent_tid : Nat)
    (comm : List Nat) : Bool × sinsp_suppress :=
  let s1 := s.handle_thread tid parent_tid comm
  if comm ∈ s1.m_suppressed_comms then
    (true, { s1 with
      m_suppressed_tids := set_insert tid s1.m_suppressed_tids
      m_num_suppressed_events := s1.m_num_suppressed_events + 1 })
  else (false, s1)

/-- The body of the `case` group of the process-creation exit events. -/
def sinsp_suppress.process_lineage_event (s : sinsp_suppress) (e : scap_evt) :
    Option (scap_rc × sinsp_suppress) :=
  if e.nparams < 14 then some (.SCAP_SUCCESS, s)
  else
    match walk_params e with
    | none => none
    | some (_, none) => some (.SCAP_SUCCESS, s)
    | some (valptr, some ptid_ptr) =>
      match read_le e ptid_ptr 8 with
      | none => none
      | some ptid =>
        if s.is_suppressed_tid ptid then
          some (.SCAP_FILTERED_EVENT, { s with
            m_suppressed_tids := set_insert e.tid s.m_suppressed_tids
            m_num_suppressed_events := s.m_num_suppressed_events + 1 })
        else
          match read_cstr e valptr with
          | none => none
          | some comm =>
            match s.check_suppressed_comm e.tid ptid comm with
            | (true, s1) => some (.SCAP_FILTERED_EVENT, s1)
            | (false, s1) => some (.SCAP_SUCCESS, s1)

def sinsp_suppress.process_event (s : sinsp_suppress) (e : scap_evt) :
    Option (scap_rc × sinsp_suppress) :=
  if s.m_suppressed_tids.isEmpty && s.m_suppressed_comms.isEmpty then
    some (.SCAP_SUCCESS, s)
  else
    match e.type with
    | .PPME_SYSCALL_CLONE_20_X => s.process_lineage_event e
    | .PPME_SYSCALL_FORK_20_X => s.process_lineage_event e
    | .PPME_SYSCALL_VFORK_20_X => s.process_lineage_event e
    | .PPME_SYSCALL_EXECVE_19_X => s.process_lineage_event e
    | .PPME_SYSCALL_EXECVEAT_X => s.process_lineage_event e
    | .PPME_SYSCALL_CLONE3_X => s.process_lineage_event e
    | .PPME_PROCEXIT_1_E =>
      some (.SCAP_SUCCESS,
        { s with m_suppressed_tids := set_erase e.tid s.m_suppressed_tids })
    | _ =>
      if s.is_suppressed_tid e.tid then
        some (.SCAP_FILTERED_EVENT,
          { s with m_num_suppressed_events := s.m_num_suppressed_events + 1 })
      else some (.SCAP_SUCCESS, s)

/-- One iteration of the loop of `finalize` over the node `kv` of the tree. -/
def finalize_step (s : sinsp_suppress) (kv : Nat × tid_tree_node) : sinsp_suppress :=
  if s.is_suppressed_tid kv.2.m_tid then
    kv.2.m_children.foldl (fun acc child_tid => acc.suppress_tid child_tid) s
  else s

/-- The method `finalize()`; it dereferences `m_tids_tree` without a check. -/
def sinsp_suppress.finalize (s : sinsp_suppress) : Option sinsp_suppress :=
  match s.m_tids_tree with
  | none => none
  | some t => some { (t.foldl finalize_step s) with m_tids_tree := none }

/-- The parent tid that `process_event` tests for a process-creation exit
event: the 8 bytes at `ptid_ptr`. -/
def lineage_ptid (e : scap_evt) : Option Nat :=
  match walk_params e with
  | some (_, some ptid_ptr) => read_le e ptid_ptr 8
  | _ => none

/-- The comm that `process_event` hands to `check_suppressed_comm`: the C
string at the final `valptr`. -/
def lineage_comm (e : scap_evt) : Option (List Nat) :=
  match walk_params e with
  | some (valptr, _) => read_cstr e valptr
  | none => none

/-- The 16-bit length prefix `lens[j]` (0 when it is outside the record). -/
def param_len (e : scap_evt) (j : Nat) : Nat :=
  (read_le e (2 * j) 2).getD 0

/-- Offset after the header of parameter `j`: the prefix array followed by
the values of the parameters before `j`. -/
def param_off (e : scap_evt) (j : Nat) : Nat :=
  2 * e.nparams + ((List.range j).map (param_len e)).sum

/-- The `n` little-endian bytes of `v`. -/
def le_bytes : Nat → Nat → List Nat
  | 0, _ => []
  | n + 1, v => (v % 256) :: le_bytes n (v / 256)

/-- A process-creation exit record with 14 parameters laid out as the first
14 parameters of the clone / execve exit events: res, exe, args, tid, pid,
ptid, cwd, fdlimit, pgft_maj, pgft_min, vm_size, vm_rss, vm_swap, comm.
`exe` is the string "a", `args` is empty and `cwd` is "/". -/
def lineage_record (type : ppm_event_code) (tid ptid : Nat) (comm : List Nat) : scap_evt :=
  let values : List (List Nat) :=
    [le_bytes 8 0, [97, 0], [], le_bytes 8 tid, le_bytes 8 tid, le_bytes 8 ptid, [47, 0],
      le_bytes 8 1024, le_bytes 8 0, le_bytes 8 0, le_bytes 4 0, le_bytes 4 0, le_bytes 4 0,
      comm ++ [0]]
  let payload := (values.map (fun v => le_bytes 2 v.length)).flatten ++ values.flatten
  { ts := 0, tid := tid, len := sizeof_ppm_evt_hdr + payload.length, type := type,
    nparams := 14, payload := payload }

/-- The calls of claim C1 on a freshly constructed object: the build phase
for the lineage `A → B → C` with the comm `n` of `A` denylisted, then
`finalize()`. -/
def cascade_run (A B C : Nat) (n x y : List Nat) : Option sinsp_suppress :=
  let s0 : sinsp_suppress := {}
  let s1 := sinsp_suppress.initialize s0
  let s2 := s1.suppress_comm n
  let s3 := (s2.check_suppressed_comm A 0 n).2
  let s4 := (s3.check_suppressed_comm B A x).2
  let s5 := (s4.check_suppressed_comm C B y).2
  s5.finalize

/-- A call of the public interface of `sinsp_suppress`. -/
inductive suppress_call where
  | suppress_comm (comm : List Nat)
  | suppress_tid (tid : Nat)
  | clear_suppress_comm
  | clear_suppress_tid
  | check_suppressed_comm (tid parent_tid : Nat) (comm : List Nat)
  | process_event (e : scap_evt)
  | init
  | finalize
  deriving DecidableEq, Repr

/-- The state after one call; `none` when the call has undefined behaviour. -/
def apply_call (s : sinsp_suppress) : suppress_call → Option sinsp_suppress
  | .suppress_comm comm => some (s.suppress_comm comm)
  | .suppress_tid tid => some (s.suppress_tid tid)
  | .clear_suppress_comm => some s.clear_suppress_comm
  | .clear_suppress_tid => some s.clear_suppress_tid
  | .check_suppressed_comm tid parent_tid comm =>
    some (s.check_suppressed_comm tid parent_tid comm).2
  | .process_event e => (s.process_event e).map (fun r => r.2)
  | .init => some ( sinsp_suppress.initialize s)
  | .finalize => s.finalize

/-- The state after a sequence of calls. -/
def run_calls (s : sinsp_suppress) : List suppress_call → Option sinsp_suppress
  | [] => some s
  | call :: rest =>
    match apply_call s call with
    | none => none
    | some s1 => run_calls s1 rest

/-- Tid 0 is not registered in the tree `t`: no child list contains 0, and a
node with key 0 carries no comm and the value-initialised `m_tid`. -/
def zero_unregistered (t : tid_tree) : Prop :=
  ∀ kv ∈ t, 0 ∉ kv.2.m_children ∧ (kv.1 = 0 → kv.2.m_comm = [] ∧ kv.2.m_tid = 0)


/-- The invariant "tid 0 is not registered" on a state. -/
def tree_inv (s : sinsp_suppress) : Prop :=
  ∀ t, s.m_tids_tree = some t → zero_unregistered t

/-- A state in which only tid 7 is suppressed (after `suppress_tid(7)`). -/
def tid7_suppressed : sinsp_suppress := { m_suppressed_tids := [7] }

/-- A state in which only the comm "b" is denylisted (after `suppress_comm("b")`). -/
def comm_b_denylisted : sinsp_suppress := { m_suppressed_comms := [[98]] }

/-- An event without parameters of a type outside the two `case` groups. -/
def plain_event (tid : Nat) : scap_evt :=
  { ts := 0, tid := tid, len := sizeof_ppm_evt_hdr, type := ppm_event_code.other 0,
    nparams := 0, payload := [] }

/-- A process-exit event of thread `tid`. -/
def procexit_event (tid : Nat) : scap_evt :=
  { ts := 0, tid := tid, len := sizeof_ppm_evt_hdr,
    type := ppm_event_code.PPME_PROCEXIT_1_E, nparams := 0, payload := [] }

/-- The clone exit record of `lineage_record` with its first length prefix
overwritten by `0xFFFF`; the declared total length is unchanged. -/
def corrupted_record : scap_evt :=
  let e := lineage_record ppm_event_code.PPME_SYSCALL_CLONE_20_X 8 7 [98]
  { e with payload := [255, 255] ++ e.payload.drop 2 }

/-- A sequence of calls that tries to suppress and to register tid 0. -/
def calls_with_tid_zero : List suppress_call :=
  [suppress_call.suppress_tid 0, suppress_call.suppress_comm [98], suppress_call.init,
    suppress_call.check_suppressed_comm 5 0 [97],
    suppress_call.check_suppressed_comm 0 5 [98],
    suppress_call.process_event (plain_event 0)]

/-- A child link of the lineage tree `t`: the node with key `p` lists `c`
among its children (`handle_thread(c, p, comm)` was called). -/
def child_link (t : tid_tree) (p c : Nat) : Prop :=
  ∃ kv ∈ t, kv.1 = p ∧ c ∈ kv.2.m_children

/-- The tid `d` is a recorded descendant of `a` in the tree `t`: a chain of one
or more child links leads from `a` to `d`. -/
def descendant (t : tid_tree) (a d : Nat) : Prop :=
  Relation.TransGen (child_link t) a d

/-- Every node of the tree carries its key as `m_tid`, or the
value-initialised 0 (a node that `operator[]` created for a parent). -/
def tree_keyed (t : tid_tree) : Prop :=
  ∀ kv ∈ t, kv.2.m_tid = 0 ∨ kv.2.m_tid = kv.1

/-- Every lineage tree of the state is keyed. -/
def keyed_inv (s : sinsp_suppress) : Prop :=
  ∀ t, s.m_tids_tree = some t → tree_keyed t

/-- The state after `initialize()`, `suppress_tid(2)` and the registration of
the threads 2 (child of 0), 5 (child of 2), 7 (child of 5) and 9 (child
of 8). -/
def lineage_state : sinsp_suppress :=
  ((((( sinsp_suppress.initialize {}).suppress_tid 2).handle_thread 2 0 [97]).handle_thread
    5 2 [98]).handle_thread 7 5 [99]).handle_thread 9 8 [100]

/-- The lineage tree of `lineage_state`. -/
def lineage_state_tree : tid_tree :=
  [(0, { m_children := [2] }), (2, { m_tid := 2, m_comm := [97], m_children := [5] }),
    (5, { m_tid := 5, m_comm := [98], m_children := [7] }),
    (7, { m_tid := 7, m_comm := [99] }), (8, { m_children := [9] }),
    (9, { m_tid := 9, m_comm := [100] })]

/-- The state that `finalize()` leaves from `lineage_state`. -/
def lineage_state_final : sinsp_suppress :=
  { m_suppressed_tids := [7, 5, 2], m_tids_tree := none }

/-- Modelled from the spec: the record that the event builder of the tests
(`add_event_advance_ts`, through `scap_event_encode_params`, which is not part
of the sources) lays out for the encoded parameter values `values`: the
header, one 16-bit length prefix per parameter, then the values.  A string
value carries its terminating NUL. -/
def encode_record (type : ppm_event_code) (ts tid : Nat) (values : List (List Nat)) : scap_evt :=
  { ts := ts, tid := tid,
    len := sizeof_ppm_evt_hdr
      + ((values.map (fun v => le_bytes 2 v.length)).flatten ++ values.flatten).length,
    type := type, nparams := values.length,
    payload := (values.map (fun v => le_bytes 2 v.length)).flatten ++ values.flatten }

/-- The strings "bash", "init", "test-exe" and "/bin/test-exe". -/
def ascii_bash : List Nat := [98, 97, 115, 104]

def ascii_init : List Nat := [105, 110, 105, 116]

def ascii_test_exe : List Nat := [116, 101, 115, 116, 45, 101, 120, 101]

def ascii_bin_test_exe : List Nat := [47, 98, 105, 110, 47, 116, 101, 115, 116, 45, 101, 120, 101]

/-- The value `argsv` of the test `spawn_process`: "-c" and
"'echo aGVsbG8K | base64 -d'", each followed by a NUL. -/
def spawn_process_argsv : List Nat :=
  [45, 99, 0, 39, 101, 99, 104, 111, 32, 97, 71, 86, 115, 98, 71, 56, 75, 32, 124, 32, 98, 97,
    115, 101, 54, 52, 32, 45, 100, 39, 0]

/-- The parent clone exit event of the test `spawn_process` (thread 1): the
first 14 parameters are res = 20, exe = "bash", args empty, tid = 1, pid = 1,
ptid = 0, cwd = "", fdlimit = 1024, pgft_maj = 0, pgft_min = 1,
vm_size = 12088, vm_rss = 7208, vm_swap = 0, comm = "init"; `tail` is the
encoded values of the 7 parameters that follow. -/
def spawn_process_parent_clone_exit (ts : Nat) (tail : List (List Nat)) : scap_evt :=
  encode_record ppm_event_code.PPME_SYSCALL_CLONE_20_X ts 1
    ([le_bytes 8 20, ascii_bash ++ [0], [], le_bytes 8 1, le_bytes 8 1, le_bytes 8 0, [0],
      le_bytes 8 1024, le_bytes 8 0, le_bytes 8 1, le_bytes 4 12088, le_bytes 4 7208,
      le_bytes 4 0, ascii_init ++ [0]] ++ tail)

/-- The child clone exit event of the test `spawn_process` (thread 20):
res = 0, exe = "bash", args empty, tid = 20, pid = 20, ptid = 1, cwd = "",
fdlimit = 1024, pgft_maj = 0, pgft_min = 1, vm_size = 12088, vm_rss = 3764,
vm_swap = 0, comm = "init". -/
def spawn_process_child_clone_exit (ts : Nat) (tail : List (List Nat)) : scap_evt :=
  encode_record ppm_event_code.PPME_SYSCALL_CLONE_20_X ts 20
    ([le_bytes 8 0, ascii_bash ++ [0], [], le_bytes 8 20, le_bytes 8 20, le_bytes 8 1, [0],
      le_bytes 8 1024, le_bytes 8 0, le_bytes 8 1, le_bytes 4 12088, le_bytes 4 3764,
      le_bytes 4 0, ascii_init ++ [0]] ++ tail)

/-- The execve exit event of the test `spawn_process` (thread 20): res = 0,
exe = "/bin/test-exe", args = `argsv`, tid = 20, pid = 20, ptid = 1, cwd = "",
fdlimit = 1024, pgft_maj = 0, pgft_min = 1, vm_size = 29612, vm_rss = 4,
vm_swap = 0, comm = "test-exe"; `tail` is the encoded values of the 16
parameters that follow. -/
def spawn_process_execve_exit (ts : Nat) (tail : List (List Nat)) : scap_evt :=
  encode_record ppm_event_code.PPME_SYSCALL_EXECVE_19_X ts 20
    ([le_bytes 8 0, ascii_bin_test_exe ++ [0], spawn_process_argsv, le_bytes 8 20,
      le_bytes 8 20, le_bytes 8 1, [0], le_bytes 8 1024, le_bytes 8 0, le_bytes 8 1,
      le_bytes 4 29612, le_bytes 4 4, le_bytes 4 0, ascii_test_exe ++ [0]] ++ tail)

/-- The clone exit record of thread 8 with parent 7 and comm "b". -/
def clone_exit_record : scap_evt :=
  lineage_record ppm_event_code.PPME_SYSCALL_CLONE_20_X 8 7 [98]

/-- A clone exit record that carries 3 parameters only (a schema skew). -/
def short_clone_record : scap_evt :=
  { ts := 0, tid := 8, len := sizeof_ppm_evt_hdr + 6,
    type := ppm_event_code.PPME_SYSCALL_CLONE_20_X, nparams := 3,
    payload := [0, 0, 0, 0, 0, 0] }

/-- The build phase of a scan: the thread 2 is suppressed, then the threads
2 (child of 1), 5 and 6 (children of 2) are registered. -/
def scan_calls : List suppress_call :=
  [suppress_call.init, suppress_call.suppress_tid 2,
    suppress_call.check_suppressed_comm 2 1 [97],
    suppress_call.check_suppressed_comm 5 2 [98],
    suppress_call.check_suppressed_comm 6 2 [99]]

/-- The state after `scan_calls`. -/
def scan_state : sinsp_suppress :=
  { m_suppressed_tids := [2],
    m_tids_tree := some [(1, { m_children := [2] }),
      (2, { m_tid := 2, m_comm := [97], m_children := [5, 6] }),
      (5, { m_tid := 5, m_comm := [98] }), (6, { m_tid := 6, m_comm := [99] })] }

/-- A clone exit record of tid 8 with parent 7 whose comm parameter is the
single byte "b" without a terminating NUL; the record ends with that byte. -/
def unterminated_comm_record : scap_evt :=
  encode_record ppm_event_code.PPME_SYSCALL_CLONE_20_X 0 8
    [le_bytes 8 0, [97, 0], [], le_bytes 8 8, le_bytes 8 8, le_bytes 8 7, [47, 0],
      le_bytes 8 1024, le_bytes 8 0, le_bytes 8 0, le_bytes 4 0, le_bytes 4 0, le_bytes 4 0,
      [98]]

end libsinsp

/-!
# Dynamic snaplen (`driver/bpf/filler_helpers.h`)

Shallow embedding of `bpf_compute_snaplen`.

* `uint16_t` and `uint32_t` values are natural numbers; the function does no
  arithmetic on them that could overflow, only comparisons.
* The scratch buffer `data->buf` is a function from a byte index to a byte;
  every read takes the value modulo 256.
* Multi-byte reads are little-endian (a little-endian host; the `CONFIG_S390`
  byte swap of the 32-bit HTTP word is for big-endian builds).
* Kernel objects are records of the fields the function reads; a pointer that
  may be `NULL` is an `Option`, a user-space address is a number with `0` for
  `NULL`, and a `bpf_probe_read_user` that fails yields `none`.
-/

namespace filler_helpers

/-- Constants that the function uses and whose definitions are in headers
outside the sources (`ppm_events_public.h`, `types.h`, the kernel headers);
they are parameters of the embedding. -/
structure driver_consts where
  SNAPLEN_EXTENDED : Nat
  SNAPLEN_FULLCAPTURE_PORT : Nat
  SNAPLEN_DNS_UDP : Nat
  PPM_PORT_MYSQL : Nat
  PPM_PORT_POSTGRES : Nat
  PPM_PORT_DNS : Nat
  PPM_PORT_MONGODB : Nat
  BPF_HTTP_GET : Nat
  BPF_HTTP_POST : Nat
  BPF_HTTP_PUT : Nat
  BPF_HTTP_DELETE : Nat
  BPF_HTTP_TRACE : Nat
  BPF_HTTP_CONNECT : Nat
  BPF_HTTP_OPTIONS : Nat
  BPF_HTTP_PREFIX : Nat
  SCRATCH_SIZE_HALF : Nat
  AF_INET : Nat
  AF_INET6 : Nat
  PPM_MAX_ARG_SIZE : Nat
  DPI_LOOKAHEAD_SIZE : Nat
  PPM_MAX_EVENT_PARAMS : Nat
  /-- Whether the build defines `BPF_FORBIDS_ZERO_ACCESS`. -/
  BPF_FORBIDS_ZERO_ACCESS : Bool
  AF_UNIX : Nat
  UNIX_PATH_MAX : Nat
  SCRATCH_SIZE_MAX : Nat
  /-- The value of `sizeof(struct sockaddr_storage)`. -/
  sizeof_sockaddr_storage : Nat
  deriving DecidableEq, Repr

/-- The values the constants have in the upstream headers. -/
def upstream_consts : driver_consts where
  SNAPLEN_EXTENDED := 2000
  SNAPLEN_FULLCAPTURE_PORT := 16000
  SNAPLEN_DNS_UDP := 512
  PPM_PORT_MYSQL := 3306
  PPM_PORT_POSTGRES := 5432
  PPM_PORT_DNS := 53
  PPM_PORT_MONGODB := 27017
  BPF_HTTP_GET := 0x20544547
  BPF_HTTP_POST := 0x54534F50
  BPF_HTTP_PUT := 0x20545550
  BPF_HTTP_DELETE := 0x454C4544
  BPF_HTTP_TRACE := 0x43415254
  BPF_HTTP_CONNECT := 0x4E4E4F43
  BPF_HTTP_OPTIONS := 0x4954504F
  BPF_HTTP_PREFIX := 0x50545448
  SCRATCH_SIZE_HALF := 131071
  AF_INET := 2
  AF_INET6 := 10
  PPM_MAX_ARG_SIZE := 65000
  DPI_LOOKAHEAD_SIZE := 16
  PPM_MAX_EVENT_PARAMS := 32
  BPF_FORBIDS_ZERO_ACCESS := false
  AF_UNIX := 1
  UNIX_PATH_MAX := 108
  SCRATCH_SIZE_MAX := 262143
  sizeof_sockaddr_storage := 128

/-- The fields of `data->settings` that the function reads. -/
structure scap_bpf_settings where
  snaplen : Nat := 0
  do_dynamic_snaplen : Bool := false
  fullcapture_port_range_start : Nat := 0
  fullcapture_port_range_end : Nat := 0
  statsd_port : Nat := 0
  deriving DecidableEq, Repr

/-- A `struct unix_address`: the field `len` and the bytes of `name` (a
`struct sockaddr_un`, family included). -/
structure unix_address where
  len : Nat := 0
  name : List Nat := []
  deriving DecidableEq, Repr

/-- The fields of `struct sock` (seen as `struct inet_sock`, `struct
unix_sock`) that are read, each under the name the source reads it by; the
ports and IPv4 addresses are the raw 16-bit and 32-bit values (network byte
order), an IPv6 address is its 16 bytes.  A read that faults gives 0. -/
structure sock where
  sk_family : Nat := 0
  inet_sport : Nat := 0
  skc_dport : Nat := 0
  inet_dport : Nat := 0
  inet_daddr : Nat := 0
  inet_rcv_saddr : Nat := 0
  inet_saddr : Nat := 0
  skc_daddr : Nat := 0
  sk_v6_daddr : List Nat := []
  sk_v6_rcv_saddr : List Nat := []
  /-- The field `np->saddr`, with `np = inet->pinet6`. -/
  np_saddr : List Nat := []
  skc_v6_daddr : List Nat := []
  /-- The value of the pointer `sk` itself. -/
  sk_pointer : Nat := 0
  /-- The address `u->addr` of this socket; `none` is `NULL`. -/
  unix_addr : Option unix_address := none
  /-- The pointer `((struct unix_sock *)sk)->peer`; 0 is `NULL`. -/
  unix_peer : Nat := 0
  /-- The address `u->addr` of the peer; `none` is `NULL`. -/
  unix_peer_addr : Option unix_address := none
  deriving DecidableEq, Repr

/-- A `struct socket`; `sk = none` is a `NULL` `socket->sk`. -/
structure socket where
  sk : Option sock := none
  deriving DecidableEq, Repr

/-- Parameter type tags (`enum ppm_param_type` of `ppm_events_public.h`,
which is not part of the sources).  The named tags are the ones the sources
name; `other t` is any other tag. -/
inductive ppm_param_type where
  | PT_INT8 | PT_UINT8 | PT_FLAGS8 | PT_ENUMFLAGS8 | PT_SIGTYPE
  | PT_INT16 | PT_UINT16 | PT_FLAGS16 | PT_ENUMFLAGS16 | PT_SYSCALLID
  | PT_INT32 | PT_UINT32 | PT_FLAGS32 | PT_ENUMFLAGS32 | PT_UID | PT_GID | PT_MODE | PT_SIGSET
  | PT_INT64 | PT_UINT64 | PT_RELTIME | PT_ABSTIME | PT_ERRNO | PT_FD | PT_PID
  | PT_BYTEBUF | PT_CHARBUF | PT_SOCKTUPLE | PT_FDLIST | PT_FSPATH | PT_CHARBUFARRAY
  | PT_CHARBUF_PAIR_ARRAY | PT_FSRELPATH | PT_DYN | PT_SOCKADDR
  | other (tag : Nat)
  deriving DecidableEq, Repr

/-- What `bpf_compute_snaplen` and the encoder `__bpf_val_to_ring` read and
write through `struct filler_data *data`.  The fields of `tail_ctx` are natural
numbers: their declaration is not part of the sources and their wrap-around
is not modelled. -/
structure filler_data where
  settings : scap_bpf_settings := {}
  /-- The field `data->fd`. -/
  fd : Int := -1
  /-- The result of `bpf_sockfd_lookup(data, data->fd)`; `none` is `NULL`. -/
  sockfd_lookup : Option socket := none
  /-- The field `data->state->tail_ctx.evt_type`. -/
  evt_type : ppm_event_code := ppm_event_code.other 0
  /-- The value of `bpf_syscall_get_argument(data, i)`. -/
  syscall_arg : Nat → Nat := fun _ => 0
  /-- The value of `bpf_in_ia32_syscall()`; `false` when `CONFIG_COMPAT` is not set. -/
  in_ia32_syscall : Bool := false
  /-- The `msg_name` of the `struct compat_msghdr` read from a user address. -/
  read_user_compat_msg_name : Nat → Option Nat := fun _ => none
  /-- The `msg_name` of the `struct user_msghdr` read from a user address. -/
  read_user_msg_name : Nat → Option Nat := fun _ => none
  /-- The `sin_port` of the `struct sockaddr_in` read from a user address. -/
  read_user_sin_port : Nat → Option Nat := fun _ => none
  /-- The `sin6_port` of the `struct sockaddr_in6` read from a user address. -/
  read_user_sin6_port : Nat → Option Nat := fun _ => none
  /-- The field `data->state->tail_ctx.curoff`. -/
  curoff : Nat := 0
  /-- The scratch buffer `data->buf`. -/
  buf : Nat → Nat := fun _ => 0
  /-- The field `data->state->tail_ctx.len`. -/
  len : Nat := 0
  /-- The field `data->state->tail_ctx.curarg`. -/
  curarg : Nat := 0
  /-- The field `data->curarg_already_on_frame`. -/
  curarg_already_on_frame : Bool := false
  /-- The array of length prefixes of the event under construction, by
  parameter index. -/
  arg_lens : Nat → Nat := fun _ => 0
  /-- The type `data->evt->params[i].type` of parameter `i` of the event. -/
  evt_params : Nat → ppm_param_type := fun _ => ppm_param_type.other 0
  /-- User memory: the byte at an address, `none` where a read faults. -/
  user_mem : Nat → Option Nat := fun _ => none
  /-- Kernel memory: the byte at an address, `none` where a read faults. -/
  kernel_mem : Nat → Option Nat := fun _ => none

def in_port_range (port min max : Nat) : Bool :=
  decide (port ≥ min) && decide (port ≤ max)

/-- Byte swap of a 16-bit value (`ntohs` on a little-endian host). -/
def ntohs (x : Nat) : Nat :=
  (x % 256) * 256 + (x / 256) % 256

/-- The macro `get_buf(x)`. -/
def get_buf (c : driver_consts) (data : filler_data) (x : Nat) : Nat :=
  data.buf (Nat.land (data.curoff + x) c.SCRATCH_SIZE_HALF) % 256

/-- The read `*(uint32_t *)&get_buf(x)`: four consecutive bytes from the
masked index. -/
def get_buf_u32 (c : driver_consts) (data : filler_data) (x : Nat) : Nat :=
  let i := Nat.land (data.curoff + x) c.SCRATCH_SIZE_HALF
  data.buf i % 256 + 256 * (data.buf (i + 1) % 256) + 65536 * (data.buf (i + 2) % 256)
    + 16777216 * (data.buf (i + 3) % 256)

/-- The read `*(int32_t *)&get_buf(x)`. -/
def get_buf_s32 (c : driver_consts) (data : filler_data) (x : Nat) : Int :=
  let u := get_buf_u32 c data x
  if u < 2147483648 then (u : Int) else (u : Int) - 4294967296

/-- The `switch(data->state->tail_ctx.evt_type)` that looks for the address
argument of the syscall; the result is the pointer `sockaddr`. -/
def snaplen_sockaddr (data : filler_data) : Nat :=
  match data.evt_type with
  | .PPME_SOCKET_SENDTO_X => data.syscall_arg 4
  | .PPME_SOCKET_RECVFROM_X => data.syscall_arg 4
  | .PPME_SOCKET_RECVMSG_X =>
    if data.in_ia32_syscall then (data.read_user_compat_msg_name (data.syscall_arg 1)).getD 0
    else (data.read_user_msg_name (data.syscall_arg 1)).getD 0
  | .PPME_SOCKET_SENDMSG_X =>
    if data.in_ia32_syscall then (data.read_user_compat_msg_name (data.syscall_arg 1)).getD 0
    else (data.read_user_msg_name (data.syscall_arg 1)).getD 0
  | _ => 0

/-- Lines 497-549: `(port_local, port_remote)` of the socket `sk`. -/
def snaplen_ports (c : driver_consts) (data : filler_data) (sk : sock) : Nat × Nat :=
  if sk.sk_family = c.AF_INET ∨ sk.sk_family = c.AF_INET6 then
    let port_local := ntohs sk.inet_sport
    let port_remote := ntohs sk.skc_dport
    let sockaddr := snaplen_sockaddr data
    if port_remote = 0 ∧ sockaddr ≠ 0 then
      if sk.sk_family = c.AF_INET then
        (port_local, ntohs ((data.read_user_sin_port sockaddr).getD 0))
      else
        (port_local, ntohs ((data.read_user_sin6_port sockaddr).getD 0))
    else (port_local, port_remote)
  else (0, 0)

/-- Lines 482-549: `none` when the function returns the base snaplen before
looking at the ports (dynamic snaplen off, `fd == -1`, no socket, no `sk`),
else the two ports. -/
def snaplen_socket_ports (c : driver_consts) (data : filler_data) : Option (Nat × Nat) :=
  if !data.settings.do_dynamic_snaplen then none
  else if data.fd = -1 then none
  else
    match data.sockfd_lookup with
    | none => none
    | some socket =>
      match socket.sk with
      | none => none
      | some sk => some (snaplen_ports c data sk)

/-- The expression `res > x ? res : x`. -/
def snaplen_max (res x : Nat) : Nat :=
  if res > x then res else x

/-- The MySQL test of lines 563-565. -/
def mysql_signature (c : driver_consts) (data : filler_data) : Bool :=
  (get_buf c data 0 == 3 || get_buf c data 1 == 3 || get_buf c data 2 == 3
      || get_buf c data 3 == 3 || get_buf c data 4 == 3)
    || (get_buf c data 2 == 0 && get_buf c data 3 == 0)

/-- The Postgres test of lines 570-573 (`'Q'` = 81, `'P'` = 80, `'E'` = 69). -/
def postgres_signature (c : driver_consts) (data : filler_data) : Bool :=
  (get_buf c data 0 == 81 && get_buf c data 1 == 0)
    || (get_buf c data 0 == 80 && get_buf c data 1 == 0)
    || (get_buf c data 4 == 0 && get_buf c data 5 == 3 && get_buf c data 6 == 0)
    || (get_buf c data 0 == 69 && get_buf c data 1 == 0)

/-- The MongoDB header test of lines 579-583. -/
def mongodb_signature (c : driver_consts) (data : filler_data) : Bool :=
  get_buf_s32 c data 12 == 1
    || get_buf_s32 c data 12 == 2001 || get_buf_s32 c data 12 == 2002
    || get_buf_s32 c data 12 == 2003 || get_buf_s32 c data 12 == 2004
    || get_buf_s32 c data 12 == 2005 || get_buf_s32 c data 12 == 2006
    || get_buf_s32 c data 12 == 2007

/-- The HTTP test of lines 586-595 (`'/'` = 47). -/
def http_signature (c : driver_consts) (data : filler_data) : Bool :=
  let buf := get_buf_u32 c data 0
  buf == c.BPF_HTTP_GET || buf == c.BPF_HTTP_POST || buf == c.BPF_HTTP_PUT
    || buf == c.BPF_HTTP_DELETE || buf == c.BPF_HTTP_TRACE || buf == c.BPF_HTTP_CONNECT
    || buf == c.BPF_HTTP_OPTIONS
    || (buf == c.BPF_HTTP_PREFIX
        && data.buf (Nat.land (data.curoff + 4) c.SCRATCH_SIZE_HALF) % 256 == 47)

/-- Lines 551-599: the `if / else if` chain on the ports and the lookahead
bytes.  A branch whose inner test fails leaves the chain and reaches the final
`return res`. -/
def snaplen_rules (c : driver_consts) (data : filler_data) (res port_local port_remote
    lookahead_size : Nat) : Nat :=
  let min_port := data.settings.fullcapture_port_range_start
  let max_port := data.settings.fullcapture_port_range_end
  if max_port > 0 ∧ (in_port_range port_local min_port max_port = true
      ∨ in_port_range port_remote min_port max_port = true) then
    snaplen_max res c.SNAPLEN_FULLCAPTURE_PORT
  else if port_remote = data.settings.statsd_port then
    snaplen_max res c.SNAPLEN_EXTENDED
  else if port_remote = c.PPM_PORT_DNS then
    snaplen_max res c.SNAPLEN_DNS_UDP
  else if (port_local = c.PPM_PORT_MYSQL ∨ port_remote = c.PPM_PORT_MYSQL)
      ∧ lookahead_size ≥ 5 then
    if mysql_signature c data = true then snaplen_max res c.SNAPLEN_EXTENDED else res
  else if (port_local = c.PPM_PORT_POSTGRES ∨ port_remote = c.PPM_PORT_POSTGRES)
      ∧ lookahead_size ≥ 7 then
    if postgres_signature c data = true then snaplen_max res c.SNAPLEN_EXTENDED else res
  else if (port_local = c.PPM_PORT_MONGODB ∨ port_remote = c.PPM_PORT_MONGODB)
      ∨ (lookahead_size ≥ 16 ∧ mongodb_signature c data = true) then
    snaplen_max res c.SNAPLEN_EXTENDED
  else if lookahead_size ≥ 5 then
    if http_signature c data = true then snaplen_max res c.SNAPLEN_EXTENDED else res
  else res

def bpf_compute_snaplen (c : driver_consts) (data : filler_data) (lookahead_size : Nat) : Nat :=
  let res := data.settings.snaplen
  match snaplen_socket_ports c data with
  | none => res
  | some (port_local, port_remote) =>
    snaplen_rules c data res port_local port_remote lookahead_size

/-- The input of the counterexample to claim C10: base snaplen 80, dynamic
snaplen on, an IPv4 socket with local port 3306 (MySQL) and remote port 27017
(MongoDB), a buffer of bytes 1 (no MySQL signature). -/
def mysql_to_mongodb : filler_data where
  settings := { snaplen := 80, do_dynamic_snaplen := true }
  fd := 3
  sockfd_lookup := some { sk := some { sk_family := 2, inet_sport := ntohs 3306,
                                       skc_dport := ntohs 27017 } }
  buf := fun _ => 1

/-- An IPv4 socket from port 40000 to port 80 whose buffer starts with the
bytes of "GET /"; base snaplen 80, dynamic snaplen on. -/
def http_get_request : filler_data where
  settings := { snaplen := 80, do_dynamic_snaplen := true }
  fd := 3
  sockfd_lookup := some { sk := some { sk_family := 2, inet_sport := ntohs 40000,
                                       skc_dport := ntohs 80 } }
  buf := fun i => [71, 69, 84, 32, 47].getD i 0

/-- The `BPF_HTTP_*` constants are the little-endian words of the ASCII
strings "GET ", "POST", "PUT ", "DELE", "TRAC", "CONN", "OPTI" and "HTTP". -/
def http_words_ascii (c : driver_consts) : Prop :=
  c.BPF_HTTP_GET = 0x20544547 ∧ c.BPF_HTTP_POST = 0x54534F50 ∧ c.BPF_HTTP_PUT = 0x20545550 ∧
  c.BPF_HTTP_DELETE = 0x454C4544 ∧ c.BPF_HTTP_TRACE = 0x43415254 ∧
  c.BPF_HTTP_CONNECT = 0x4E4E4F43 ∧ c.BPF_HTTP_OPTIONS = 0x4954504F ∧
  c.BPF_HTTP_PREFIX = 0x50545448

instance http_words_ascii_decidable (c : driver_consts) : Decidable (http_words_ascii c) := by
  unfold http_words_ascii
  infer_instance

/-- The lookahead bytes, stored from the masked cursor on, start with `bytes`. -/
def lookahead_starts_with (c : driver_consts) (data : filler_data) (bytes : List Nat) : Prop :=
  ∀ k, k < bytes.length →
    data.buf (Nat.land data.curoff c.SCRATCH_SIZE_HALF + k) % 256 = bytes.getD k 0

/-- The ASCII codes of "GET /". -/
def ascii_GET_slash : List Nat := [71, 69, 84, 32, 47]

/-- The ASCII codes of the HTTP prefixes "GET ", "POST", "PUT ", "DELE",
"TRAC", "CONN", "OPTI" and "HTTP/". -/
def http_prefixes : List (List Nat) :=
  [[71, 69, 84, 32], [80, 79, 83, 84], [80, 85, 84, 32], [68, 69, 76, 69], [84, 82, 65, 67],
   [67, 79, 78, 78], [79, 80, 84, 73], [72, 84, 84, 80, 47]]

/-- The request "GET /" to port 80 with base snaplen 3000. -/
def http_get_large_base : filler_data :=
  { http_get_request with settings := { snaplen := 3000, do_dynamic_snaplen := true } }

/-- The request "GET /" sent from the local port 3306 (MySQL) to port 80;
base snaplen 80, dynamic snaplen on. -/
def http_get_on_mysql_port : filler_data :=
  { http_get_request with
    sockfd_lookup := some { sk := some { sk_family := 2, inet_sport := ntohs 3306,
                                         skc_dport := ntohs 80 } } }

/-- An IPv4 socket from port 40000 to the DNS port 53; base snaplen 80,
dynamic snaplen on, statsd port 8125. -/
def dns_query : filler_data where
  settings := { snaplen := 80, do_dynamic_snaplen := true, statsd_port := 8125 }
  fd := 3
  sockfd_lookup := some { sk := some { sk_family := 2, inet_sport := ntohs 40000,
                                       skc_dport := ntohs 53 } }

/-- The first rule of the chain matches: the end of the full-capture range is
non-zero and the local or the remote port lies in the range, bounds included. -/
def full_capture_match (data : filler_data) (port_local port_remote : Nat) : Prop :=
  data.settings.fullcapture_port_range_end ≠ 0 ∧
    ((data.settings.fullcapture_port_range_start ≤ port_local ∧
        port_local ≤ data.settings.fullcapture_port_range_end) ∨
      (data.settings.fullcapture_port_range_start ≤ port_remote ∧
        port_remote ≤ data.settings.fullcapture_port_range_end))

instance full_capture_match_decidable (data : filler_data) (port_local port_remote : Nat) :
    Decidable (full_capture_match data port_local port_remote) := by
  unfold full_capture_match
  infer_instance

/-!
## The parameter encoder (`__bpf_val_to_ring` and its callers)

* `unsigned int` values (`len`, `len_dyn`, their sum) are taken modulo `2^32`,
  a `volatile uint16_t` modulo `2^16`; `unsigned long` arguments are natural
  numbers.
* `bpf_probe_read_{user,kernel}` and `bpf_probe_read_{user,kernel}_str` are
  kernel helpers; they are modelled on a byte-addressed memory after their
  documented contract: a read copies the bytes and returns 0, a string read
  copies up to `size - 1` bytes and a NUL and returns the number of bytes
  written, the NUL included (`unix_socket_path` relies on the value 1 for a
  string that starts with NUL); both return a negative number and fill the
  destination with zeros when a byte cannot be read.
* `bpf_printk` has no effect on the state and is left out.
* A constant is taken to be a value of the type of the variable it is
  assigned to.
-/

/-- The enum `read_memory`. -/
inductive read_memory where
  | USER
  | KERNEL
  deriving DecidableEq, Repr

/-- The return codes of the encoder (`ppm_events_public.h`). -/
inductive ppm_rc where
  | PPM_SUCCESS
  | PPM_FAILURE_FRAME_SCRATCH_MAP_FULL
  | PPM_FAILURE_BUG
  deriving DecidableEq, Repr

/-- The memory that `mem` selects. -/
def memory_of (data : filler_data) : read_memory → Nat → Option Nat
  | .USER => data.user_mem
  | .KERNEL => data.kernel_mem

/-- The buffer after the bytes `bytes` are stored from index `off` on. -/
def buf_write (buf : Nat → Nat) (off : Nat) (bytes : List Nat) : Nat → Nat :=
  fun i => if off ≤ i ∧ i < off + bytes.length then bytes.getD (i - off) 0 else buf i

/-- The `size` bytes of memory from address `src`; `none` when one faults. -/
def read_bytes (m : Nat → Option Nat) (src : Nat) : Nat → Option (List Nat)
  | 0 => some []
  | size + 1 =>
    match m src with
    | none => none
    | some b =>
      match read_bytes m (src + 1) size with
      | none => none
      | some rest => some (b % 256 :: rest)

/-- The bytes of the string at `src` before its NUL, at most `limit` of them;
`none` when a byte faults before the NUL or the limit is reached. -/
def read_string (m : Nat → Option Nat) (src : Nat) : Nat → Option (List Nat)
  | 0 => some []
  | limit + 1 =>
    match m src with
    | none => none
    | some b =>
      if b % 256 = 0 then some []
      else
        match read_string m (src + 1) limit with
        | none => none
        | some rest => some (b % 256 :: rest)

/-- The kernel helper `bpf_probe_read_user` / `bpf_probe_read_kernel` with
destination `&buf[dst]`: the return value and the buffer. -/
def bpf_probe_read (m : Nat → Option Nat) (buf : Nat → Nat) (dst size src : Nat) :
    Int × (Nat → Nat) :=
  match read_bytes m src size with
  | some bytes => (0, buf_write buf dst bytes)
  | none => (-14, buf_write buf dst (List.replicate size 0))

/-- The kernel helper `bpf_probe_read_user_str` / `bpf_probe_read_kernel_str`
with destination `&buf[dst]`: the return value and the buffer. -/
def bpf_probe_read_str (m : Nat → Option Nat) (buf : Nat → Nat) (dst size src : Nat) :
    Int × (Nat → Nat) :=
  if size = 0 then (0, buf)
  else
    match read_string m src (size - 1) with
    | some bytes => ((bytes.length + 1 : Nat), buf_write buf dst (bytes ++ [0]))
    | none => (-14, buf_write buf dst (List.replicate size 0))

/-- Modelled from the spec: `fixup_evt_arg_len(buf, argnum, arglen)`, whose
definition is not part of the sources.  It records `arglen` as the length
prefix of parameter `argnum` in the array of per-parameter length prefixes. -/
def fixup_evt_arg_len (arg_lens : Nat → Nat) (argnum arglen : Nat) : Nat → Nat :=
  fun i => if i = argnum then arglen else arg_lens i

/-- The macro `SAFE_ARG_NUMBER(x)`. -/
def SAFE_ARG_NUMBER (c : driver_consts) (x : Nat) : Nat :=
  Nat.land x (c.PPM_MAX_EVENT_PARAMS - 1)

/-- The function `__bpf_read_val_into`: the return code and the buffer. -/
def __bpf_read_val_into (c : driver_consts) (data : filler_data) (curoff_bounded val
    read_size : Nat) (mem : read_memory) : Int × (Nat → Nat) :=
  if c.BPF_FORBIDS_ZERO_ACCESS then
    if read_size = 0 then (-1, data.buf)
    else
      bpf_probe_read (memory_of data mem) data.buf curoff_bounded
        (Nat.land (read_size - 1) c.SCRATCH_SIZE_HALF + 1) val
  else
    bpf_probe_read (memory_of data mem) data.buf curoff_bounded
      (Nat.land read_size c.SCRATCH_SIZE_HALF) val

/-- The `n` little-endian bytes of `v` (of `v` modulo `2^(8n)`). -/
def store_bytes : Nat → Nat → List Nat
  | 0, _ => []
  | n + 1, v => (v % 256) :: store_bytes n (v / 256)

/-- The width in bytes of the store that `__bpf_val_to_ring` makes for a
fixed-width type; `none` for the other types. -/
def fixed_width : ppm_param_type → Option Nat
  | .PT_FLAGS8 | .PT_ENUMFLAGS8 | .PT_UINT8 | .PT_SIGTYPE => some 1
  | .PT_FLAGS16 | .PT_ENUMFLAGS16 | .PT_UINT16 | .PT_SYSCALLID => some 2
  | .PT_FLAGS32 | .PT_MODE | .PT_UINT32 | .PT_UID | .PT_GID | .PT_SIGSET
  | .PT_ENUMFLAGS32 => some 4
  | .PT_RELTIME | .PT_ABSTIME | .PT_UINT64 => some 8
  | .PT_INT8 => some 1
  | .PT_INT16 => some 2
  | .PT_INT32 => some 4
  | .PT_INT64 | .PT_ERRNO | .PT_FD | .PT_PID => some 8
  | _ => none

/-- Lines 1036-1053 of the `PT_BYTEBUF` case: the cap of `len` at
`PPM_MAX_ARG_SIZE` and the read of the payload.  The result is
`Except.ok (len, data)` at a `break` and `Except.error (code, data)` at a
`return`. -/
def bytebuf_read_payload (c : driver_consts) (data : filler_data) (val len : Nat)
    (mem : read_memory) : Except (ppm_rc × filler_data) (Nat × filler_data) :=
  let len := if len > c.PPM_MAX_ARG_SIZE then c.PPM_MAX_ARG_SIZE else len
  if !data.curarg_already_on_frame then
    if data.curoff > c.SCRATCH_SIZE_HALF then
      .error (.PPM_FAILURE_FRAME_SCRATCH_MAP_FULL, data)
    else
      let r := __bpf_read_val_into c data (Nat.land data.curoff c.SCRATCH_SIZE_HALF) val
        (len % 65536) mem
      if r.1 ≠ 0 then .ok (0, { data with buf := r.2 })
      else .ok (len, { data with buf := r.2 })
  else .ok (len, data)

/-- Lines 1030-1033: `sl = bpf_compute_snaplen(data, dpi_lookahead_size)` and
the cut of `len` at `sl`. -/
def snaplen_cut (c : driver_consts) (data : filler_data) (dpi_lookahead_size len : Nat) : Nat :=
  let sl := bpf_compute_snaplen c data dpi_lookahead_size
  if len > sl then sl else len

/-- Lines 1005-1010: the value of `dpi_lookahead_size` for the payload
length `len`. -/
def dpi_lookahead (c : driver_consts) (len : Nat) : Nat :=
  if c.DPI_LOOKAHEAD_SIZE > len then len else c.DPI_LOOKAHEAD_SIZE

/-- The `PT_BYTEBUF` case of the `switch`. -/
def bytebuf_payload (c : driver_consts) (data : filler_data) (curoff_bounded val val_len : Nat)
    (enforce_snaplen : Bool) (mem : read_memory) :
    Except (ppm_rc × filler_data) (Nat × filler_data) :=
  if data.curarg_already_on_frame ∨ (val ≠ 0 ∧ val_len ≠ 0) then
    let len := val_len % 4294967296
    if enforce_snaplen then
      let dpi_lookahead_size := dpi_lookahead c len
      if !data.curarg_already_on_frame then
        let r := __bpf_read_val_into c data curoff_bounded val (dpi_lookahead_size % 65536) mem
        if r.1 ≠ 0 then .ok (0, { data with buf := r.2 })
        else
          bytebuf_read_payload c { data with buf := r.2 } val
            (snaplen_cut c { data with buf := r.2 } dpi_lookahead_size len) mem
      else
        bytebuf_read_payload c data val (snaplen_cut c data dpi_lookahead_size len) mem
    else bytebuf_read_payload c data val len mem
  else .ok (0, data)

/-- Lines 979-988: the string read of the `PT_CHARBUF` case, `res` and the
buffer; `res` stays `-1` for a `NULL` pointer. -/
def charbuf_read (c : driver_consts) (data : filler_data) (curoff_bounded val : Nat)
    (mem : read_memory) : Int × (Nat → Nat) :=
  if val ≠ 0 then
    bpf_probe_read_str (memory_of data mem) data.buf curoff_bounded c.PPM_MAX_ARG_SIZE val
  else (-1, data.buf)

/-- The case `PT_CHARBUF`, `PT_FSPATH`, `PT_FSRELPATH` of the `switch`. -/
def charbuf_payload (c : driver_consts) (data : filler_data) (curoff_bounded val val_len : Nat)
    (mem : read_memory) : Except (ppm_rc × filler_data) (Nat × filler_data) :=
  if !data.curarg_already_on_frame then
    if (charbuf_read c data curoff_bounded val mem).1 ≥ 0 then
      .ok ((charbuf_read c data curoff_bounded val mem).1.toNat % 4294967296,
        { data with buf := (charbuf_read c data curoff_bounded val mem).2 })
    else .ok (0, { data with buf := (charbuf_read c data curoff_bounded val mem).2 })
  else .ok (val_len % 4294967296, data)

/-- The case `PT_SOCKADDR`, `PT_SOCKTUPLE`, `PT_FDLIST` of the `switch`. -/
def sockaddr_payload (data : filler_data) (val val_len : Nat) :
    Except (ppm_rc × filler_data) (Nat × filler_data) :=
  if data.curarg_already_on_frame then .ok (val_len % 4294967296, data)
  else if val = 0 then .ok (0, data)
  else .error (.PPM_FAILURE_BUG, data)

/-- The cases of the fixed-width types and the `default` case of the
`switch`. -/
def fixed_payload (data : filler_data) (curoff_bounded val : Nat) (type : ppm_param_type) :
    Except (ppm_rc × filler_data) (Nat × filler_data) :=
  match fixed_width type with
  | some w => .ok (w, { data with buf := buf_write data.buf curoff_bounded (store_bytes w val) })
  | none => .error (.PPM_FAILURE_BUG, data)

/-- The `switch(type)` of `__bpf_val_to_ring`, entered with `curoff_bounded`:
`Except.ok (len, data)` is the payload length `len` and the state at a
`break`, `Except.error (code, data)` the code and the state at a `return`. -/
def val_to_ring_payload (c : driver_consts) (data : filler_data) (curoff_bounded val
    val_len : Nat) (type : ppm_param_type) (enforce_snaplen : Bool) (mem : read_memory) :
    Except (ppm_rc × filler_data) (Nat × filler_data) :=
  match type with
  | .PT_CHARBUF | .PT_FSPATH | .PT_FSRELPATH =>
    charbuf_payload c data curoff_bounded val val_len mem
  | .PT_BYTEBUF => bytebuf_payload c data curoff_bounded val val_len enforce_snaplen mem
  | .PT_SOCKADDR | .PT_SOCKTUPLE | .PT_FDLIST => sockaddr_payload data val val_len
  | t => fixed_payload data curoff_bounded val t

/-- The value of `len_dyn` after lines 962-967. -/
def len_dyn_of (dyn_idx : Nat) : Nat :=
  if dyn_idx % 256 ≠ 255 then 1 else 0

/-- Lines 962-967: the store of the dynamic-index byte, when there is one. -/
def write_dyn_idx (c : driver_consts) (data : filler_data) (dyn_idx : Nat) : filler_data :=
  if dyn_idx % 256 ≠ 255 then
    { data with
      buf := buf_write data.buf (Nat.land data.curoff c.SCRATCH_SIZE_HALF) [dyn_idx % 256]
      curoff := data.curoff + 1
      len := data.len + 1 }
  else data

/-- The function `__bpf_val_to_ring`: the return code and the state after
the call. -/
def __bpf_val_to_ring (c : driver_consts) (data : filler_data) (val val_len : Nat)
    (type : ppm_param_type) (dyn_idx : Nat) (enforce_snaplen : Bool) (mem : read_memory) :
    ppm_rc × filler_data :=
  if data.curoff > c.SCRATCH_SIZE_HALF then (.PPM_FAILURE_FRAME_SCRATCH_MAP_FULL, data)
  else
    let len_dyn := len_dyn_of dyn_idx
    let data1 := write_dyn_idx c data dyn_idx
    if data1.curoff > c.SCRATCH_SIZE_HALF then (.PPM_FAILURE_FRAME_SCRATCH_MAP_FULL, data1)
    else
      match val_to_ring_payload c data1 (Nat.land data1.curoff c.SCRATCH_SIZE_HALF) val
          val_len type enforce_snaplen mem with
      | .error r => r
      | .ok (len, data2) =>
        if (len_dyn + len) % 4294967296 > c.PPM_MAX_ARG_SIZE then
          (.PPM_FAILURE_FRAME_SCRATCH_MAP_FULL, data2)
        else
          (.PPM_SUCCESS, { data2 with
            arg_lens := fixup_evt_arg_len data2.arg_lens data2.curarg
              ((len_dyn + len) % 4294967296)
            curoff := data2.curoff + len
            len := data2.len + len
            curarg_already_on_frame := false
            curarg := data2.curarg + 1 })

/-- The function `param_type_to_mem`. -/
def param_type_to_mem : ppm_param_type → read_memory
  | .PT_CHARBUF | .PT_FSPATH | .PT_FSRELPATH | .PT_BYTEBUF => .USER
  | _ => .KERNEL

def bpf_val_to_ring_mem (c : driver_consts) (data : filler_data) (val : Nat)
    (mem : read_memory) : ppm_rc × filler_data :=
  if data.curarg ≥ c.PPM_MAX_EVENT_PARAMS then (.PPM_FAILURE_BUG, data)
  else
    __bpf_val_to_ring c data val 0
      (data.evt_params (Nat.land data.curarg (c.PPM_MAX_EVENT_PARAMS - 1))) 255 false mem

def bpf_val_to_ring (c : driver_consts) (data : filler_data) (val : Nat) :
    ppm_rc × filler_data :=
  if data.curarg ≥ c.PPM_MAX_EVENT_PARAMS then (.PPM_FAILURE_BUG, data)
  else
    __bpf_val_to_ring c data val 0
      (data.evt_params (Nat.land data.curarg (c.PPM_MAX_EVENT_PARAMS - 1))) 255 false
      (param_type_to_mem (data.evt_params (Nat.land data.curarg (c.PPM_MAX_EVENT_PARAMS - 1))))

def bpf_val_to_ring_len (c : driver_consts) (data : filler_data) (val val_len : Nat) :
    ppm_rc × filler_data :=
  if data.curarg ≥ c.PPM_MAX_EVENT_PARAMS then (.PPM_FAILURE_BUG, data)
  else
    __bpf_val_to_ring c data val val_len
      (data.evt_params (Nat.land data.curarg (c.PPM_MAX_EVENT_PARAMS - 1))) 255 false
      (param_type_to_mem (data.evt_params (Nat.land data.curarg (c.PPM_MAX_EVENT_PARAMS - 1))))

def bpf_val_to_ring_dyn (c : driver_consts) (data : filler_data) (val : Nat)
    (type : ppm_param_type) (dyn_idx : Nat) : ppm_rc × filler_data :=
  __bpf_val_to_ring c data val 0 type dyn_idx false (param_type_to_mem type)

def bpf_val_to_ring_type_mem (c : driver_consts) (data : filler_data) (val : Nat)
    (type : ppm_param_type) (mem : read_memory) : ppm_rc × filler_data :=
  __bpf_val_to_ring c data val 0 type 255 false mem

def bpf_val_to_ring_type (c : driver_consts) (data : filler_data) (val : Nat)
    (type : ppm_param_type) : ppm_rc × filler_data :=
  __bpf_val_to_ring c data val 0 type 255 false (param_type_to_mem type)

/-- The common body of the helpers `bpf_push_*_to_ring` for a store of `w`
bytes of `val`. -/
def push_to_ring (c : driver_consts) (data : filler_data) (w val : Nat) :
    ppm_rc × filler_data :=
  if data.curoff > c.SCRATCH_SIZE_HALF then (.PPM_FAILURE_FRAME_SCRATCH_MAP_FULL, data)
  else
    (.PPM_SUCCESS, { data with
      buf := buf_write data.buf (Nat.land data.curoff c.SCRATCH_SIZE_HALF) (store_bytes w val)
      arg_lens := fixup_evt_arg_len data.arg_lens data.curarg w
      curoff := data.curoff + w
      len := data.len + w
      curarg_already_on_frame := false
      curarg := SAFE_ARG_NUMBER c (data.curarg + 1) })

/-- The two's complement representation of `val` in `w` bytes. -/
def twos_complement (w : Nat) (val : Int) : Nat :=
  (val % (2 ^ (8 * w) : Nat)).toNat

def bpf_push_s64_to_ring (c : driver_consts) (data : filler_data) (val : Int) :
    ppm_rc × filler_data :=
  push_to_ring c data 8 (twos_complement 8 val)

def bpf_push_u64_to_ring (c : driver_consts) (data : filler_data) (val : Nat) :
    ppm_rc × filler_data :=
  push_to_ring c data 8 val

def bpf_push_u32_to_ring (c : driver_consts) (data : filler_data) (val : Nat) :
    ppm_rc × filler_data :=
  push_to_ring c data 4 val

def bpf_push_s32_to_ring (c : driver_consts) (data : filler_data) (val : Int) :
    ppm_rc × filler_data :=
  push_to_ring c data 4 (twos_complement 4 val)

def bpf_push_u16_to_ring (c : driver_consts) (data : filler_data) (val : Nat) :
    ppm_rc × filler_data :=
  push_to_ring c data 2 val

def bpf_push_s16_to_ring (c : driver_consts) (data : filler_data) (val : Int) :
    ppm_rc × filler_data :=
  push_to_ring c data 2 (twos_complement 2 val)

def bpf_push_u8_to_ring (c : driver_consts) (data : filler_data) (val : Nat) :
    ppm_rc × filler_data :=
  push_to_ring c data 1 val

/-- The parameter of `bpf_push_s8_to_ring` is declared `int16_t`; one byte is
stored. -/
def bpf_push_s8_to_ring (c : driver_consts) (data : filler_data) (val : Int) :
    ppm_rc × filler_data :=
  push_to_ring c data 1 (twos_complement 2 val)

/-- A call of the encoder interface. -/
inductive encoder_op where
  | val_to_ring (val val_len : Nat) (type : ppm_param_type) (dyn_idx : Nat)
      (enforce_snaplen : Bool) (mem : read_memory)
  | ring (val : Nat)
  | ring_len (val val_len : Nat)
  | ring_mem (val : Nat) (mem : read_memory)
  | ring_dyn (val : Nat) (type : ppm_param_type) (dyn_idx : Nat)
  | ring_type (val : Nat) (type : ppm_param_type)
  | ring_type_mem (val : Nat) (type : ppm_param_type) (mem : read_memory)
  | push_s64 (val : Int)
  | push_u64 (val : Nat)
  | push_s32 (val : Int)
  | push_u32 (val : Nat)
  | push_s16 (val : Int)
  | push_u16 (val : Nat)
  | push_s8 (val : Int)
  | push_u8 (val : Nat)

/-- The return code and the state after one call. -/
def apply_op (c : driver_consts) (data : filler_data) : encoder_op → ppm_rc × filler_data
  | .val_to_ring val val_len type dyn_idx enforce_snaplen mem =>
    __bpf_val_to_ring c data val val_len type dyn_idx enforce_snaplen mem
  | .ring val => bpf_val_to_ring c data val
  | .ring_len val val_len => bpf_val_to_ring_len c data val val_len
  | .ring_mem val mem => bpf_val_to_ring_mem c data val mem
  | .ring_dyn val type dyn_idx => bpf_val_to_ring_dyn c data val type dyn_idx
  | .ring_type val type => bpf_val_to_ring_type c data val type
  | .ring_type_mem val type mem => bpf_val_to_ring_type_mem c data val type mem
  | .push_s64 val => bpf_push_s64_to_ring c data val
  | .push_u64 val => bpf_push_u64_to_ring c data val
  | .push_s32 val => bpf_push_s32_to_ring c data val
  | .push_u32 val => bpf_push_u32_to_ring c data val
  | .push_s16 val => bpf_push_s16_to_ring c data val
  | .push_u16 val => bpf_push_u16_to_ring c data val
  | .push_s8 val => bpf_push_s8_to_ring c data val
  | .push_u8 val => bpf_push_u8_to_ring c data val

/-- The state after a sequence of calls, whatever their return codes. -/
def run_ops (c : driver_consts) (data : filler_data) : List encoder_op → filler_data
  | [] => data
  | op :: rest => run_ops c (apply_op c data op).2 rest

/-- The sum `len_dyn + len` of a direct call of `__bpf_val_to_ring` cannot
reach `2^32`: there is no dynamic-index byte, or the low 32 bits of `val_len`
are not all ones. -/
def op_no_wrap : encoder_op → Prop
  | .val_to_ring _ val_len _ dyn_idx _ _ =>
    dyn_idx % 256 = 255 ∨ val_len % 4294967296 < 4294967295
  | _ => True

/-- The return code of the read of the payload of a `PT_BYTEBUF` of length
`len` (line 1048), in state `data`. -/
def payload_read_rc (c : driver_consts) (data : filler_data) (val len : Nat)
    (mem : read_memory) : Int :=
  (__bpf_read_val_into c data (Nat.land data.curoff c.SCRATCH_SIZE_HALF) val
    ((if len > c.PPM_MAX_ARG_SIZE then c.PPM_MAX_ARG_SIZE else len) % 65536) mem).1

/-- The read of the lookahead bytes of a `PT_BYTEBUF` (line 1020), in state
`data`: the return code and the buffer. -/
def lookahead_read (c : driver_consts) (data : filler_data) (val val_len : Nat)
    (mem : read_memory) : Int × (Nat → Nat) :=
  __bpf_read_val_into c data (Nat.land data.curoff c.SCRATCH_SIZE_HALF) val
    (dpi_lookahead c (val_len % 4294967296) % 65536) mem

/-- The value to encode is unavailable, in the state `data` reached after the
dynamic-index byte: a string whose pointer is `NULL` or whose read fails, or a
byte buffer whose pointer is `NULL`, whose `val_len` is 0, whose lookahead read
fails or whose payload read fails. -/
def value_unavailable (c : driver_consts) (data : filler_data) (val val_len : Nat)
    (type : ppm_param_type) (enforce_snaplen : Bool) (mem : read_memory) : Prop :=
  ((type = .PT_CHARBUF ∨ type = .PT_FSPATH ∨ type = .PT_FSRELPATH) ∧
    (val = 0 ∨
      (charbuf_read c data (Nat.land data.curoff c.SCRATCH_SIZE_HALF) val mem).1 < 0)) ∨
  (type = .PT_BYTEBUF ∧
    (val = 0 ∨ val_len = 0 ∨
      (enforce_snaplen = true ∧ (lookahead_read c data val val_len mem).1 ≠ 0) ∨
      (enforce_snaplen = true ∧ (lookahead_read c data val val_len mem).1 = 0 ∧
        payload_read_rc c { data with buf := (lookahead_read c data val val_len mem).2 } val
          (snaplen_cut c { data with buf := (lookahead_read c data val val_len mem).2 }
            (dpi_lookahead c (val_len % 4294967296)) (val_len % 4294967296)) mem ≠ 0) ∨
      (enforce_snaplen = false ∧
        payload_read_rc c data val (val_len % 4294967296) mem ≠ 0)))

/-- The state of the failing input of claims C15 and C16: an event whose
current argument is already on the frame, cursor 0. -/
def arg_on_frame : filler_data := { curarg_already_on_frame := true }

/-- A state whose cursor is `SCRATCH_SIZE_HALF` (upstream value 131071). -/
def cursor_at_half : filler_data := { curoff := 131071 }

/-- A state whose cursor is past `SCRATCH_SIZE_HALF`, with some bytes, lengths
and counters set. -/
def cursor_past_half : filler_data :=
  { curoff := 131072, len := 40, curarg := 3, buf := fun i => i % 7,
    arg_lens := fun i => if i < 3 then 8 else 0 }

/-- User memory with the empty string at address 100 (a NUL byte), the string
"a" at address 300 and nothing readable elsewhere. -/
def string_memory : filler_data :=
  { user_mem := fun a =>
      if a = 100 then some 0 else if a = 300 then some 97 else if a = 301 then some 0
      else none }

/-- User memory in which every address holds the byte 7. -/
def readable_memory : filler_data := { user_mem := fun _ => some 7 }

/-- The state `d2` differs from `d1` at most in the buffer. -/
def same_but_buf (d1 d2 : filler_data) : Prop :=
  d2 = { d1 with buf := d2.buf }

/-- The read of a `w`-byte little-endian unsigned integer from index `off` of
the buffer. -/
def load_le (buf : Nat → Nat) (off : Nat) : Nat → Nat
  | 0 => 0
  | w + 1 => buf off % 256 + 256 * load_le buf (off + 1) w

/-- A state with an IPv4 socket behind `fd` 3 and dynamic snaplen switched
off. -/
def dynamic_snaplen_off_input : filler_data where
  settings := { snaplen := 80, do_dynamic_snaplen := false,
                fullcapture_port_range_start := 1, fullcapture_port_range_end := 65535 }
  fd := 3
  sockfd_lookup := some { sk := some { sk_family := 2, inet_sport := 20480, skc_dport := 20480 } }


/-!
## Socket addresses (`bpf_getsockname`, `unix_socket_path`, `bpf_pack_addr`, `bpf_fd_to_socktuple`)

* A `struct sockaddr_storage` in kernel memory is the function that gives its
  bytes by index.  The field offsets are those of the Linux ABI, which is not
  part of the sources: the family is the 16-bit value at offset 0, `sin_port`
  and `sin6_port` the 16-bit value at offset 2, `sin_addr` the 4 bytes at
  offset 4, `sin6_addr` the 16 bytes at offset 8, `sun_path` starts at
  offset 2.
* `socket_family_to_scap` is not part of the sources; it is a parameter.
* The `int ulen` is a natural number (the callers pass a validated length).
* Reads of these bytes do not fault: the structures are copies in kernel
  memory.
-/

/-- The field `sa_family` / `sin_family` / `sin6_family` / `sun_family`. -/
def sa_family (sa : Nat → Nat) : Nat := load_le sa 0 2

/-- The field `sin_port` / `sin6_port`, as the 16-bit value the host reads. -/
def sin_port (sa : Nat → Nat) : Nat := load_le sa 2 2

/-- The field `sin_addr.s_addr`, as the 32-bit value the host reads. -/
def s_addr (sa : Nat → Nat) : Nat := load_le sa 4 4

/-- The `n` bytes of the structure from offset `off`. -/
def sa_bytes (sa : Nat → Nat) (off n : Nat) : List Nat :=
  (List.range n).map (fun k => sa (off + k) % 256)

/-- The 16 bytes `sin6_addr.s6_addr`. -/
def s6_addr (sa : Nat → Nat) : List Nat := sa_bytes sa 8 16

/-- The 16 bytes of a `struct in6_addr` read from the kernel. -/
def in6_bytes (a : List Nat) : List Nat :=
  (List.range 16).map (fun k => a.getD k 0 % 256)

/-- The function `bpf_ipv6_addr_any`. -/
def bpf_ipv6_addr_any (a : List Nat) : Bool :=
  (in6_bytes a).all (fun b => b == 0)

/-- The function `bpf_getsockname`: the return value and the bytes of `*addr`
after the call. -/
def bpf_getsockname (c : driver_consts) (sock : socket) (addr : Nat → Nat) (peer : Bool) :
    Bool × (Nat → Nat) :=
  match sock.sk with
  | none => (false, addr)
  | some sk =>
    if sk.sk_family = c.AF_INET then
      let a1 := buf_write addr 0 (store_bytes 2 c.AF_INET)
      if peer then
        (true, buf_write (buf_write a1 2 (store_bytes 2 sk.inet_dport)) 4
          (store_bytes 4 sk.inet_daddr))
      else
        let ip := if sk.inet_rcv_saddr % 4294967296 = 0 then sk.inet_saddr
          else sk.inet_rcv_saddr
        (true, buf_write (buf_write a1 2 (store_bytes 2 sk.inet_sport)) 4 (store_bytes 4 ip))
    else if sk.sk_family = c.AF_INET6 then
      let a1 := buf_write addr 0 (store_bytes 2 c.AF_INET6)
      if peer then
        (true, buf_write (buf_write a1 2 (store_bytes 2 sk.inet_dport)) 8
          (in6_bytes sk.sk_v6_daddr))
      else
        let ip6 := if bpf_ipv6_addr_any sk.sk_v6_rcv_saddr then in6_bytes sk.np_saddr
          else in6_bytes sk.sk_v6_rcv_saddr
        (true, buf_write (buf_write a1 8 ip6) 2 (store_bytes 2 sk.inet_sport))
    else if sk.sk_family = c.AF_UNIX then
      let u_addr := if peer then (if sk.unix_peer = 0 then none else sk.unix_peer_addr)
        else sk.unix_addr
      match u_addr with
      | some a =>
        let len := if a.len % 4294967296 > c.sizeof_sockaddr_storage
          then c.sizeof_sockaddr_storage else a.len % 4294967296
        if c.BPF_FORBIDS_ZERO_ACCESS then
          if len > 0 then
            (true, buf_write addr 0
              ((List.range (Nat.land (len - 1) 255 + 1)).map (fun k => a.name.getD k 0 % 256)))
          else (true, addr)
        else
          (true, buf_write addr 0 ((List.range len).map (fun k => a.name.getD k 0 % 256)))
      | none =>
        (true, buf_write (buf_write (buf_write addr 0 (store_bytes 2 c.AF_UNIX)) 2 [0]) 3 [0])
    else (false, addr)

/-- The function `unix_socket_path(dest, user_ptr, size)` with
`dest = &buf[dst]`, the string being read from the memory `m`: the return
value and the buffer. -/
def unix_socket_path (m : Nat → Option Nat) (buf : Nat → Nat) (dst user_ptr size : Nat) :
    Int × (Nat → Nat) :=
  let r := bpf_probe_read_str m buf dst size user_ptr
  if r.1 = 1 then bpf_probe_read_str m r.2 dst (size - 1) (user_ptr + 1)
  else r

/-- The function `bpf_pack_addr`: the returned `uint16_t`, the state and the
bytes of `*usrsockaddr` after the call. -/
def bpf_pack_addr (c : driver_consts) (socket_family_to_scap : Nat → Nat) (data : filler_data)
    (usrsockaddr : Nat → Nat) (ulen : Nat) : Nat × filler_data × (Nat → Nat) :=
  let family := sa_family usrsockaddr
  if family = c.AF_INET then
    let ip := s_addr usrsockaddr
    let port := ntohs (sin_port usrsockaddr)
    let buf1 := buf_write data.buf (Nat.land data.curoff c.SCRATCH_SIZE_HALF)
      [socket_family_to_scap family % 256]
    let buf2 := buf_write buf1 (Nat.land (data.curoff + 1) c.SCRATCH_SIZE_HALF) (store_bytes 4 ip)
    let buf3 := buf_write buf2 (Nat.land (data.curoff + 5) c.SCRATCH_SIZE_HALF)
      (store_bytes 2 port)
    (1 + 4 + 2, { data with buf := buf3 }, usrsockaddr)
  else if family = c.AF_INET6 then
    let port := ntohs (sin_port usrsockaddr)
    let buf1 := buf_write data.buf (Nat.land data.curoff c.SCRATCH_SIZE_HALF)
      [socket_family_to_scap family % 256]
    let buf2 := buf_write buf1 (Nat.land (data.curoff + 1) c.SCRATCH_SIZE_HALF)
      (s6_addr usrsockaddr)
    let buf3 := buf_write buf2 (Nat.land (data.curoff + 17) c.SCRATCH_SIZE_HALF)
      (store_bytes 2 port)
    (1 + 16 + 2, { data with buf := buf3 }, usrsockaddr)
  else if family = c.AF_UNIX then
    let usrsockaddr_un :=
      if ulen = c.sizeof_sockaddr_storage then
        buf_write usrsockaddr (Nat.land (ulen - 1) c.SCRATCH_SIZE_MAX) [0]
      else buf_write usrsockaddr (Nat.land ulen c.SCRATCH_SIZE_MAX) [0]
    let buf1 := buf_write data.buf (Nat.land data.curoff c.SCRATCH_SIZE_HALF)
      [socket_family_to_scap family % 256]
    let r := unix_socket_path (fun a => some (usrsockaddr_un a)) buf1
      (Nat.land (data.curoff + 1) c.SCRATCH_SIZE_HALF) 2 c.UNIX_PATH_MAX
    (((1 + r.1) % 65536).toNat, { data with buf := r.2 }, usrsockaddr_un)
  else (0, data, usrsockaddr)

/-- The five stores of the `AF_INET` case of `bpf_fd_to_socktuple`. -/
def socktuple_store_inet (c : driver_consts) (data : filler_data) (tag sip sport dip
    dport : Nat) : filler_data :=
  let buf1 := buf_write data.buf (Nat.land data.curoff c.SCRATCH_SIZE_HALF) [tag % 256]
  let buf2 := buf_write buf1 (Nat.land (data.curoff + 1) c.SCRATCH_SIZE_HALF) (store_bytes 4 sip)
  let buf3 := buf_write buf2 (Nat.land (data.curoff + 5) c.SCRATCH_SIZE_HALF)
    (store_bytes 2 sport)
  let buf4 := buf_write buf3 (Nat.land (data.curoff + 7) c.SCRATCH_SIZE_HALF) (store_bytes 4 dip)
  let buf5 := buf_write buf4 (Nat.land (data.curoff + 11) c.SCRATCH_SIZE_HALF)
    (store_bytes 2 dport)
  { data with buf := buf5 }

/-- The five stores of the `AF_INET6` case of `bpf_fd_to_socktuple`. -/
def socktuple_store_inet6 (c : driver_consts) (data : filler_data) (tag : Nat)
    (sip6 : List Nat) (sport : Nat) (dip6 : List Nat) (dport : Nat) : filler_data :=
  let buf1 := buf_write data.buf (Nat.land data.curoff c.SCRATCH_SIZE_HALF) [tag % 256]
  let buf2 := buf_write buf1 (Nat.land (data.curoff + 1) c.SCRATCH_SIZE_HALF) sip6
  let buf3 := buf_write buf2 (Nat.land (data.curoff + 17) c.SCRATCH_SIZE_HALF)
    (store_bytes 2 sport)
  let buf4 := buf_write buf3 (Nat.land (data.curoff + 19) c.SCRATCH_SIZE_HALF) dip6
  let buf5 := buf_write buf4 (Nat.land (data.curoff + 35) c.SCRATCH_SIZE_HALF)
    (store_bytes 2 dport)
  { data with buf := buf5 }

/-- The `AF_INET` case of `bpf_fd_to_socktuple`; `none` when `usrsockaddr` is
`NULL` and dereferenced. -/
def socktuple_inet (c : driver_consts) (socket_family_to_scap : Nat → Nat) (data : filler_data)
    (so : socket) (sk : sock) (usrsockaddr : Option (Nat → Nat))
    (use_userdata is_inbound : Bool) (sock_address peer_address : Nat → Nat) :
    Option (Int × filler_data) :=
  let tag := socket_family_to_scap sk.sk_family
  if !use_userdata then
    let p := bpf_getsockname c so peer_address true
    if p.1 then
      if is_inbound then
        some (1 + 4 + 4 + 2 + 2, socktuple_store_inet c data tag (s_addr p.2)
          (ntohs (sin_port p.2)) (s_addr sock_address) (ntohs (sin_port sock_address)))
      else
        some (1 + 4 + 4 + 2 + 2, socktuple_store_inet c data tag (s_addr sock_address)
          (ntohs (sin_port sock_address)) (s_addr p.2) (ntohs (sin_port p.2)))
    else some (1 + 4 + 4 + 2 + 2, socktuple_store_inet c data tag 0 0 0 0)
  else
    match usrsockaddr with
    | none => none
    | some usrsockaddr_in =>
      if is_inbound then
        if sk.skc_dport % 65536 ≠ 0 then
          some (1 + 4 + 4 + 2 + 2, socktuple_store_inet c data tag sk.skc_daddr
            (ntohs (sk.skc_dport % 65536)) (s_addr sock_address) (ntohs (sin_port sock_address)))
        else
          some (1 + 4 + 4 + 2 + 2, socktuple_store_inet c data tag (s_addr usrsockaddr_in)
            (ntohs (sin_port usrsockaddr_in)) (s_addr sock_address)
            (ntohs (sin_port sock_address)))
      else
        some (1 + 4 + 4 + 2 + 2, socktuple_store_inet c data tag (s_addr sock_address)
          (ntohs (sin_port sock_address)) (s_addr usrsockaddr_in)
          (ntohs (sin_port usrsockaddr_in)))

/-- The `AF_INET6` case of `bpf_fd_to_socktuple`. -/
def socktuple_inet6 (c : driver_consts) (socket_family_to_scap : Nat → Nat) (data : filler_data)
    (so : socket) (sk : sock) (usrsockaddr : Option (Nat → Nat))
    (use_userdata is_inbound : Bool) (sock_address peer_address : Nat → Nat) :
    Option (Int × filler_data) :=
  let tag := socket_family_to_scap sk.sk_family
  if !use_userdata then
    let p := bpf_getsockname c so peer_address true
    if p.1 then
      if is_inbound then
        some (1 + 16 + 16 + 2 + 2, socktuple_store_inet6 c data tag (s6_addr p.2)
          (ntohs (sin_port p.2)) (s6_addr sock_address) (ntohs (sin_port sock_address)))
      else
        some (1 + 16 + 16 + 2 + 2, socktuple_store_inet6 c data tag (s6_addr sock_address)
          (ntohs (sin_port sock_address)) (s6_addr p.2) (ntohs (sin_port p.2)))
    else
      some (1 + 16 + 16 + 2 + 2, socktuple_store_inet6 c data tag (List.replicate 16 0) 0
        (List.replicate 16 0) 0)
  else
    match usrsockaddr with
    | none => none
    | some usrsockaddr_in6 =>
      if is_inbound then
        if sk.skc_dport % 65536 ≠ 0 then
          some (1 + 16 + 16 + 2 + 2, socktuple_store_inet6 c data tag (in6_bytes sk.skc_v6_daddr)
            (ntohs (sk.skc_dport % 65536)) (s6_addr sock_address)
            (ntohs (sin_port sock_address)))
        else
          some (1 + 16 + 16 + 2 + 2, socktuple_store_inet6 c data tag (s6_addr usrsockaddr_in6)
            (ntohs (sin_port usrsockaddr_in6)) (s6_addr sock_address)
            (ntohs (sin_port sock_address)))
      else
        some (1 + 16 + 16 + 2 + 2, socktuple_store_inet6 c data tag (s6_addr sock_address)
          (ntohs (sin_port sock_address)) (s6_addr usrsockaddr_in6)
          (ntohs (sin_port usrsockaddr_in6)))

/-- The `AF_UNIX` case of `bpf_fd_to_socktuple`. -/
def socktuple_unix (c : driver_consts) (socket_family_to_scap : Nat → Nat) (data : filler_data)
    (so : socket) (sk : sock) (usrsockaddr : Option (Nat → Nat)) (is_inbound : Bool)
    (sock_address peer_address : Nat → Nat) : Option (Int × filler_data) :=
  let tag := socket_family_to_scap sk.sk_family
  let buf1 := buf_write data.buf (Nat.land data.curoff c.SCRATCH_SIZE_HALF) [tag % 256]
  if is_inbound then
    let buf2 := buf_write buf1 (Nat.land (data.curoff + 1) c.SCRATCH_SIZE_HALF)
      (store_bytes 8 sk.sk_pointer)
    let buf3 := buf_write buf2 (Nat.land (data.curoff + 1 + 8) c.SCRATCH_SIZE_HALF)
      (store_bytes 8 sk.unix_peer)
    let r := unix_socket_path (fun a => some (sock_address a)) buf3
      (Nat.land (data.curoff + 1 + 8 + 8) c.SCRATCH_SIZE_HALF) 2 c.UNIX_PATH_MAX
    some (1 + 8 + 8 + r.1, { data with buf := r.2 })
  else
    let buf2 := buf_write buf1 (Nat.land (data.curoff + 1) c.SCRATCH_SIZE_HALF)
      (store_bytes 8 sk.unix_peer)
    let buf3 := buf_write buf2 (Nat.land (data.curoff + 1 + 8) c.SCRATCH_SIZE_HALF)
      (store_bytes 8 sk.sk_pointer)
    let p := bpf_getsockname c so peer_address true
    let us_name :=
      match usrsockaddr with
      | some usrsockaddr_un =>
        if p.2 2 % 256 = 0 ∧ p.2 3 % 256 = 0 then usrsockaddr_un else p.2
      | none => p.2
    let r := unix_socket_path (fun a => some (us_name a)) buf3
      (Nat.land (data.curoff + 1 + 8 + 8) c.SCRATCH_SIZE_HALF) 2 c.UNIX_PATH_MAX
    some (1 + 8 + 8 + r.1, { data with buf := r.2 })

/-- The function `bpf_fd_to_socktuple`: the returned size and the state.
`sock` is the result of `bpf_sockfd_lookup(data, fd)` (`none` is `NULL`),
`usrsockaddr = none` is a `NULL` pointer, `sock_address` and `peer_address`
are the bytes of the two structures in `tmp_area` before the call; the
argument `ulen` is not used.  The result is `none` when a `NULL`
`usrsockaddr` is dereferenced. -/
def bpf_fd_to_socktuple (c : driver_consts) (socket_family_to_scap : Nat → Nat)
    (data : filler_data) (sock : Option socket) (usrsockaddr : Option (Nat → Nat)) (_ulen : Nat)
    (use_userdata is_inbound : Bool) (sock_address peer_address : Nat → Nat) :
    Option (Int × filler_data) :=
  match sock with
  | none => some (0, data)
  | some sock =>
    let s := bpf_getsockname c sock sock_address false
    if !s.1 then some (0, data)
    else
      match sock.sk with
      | none => some (0, data)
      | some sk =>
        if sk.sk_family = c.AF_INET then
          socktuple_inet c socket_family_to_scap data sock sk usrsockaddr use_userdata
            is_inbound s.2 peer_address
        else if sk.sk_family = c.AF_INET6 then
          socktuple_inet6 c socket_family_to_scap data sock sk usrsockaddr use_userdata
            is_inbound s.2 peer_address
        else if sk.sk_family = c.AF_UNIX then
          socktuple_unix c socket_family_to_scap data sock sk usrsockaddr is_inbound s.2
            peer_address
        else some (0, data)

/-- An IPv4 address structure: family 2, port 80, address 10.0.0.1. -/
def inet_sockaddr : Nat → Nat := fun i => [2, 0, 0, 80, 10, 0, 0, 1].getD i 0

/-- An IPv6 address structure: family 10, port 443, address ::1. -/
def inet6_sockaddr : Nat → Nat :=
  fun i => [10, 0, 1, 187, 0, 0, 0, 0, 0, 0, 0, 0, 0, 0, 0, 0, 0, 0, 0, 0, 0, 0, 0, 1].getD i 0

/-- An abstract UNIX address of length 6: family 1 and `sun_path` = NUL, "a",
NUL, "b". -/
def unix_abstract_sockaddr : Nat → Nat := fun i => [1, 0, 0, 97, 0, 98].getD i 0

/-- An abstract UNIX address of length 5: family 1 and `sun_path` = NUL, NUL,
"b". -/
def unix_abstract_nul_sockaddr : Nat → Nat := fun i => [1, 0, 0, 0, 98].getD i 0

/-- A UNIX socket without an address (`u->addr` is `NULL`). -/
def unix_socket_no_addr : socket := { sk := some { sk_family := 1 } }

/-- The "no address available" structure that `bpf_getsockname` produces for
`unix_socket_no_addr`, in memory that held the bytes 7 before. -/
def unix_sentinel : Nat → Nat :=
  (bpf_getsockname upstream_consts unix_socket_no_addr (fun _ => 7) false).2

/-- The `struct sock` of a connected IPv4 socket: local 10.0.0.1:8080, remote
10.0.0.2:443 (the values are in network byte order). -/
def inet_sk : sock :=
  { sk_family := 2, inet_sport := 36895, inet_dport := 47873, inet_rcv_saddr := 16777226,
    inet_daddr := 33554442 }

/-- A connected IPv4 socket. -/
def inet_socket : socket := { sk := some inet_sk }

/-- The local IPv4 address that `bpf_getsockname(sock, addr, 0)` reports:
`inet_rcv_saddr`, or `inet_saddr` when that is 0. -/
def inet_local_addr (sk : sock) : Nat :=
  if sk.inet_rcv_saddr % 4294967296 = 0 then sk.inet_saddr else sk.inet_rcv_saddr

/-- The local IPv6 address that `bpf_getsockname(sock, addr, 0)` reports:
`sk_v6_rcv_saddr`, or `np->saddr` when that is the unspecified address. -/
def inet6_local_addr (sk : sock) : List Nat :=
  if bpf_ipv6_addr_any sk.sk_v6_rcv_saddr then in6_bytes sk.np_saddr
  else in6_bytes sk.sk_v6_rcv_saddr

/-- The `struct sock` of a connected IPv6 socket: local [::1]:8080, remote
[::2]:443. -/
def inet6_sk : sock :=
  { sk_family := 10, inet_sport := 36895, inet_dport := 47873,
    sk_v6_rcv_saddr := [0, 0, 0, 0, 0, 0, 0, 0, 0, 0, 0, 0, 0, 0, 0, 1],
    sk_v6_daddr := [0, 0, 0, 0, 0, 0, 0, 0, 0, 0, 0, 0, 0, 0, 0, 2] }

/-- A connected IPv6 socket. -/
def inet6_socket : socket := { sk := some inet6_sk }

/-- A state whose next parameter is the last one of the event table (index
31 with the upstream `PPM_MAX_EVENT_PARAMS` of 32). -/
def last_argument : filler_data := { curarg := 31 }

/-- The function `bpf_addr_to_kernel`: the return value and the kernel copy
`kaddr` of the address.  `ulen` is the `int` argument, `user_mem` the user
memory that `bpf_probe_read_user` reads, and `EINVAL`, `EFAULT` are the errno
constants of the kernel headers.  The `int` value `ulen & 0xfff` is computed
on the two's complement of `ulen`. -/
def bpf_addr_to_kernel (c : driver_consts) (EINVAL EFAULT : Int) (user_mem : Nat → Option Nat)
    (uaddr : Nat) (ulen : Int) (kaddr : Nat → Nat) : Int × (Nat → Nat) :=
  let len : Int := (Nat.land (twos_complement 4 ulen) 0xfff : Nat)
  if len < 0 ∨ len > (c.sizeof_sockaddr_storage : Nat) then (-EINVAL, kaddr)
  else if len = 0 then (0, kaddr)
  else
    let r :=
      if c.BPF_FORBIDS_ZERO_ACCESS then
        bpf_probe_read user_mem kaddr 0 (Nat.land (len - 1).toNat 0xff + 1) uaddr
      else bpf_probe_read user_mem kaddr 0 (Nat.land len.toNat 0xff) uaddr
    if r.1 ≠ 0 then (-EFAULT, r.2) else (0, r.2)

/-- The upstream constants in a build that defines `BPF_FORBIDS_ZERO_ACCESS`. -/
def upstream_consts_forbid_zero : driver_consts :=
  { upstream_consts with BPF_FORBIDS_ZERO_ACCESS := true }

/-- An IPv4 socket from port 40000 to port 80 with the cursor at
`SCRATCH_SIZE_HALF` (131071); the buffer holds "GET " in the four bytes from
the cursor on.  Base snaplen 80, dynamic snaplen on. -/
def http_get_at_window_end : filler_data where
  settings := { snaplen := 80, do_dynamic_snaplen := true }
  fd := 3
  sockfd_lookup := some { sk := some { sk_family := 2, inet_sport := ntohs 40000,
                                       skc_dport := ntohs 80 } }
  curoff := 131071
  buf := fun i => if i = 131071 then 71 else if i = 131072 then 69 else if i = 131073 then 84
    else if i = 131074 then 32 else 0

/-- The buffer of `http_get_at_window_end` with the bytes after index 131071
cleared. -/
def only_first_byte : Nat → Nat := fun i => if i = 131071 then 71 else 0

/-- An IPv4 socket from the MySQL port 3306 to port 40000 with the cursor at
131071 and a buffer of bytes 1, but for the byte 3 at index 0. -/
def mysql_at_window_end : filler_data where
  settings := { snaplen := 80, do_dynamic_snaplen := true }
  fd := 3
  sockfd_lookup := some { sk := some { sk_family := 2, inet_sport := ntohs 3306,
                                       skc_dport := ntohs 40000 } }
  curoff := 131071
  buf := fun i => if i = 0 then 3 else 1

/-- A buffer of bytes 1. -/
def all_ones : Nat → Nat := fun _ => 1

/-- The value `sl` of line 1030 in a `PT_BYTEBUF` encode entered in state
`data` (the state after the dynamic-index byte): `bpf_compute_snaplen` with
the lookahead size `min(DPI_LOOKAHEAD_SIZE, val_len)`, on the buffer that
holds the lookahead bytes of the value (read at line 1020, or already on the
frame). -/
def lookahead_snaplen (c : driver_consts) (data : filler_data) (val val_len : Nat)
    (mem : read_memory) : Nat :=
  if data.curarg_already_on_frame then
    bpf_compute_snaplen c data (dpi_lookahead c (val_len % 4294967296))
  else
    bpf_compute_snaplen c { data with buf := (lookahead_read c data val val_len mem).2 }
      (dpi_lookahead c (val_len % 4294967296))

/-- Readable user memory, base snaplen 80000, dynamic snaplen off. -/
def readable_large_snaplen : filler_data :=
  { settings := { snaplen := 80000 }, user_mem := fun _ => some 7 }

/-- Readable user memory, base snaplen 80, dynamic snaplen off. -/
def readable_small_snaplen : filler_data :=
  { settings := { snaplen := 80 }, user_mem := fun _ => some 7 }

/-- The buffers `b` and `b2` differ at most at the indices `lo <= i < hi`. -/
def differ_within (b b2 : Nat → Nat) (lo hi : Nat) : Prop :=
  ∀ i, b2 i ≠ b i → lo ≤ i ∧ i < hi

/-- A state in the middle of an event: cursor 40, three parameters stored. -/
def mid_event : filler_data :=
  { curoff := 40, len := 40, curarg := 3, user_mem := fun _ => some 7 }

end filler_helpers

/-!
# The type table (`driver/ppm_param_helpers.h`)

The output parameter `*min_len` / `*max_len` is passed as its value before the
call and returned as its value after the call.  A result `none` means that the
call does not return: `assert(false)` stops the process when the build does
not define `NDEBUG`.
-/

namespace ppm_param_helpers

open filler_helpers

/-- The function `ppm_param_min_len_from_type`: the return value and `*min_len`. -/
def ppm_param_min_len_from_type (NDEBUG : Bool) (t : ppm_param_type) (min_len : Nat) :
    Option (Int × Nat) :=
  match t with
  | .PT_INT8 | .PT_UINT8 | .PT_FLAGS8 | .PT_ENUMFLAGS8 | .PT_SIGTYPE => some (0, 1)
  | .PT_INT16 | .PT_UINT16 | .PT_FLAGS16 | .PT_ENUMFLAGS16 | .PT_SYSCALLID => some (0, 2)
  | .PT_INT32 | .PT_UINT32 | .PT_FLAGS32 | .PT_ENUMFLAGS32 | .PT_UID | .PT_GID | .PT_MODE
  | .PT_SIGSET => some (0, 4)
  | .PT_INT64 | .PT_UINT64 | .PT_RELTIME | .PT_ABSTIME | .PT_ERRNO | .PT_FD | .PT_PID =>
    some (0, 8)
  | .PT_BYTEBUF | .PT_CHARBUF | .PT_SOCKTUPLE | .PT_FDLIST | .PT_FSPATH | .PT_CHARBUFARRAY
  | .PT_CHARBUF_PAIR_ARRAY | .PT_FSRELPATH | .PT_DYN | .PT_SOCKADDR => some (0, 0)
  | .other _ => if NDEBUG then some (-1, min_len) else none

/-- The function `ppm_param_max_len_from_type`: the return value and `*max_len`. -/
def ppm_param_max_len_from_type (NDEBUG : Bool) (t : ppm_param_type) (len_size max_len : Nat) :
    Option (Int × Nat) :=
  if len_size ≠ 2 ∧ len_size ≠ 4 then
    if NDEBUG then some (-1, max_len) else none
  else
    match t with
    | .PT_INT8 | .PT_UINT8 | .PT_FLAGS8 | .PT_ENUMFLAGS8 | .PT_SIGTYPE => some (0, 1)
    | .PT_INT16 | .PT_UINT16 | .PT_FLAGS16 | .PT_ENUMFLAGS16 | .PT_SYSCALLID => some (0, 2)
    | .PT_INT32 | .PT_UINT32 | .PT_FLAGS32 | .PT_ENUMFLAGS32 | .PT_UID | .PT_GID | .PT_MODE
    | .PT_SIGSET => some (0, 4)
    | .PT_INT64 | .PT_UINT64 | .PT_RELTIME | .PT_ABSTIME | .PT_ERRNO | .PT_FD | .PT_PID =>
      some (0, 8)
    | .PT_BYTEBUF | .PT_CHARBUF | .PT_SOCKTUPLE | .PT_FDLIST | .PT_FSPATH | .PT_CHARBUFARRAY
    | .PT_CHARBUF_PAIR_ARRAY | .PT_FSRELPATH | .PT_DYN | .PT_SOCKADDR =>
      if len_size = 2 then some (0, 65535)
      else if len_size = 4 then some (0, 4294967295)
      else if NDEBUG then some (-2, max_len) else none
    | .other _ => if NDEBUG then some (-3, max_len) else none

/-- The type tags that the two functions name in a `case` label. -/
def recognised_types : List ppm_param_type :=
  [.PT_INT8, .PT_UINT8, .PT_FLAGS8, .PT_ENUMFLAGS8, .PT_SIGTYPE,
    .PT_INT16, .PT_UINT16, .PT_FLAGS16, .PT_ENUMFLAGS16, .PT_SYSCALLID,
    .PT_INT32, .PT_UINT32, .PT_FLAGS32, .PT_ENUMFLAGS32, .PT_UID, .PT_GID, .PT_MODE, .PT_SIGSET,
    .PT_INT64, .PT_UINT64, .PT_RELTIME, .PT_ABSTIME, .PT_ERRNO, .PT_FD, .PT_PID,
    .PT_BYTEBUF, .PT_CHARBUF, .PT_SOCKTUPLE, .PT_FDLIST, .PT_FSPATH, .PT_CHARBUFARRAY,
    .PT_CHARBUF_PAIR_ARRAY, .PT_FSRELPATH, .PT_DYN, .PT_SOCKADDR]

/-- The variable-length types. -/
def variable_length_types : List ppm_param_type :=
  [.PT_BYTEBUF, .PT_CHARBUF, .PT_SOCKTUPLE, .PT_FDLIST, .PT_FSPATH, .PT_CHARBUFARRAY,
    .PT_CHARBUF_PAIR_ARRAY, .PT_FSRELPATH, .PT_DYN, .PT_SOCKADDR]

end ppm_param_helpers

/-!
# Fixed-size events of the modern probe
(`driver/modern_bpf/programs/tail_called/events/syscall_dispatched_events`)

The programs `semget_e`/`semget_x`, `getdents_e`/`getdents_x`,
`setgid_e`/`setgid_x`, `unshare_e`/`unshare_x`,
`epoll_create_e`/`epoll_create_x` and `timerfd_create_e`/`timerfd_create_x`.

* `regs` gives the value of `extract__syscall_argument(regs, i)`, an
  `unsigned long`; `ret` is the `long` return value of the syscall.
* The result of `ringbuf__reserve_space` is a parameter of each program: a
  program that cannot reserve space returns without an event (`none`).
* `semget_flags_to_scap` and `clone_flags_to_scap` are defined outside the
  sources and are parameters of the programs that call them.
-/

namespace modern_bpf

/-- The event types that the twelve programs reserve (members of the enum
`ppm_event_code`). -/
inductive event_code where
  | PPME_SYSCALL_SEMGET_E
  | PPME_SYSCALL_SEMGET_X
  | PPME_SYSCALL_GETDENTS_E
  | PPME_SYSCALL_GETDENTS_X
  | PPME_SYSCALL_SETGID_E
  | PPME_SYSCALL_SETGID_X
  | PPME_SYSCALL_UNSHARE_E
  | PPME_SYSCALL_UNSHARE_X
  | PPME_SYSCALL_EPOLL_CREATE_E
  | PPME_SYSCALL_EPOLL_CREATE_X
  | PPME_SYSCALL_TIMERFD_CREATE_E
  | PPME_SYSCALL_TIMERFD_CREATE_X
  deriving DecidableEq, Repr

/-- A parameter stored in the event: the width and signedness of the
`ringbuf__store_*` helper that stored it, and the value. -/
inductive stored_param where
  | s64 (v : Int)
  | s32 (v : Int)
  | u32 (v : Nat)
  | u8 (v : Nat)
  deriving DecidableEq, Repr

/-- The event under construction in a `struct ringbuf_struct`: the type given
to `ringbuf__reserve_space` and the parameters stored so far, in order. -/
structure ringbuf_struct where
  event_type : event_code
  params : List stored_param := []
  deriving DecidableEq, Repr

/-- Modelled from the spec: `ringbuf__reserve_space(&ringbuf, size, type)`,
whose definition is not part of the sources.  It returns 0 when no space can be
reserved; `reserved` says whether space is available. -/
def ringbuf__reserve_space (reserved : Bool) (type : event_code) : Option ringbuf_struct :=
  if reserved then some { event_type := type } else none

/-- Modelled from the spec: `ringbuf__store_event_header(&ringbuf)`, which
fills the event header (timestamp, tid, type, length); it stores no
parameter. -/
def ringbuf__store_event_header (ringbuf : ringbuf_struct) : ringbuf_struct :=
  ringbuf

/-- Modelled from the spec: `ringbuf__submit_event(&ringbuf)`, which hands the
event to the consumer as it stands. -/
def ringbuf__submit_event (ringbuf : ringbuf_struct) : ringbuf_struct :=
  ringbuf

/-- Modelled from the spec: `ringbuf__store_s64`, which stores a signed 64-bit
value as the next parameter. -/
def ringbuf__store_s64 (ringbuf : ringbuf_struct) (v : Int) : ringbuf_struct :=
  { ringbuf with params := ringbuf.params ++ [stored_param.s64 v] }

/-- Modelled from the spec: `ringbuf__store_s32`, which stores a signed 32-bit
value as the next parameter. -/
def ringbuf__store_s32 (ringbuf : ringbuf_struct) (v : Int) : ringbuf_struct :=
  { ringbuf with params := ringbuf.params ++ [stored_param.s32 v] }

/-- Modelled from the spec: `ringbuf__store_u32`, which stores an unsigned
32-bit value as the next parameter. -/
def ringbuf__store_u32 (ringbuf : ringbuf_struct) (v : Nat) : ringbuf_struct :=
  { ringbuf with params := ringbuf.params ++ [stored_param.u32 v] }

/-- Modelled from the spec: `ringbuf__store_u8`, which stores an unsigned
8-bit value as the next parameter. -/
def ringbuf__store_u8 (ringbuf : ringbuf_struct) (v : Nat) : ringbuf_struct :=
  { ringbuf with params := ringbuf.params ++ [stored_param.u8 v] }

/-- The value of `extract__syscall_argument(regs, i)`, an `unsigned long`. -/
def extract__syscall_argument (regs : Nat → Nat) (i : Nat) : Nat :=
  regs i % 18446744073709551616

/-- The cast `(int32_t)x` of an `unsigned long`: the low 32 bits, read as a
signed number. -/
def to_int32 (x : Nat) : Int :=
  if x % 4294967296 < 2147483648 then (x % 4294967296 : Nat)
  else ((x % 4294967296 : Nat) : Int) - 4294967296

/-- The cast `(uint32_t)x` of an `unsigned long`. -/
def to_uint32 (x : Nat) : Nat :=
  x % 4294967296

def semget_e (reserved : Bool) (semget_flags_to_scap : Nat → Nat) (regs : Nat → Nat) :
    Option ringbuf_struct :=
  match ringbuf__reserve_space reserved event_code.PPME_SYSCALL_SEMGET_E with
  | none => none
  | some ringbuf =>
    let ringbuf := ringbuf__store_event_header ringbuf
    let key := to_int32 (extract__syscall_argument regs 0)
    let ringbuf := ringbuf__store_s32 ringbuf key
    let nsems := to_int32 (extract__syscall_argument regs 1)
    let ringbuf := ringbuf__store_s32 ringbuf nsems
    let semflg := to_uint32 (extract__syscall_argument regs 2)
    let ringbuf := ringbuf__store_u32 ringbuf (semget_flags_to_scap semflg)
    some (ringbuf__submit_event ringbuf)

def semget_x (reserved : Bool) (semget_flags_to_scap : Nat → Nat) (regs : Nat → Nat)
    (ret : Int) : Option ringbuf_struct :=
  match ringbuf__reserve_space reserved event_code.PPME_SYSCALL_SEMGET_X with
  | none => none
  | some ringbuf =>
    let ringbuf := ringbuf__store_event_header ringbuf
    let ringbuf := ringbuf__store_s64 ringbuf ret
    let key := to_int32 (extract__syscall_argument regs 0)
    let ringbuf := ringbuf__store_s32 ringbuf key
    let nsems := to_int32 (extract__syscall_argument regs 1)
    let ringbuf := ringbuf__store_s32 ringbuf nsems
    let semflg := to_uint32 (extract__syscall_argument regs 2)
    let ringbuf := ringbuf__store_u32 ringbuf (semget_flags_to_scap semflg)
    some (ringbuf__submit_event ringbuf)

def getdents_e (reserved : Bool) (regs : Nat → Nat) : Option ringbuf_struct :=
  match ringbuf__reserve_space reserved event_code.PPME_SYSCALL_GETDENTS_E with
  | none => none
  | some ringbuf =>
    let ringbuf := ringbuf__store_event_header ringbuf
    let fd := to_int32 (extract__syscall_argument regs 0)
    let ringbuf := ringbuf__store_s64 ringbuf fd
    some (ringbuf__submit_event ringbuf)

def getdents_x (reserved : Bool) (regs : Nat → Nat) (ret : Int) : Option ringbuf_struct :=
  match ringbuf__reserve_space reserved event_code.PPME_SYSCALL_GETDENTS_X with
  | none => none
  | some ringbuf =>
    let ringbuf := ringbuf__store_event_header ringbuf
    let ringbuf := ringbuf__store_s64 ringbuf ret
    let fd := to_int32 (extract__syscall_argument regs 0)
    let ringbuf := ringbuf__store_s64 ringbuf fd
    some (ringbuf__submit_event ringbuf)

def setgid_e (reserved : Bool) (regs : Nat → Nat) : Option ringbuf_struct :=
  match ringbuf__reserve_space reserved event_code.PPME_SYSCALL_SETGID_E with
  | none => none
  | some ringbuf =>
    let ringbuf := ringbuf__store_event_header ringbuf
    let gid := to_uint32 (extract__syscall_argument regs 0)
    let ringbuf := ringbuf__store_u32 ringbuf gid
    some (ringbuf__submit_event ringbuf)

def setgid_x (reserved : Bool) (regs : Nat → Nat) (ret : Int) : Option ringbuf_struct :=
  match ringbuf__reserve_space reserved event_code.PPME_SYSCALL_SETGID_X with
  | none => none
  | some ringbuf =>
    let ringbuf := ringbuf__store_event_header ringbuf
    let ringbuf := ringbuf__store_s64 ringbuf ret
    let gid := to_uint32 (extract__syscall_argument regs 0)
    let ringbuf := ringbuf__store_u32 ringbuf gid
    some (ringbuf__submit_event ringbuf)

def unshare_e (reserved : Bool) (clone_flags_to_scap : Int → Nat) (regs : Nat → Nat) :
    Option ringbuf_struct :=
  match ringbuf__reserve_space reserved event_code.PPME_SYSCALL_UNSHARE_E with
  | none => none
  | some ringbuf =>
    let ringbuf := ringbuf__store_event_header ringbuf
    let flags := extract__syscall_argument regs 0
    let ringbuf := ringbuf__store_u32 ringbuf (clone_flags_to_scap (to_int32 flags))
    some (ringbuf__submit_event ringbuf)

def unshare_x (reserved : Bool) (clone_flags_to_scap : Int → Nat) (regs : Nat → Nat)
    (ret : Int) : Option ringbuf_struct :=
  match ringbuf__reserve_space reserved event_code.PPME_SYSCALL_UNSHARE_X with
  | none => none
  | some ringbuf =>
    let ringbuf := ringbuf__store_event_header ringbuf
    let ringbuf := ringbuf__store_s64 ringbuf ret
    let flags := extract__syscall_argument regs 0
    let ringbuf := ringbuf__store_u32 ringbuf (clone_flags_to_scap (to_int32 flags))
    some (ringbuf__submit_event ringbuf)

def epoll_create_e (reserved : Bool) (regs : Nat → Nat) : Option ringbuf_struct :=
  match ringbuf__reserve_space reserved event_code.PPME_SYSCALL_EPOLL_CREATE_E with
  | none => none
  | some ringbuf =>
    let ringbuf := ringbuf__store_event_header ringbuf
    let size := to_int32 (extract__syscall_argument regs 0)
    let ringbuf := ringbuf__store_s32 ringbuf size
    some (ringbuf__submit_event ringbuf)

def epoll_create_x (reserved : Bool) (regs : Nat → Nat) (ret : Int) : Option ringbuf_struct :=
  match ringbuf__reserve_space reserved event_code.PPME_SYSCALL_EPOLL_CREATE_X with
  | none => none
  | some ringbuf =>
    let ringbuf := ringbuf__store_event_header ringbuf
    let ringbuf := ringbuf__store_s64 ringbuf ret
    let size := to_int32 (extract__syscall_argument regs 0)
    let ringbuf := ringbuf__store_s32 ringbuf size
    some (ringbuf__submit_event ringbuf)

/-- The program ignores `regs`. -/
def timerfd_create_e (reserved : Bool) (_regs : Nat → Nat) : Option ringbuf_struct :=
  match ringbuf__reserve_space reserved event_code.PPME_SYSCALL_TIMERFD_CREATE_E with
  | none => none
  | some ringbuf =>
    let ringbuf := ringbuf__store_event_header ringbuf
    let ringbuf := ringbuf__store_u8 ringbuf 0
    let ringbuf := ringbuf__store_u8 ringbuf 0
    some (ringbuf__submit_event ringbuf)

def timerfd_create_x (reserved : Bool) (_regs : Nat → Nat) (ret : Int) :
    Option ringbuf_struct :=
  match ringbuf__reserve_space reserved event_code.PPME_SYSCALL_TIMERFD_CREATE_X with
  | none => none
  | some ringbuf =>
    let ringbuf := ringbuf__store_event_header ringbuf
    let ringbuf := ringbuf__store_s64 ringbuf ret
    let ringbuf := ringbuf__store_u8 ringbuf 0
    let ringbuf := ringbuf__store_u8 ringbuf 0
    some (ringbuf__submit_event ringbuf)

/-- The parameters of the event that a program submits; `none` when it
submits no event. -/
def params_pushed (r : Option ringbuf_struct) : Option (List stored_param) :=
  r.map (fun ringbuf => ringbuf.params)

end modern_bpf

/-!
# Theorems on the suppression engine
-/

namespace libsinsp

open ppm_event_code scap_rc

/-! ## Helper lemmas -/

theorem not_fast_of_suppressed (s : sinsp_suppress) (tid : Nat)
    (h : s.is_suppressed_tid tid = true) :
    (s.m_suppressed_tids.isEmpty && s.m_suppressed_comms.isEmpty) = false := by
  unfold sinsp_suppress.is_suppressed_tid at h
  split at h
  · simp at h
  · have hm : tid ∈ s.m_suppressed_tids := by simpa using h
    cases hl : s.m_suppressed_tids with
    | nil => rw [hl] at hm; simp at hm
    | cons a l => simp

theorem process_event_lineage (s : sinsp_suppress) (e : scap_evt)
    (hfast : (s.m_suppressed_tids.isEmpty && s.m_suppressed_comms.isEmpty) = false)
    (ht : is_lineage_type e.type = true) :
    s.process_event e = s.process_lineage_event e := by
  unfold sinsp_suppress.process_event
  rw [hfast]
  cases hty : e.type <;> simp [hty, is_lineage_type] at ht ⊢

theorem process_event_default (s : sinsp_suppress) (e : scap_evt)
    (hfast : (s.m_suppressed_tids.isEmpty && s.m_suppressed_comms.isEmpty) = false)
    (ht : is_lineage_type e.type = false) (hx : e.type ≠ PPME_PROCEXIT_1_E) :
    s.process_event e =
      if s.is_suppressed_tid e.tid then
        some (SCAP_FILTERED_EVENT,
          { s with m_num_suppressed_events := s.m_num_suppressed_events + 1 })
      else some (SCAP_SUCCESS, s) := by
  unfold sinsp_suppress.process_event
  rw [hfast]
  cases hty : e.type <;> simp [hty, is_lineage_type] at ht hx ⊢

theorem process_lineage_event_eq (s : sinsp_suppress) (e : scap_evt) (ptid : Nat)
    (comm : List Nat) (hn : 14 ≤ e.nparams) (hp : lineage_ptid e = some ptid)
    (hc : lineage_comm e = some comm) :
    s.process_lineage_event e =
      if s.is_suppressed_tid ptid then
        some (SCAP_FILTERED_EVENT, { s with
          m_suppressed_tids := set_insert e.tid s.m_suppressed_tids
          m_num_suppressed_events := s.m_num_suppressed_events + 1 })
      else if comm ∈ s.m_suppressed_comms then
        some (SCAP_FILTERED_EVENT, (s.check_suppressed_comm e.tid ptid comm).2)
      else some (SCAP_SUCCESS, s.handle_thread e.tid ptid comm) := by
  unfold sinsp_suppress.process_lineage_event
  have hn' : ¬ e.nparams < 14 := by omega
  simp only [hn', if_false]
  unfold lineage_ptid at hp
  unfold lineage_comm at hc
  cases hw : walk_params e with
  | none => rw [hw] at hp; simp at hp
  | some w =>
    obtain ⟨valptr, pp⟩ := w
    rw [hw] at hp hc
    cases pp with
    | none => simp at hp
    | some ptid_ptr =>
      simp only at hp hc
      simp only [hp, hc]
      by_cases hsup : s.is_suppressed_tid ptid = true
      · simp [hsup]
      · simp only [hsup]
        have hcomms : (s.handle_thread e.tid ptid comm).m_suppressed_comms
            = s.m_suppressed_comms := by
          unfold sinsp_suppress.handle_thread
          split
          · rfl
          · split <;> rfl
        by_cases hmem : comm ∈ s.m_suppressed_comms
        · simp [sinsp_suppress.check_suppressed_comm, hcomms, hmem]
        · simp [sinsp_suppress.check_suppressed_comm, hcomms, hmem]

theorem handle_thread_sets (s : sinsp_suppress) (tid parent_tid : Nat) (comm : List Nat) :
    (s.handle_thread tid parent_tid comm).m_suppressed_tids = s.m_suppressed_tids ∧
    (s.handle_thread tid parent_tid comm).m_suppressed_comms = s.m_suppressed_comms ∧
    (s.handle_thread tid parent_tid comm).m_num_suppressed_events
      = s.m_num_suppressed_events := by
  unfold sinsp_suppress.handle_thread
  split
  · exact ⟨rfl, rfl, rfl⟩
  · split <;> exact ⟨rfl, rfl, rfl⟩

/-! ## The lineage tree never registers tid 0 -/

theorem tree_update_forall (Q : Nat × tid_tree_node → Prop) (k : Nat)
    (f : tid_tree_node → tid_tree_node) (t : tid_tree)
    (hnew : Q (k, f {})) (hupd : ∀ n, Q (k, n) → Q (k, f n)) (ht : ∀ kv ∈ t, Q kv) :
    ∀ kv ∈ tree_update k f t, Q kv := by
  induction t with
  | nil =>
    intro kv hkv
    simp only [tree_update, List.mem_singleton] at hkv
    rw [hkv]; exact hnew
  | cons hd tl ih =>
    obtain ⟨k1, n1⟩ := hd
    intro kv hkv
    have hhd : Q (k1, n1) := ht (k1, n1) (List.mem_cons_self _ _)
    have htl : ∀ kv ∈ tl, Q kv := fun kv h => ht kv (List.mem_cons_of_mem _ h)
    unfold tree_update at hkv
    split_ifs at hkv with h1 h2
    · rcases List.mem_cons.1 hkv with h | h
      · rw [h]; exact hnew
      · exact ht kv h
    · rcases List.mem_cons.1 hkv with h | h
      · rw [h]; rw [h2] at hupd; exact hupd n1 hhd
      · exact htl kv h
    · rcases List.mem_cons.1 hkv with h | h
      · rw [h]; exact hhd
      · exact ih htl kv h

theorem handle_thread_inv (s : sinsp_suppress) (tid parent_tid : Nat) (comm : List Nat)
    (h : tree_inv s) : tree_inv (s.handle_thread tid parent_tid comm) := by
  unfold sinsp_suppress.handle_thread
  by_cases h0 : tid = 0
  · simp only [h0, if_true]; exact h
  · simp only [h0, if_false]
    cases ht : s.m_tids_tree with
    | none => simp only; exact h
    | some t =>
      simp only
      intro t3 ht3
      simp only [Option.some.injEq] at ht3
      rw [← ht3]
      have hz := h t ht
      unfold zero_unregistered at hz ⊢
      apply tree_update_forall
      · constructor
        · simp; exact fun h => h0 h.symm
        · intro _; exact ⟨rfl, rfl⟩
      · intro n hn
        refine ⟨?_, hn.2⟩
        simp only [List.mem_append, List.mem_singleton, not_or]
        exact ⟨hn.1, fun h => h0 h.symm⟩
      · apply tree_update_forall
        · exact ⟨by simp, fun h => absurd h h0⟩
        · intro n hn
          exact ⟨hn.1, fun h => absurd h h0⟩
        · apply tree_update_forall
          · exact ⟨by simp, fun h => absurd h h0⟩
          · intro n hn
            exact ⟨hn.1, fun h => absurd h h0⟩
          · exact hz

theorem tree_inv_of_tree_eq (s s1 : sinsp_suppress) (h : tree_inv s)
    (ht : s1.m_tids_tree = s.m_tids_tree) : tree_inv s1 := by
  unfold tree_inv at h ⊢
  rw [ht]; exact h

theorem check_suppressed_comm_inv (s : sinsp_suppress) (tid parent_tid : Nat)
    (comm : List Nat) (h : tree_inv s) :
    tree_inv (s.check_suppressed_comm tid parent_tid comm).2 := by
  have hh := handle_thread_inv s tid parent_tid comm h
  unfold sinsp_suppress.check_suppressed_comm
  simp only
  split
  · exact tree_inv_of_tree_eq _ _ hh rfl
  · exact hh

theorem process_lineage_event_inv (s s1 : sinsp_suppress) (e : scap_evt) (rc : scap_rc)
    (h : tree_inv s) (hr : s.process_lineage_event e = some (rc, s1)) : tree_inv s1 := by
  unfold sinsp_suppress.process_lineage_event at hr
  split at hr
  · simp only [Option.some.injEq, Prod.mk.injEq] at hr
    rw [← hr.2]; exact h
  · split at hr
    · simp at hr
    · simp only [Option.some.injEq, Prod.mk.injEq] at hr
      rw [← hr.2]; exact h
    · split at hr
      · simp at hr
      · split at hr
        · simp only [Option.some.injEq, Prod.mk.injEq] at hr
          rw [← hr.2]; exact tree_inv_of_tree_eq _ _ h rfl
        · split at hr
          · simp at hr
          · rename_i ptid _ _ _ comm _
            have hc := check_suppressed_comm_inv s e.tid ptid comm h
            split at hr
            · rename_i s2 heq
              simp only [Option.some.injEq, Prod.mk.injEq] at hr
              rw [← hr.2]; rw [heq] at hc; exact hc
            · rename_i s2 heq
              simp only [Option.some.injEq, Prod.mk.injEq] at hr
              rw [← hr.2]; rw [heq] at hc; exact hc

theorem process_event_inv (s s1 : sinsp_suppress) (e : scap_evt) (rc : scap_rc)
    (h : tree_inv s) (hr : s.process_event e = some (rc, s1)) : tree_inv s1 := by
  unfold sinsp_suppress.process_event at hr
  split at hr
  · simp only [Option.some.injEq, Prod.mk.injEq] at hr
    rw [← hr.2]; exact h
  · by_cases hl : is_lineage_type e.type = true
    · have hr1 : s.process_lineage_event e = some (rc, s1) := by
        cases hty : e.type <;> simp [hty, is_lineage_type] at hl hr <;> exact hr
      exact process_lineage_event_inv s s1 e rc h hr1
    · have hr1 : s1.m_tids_tree = s.m_tids_tree := by
        cases hty : e.type <;> simp [hty, is_lineage_type] at hl hr
        · rw [← hr.2]
        all_goals
          split at hr
          · simp only [Option.some.injEq, Prod.mk.injEq] at hr
            rw [← hr.2]
          · simp only [Option.some.injEq, Prod.mk.injEq] at hr
            rw [← hr.2]
      exact tree_inv_of_tree_eq _ _ h hr1

theorem apply_call_inv (s s1 : sinsp_suppress) (call : suppress_call)
    (h : tree_inv s) (hr : apply_call s call = some s1) : tree_inv s1 := by
  cases call with
  | suppress_comm comm =>
    simp only [apply_call, Option.some.injEq] at hr
    rw [← hr]; exact tree_inv_of_tree_eq _ _ h rfl
  | suppress_tid tid =>
    simp only [apply_call, Option.some.injEq] at hr
    rw [← hr]; exact tree_inv_of_tree_eq _ _ h rfl
  | clear_suppress_comm =>
    simp only [apply_call, Option.some.injEq] at hr
    rw [← hr]; exact tree_inv_of_tree_eq _ _ h rfl
  | clear_suppress_tid =>
    simp only [apply_call, Option.some.injEq] at hr
    rw [← hr]; exact tree_inv_of_tree_eq _ _ h rfl
  | check_suppressed_comm tid parent_tid comm =>
    simp only [apply_call, Option.some.injEq] at hr
    rw [← hr]; exact check_suppressed_comm_inv s tid parent_tid comm h
  | process_event e =>
    simp only [apply_call, Option.map_eq_some'] at hr
    obtain ⟨⟨rc, s2⟩, hpe, hs2⟩ := hr
    simp only at hs2
    rw [← hs2]; exact process_event_inv s s2 e rc h hpe
  | init =>
    simp only [apply_call, Option.some.injEq] at hr
    rw [← hr]
    intro t ht
    have : t = [] := by
      unfold sinsp_suppress.initialize at ht
      split at ht <;> simp at ht <;> exact ht
    rw [this]
    intro kv hkv
    simp at hkv
  | finalize =>
    simp only [apply_call] at hr
    unfold sinsp_suppress.finalize at hr
    split at hr
    · simp at hr
    · simp only [Option.some.injEq] at hr
      rw [← hr]
      intro t ht
      simp at ht

theorem run_calls_inv (calls : List suppress_call) (s s1 : sinsp_suppress)
    (h : tree_inv s) (hr : run_calls s calls = some s1) : tree_inv s1 := by
  induction calls generalizing s with
  | nil =>
    simp only [run_calls, Option.some.injEq] at hr
    rw [← hr]; exact h
  | cons call rest ih =>
    unfold run_calls at hr
    split at hr
    · simp at hr
    · rename_i s2 hs2
      exact ih s2 (apply_call_inv s s2 call h hs2) hr

/-! ## Reads of a process-creation exit record -/

theorem read_cstr_aux_fuel (e : scap_evt) (fuel1 fuel2 off : Nat)
    (h1 : e.len ≤ off + fuel1) (h2 : e.len ≤ off + fuel2) :
    read_cstr_aux e fuel1 off = read_cstr_aux e fuel2 off := by
  induction fuel1 generalizing fuel2 off with
  | zero =>
    cases fuel2 with
    | zero => rfl
    | succ f2 =>
      have : ¬ (sizeof_ppm_evt_hdr + off < e.len) := by omega
      simp [read_cstr_aux, read_u8, this]
  | succ f1 ih =>
    cases fuel2 with
    | zero =>
      have : ¬ (sizeof_ppm_evt_hdr + off < e.len) := by omega
      simp [read_cstr_aux, read_u8, this]
    | succ f2 =>
      rw [read_cstr_aux, read_cstr_aux, ih f2 (off + 1) (by omega) (by omega)]

/-- Enough fuel: every bound of at least `len` bytes gives the result of
`read_cstr`. -/
theorem read_cstr_fuel (e : scap_evt) (fuel off : Nat) (h : e.len ≤ fuel) :
    read_cstr_aux e fuel off = read_cstr e off :=
  read_cstr_aux_fuel e fuel e.len off (by omega) (by omega)

theorem read_u8_some (e : scap_evt) (off : Nat) (h : sizeof_ppm_evt_hdr + off < e.len)
    (hm : e.len ≤ sizeof_ppm_evt_hdr + e.payload.length) :
    ∃ b, e.payload.get? off = some b ∧ read_u8 e off = some (b % 256) := by
  have hlt : off < e.payload.length := by omega
  refine ⟨e.payload.get ⟨off, hlt⟩, List.get?_eq_get hlt, ?_⟩
  unfold read_u8
  rw [if_pos h, List.get?_eq_get hlt]
  rfl

theorem read_le_some (e : scap_evt) (n off : Nat)
    (h : sizeof_ppm_evt_hdr + off + n ≤ e.len)
    (hm : e.len ≤ sizeof_ppm_evt_hdr + e.payload.length) :
    ∃ v, read_le e off n = some v := by
  induction n generalizing off with
  | zero => exact ⟨0, rfl⟩
  | succ n ih =>
    obtain ⟨b, _, hb⟩ := read_u8_some e off (by omega) hm
    obtain ⟨r, hr⟩ := ih (off + 1) (by omega)
    refine ⟨b % 256 + 256 * r, ?_⟩
    rw [read_le, hb, hr]

theorem param_off_succ (e : scap_evt) (j : Nat) :
    param_off e (j + 1) = param_off e j + param_len e j := by
  unfold param_off
  rw [List.range_succ, List.map_append, List.sum_append]
  simp
  omega

theorem param_off_mono (e : scap_evt) (j k : Nat) (h : j ≤ k) :
    param_off e j ≤ param_off e k := by
  induction k with
  | zero =>
    have : j = 0 := by omega
    rw [this]
  | succ k ih =>
    rcases Nat.lt_or_ge j (k + 1) with hlt | hge
    · have := ih (by omega)
      rw [param_off_succ]; omega
    · have : j = k + 1 := by omega
      rw [this]

theorem walk_fold (e : scap_evt) (hn : 14 ≤ e.nparams)
    (hlen : sizeof_ppm_evt_hdr + 2 * e.nparams ≤ e.len)
    (hm : e.len ≤ sizeof_ppm_evt_hdr + e.payload.length) (j : Nat) (hj : j ≤ 13) :
    (List.range j).foldl (walk_step e) (some (2 * e.nparams, none))
      = some (param_off e j, if 5 < j then some (param_off e 5) else none) := by
  induction j with
  | zero => simp [param_off]
  | succ j ih =>
    rw [List.range_succ, List.foldl_append, ih (by omega)]
    obtain ⟨v, hv⟩ := read_le_some e 2 (2 * j) (by omega) hm
    have hpl : param_len e j = v := by simp [param_len, hv]
    simp only [List.foldl_cons, List.foldl_nil, walk_step, hv]
    rw [param_off_succ e j, hpl]
    by_cases h5 : j = 5
    · subst h5; simp
    · by_cases hlt : 5 < j
      · have : 5 < j + 1 := by omega
        simp [h5, hlt, this]
      · have : ¬ 5 < j + 1 := by omega
        simp [h5, hlt, this]

theorem walk_params_eq (e : scap_evt) (hn : 14 ≤ e.nparams)
    (hlen : sizeof_ppm_evt_hdr + 2 * e.nparams ≤ e.len)
    (hm : e.len ≤ sizeof_ppm_evt_hdr + e.payload.length) :
    walk_params e = some (param_off e 13, some (param_off e 5)) := by
  unfold walk_params
  rw [walk_fold e hn hlen hm 13 (le_refl _)]
  simp

theorem read_cstr_aux_some (e : scap_evt)
    (hm : e.len ≤ sizeof_ppm_evt_hdr + e.payload.length) (fuel off k : Nat)
    (hk : k < fuel) (hin : sizeof_ppm_evt_hdr + off + k < e.len)
    (hz : ∃ b, e.payload.get? (off + k) = some b ∧ b % 256 = 0) :
    ∃ c, read_cstr_aux e fuel off = some c := by
  induction fuel generalizing off k with
  | zero => omega
  | succ fuel ih =>
    obtain ⟨b, hb, hrd⟩ := read_u8_some e off (by omega) hm
    rw [read_cstr_aux, hrd]
    by_cases hb0 : b % 256 = 0
    · exact ⟨[], by simp [hb0]⟩
    · cases k with
      | zero =>
        obtain ⟨b1, hb1, hb10⟩ := hz
        simp only [Nat.add_zero] at hb1
        rw [hb] at hb1
        simp only [Option.some.injEq] at hb1
        rw [hb1] at hb0
        exact absurd hb10 hb0
      | succ k1 =>
        obtain ⟨c, hc⟩ := ih (off + 1) k1 (by omega) (by omega)
          (by rw [show off + 1 + k1 = off + (k1 + 1) by omega]; exact hz)
        exact ⟨(b % 256) :: c, by simp [hb0, hc]⟩

theorem lineage_reads_in_bounds (e : scap_evt) (hn : 14 ≤ e.nparams)
    (h14 : sizeof_ppm_evt_hdr + param_off e 14 ≤ e.len)
    (hm : e.len ≤ sizeof_ppm_evt_hdr + e.payload.length)
    (h5 : 8 ≤ param_len e 5)
    (hnul : ∃ k, k < param_len e 13 ∧
      ∃ b, e.payload.get? (param_off e 13 + k) = some b ∧ b % 256 = 0) :
    ∃ ptid comm, lineage_ptid e = some ptid ∧ lineage_comm e = some comm := by
  have h0 : 2 * e.nparams ≤ param_off e 14 := by unfold param_off; omega
  have hw := walk_params_eq e hn (by omega) hm
  have h6 : param_off e 6 ≤ param_off e 14 := param_off_mono e 6 14 (by omega)
  have h6' : param_off e 6 = param_off e 5 + param_len e 5 := param_off_succ e 5
  obtain ⟨ptid, hptid⟩ := read_le_some e 8 (param_off e 5) (by omega) hm
  obtain ⟨k, hk, hz⟩ := hnul
  have h13 : param_off e 14 = param_off e 13 + param_len e 13 := param_off_succ e 13
  obtain ⟨comm, hcomm⟩ := read_cstr_aux_some e hm e.len (param_off e 13) k
    (by omega) (by omega) hz
  refine ⟨ptid, comm, ?_, ?_⟩
  · unfold lineage_ptid
    rw [hw]
    exact hptid
  · unfold lineage_comm
    rw [hw]
    exact hcomm

/-! ## Claims C1 to C8 -/

/-- Claim C1, evaluated at A = 2, B = 1, C = 3: with the comm of A denylisted
and the lineage A → B → C recorded, after `finalize()` the tids A and B are
suppressed and the grandchild C is not, because the node of B (key 1) is
visited before the node of A (key 2). -/
theorem cascade_misses_grandchild :
    (cascade_run 2 1 3 [97] [98] [99]).map
        (fun s => (s.is_suppressed_tid 2, s.is_suppressed_tid 1, s.is_suppressed_tid 3))
      = some (true, true, false) := by
  decide

/-- Claim C2 as stated fails for process-creation exit events: tid 7 is
suppressed, and its execve exit event (parent 1 not suppressed, comm "b" not
denylisted) is passed with `SCAP_SUCCESS`. -/
theorem suppressed_tid_execve_not_filtered :
    tid7_suppressed.is_suppressed_tid (lineage_record PPME_SYSCALL_EXECVE_19_X 7 1 [98]).tid
        = true ∧
      (lineage_record PPME_SYSCALL_EXECVE_19_X 7 1 [98]).type ≠ PPME_PROCEXIT_1_E ∧
      (tid7_suppressed.process_event (lineage_record PPME_SYSCALL_EXECVE_19_X 7 1 [98])).map
        (fun r => r.1) = some SCAP_SUCCESS := by
  decide

/-- Claim C2, amended: an event of a suppressed tid whose type is neither
`PPME_PROCEXIT_1_E` nor a process-creation exit event is filtered; a
process-creation exit event (at least 14 parameters, parent tid and comm
inside the record) of a suppressed tid is filtered exactly when its parent
tid is suppressed or its comm is denylisted. -/
theorem suppressed_tid_event_filtered (s : sinsp_suppress) (e : scap_evt)
    (hs : s.is_suppressed_tid e.tid = true) (hx : e.type ≠ PPME_PROCEXIT_1_E) :
    (is_lineage_type e.type = false →
      ∃ s1, s.process_event e = some (SCAP_FILTERED_EVENT, s1)) ∧
    (is_lineage_type e.type = true → 14 ≤ e.nparams →
      ∀ ptid comm, lineage_ptid e = some ptid → lineage_comm e = some comm →
        ∃ rc s1, s.process_event e = some (rc, s1) ∧
          (rc = SCAP_FILTERED_EVENT ↔
            (s.is_suppressed_tid ptid = true ∨ comm ∈ s.m_suppressed_comms))) := by
  have hfast := not_fast_of_suppressed s e.tid hs
  constructor
  · intro ht
    rw [process_event_default s e hfast ht hx, hs]
    exact ⟨_, rfl⟩
  · intro ht hn ptid comm hp hc
    rw [process_event_lineage s e hfast ht, process_lineage_event_eq s e ptid comm hn hp hc]
    by_cases hsup : s.is_suppressed_tid ptid = true
    · simp [hsup]
    · by_cases hmem : comm ∈ s.m_suppressed_comms
      · simp [hsup, hmem]
      · simp [hsup, hmem]

/-- Witness of `suppressed_tid_event_filtered`: tid 7 is suppressed and sends
an event of a type outside the two `case` groups. -/
theorem suppressed_tid_event_filtered_witness :
    ∃ s1, tid7_suppressed.process_event (plain_event 7) = some (SCAP_FILTERED_EVENT, s1) :=
  (suppressed_tid_event_filtered tid7_suppressed (plain_event 7) (by decide) (by decide)).1
    (by decide)

/-- Claim C3: `process_event` on a `PPME_PROCEXIT_1_E` event returns
`SCAP_SUCCESS` in every state, and afterwards the tid of the event is not
suppressed. -/
theorem procexit_passes_and_cleans (s : sinsp_suppress) (e : scap_evt)
    (hx : e.type = PPME_PROCEXIT_1_E) :
    ∃ s1, s.process_event e = some (SCAP_SUCCESS, s1) ∧
      s1.is_suppressed_tid e.tid = false := by
  unfold sinsp_suppress.process_event
  by_cases hfast : (s.m_suppressed_tids.isEmpty && s.m_suppressed_comms.isEmpty) = true
  · refine ⟨s, by simp [hfast], ?_⟩
    have he : s.m_suppressed_tids = [] := by
      simp only [Bool.and_eq_true, List.isEmpty_iff] at hfast
      exact hfast.1
    simp [sinsp_suppress.is_suppressed_tid, he]
  · refine ⟨{ s with m_suppressed_tids := set_erase e.tid s.m_suppressed_tids }, ?_, ?_⟩
    · simp [hfast, hx]
    · simp [sinsp_suppress.is_suppressed_tid, set_erase]

/-- Witness of `procexit_passes_and_cleans`: tid 7 is suppressed and exits. -/
theorem procexit_passes_and_cleans_witness :
    ∃ s1, tid7_suppressed.process_event (procexit_event 7) = some (SCAP_SUCCESS, s1) ∧
      s1.is_suppressed_tid (procexit_event 7).tid = false :=
  procexit_passes_and_cleans tid7_suppressed (procexit_event 7) rfl

theorem process_lineage_event_parent_suppressed (s : sinsp_suppress) (e : scap_evt)
    (ptid : Nat) (hn : 14 ≤ e.nparams) (hp : lineage_ptid e = some ptid)
    (hsup : s.is_suppressed_tid ptid = true) :
    s.process_lineage_event e =
      some (SCAP_FILTERED_EVENT, { s with
        m_suppressed_tids := set_insert e.tid s.m_suppressed_tids
        m_num_suppressed_events := s.m_num_suppressed_events + 1 }) := by
  unfold sinsp_suppress.process_lineage_event
  have hn' : ¬ e.nparams < 14 := by omega
  simp only [hn', if_false]
  unfold lineage_ptid at hp
  cases hw : walk_params e with
  | none => rw [hw] at hp; simp at hp
  | some w =>
    obtain ⟨valptr, pp⟩ := w
    rw [hw] at hp
    cases pp with
    | none => simp at hp
    | some ptid_ptr =>
      simp only at hp
      simp only [hp, hsup, if_true]

theorem process_lineage_event_comm_unreadable (s : sinsp_suppress) (e : scap_evt)
    (ptid : Nat) (hn : 14 ≤ e.nparams) (hp : lineage_ptid e = some ptid)
    (hsup : s.is_suppressed_tid ptid = false) (hc : lineage_comm e = none) :
    s.process_lineage_event e = none := by
  unfold sinsp_suppress.process_lineage_event
  have hn' : ¬ e.nparams < 14 := by omega
  simp only [hn', if_false]
  unfold lineage_ptid at hp
  unfold lineage_comm at hc
  cases hw : walk_params e with
  | none => rfl
  | some w =>
    obtain ⟨valptr, pp⟩ := w
    rw [hw] at hp hc
    cases pp with
    | none => simp at hp
    | some ptid_ptr =>
      simp only at hp hc
      simp [hp, hc, hsup]

/-- Claim C4 as stated fails for a record whose comm is not terminated inside
the record: `unterminated_comm_record` is a clone exit record with 14
parameters, its parent tid 7 is readable and not suppressed, the bytes of its
comm parameter are "b" and "b" is denylisted, yet `process_event` returns no
verdict: the construction of the comm string reads past the end of the record
(`none` is a read outside the record). -/
theorem unterminated_comm_has_no_verdict :
    (comm_b_denylisted.m_suppressed_tids.isEmpty
      && comm_b_denylisted.m_suppressed_comms.isEmpty) = false ∧
    is_lineage_type unterminated_comm_record.type = true ∧
    14 ≤ unterminated_comm_record.nparams ∧
    lineage_ptid unterminated_comm_record = some 7 ∧
    comm_b_denylisted.is_suppressed_tid 7 = false ∧
    param_len unterminated_comm_record 13 = 1 ∧
    unterminated_comm_record.payload.get? (param_off unterminated_comm_record 13) = some 98 ∧
    [98] ∈ comm_b_denylisted.m_suppressed_comms ∧
    comm_b_denylisted.process_event unterminated_comm_record = none := by
  decide

/-- Claim C4, amended: off the fast path, for a process-creation exit event
with at least 14 parameters whose parent tid lies inside the record (the 13
length prefixes and the 8 bytes at the sum of the prefixes 0..4):
(a) if the parent tid is suppressed, `process_event` returns
`SCAP_FILTERED_EVENT` without looking at the comm, adds the tid of the event
to the suppressed tids, counts the event and leaves the rest of the state (the
denylisted comms, the lineage tree) as it was;
(b) if in addition the comm is a NUL-terminated string inside the record,
`process_event` returns `SCAP_FILTERED_EVENT` iff the parent tid is suppressed
or the comm is denylisted; a suppressed parent leaves the lineage tree
untouched; a filtered event adds its tid to the suppressed tids, a passed one
leaves that set unchanged;
(c) if the parent tid is not suppressed and the comm is not terminated inside
the record, the call reads outside the record and has no defined verdict. -/
theorem lineage_event_verdict (s : sinsp_suppress) (e : scap_evt) (ptid : Nat)
    (hfast : (s.m_suppressed_tids.isEmpty && s.m_suppressed_comms.isEmpty) = false)
    (ht : is_lineage_type e.type = true) (hn : 14 ≤ e.nparams)
    (hp : lineage_ptid e = some ptid) :
    (s.is_suppressed_tid ptid = true →
      s.process_event e = some (SCAP_FILTERED_EVENT, { s with
        m_suppressed_tids := set_insert e.tid s.m_suppressed_tids
        m_num_suppressed_events := s.m_num_suppressed_events + 1 })) ∧
    (∀ comm, lineage_comm e = some comm →
      ∃ rc s1, s.process_event e = some (rc, s1) ∧
        (rc = SCAP_FILTERED_EVENT ↔
          (s.is_suppressed_tid ptid = true ∨ comm ∈ s.m_suppressed_comms)) ∧
        (s.is_suppressed_tid ptid = true →
          rc = SCAP_FILTERED_EVENT ∧ s1.m_tids_tree = s.m_tids_tree) ∧
        (rc = SCAP_FILTERED_EVENT →
          s1.m_suppressed_tids = set_insert e.tid s.m_suppressed_tids) ∧
        (rc ≠ SCAP_FILTERED_EVENT → s1.m_suppressed_tids = s.m_suppressed_tids)) ∧
    (s.is_suppressed_tid ptid = false → lineage_comm e = none → s.process_event e = none) := by
  refine ⟨fun hsup => ?_, fun comm hc => ?_, fun hsup hc => ?_⟩
  · rw [process_event_lineage s e hfast ht,
      process_lineage_event_parent_suppressed s e ptid hn hp hsup]
  · rw [process_event_lineage s e hfast ht, process_lineage_event_eq s e ptid comm hn hp hc]
    have hh := handle_thread_sets s e.tid ptid comm
    by_cases hsup : s.is_suppressed_tid ptid = true
    · simp only [hsup, if_true]
      exact ⟨_, _, rfl, by simp, fun _ => ⟨rfl, rfl⟩, fun _ => rfl, fun h => absurd rfl h⟩
    · by_cases hmem : comm ∈ s.m_suppressed_comms
      · simp only [hsup, hmem, if_true]
        refine ⟨_, _, rfl, by simp [hmem], fun h => by simp at h, fun _ => ?_,
          fun h => absurd rfl h⟩
        simp [sinsp_suppress.check_suppressed_comm, hh.1, hh.2.1, hmem]
      · simp only [hsup, hmem, if_false]
        refine ⟨_, _, rfl, by simp [hsup, hmem], fun h => by simp at h, fun h => ?_,
          fun _ => hh.1⟩
        exact absurd h (by decide)
  · rw [process_event_lineage s e hfast ht,
      process_lineage_event_comm_unreadable s e ptid hn hp hsup hc]

/-- Witness of `lineage_event_verdict`: (a) the record with the unterminated
comm is filtered when its parent 7 is suppressed; (b) a clone exit event of
tid 8 with parent 7 and comm "b", in a state where "b" is denylisted; (c) the
record with the unterminated comm when its parent is not suppressed. -/
theorem lineage_event_verdict_witness :
    tid7_suppressed.process_event unterminated_comm_record
      = some (SCAP_FILTERED_EVENT, { tid7_suppressed with
        m_suppressed_tids := set_insert unterminated_comm_record.tid
          tid7_suppressed.m_suppressed_tids
        m_num_suppressed_events := tid7_suppressed.m_num_suppressed_events + 1 }) ∧
    (∃ rc s1, comm_b_denylisted.process_event
        (lineage_record PPME_SYSCALL_CLONE_20_X 8 7 [98]) = some (rc, s1) ∧
      (rc = SCAP_FILTERED_EVENT ↔
        (comm_b_denylisted.is_suppressed_tid 7 = true
          ∨ [98] ∈ comm_b_denylisted.m_suppressed_comms)) ∧
      (comm_b_denylisted.is_suppressed_tid 7 = true →
        rc = SCAP_FILTERED_EVENT ∧ s1.m_tids_tree = comm_b_denylisted.m_tids_tree) ∧
      (rc = SCAP_FILTERED_EVENT →
        s1.m_suppressed_tids = set_insert
          (lineage_record PPME_SYSCALL_CLONE_20_X 8 7 [98]).tid
          comm_b_denylisted.m_suppressed_tids) ∧
      (rc ≠ SCAP_FILTERED_EVENT →
        s1.m_suppressed_tids = comm_b_denylisted.m_suppressed_tids)) ∧
    comm_b_denylisted.process_event unterminated_comm_record = none :=
  ⟨(lineage_event_verdict tid7_suppressed unterminated_comm_record 7
      (by decide) (by decide) (by decide) (by decide)).1 (by decide),
    (lineage_event_verdict comm_b_denylisted
      (lineage_record PPME_SYSCALL_CLONE_20_X 8 7 [98]) 7
      (by decide) (by decide) (by decide) (by decide)).2.1 [98] (by decide),
    (lineage_event_verdict comm_b_denylisted unterminated_comm_record 7
      (by decide) (by decide) (by decide) (by decide)).2.2 (by decide) (by decide)⟩

/-- Claim C5: off the fast path, for an event whose type is neither a
process-creation exit event nor `PPME_PROCEXIT_1_E`, `process_event` returns
`SCAP_FILTERED_EVENT` iff the tid of the event is suppressed (and
`SCAP_SUCCESS` otherwise), and both sets are left unchanged. -/
theorem default_dispatch (s : sinsp_suppress) (e : scap_evt)
    (hfast : (s.m_suppressed_tids.isEmpty && s.m_suppressed_comms.isEmpty) = false)
    (ht : is_lineage_type e.type = false) (hx : e.type ≠ PPME_PROCEXIT_1_E) :
    ∃ rc s1, s.process_event e = some (rc, s1) ∧
      (rc = SCAP_FILTERED_EVENT ↔ s.is_suppressed_tid e.tid = true) ∧
      (rc = SCAP_SUCCESS ↔ s.is_suppressed_tid e.tid = false) ∧
      s1.m_suppressed_tids = s.m_suppressed_tids ∧
      s1.m_suppressed_comms = s.m_suppressed_comms := by
  rw [process_event_default s e hfast ht hx]
  by_cases hsup : s.is_suppressed_tid e.tid = true
  · simp only [hsup, if_true]
    exact ⟨_, _, rfl, by simp, by simp, rfl, rfl⟩
  · simp only [hsup]
    exact ⟨_, _, rfl, by simp [hsup], by simp, rfl, rfl⟩

/-- Witness of `default_dispatch`: an event of tid 9 while only "b" is
denylisted. -/
theorem default_dispatch_witness :
    ∃ rc s1, comm_b_denylisted.process_event (plain_event 9) = some (rc, s1) ∧
      (rc = SCAP_FILTERED_EVENT ↔
        comm_b_denylisted.is_suppressed_tid (plain_event 9).tid = true) ∧
      (rc = SCAP_SUCCESS ↔
        comm_b_denylisted.is_suppressed_tid (plain_event 9).tid = false) ∧
      s1.m_suppressed_tids = comm_b_denylisted.m_suppressed_tids ∧
      s1.m_suppressed_comms = comm_b_denylisted.m_suppressed_comms :=
  default_dispatch comm_b_denylisted (plain_event 9) (by decide) (by decide) (by decide)

/-- Claim C6 as stated fails: with an empty denylist (after
`clear_suppress_comm()`) and tid 5 suppressed through `suppress_tid(5)`, an
event of tid 5 is filtered. -/
theorem empty_denylist_still_filters :
    ((({} : sinsp_suppress).suppress_tid 5).clear_suppress_comm).m_suppressed_comms = [] ∧
      (((({} : sinsp_suppress).suppress_tid 5).clear_suppress_comm).process_event
          (plain_event 5)).map (fun r => r.1) = some SCAP_FILTERED_EVENT := by
  decide

/-- Claim C6, amended: when the denylisted-command set and the suppressed-tid
set are both empty, `process_event` returns `SCAP_SUCCESS` for every event of
every type and changes nothing. -/
theorem fast_path (s : sinsp_suppress) (e : scap_evt)
    (hc : s.m_suppressed_comms = []) (htids : s.m_suppressed_tids = []) :
    s.process_event e = some (SCAP_SUCCESS, s) := by
  unfold sinsp_suppress.process_event
  simp [hc, htids]

/-- Witness of `fast_path`: a clone exit event on a fresh object. -/
theorem fast_path_witness :
    ({} : sinsp_suppress).process_event (lineage_record PPME_SYSCALL_CLONE_20_X 8 7 [98])
      = some (SCAP_SUCCESS, {}) :=
  fast_path {} (lineage_record PPME_SYSCALL_CLONE_20_X 8 7 [98]) rfl rfl

/-- Claim C7 as stated fails for the node part: registering tid 5 with
parent 0 (the root of a lineage, as in the calls of claim C1) makes
`handle_thread` create a node with key 0 that holds the child 5. -/
theorem handle_thread_creates_node_zero :
    (( sinsp_suppress.initialize {}).handle_thread 5 0 [98]).m_tids_tree
      = some [(0, { m_tid := 0, m_comm := [], m_children := [5] }),
              (5, { m_tid := 5, m_comm := [98], m_children := [] })] := by
  decide

/-- Claim C7, amended: in every state reached from a fresh object by calls of
`suppress_comm`, `suppress_tid`, `clear_suppress_comm`, `clear_suppress_tid`,
`check_suppressed_comm`, `process_event`, `initialize` and `finalize`,
`is_suppressed_tid(0)` is false, no child list of the lineage tree contains
tid 0, and a node with key 0 (made when a thread has parent 0) was never
registered itself: it has no comm and `m_tid` 0. -/
theorem tid_zero_never_suppressed (calls : List suppress_call) (s : sinsp_suppress)
    (h : run_calls {} calls = some s) :
    s.is_suppressed_tid 0 = false ∧
      ∀ t, s.m_tids_tree = some t → zero_unregistered t := by
  refine ⟨by simp [sinsp_suppress.is_suppressed_tid], ?_⟩
  have h0 : tree_inv ({} : sinsp_suppress) := by
    intro t ht
    simp at ht
  exact run_calls_inv calls {} s h0 h

/-- Witness of `tid_zero_never_suppressed`: after `suppress_tid(0)` and a
build phase that registers the root thread 5 (parent 0) and then calls
`check_suppressed_comm(0, 5, "b")` with "b" denylisted, tid 0 is a member of
the suppressed-tid set and is still reported as not suppressed. -/
theorem tid_zero_never_suppressed_witness :
    ∃ s, run_calls {} calls_with_tid_zero = some s ∧ 0 ∈ s.m_suppressed_tids ∧
      s.is_suppressed_tid 0 = false ∧
      ∀ t, s.m_tids_tree = some t → zero_unregistered t :=
  ⟨_, rfl, by decide, tid_zero_never_suppressed calls_with_tid_zero _ rfl⟩

/-- Claim C8 as stated fails: in `corrupted_record` (14 parameters, first
length prefix `0xFFFF`) the 8 bytes of the parent tid, at the sum of the
prefixes 0..4, lie behind the declared total length, and `process_event`
reads them without a check (`none` is a read outside the record). -/
theorem corrupted_prefix_read_out_of_bounds :
    is_lineage_type corrupted_record.type = true ∧ 14 ≤ corrupted_record.nparams ∧
      corrupted_record.len < sizeof_ppm_evt_hdr + param_off corrupted_record 5 + 8 ∧
      comm_b_denylisted.process_event corrupted_record = none := by
  decide

/-- Claim C8, amended: `process_event` makes no bounds check of its own, but
for a record with at least 14 parameters whose first 14 parameters lie inside
the declared total length (the length invariant of well-formed records), that
is in memory, whose parameter 5 has at least 8 bytes and whose parameter 13
contains a NUL, every read is inside the record: the call returns a verdict. -/
theorem well_formed_record_read_in_bounds (s : sinsp_suppress) (e : scap_evt)
    (hn : 14 ≤ e.nparams)
    (h14 : sizeof_ppm_evt_hdr + param_off e 14 ≤ e.len)
    (hm : e.len ≤ sizeof_ppm_evt_hdr + e.payload.length)
    (h5 : 8 ≤ param_len e 5)
    (hnul : ∃ k, k < param_len e 13 ∧
      ∃ b, e.payload.get? (param_off e 13 + k) = some b ∧ b % 256 = 0) :
    ∃ rc s1, s.process_event e = some (rc, s1) := by
  obtain ⟨ptid, comm, hp, hc⟩ := lineage_reads_in_bounds e hn h14 hm h5 hnul
  by_cases hfast : (s.m_suppressed_tids.isEmpty && s.m_suppressed_comms.isEmpty) = true
  · exact ⟨SCAP_SUCCESS, s, by simp [sinsp_suppress.process_event, hfast]⟩
  · have hfast' : (s.m_suppressed_tids.isEmpty && s.m_suppressed_comms.isEmpty) = false := by
      simpa using hfast
    by_cases ht : is_lineage_type e.type = true
    · rw [process_event_lineage s e hfast' ht,
        process_lineage_event_eq s e ptid comm hn hp hc]
      split_ifs <;> exact ⟨_, _, rfl⟩
    · have ht' : is_lineage_type e.type = false := by simpa using ht
      by_cases hx : e.type = PPME_PROCEXIT_1_E
      · exact ⟨SCAP_SUCCESS,
          { s with m_suppressed_tids := set_erase e.tid s.m_suppressed_tids },
          by simp [sinsp_suppress.process_event, hfast', hx]⟩
      · rw [process_event_default s e hfast' ht' hx]
        split_ifs <;> exact ⟨_, _, rfl⟩

/-- Witness of `well_formed_record_read_in_bounds`: the clone exit record of
`lineage_record` (comm "b" followed by its NUL). -/
theorem well_formed_record_read_in_bounds_witness :
    ∃ rc s1, comm_b_denylisted.process_event
      (lineage_record PPME_SYSCALL_CLONE_20_X 8 7 [98]) = some (rc, s1) :=
  well_formed_record_read_in_bounds comm_b_denylisted
    (lineage_record PPME_SYSCALL_CLONE_20_X 8 7 [98])
    (by decide) (by decide) (by decide) (by decide)
    ⟨1, by decide, 0, by decide, by decide⟩

end libsinsp

/-!
# Theorems on the dynamic snaplen
-/

namespace filler_helpers

/-! ## Claims C9 and C10: the dynamic snaplen -/

theorem le_snaplen_max (res x : Nat) : res ≤ snaplen_max res x := by
  unfold snaplen_max
  split <;> omega

theorem snaplen_rules_ge (c : driver_consts) (data : filler_data)
    (res port_local port_remote lookahead_size : Nat) :
    res ≤ snaplen_rules c data res port_local port_remote lookahead_size := by
  unfold snaplen_rules
  simp only
  split_ifs <;> first | exact le_snaplen_max _ _ | exact le_refl _

/-- Claim C9: for every settings snapshot, socket state, ports, lookahead size
and buffer content (and every value of the constants), `bpf_compute_snaplen`
returns at least the base snaplen `settings->snaplen`. -/
theorem snaplen_lower_bound (c : driver_consts) (data : filler_data)
    (lookahead_size : Nat) :
    data.settings.snaplen ≤ bpf_compute_snaplen c data lookahead_size := by
  unfold bpf_compute_snaplen
  simp only
  split
  · exact le_refl _
  · exact snaplen_rules_ge c data _ _ _ _

/-- Claim C10 as stated fails: on the same buffer a lookahead of 4 bytes gives
`SNAPLEN_EXTENDED` (the MongoDB port rule) and a lookahead of 5 bytes gives
the base snaplen 80 (the MySQL rule is entered, its signature test fails, and
the chain is left). -/
theorem snaplen_not_monotone :
    bpf_compute_snaplen upstream_consts mysql_to_mongodb 4 = 2000 ∧
      bpf_compute_snaplen upstream_consts mysql_to_mongodb 5 = 80 := by
  decide

/-- Monotonicity in the lookahead size of the last two rules of the chain. -/
theorem snaplen_tail_mono (G : Prop) [Decidable G] (g h : Bool) (res ext L1 L2 : Nat)
    (hL : L1 ≤ L2) (hmax : res ≤ ext) :
    (if G ∨ (L1 ≥ 16 ∧ g = true) then ext
      else if L1 ≥ 5 then (if h = true then ext else res) else res)
    ≤ (if G ∨ (L2 ≥ 16 ∧ g = true) then ext
      else if L2 ≥ 5 then (if h = true then ext else res) else res) := by
  by_cases hG : G
  · simp only [hG, true_or, if_true, le_refl]
  · cases g <;> cases h <;> simp only [hG, false_or, and_true, and_false, if_false,
      Bool.false_eq_true, ge_iff_le] <;> split_ifs <;> omega

/-- Monotonicity of the chain of rules when no lookahead threshold of a port
rule is crossed. -/
theorem snaplen_rules_mono (c : driver_consts) (data : filler_data)
    (res port_local port_remote L1 L2 : Nat) (hL : L1 ≤ L2)
    (hmy : (port_local = c.PPM_PORT_MYSQL ∨ port_remote = c.PPM_PORT_MYSQL) →
      ¬ (L1 < 5 ∧ 5 ≤ L2))
    (hpg : (port_local = c.PPM_PORT_POSTGRES ∨ port_remote = c.PPM_PORT_POSTGRES) →
      ¬ (L1 < 7 ∧ 7 ≤ L2)) :
    snaplen_rules c data res port_local port_remote L1
      ≤ snaplen_rules c data res port_local port_remote L2 := by
  have hmax := le_snaplen_max res c.SNAPLEN_EXTENDED
  unfold snaplen_rules
  simp only
  by_cases hA : data.settings.fullcapture_port_range_end > 0 ∧
      (in_port_range port_local data.settings.fullcapture_port_range_start
          data.settings.fullcapture_port_range_end = true
        ∨ in_port_range port_remote data.settings.fullcapture_port_range_start
          data.settings.fullcapture_port_range_end = true)
  · simp only [if_pos hA, le_refl]
  simp only [if_neg hA]
  by_cases hB : port_remote = data.settings.statsd_port
  · simp only [if_pos hB, le_refl]
  simp only [if_neg hB]
  by_cases hC : port_remote = c.PPM_PORT_DNS
  · simp only [if_pos hC, le_refl]
  simp only [if_neg hC]
  by_cases hM : port_local = c.PPM_PORT_MYSQL ∨ port_remote = c.PPM_PORT_MYSQL
  · have h := hmy hM
    by_cases h5 : 5 ≤ L1
    · have h52 : 5 ≤ L2 := by omega
      have c1 : (port_local = c.PPM_PORT_MYSQL ∨ port_remote = c.PPM_PORT_MYSQL) ∧ L1 ≥ 5 :=
        ⟨hM, h5⟩
      have c2 : (port_local = c.PPM_PORT_MYSQL ∨ port_remote = c.PPM_PORT_MYSQL) ∧ L2 ≥ 5 :=
        ⟨hM, h52⟩
      simp only [if_pos c1, if_pos c2, le_refl]
    · have h52 : ¬ 5 ≤ L2 := by omega
      have c1 : ¬ ((port_local = c.PPM_PORT_MYSQL ∨ port_remote = c.PPM_PORT_MYSQL)
          ∧ L1 ≥ 5) := fun h => h5 h.2
      have c2 : ¬ ((port_local = c.PPM_PORT_MYSQL ∨ port_remote = c.PPM_PORT_MYSQL)
          ∧ L2 ≥ 5) := fun h => h52 h.2
      have d1 : ¬ ((port_local = c.PPM_PORT_POSTGRES ∨ port_remote = c.PPM_PORT_POSTGRES)
          ∧ L1 ≥ 7) := fun h => h5 (by omega)
      have d2 : ¬ ((port_local = c.PPM_PORT_POSTGRES ∨ port_remote = c.PPM_PORT_POSTGRES)
          ∧ L2 ≥ 7) := fun h => h52 (by omega)
      simp only [if_neg c1, if_neg c2, if_neg d1, if_neg d2]
      exact snaplen_tail_mono _ _ _ _ _ _ _ hL hmax
  · have c1 : ¬ ((port_local = c.PPM_PORT_MYSQL ∨ port_remote = c.PPM_PORT_MYSQL)
        ∧ L1 ≥ 5) := fun h => hM h.1
    have c2 : ¬ ((port_local = c.PPM_PORT_MYSQL ∨ port_remote = c.PPM_PORT_MYSQL)
        ∧ L2 ≥ 5) := fun h => hM h.1
    simp only [if_neg c1, if_neg c2]
    by_cases hP : port_local = c.PPM_PORT_POSTGRES ∨ port_remote = c.PPM_PORT_POSTGRES
    · have h := hpg hP
      by_cases h7 : 7 ≤ L1
      · have h72 : 7 ≤ L2 := by omega
        have d1 : (port_local = c.PPM_PORT_POSTGRES ∨ port_remote = c.PPM_PORT_POSTGRES)
            ∧ L1 ≥ 7 := ⟨hP, h7⟩
        have d2 : (port_local = c.PPM_PORT_POSTGRES ∨ port_remote = c.PPM_PORT_POSTGRES)
            ∧ L2 ≥ 7 := ⟨hP, h72⟩
        simp only [if_pos d1, if_pos d2, le_refl]
      · have h72 : ¬ 7 ≤ L2 := by omega
        have d1 : ¬ ((port_local = c.PPM_PORT_POSTGRES ∨ port_remote = c.PPM_PORT_POSTGRES)
            ∧ L1 ≥ 7) := fun h => h7 h.2
        have d2 : ¬ ((port_local = c.PPM_PORT_POSTGRES ∨ port_remote = c.PPM_PORT_POSTGRES)
            ∧ L2 ≥ 7) := fun h => h72 h.2
        simp only [if_neg d1, if_neg d2]
        exact snaplen_tail_mono _ _ _ _ _ _ _ hL hmax
    · have d1 : ¬ ((port_local = c.PPM_PORT_POSTGRES ∨ port_remote = c.PPM_PORT_POSTGRES)
          ∧ L1 ≥ 7) := fun h => hP h.1
      have d2 : ¬ ((port_local = c.PPM_PORT_POSTGRES ∨ port_remote = c.PPM_PORT_POSTGRES)
          ∧ L2 ≥ 7) := fun h => hP h.1
      simp only [if_neg d1, if_neg d2]
      exact snaplen_tail_mono _ _ _ _ _ _ _ hL hmax

/-- Claim C10, amended: with all other inputs fixed, `bpf_compute_snaplen` does
not decrease when the lookahead size grows from `L1` to `L2`, provided the
growth does not cross the threshold of a port rule that applies to the socket:
not from below 5 to at least 5 when a port is the MySQL port, and not from
below 7 to at least 7 when a port is the Postgres port. -/
theorem snaplen_monotone_in_lookahead (c : driver_consts) (data : filler_data)
    (L1 L2 : Nat) (hL : L1 ≤ L2)
    (hmy : ∀ port_local port_remote,
      snaplen_socket_ports c data = some (port_local, port_remote) →
      (port_local = c.PPM_PORT_MYSQL ∨ port_remote = c.PPM_PORT_MYSQL) →
      ¬ (L1 < 5 ∧ 5 ≤ L2))
    (hpg : ∀ port_local port_remote,
      snaplen_socket_ports c data = some (port_local, port_remote) →
      (port_local = c.PPM_PORT_POSTGRES ∨ port_remote = c.PPM_PORT_POSTGRES) →
      ¬ (L1 < 7 ∧ 7 ≤ L2)) :
    bpf_compute_snaplen c data L1 ≤ bpf_compute_snaplen c data L2 := by
  unfold bpf_compute_snaplen
  simp only
  cases hp : snaplen_socket_ports c data with
  | none => exact le_refl _
  | some p =>
    obtain ⟨port_local, port_remote⟩ := p
    exact snaplen_rules_mono c data _ port_local port_remote L1 L2 hL
      (hmy port_local port_remote hp) (hpg port_local port_remote hp)

/-- Witness of `snaplen_monotone_in_lookahead`: the request "GET /" to port 80
with lookahead 4 and lookahead 5. -/
theorem snaplen_monotone_in_lookahead_witness :
    bpf_compute_snaplen upstream_consts http_get_request 4
      ≤ bpf_compute_snaplen upstream_consts http_get_request 5 :=
  snaplen_monotone_in_lookahead upstream_consts http_get_request 4 5 (by decide)
    (fun port_local port_remote hp h => by
      have h1 : snaplen_socket_ports upstream_consts http_get_request = some (40000, 80) := by
        decide
      rw [h1] at hp
      simp only [Option.some.injEq, Prod.mk.injEq] at hp
      rcases h with h | h
      · rw [← hp.1] at h; exact absurd h (by decide)
      · rw [← hp.2] at h; exact absurd h (by decide))
    (fun _ _ _ _ => by omega)

/-! ## Claims C11 to C13: the rules of the dynamic snaplen -/

theorem snaplen_max_eq_max (res x : Nat) : snaplen_max res x = max res x := by
  unfold snaplen_max
  split <;> omega

theorem snaplen_socket_ports_buf (c : driver_consts) (data : filler_data) (buf : Nat → Nat)
    (curoff : Nat) :
    snaplen_socket_ports c { data with buf := buf, curoff := curoff }
      = snaplen_socket_ports c data := rfl

theorem in_port_range_iff (port min max : Nat) :
    in_port_range port min max = true ↔ min ≤ port ∧ port ≤ max := by
  simp [in_port_range]

theorem full_capture_match_iff (data : filler_data) (port_local port_remote : Nat) :
    (data.settings.fullcapture_port_range_end > 0 ∧
      (in_port_range port_local data.settings.fullcapture_port_range_start
          data.settings.fullcapture_port_range_end = true
        ∨ in_port_range port_remote data.settings.fullcapture_port_range_start
          data.settings.fullcapture_port_range_end = true)) ↔
      full_capture_match data port_local port_remote := by
  unfold full_capture_match
  rw [in_port_range_iff, in_port_range_iff]
  constructor
  · rintro ⟨h1, h2⟩; exact ⟨by omega, h2⟩
  · rintro ⟨h1, h2⟩; exact ⟨by omega, h2⟩

/-- The value of the chain when none of the three port-only rules matches. -/
theorem snaplen_rules_no_port_rule (c : driver_consts) (data : filler_data)
    (res port_local port_remote L : Nat)
    (hrange : ¬ full_capture_match data port_local port_remote)
    (hstatsd : port_remote ≠ data.settings.statsd_port)
    (hdns : port_remote ≠ c.PPM_PORT_DNS) :
    snaplen_rules c data res port_local port_remote L =
      if (port_local = c.PPM_PORT_MYSQL ∨ port_remote = c.PPM_PORT_MYSQL) ∧ L ≥ 5 then
        if mysql_signature c data = true then snaplen_max res c.SNAPLEN_EXTENDED else res
      else if (port_local = c.PPM_PORT_POSTGRES ∨ port_remote = c.PPM_PORT_POSTGRES)
          ∧ L ≥ 7 then
        if postgres_signature c data = true then snaplen_max res c.SNAPLEN_EXTENDED else res
      else if (port_local = c.PPM_PORT_MONGODB ∨ port_remote = c.PPM_PORT_MONGODB)
          ∨ (L ≥ 16 ∧ mongodb_signature c data = true) then
        snaplen_max res c.SNAPLEN_EXTENDED
      else if L ≥ 5 then
        if http_signature c data = true then snaplen_max res c.SNAPLEN_EXTENDED else res
      else res := by
  unfold snaplen_rules
  simp only
  rw [if_neg (fun h1 => hrange ((full_capture_match_iff data port_local port_remote).1 h1)),
    if_neg hstatsd, if_neg hdns]

/-- The 32-bit word at the cursor, from the first four lookahead bytes. -/
theorem get_buf_u32_of_lookahead (c : driver_consts) (data : filler_data)
    (b0 b1 b2 b3 : Nat) (rest : List Nat)
    (h : lookahead_starts_with c data (b0 :: b1 :: b2 :: b3 :: rest)) :
    get_buf_u32 c data 0 = b0 + 256 * b1 + 65536 * b2 + 16777216 * b3 := by
  have h0 := h 0 (by simp)
  have h1 := h 1 (by simp)
  have h2 := h 2 (by simp)
  have h3 := h 3 (by simp)
  simp only [List.getD_cons_zero, List.getD_cons_succ, Nat.add_zero] at h0 h1 h2 h3
  unfold get_buf_u32
  simp only [Nat.add_zero]
  rw [h0, h1, h2, h3]

/-- The HTTP test succeeds when the lookahead bytes start with one of the
HTTP prefixes and the fifth byte is read from the byte after the fourth. -/
theorem http_signature_of_prefix (c : driver_consts) (data : filler_data)
    (hc : http_words_ascii c)
    (hnw : Nat.land (data.curoff + 4) c.SCRATCH_SIZE_HALF
      = Nat.land data.curoff c.SCRATCH_SIZE_HALF + 4)
    (hb : ∃ p, p ∈ http_prefixes ∧ lookahead_starts_with c data p) :
    http_signature c data = true := by
  obtain ⟨h1, h2, h3, h4, h5, h6, h7, h8⟩ := hc
  obtain ⟨p, hp, hl⟩ := hb
  unfold http_signature
  simp only [http_prefixes, List.mem_cons, List.mem_singleton, List.not_mem_nil, or_false] at hp
  rcases hp with hp | hp | hp | hp | hp | hp | hp | hp <;> subst hp
  · have := get_buf_u32_of_lookahead c data _ _ _ _ _ hl
    simp [this, h1]
  · have := get_buf_u32_of_lookahead c data _ _ _ _ _ hl
    simp [this, h2]
  · have := get_buf_u32_of_lookahead c data _ _ _ _ _ hl
    simp [this, h3]
  · have := get_buf_u32_of_lookahead c data _ _ _ _ _ hl
    simp [this, h4]
  · have := get_buf_u32_of_lookahead c data _ _ _ _ _ hl
    simp [this, h5]
  · have := get_buf_u32_of_lookahead c data _ _ _ _ _ hl
    simp [this, h6]
  · have := get_buf_u32_of_lookahead c data _ _ _ _ _ hl
    simp [this, h7]
  · have := get_buf_u32_of_lookahead c data _ _ _ _ _ hl
    have h4b := hl 4 (by simp)
    simp only [List.getD_cons_zero, List.getD_cons_succ] at h4b
    simp [this, h8, hnw, h4b]

/-- Claim C11: with dynamic snaplen enabled on a resolved socket with ports
`port_local` and `port_remote`, whatever the lookahead size, the buffer and
the cursor: if the end of the full-capture range is non-zero and one of the
two ports lies in the range (bounds included) the result is
`max(base, SNAPLEN_FULLCAPTURE_PORT)`; otherwise, if the remote port is the
statsd port it is `max(base, SNAPLEN_EXTENDED)`; otherwise, if the remote port
is `PPM_PORT_DNS` it is `max(base, SNAPLEN_DNS_UDP)`.  (`full_capture_match`
is the test of the first rule.) -/
theorem port_only_rules (c : driver_consts) (data : filler_data) (port_local port_remote : Nat)
    (lookahead_size : Nat) (buf : Nat → Nat) (curoff : Nat)
    (hp : snaplen_socket_ports c data = some (port_local, port_remote)) :
    (full_capture_match data port_local port_remote →
      bpf_compute_snaplen c { data with buf := buf, curoff := curoff } lookahead_size
        = max data.settings.snaplen c.SNAPLEN_FULLCAPTURE_PORT) ∧
    (¬ full_capture_match data port_local port_remote →
      (port_remote = data.settings.statsd_port →
        bpf_compute_snaplen c { data with buf := buf, curoff := curoff } lookahead_size
          = max data.settings.snaplen c.SNAPLEN_EXTENDED) ∧
      (port_remote ≠ data.settings.statsd_port → port_remote = c.PPM_PORT_DNS →
        bpf_compute_snaplen c { data with buf := buf, curoff := curoff } lookahead_size
          = max data.settings.snaplen c.SNAPLEN_DNS_UDP)) := by
  have hp' := (snaplen_socket_ports_buf c data buf curoff).trans hp
  have hrange := full_capture_match_iff data port_local port_remote
  unfold bpf_compute_snaplen
  simp only [hp']
  unfold snaplen_rules
  simp only
  refine ⟨fun h => ?_, fun h => ⟨fun hs => ?_, fun hs hd => ?_⟩⟩
  · rw [if_pos (hrange.2 h), snaplen_max_eq_max]
  · rw [if_neg (fun h1 => h (hrange.1 h1)), if_pos hs, snaplen_max_eq_max]
  · rw [if_neg (fun h1 => h (hrange.1 h1)), if_neg hs, if_pos hd, snaplen_max_eq_max]

/-- Witness of `port_only_rules`: a query to the DNS port, with a lookahead of
16 bytes of value 3 at cursor 10. -/
theorem port_only_rules_witness :
    bpf_compute_snaplen upstream_consts { dns_query with buf := fun _ => 3, curoff := 10 } 16
      = max dns_query.settings.snaplen upstream_consts.SNAPLEN_DNS_UDP :=
  ((port_only_rules upstream_consts dns_query 40000 53 16 (fun _ => 3) 10 (by decide)).2
    (by decide)).2 (by decide) (by decide)

/-- Claim C12 as stated fails for a base snaplen above `SNAPLEN_EXTENDED`: the
request "GET /" to port 80 with base snaplen 3000 gets 3000, not 2000. -/
theorem http_get_large_base_keeps_base :
    (List.range 5).map (get_buf upstream_consts http_get_large_base) = ascii_GET_slash ∧
      bpf_compute_snaplen upstream_consts http_get_large_base 5 = 3000 ∧
      upstream_consts.SNAPLEN_EXTENDED = 2000 := by
  decide

/-- Claim C12, amended: with dynamic snaplen enabled on a resolved socket whose
ports match none of the full-capture range, the statsd port, the DNS port, the
MySQL port, the Postgres port and the MongoDB port, a lookahead of the 5 bytes
"GET /" gives `max(base, SNAPLEN_EXTENDED)`, which is `SNAPLEN_EXTENDED` when
the base snaplen is not larger. -/
theorem http_get_scenario (c : driver_consts) (data : filler_data)
    (port_local port_remote : Nat) (hc : http_words_ascii c)
    (hp : snaplen_socket_ports c data = some (port_local, port_remote))
    (hrange : ¬ full_capture_match data port_local port_remote)
    (hstatsd : port_remote ≠ data.settings.statsd_port)
    (hdns : port_remote ≠ c.PPM_PORT_DNS)
    (hmy : port_local ≠ c.PPM_PORT_MYSQL ∧ port_remote ≠ c.PPM_PORT_MYSQL)
    (hpg : port_local ≠ c.PPM_PORT_POSTGRES ∧ port_remote ≠ c.PPM_PORT_POSTGRES)
    (hmg : port_local ≠ c.PPM_PORT_MONGODB ∧ port_remote ≠ c.PPM_PORT_MONGODB)
    (hb : lookahead_starts_with c data ascii_GET_slash) :
    bpf_compute_snaplen c data 5 = max data.settings.snaplen c.SNAPLEN_EXTENDED ∧
      (data.settings.snaplen ≤ c.SNAPLEN_EXTENDED →
        bpf_compute_snaplen c data 5 = c.SNAPLEN_EXTENDED) := by
  have hsig : http_signature c data = true := by
    have hw := get_buf_u32_of_lookahead c data _ _ _ _ _ hb
    unfold http_signature
    simp [hw, hc.1]
  have hval : bpf_compute_snaplen c data 5 = max data.settings.snaplen c.SNAPLEN_EXTENDED := by
    unfold bpf_compute_snaplen
    simp only [hp]
    rw [snaplen_rules_no_port_rule c data _ _ _ _ hrange hstatsd hdns]
    rw [if_neg (fun h => h.1.elim hmy.1 hmy.2), if_neg (fun h => h.1.elim hpg.1 hpg.2),
      if_neg (fun h => h.elim (fun h1 => h1.elim hmg.1 hmg.2) (fun h1 => by omega)),
      if_pos (by omega), if_pos hsig, snaplen_max_eq_max]
  exact ⟨hval, fun hle => by rw [hval]; omega⟩

/-- Witness of `http_get_scenario`: the request "GET /" from port 40000 to
port 80 with base snaplen 80. -/
theorem http_get_scenario_witness :
    bpf_compute_snaplen upstream_consts http_get_request 5
        = max http_get_request.settings.snaplen upstream_consts.SNAPLEN_EXTENDED ∧
      (http_get_request.settings.snaplen ≤ upstream_consts.SNAPLEN_EXTENDED →
        bpf_compute_snaplen upstream_consts http_get_request 5
          = upstream_consts.SNAPLEN_EXTENDED) :=
  http_get_scenario upstream_consts http_get_request 40000 80 (by decide) (by decide)
    (by decide) (by decide) (by decide) (by decide) (by decide) (by decide)
    (fun k hk => by
      have : k = 0 ∨ k = 1 ∨ k = 2 ∨ k = 3 ∨ k = 4 := by
        simp only [ascii_GET_slash, List.length_cons, List.length_nil] at hk; omega
      rcases this with h | h | h | h | h <;> subst h <;> decide)

/-- Claim C13 as stated fails when an endpoint uses the MySQL port: for the
request "GET /" sent from local port 3306 the MySQL signature is absent, the
Postgres and MongoDB rules do not match, the lookahead starts with "GET ", and
the result is the base snaplen 80 instead of `SNAPLEN_EXTENDED`. -/
theorem http_on_mysql_port_keeps_base :
    snaplen_socket_ports upstream_consts http_get_on_mysql_port = some (3306, 80) ∧
      mysql_signature upstream_consts http_get_on_mysql_port = false ∧
      (List.range 5).map (get_buf upstream_consts http_get_on_mysql_port) = ascii_GET_slash ∧
      http_signature upstream_consts http_get_on_mysql_port = true ∧
      bpf_compute_snaplen upstream_consts http_get_on_mysql_port 5 = 80 ∧
      upstream_consts.SNAPLEN_EXTENDED = 2000 := by
  decide

/-- Claim C13, amended: with dynamic snaplen enabled on a resolved socket and
base snaplen at most `SNAPLEN_EXTENDED`, when no port is in the full-capture
range, the remote port is neither the statsd nor the DNS port, the MySQL
branch is not entered (no MySQL port with at least 5 lookahead bytes), the
Postgres branch is not entered (no Postgres port with at least 7 lookahead
bytes) and the MongoDB rule does not match, at least 5 lookahead bytes that
start with one of the HTTP prefixes (the fifth byte read from the byte after
the fourth) give `SNAPLEN_EXTENDED`. -/
theorem http_rule_reached (c : driver_consts) (data : filler_data)
    (port_local port_remote L : Nat) (hc : http_words_ascii c)
    (hp : snaplen_socket_ports c data = some (port_local, port_remote))
    (hbase : data.settings.snaplen ≤ c.SNAPLEN_EXTENDED)
    (hrange : ¬ full_capture_match data port_local port_remote)
    (hstatsd : port_remote ≠ data.settings.statsd_port)
    (hdns : port_remote ≠ c.PPM_PORT_DNS)
    (hmy : ¬ ((port_local = c.PPM_PORT_MYSQL ∨ port_remote = c.PPM_PORT_MYSQL) ∧ 5 ≤ L))
    (hpg : ¬ ((port_local = c.PPM_PORT_POSTGRES ∨ port_remote = c.PPM_PORT_POSTGRES) ∧ 7 ≤ L))
    (hmg : ¬ ((port_local = c.PPM_PORT_MONGODB ∨ port_remote = c.PPM_PORT_MONGODB)
      ∨ (16 ≤ L ∧ mongodb_signature c data = true)))
    (hL : 5 ≤ L)
    (hnw : Nat.land (data.curoff + 4) c.SCRATCH_SIZE_HALF
      = Nat.land data.curoff c.SCRATCH_SIZE_HALF + 4)
    (hb : ∃ p, p ∈ http_prefixes ∧ lookahead_starts_with c data p) :
    bpf_compute_snaplen c data L = c.SNAPLEN_EXTENDED := by
  have hsig := http_signature_of_prefix c data hc hnw hb
  unfold bpf_compute_snaplen
  simp only [hp]
  rw [snaplen_rules_no_port_rule c data _ _ _ _ hrange hstatsd hdns]
  rw [if_neg hmy, if_neg hpg, if_neg hmg, if_pos hL, if_pos hsig, snaplen_max_eq_max]
  omega

/-- Witness of `http_rule_reached`: the request "GET /" from port 40000 to
port 80 with 16 lookahead bytes. -/
theorem http_rule_reached_witness :
    bpf_compute_snaplen upstream_consts http_get_request 16
      = upstream_consts.SNAPLEN_EXTENDED :=
  http_rule_reached upstream_consts http_get_request 40000 80 16 (by decide) (by decide)
    (by decide) (by decide) (by decide) (by decide) (by decide) (by decide) (by decide)
    (by decide) (by decide)
    ⟨[71, 69, 84, 32], by decide, fun k hk => by
      have : k = 0 ∨ k = 1 ∨ k = 2 ∨ k = 3 := by
        simp only [List.length_cons, List.length_nil] at hk; omega
      rcases this with h | h | h | h <;> subst h <;> decide⟩

end filler_helpers

/-!
# Theorems on the parameter encoder
-/

namespace filler_helpers

open ppm_param_type ppm_rc read_memory

/-! ## The encoder: helper lemmas -/

theorem same_but_buf_refl (d : filler_data) : same_but_buf d d := rfl

theorem same_but_buf_set (d : filler_data) (b : Nat → Nat) :
    same_but_buf d { d with buf := b } := rfl

theorem same_but_buf_trans (d1 d2 d3 : filler_data) (h1 : same_but_buf d1 d2)
    (h2 : same_but_buf d2 d3) : same_but_buf d1 d3 := by
  unfold same_but_buf at *
  rw [h2, h1]

theorem bytebuf_read_payload_frame (c : driver_consts) (data : filler_data) (val len : Nat)
    (mem : read_memory) :
    (∀ l d, bytebuf_read_payload c data val len mem = .ok (l, d) → same_but_buf data d) ∧
    (∀ rc d, bytebuf_read_payload c data val len mem = .error (rc, d) → d = data) := by
  unfold bytebuf_read_payload
  simp only
  constructor
  · intro l d h
    split_ifs at h <;> simp only [Except.ok.injEq, Prod.mk.injEq, reduceCtorEq] at h <;>
      (rw [← h.2]; rfl)
  · intro rc d h
    split_ifs at h
    simp only [Except.error.injEq, Prod.mk.injEq, reduceCtorEq] at h
    exact h.2.symm

theorem bytebuf_payload_frame (c : driver_consts) (data : filler_data) (cb val val_len : Nat)
    (enforce_snaplen : Bool) (mem : read_memory) :
    (∀ l d, bytebuf_payload c data cb val val_len enforce_snaplen mem = .ok (l, d) →
      same_but_buf data d) ∧
    (∀ rc d, bytebuf_payload c data cb val val_len enforce_snaplen mem = .error (rc, d) →
      same_but_buf data d) := by
  unfold bytebuf_payload
  simp only
  constructor
  · intro l d h
    split_ifs at h
    · simp only [Except.ok.injEq, Prod.mk.injEq] at h
      rw [← h.2]; rfl
    · exact same_but_buf_trans _ _ _ (same_but_buf_set _ _)
        ((bytebuf_read_payload_frame c _ val _ mem).1 l d h)
    · exact (bytebuf_read_payload_frame c _ val _ mem).1 l d h
    · exact (bytebuf_read_payload_frame c _ val _ mem).1 l d h
    · simp only [Except.ok.injEq, Prod.mk.injEq] at h
      rw [← h.2]; rfl
  · intro rc d h
    split_ifs at h
    · rw [(bytebuf_read_payload_frame c _ val _ mem).2 rc d h]; rfl
    · rw [(bytebuf_read_payload_frame c _ val _ mem).2 rc d h]; rfl
    · rw [(bytebuf_read_payload_frame c _ val _ mem).2 rc d h]; rfl

theorem charbuf_payload_frame (c : driver_consts) (data : filler_data) (cb val val_len : Nat)
    (mem : read_memory) :
    (∀ l d, charbuf_payload c data cb val val_len mem = .ok (l, d) → same_but_buf data d) ∧
    (∀ rc d, charbuf_payload c data cb val val_len mem = .error (rc, d) →
      same_but_buf data d) := by
  unfold charbuf_payload
  constructor
  · intro l d h
    split_ifs at h <;> simp only [Except.ok.injEq, Prod.mk.injEq] at h <;>
      (rw [← h.2]; rfl)
  · intro rc d h
    split_ifs at h

theorem sockaddr_payload_frame (data : filler_data) (val val_len : Nat) :
    (∀ l d, sockaddr_payload data val val_len = .ok (l, d) → same_but_buf data d) ∧
    (∀ rc d, sockaddr_payload data val val_len = .error (rc, d) → same_but_buf data d) := by
  unfold sockaddr_payload
  constructor
  · intro l d h
    split_ifs at h <;> simp only [Except.ok.injEq, Prod.mk.injEq, reduceCtorEq] at h <;>
      (rw [← h.2]; rfl)
  · intro rc d h
    split_ifs at h
    simp only [Except.error.injEq, Prod.mk.injEq, reduceCtorEq] at h
    rw [← h.2]; rfl

theorem fixed_payload_frame (data : filler_data) (cb val : Nat) (type : ppm_param_type) :
    (∀ l d, fixed_payload data cb val type = .ok (l, d) → same_but_buf data d) ∧
    (∀ rc d, fixed_payload data cb val type = .error (rc, d) → same_but_buf data d) := by
  unfold fixed_payload
  constructor
  · intro l d h
    split at h
    · simp only [Except.ok.injEq, Prod.mk.injEq] at h
      rw [← h.2]; rfl
    · simp only [reduceCtorEq] at h
  · intro rc d h
    split at h
    · simp only [reduceCtorEq] at h
    · simp only [Except.error.injEq, Prod.mk.injEq] at h
      rw [← h.2]; rfl

theorem val_to_ring_payload_frame (c : driver_consts) (data : filler_data) (cb val val_len : Nat)
    (type : ppm_param_type) (enforce_snaplen : Bool) (mem : read_memory) :
    (∀ l d, val_to_ring_payload c data cb val val_len type enforce_snaplen mem = .ok (l, d) →
      same_but_buf data d) ∧
    (∀ rc d, val_to_ring_payload c data cb val val_len type enforce_snaplen mem
      = .error (rc, d) → same_but_buf data d) := by
  unfold val_to_ring_payload
  split
  · exact charbuf_payload_frame c data cb val val_len mem
  · exact charbuf_payload_frame c data cb val val_len mem
  · exact charbuf_payload_frame c data cb val val_len mem
  · exact bytebuf_payload_frame c data cb val val_len enforce_snaplen mem
  · exact sockaddr_payload_frame data val val_len
  · exact sockaddr_payload_frame data val val_len
  · exact sockaddr_payload_frame data val val_len
  · exact fixed_payload_frame data cb val _

theorem val_to_ring_payload_error_rc (c : driver_consts) (data : filler_data)
    (cb val val_len : Nat) (type : ppm_param_type) (enforce_snaplen : Bool) (mem : read_memory)
    (rc : ppm_rc) (d : filler_data)
    (h : val_to_ring_payload c data cb val val_len type enforce_snaplen mem = .error (rc, d)) :
    rc ≠ PPM_SUCCESS := by
  unfold val_to_ring_payload at h
  split at h
  · unfold charbuf_payload at h; split_ifs at h
  · unfold charbuf_payload at h; split_ifs at h
  · unfold charbuf_payload at h; split_ifs at h
  · unfold bytebuf_payload bytebuf_read_payload at h
    simp only at h
    split_ifs at h <;> simp only [Except.error.injEq, Prod.mk.injEq] at h <;>
      (rw [← h.1]; decide)
  · unfold sockaddr_payload at h
    split_ifs at h
    simp only [Except.error.injEq, Prod.mk.injEq] at h
    rw [← h.1]; decide
  · unfold sockaddr_payload at h
    split_ifs at h
    simp only [Except.error.injEq, Prod.mk.injEq] at h
    rw [← h.1]; decide
  · unfold sockaddr_payload at h
    split_ifs at h
    simp only [Except.error.injEq, Prod.mk.injEq] at h
    rw [← h.1]; decide
  · unfold fixed_payload at h
    split at h
    · simp only [reduceCtorEq] at h
    · simp only [Except.error.injEq, Prod.mk.injEq] at h
      rw [← h.1]; decide

/-- The state that `__bpf_val_to_ring` returns with `PPM_SUCCESS`, from the
state `d` and the payload length `len` at the end of the `switch`. -/
theorem val_to_ring_of_payload (c : driver_consts) (data : filler_data) (val val_len : Nat)
    (type : ppm_param_type) (dyn_idx : Nat) (enforce_snaplen : Bool) (mem : read_memory)
    (len : Nat) (d : filler_data)
    (hcur : (write_dyn_idx c data dyn_idx).curoff ≤ c.SCRATCH_SIZE_HALF)
    (hp : val_to_ring_payload c (write_dyn_idx c data dyn_idx)
      (Nat.land (write_dyn_idx c data dyn_idx).curoff c.SCRATCH_SIZE_HALF) val val_len type
      enforce_snaplen mem = .ok (len, d)) :
    __bpf_val_to_ring c data val val_len type dyn_idx enforce_snaplen mem =
      if (len_dyn_of dyn_idx + len) % 4294967296 > c.PPM_MAX_ARG_SIZE then
        (PPM_FAILURE_FRAME_SCRATCH_MAP_FULL, d)
      else
        (PPM_SUCCESS, { d with
          arg_lens := fixup_evt_arg_len d.arg_lens d.curarg
            ((len_dyn_of dyn_idx + len) % 4294967296)
          curoff := d.curoff + len
          len := d.len + len
          curarg_already_on_frame := false
          curarg := d.curarg + 1 }) := by
  have h0 : data.curoff ≤ (write_dyn_idx c data dyn_idx).curoff := by
    unfold write_dyn_idx
    split <;> simp
  unfold __bpf_val_to_ring
  simp only
  rw [if_neg (by omega), if_neg (by omega), hp]

theorem val_to_ring_success (c : driver_consts) (data : filler_data) (val val_len : Nat)
    (type : ppm_param_type) (dyn_idx : Nat) (enforce_snaplen : Bool) (mem : read_memory)
    (h : (__bpf_val_to_ring c data val val_len type dyn_idx enforce_snaplen mem).1
      = PPM_SUCCESS) :
    data.curoff ≤ c.SCRATCH_SIZE_HALF ∧
    (write_dyn_idx c data dyn_idx).curoff ≤ c.SCRATCH_SIZE_HALF ∧
    ∃ len d, val_to_ring_payload c (write_dyn_idx c data dyn_idx)
        (Nat.land (write_dyn_idx c data dyn_idx).curoff c.SCRATCH_SIZE_HALF) val val_len type
        enforce_snaplen mem = .ok (len, d) ∧
      (len_dyn_of dyn_idx + len) % 4294967296 ≤ c.PPM_MAX_ARG_SIZE ∧
      __bpf_val_to_ring c data val val_len type dyn_idx enforce_snaplen mem =
        (PPM_SUCCESS, { d with
          arg_lens := fixup_evt_arg_len d.arg_lens d.curarg
            ((len_dyn_of dyn_idx + len) % 4294967296)
          curoff := d.curoff + len
          len := d.len + len
          curarg_already_on_frame := false
          curarg := d.curarg + 1 }) := by
  by_cases hc0 : data.curoff > c.SCRATCH_SIZE_HALF
  · unfold __bpf_val_to_ring at h
    rw [if_pos hc0] at h
    simp only [reduceCtorEq] at h
  by_cases hc1 : (write_dyn_idx c data dyn_idx).curoff > c.SCRATCH_SIZE_HALF
  · unfold __bpf_val_to_ring at h
    simp only at h
    rw [if_neg hc0, if_pos hc1] at h
    simp only [reduceCtorEq] at h
  refine ⟨by omega, by omega, ?_⟩
  cases hp : val_to_ring_payload c (write_dyn_idx c data dyn_idx)
      (Nat.land (write_dyn_idx c data dyn_idx).curoff c.SCRATCH_SIZE_HALF) val val_len type
      enforce_snaplen mem with
  | error r =>
    obtain ⟨rc, d⟩ := r
    have hne := val_to_ring_payload_error_rc _ _ _ _ _ _ _ _ _ _ hp
    unfold __bpf_val_to_ring at h
    simp only at h
    rw [if_neg hc0, if_neg hc1, hp] at h
    exact absurd h hne
  | ok r =>
    obtain ⟨len, d⟩ := r
    have heq := val_to_ring_of_payload c data val val_len type dyn_idx enforce_snaplen mem
      len d (by omega) hp
    by_cases hmax : (len_dyn_of dyn_idx + len) % 4294967296 > c.PPM_MAX_ARG_SIZE
    · rw [heq, if_pos hmax] at h
      simp only [reduceCtorEq] at h
    · rw [if_neg hmax] at heq
      exact ⟨len, d, rfl, by omega, heq⟩

theorem read_string_length (m : Nat → Option Nat) (limit src : Nat) (l : List Nat)
    (h : read_string m src limit = some l) : l.length ≤ limit := by
  induction limit generalizing src l with
  | zero =>
    simp only [read_string, Option.some.injEq] at h
    rw [← h]; simp
  | succ n ih =>
    rw [read_string] at h
    split at h
    · simp at h
    · split_ifs at h
      · simp only [Option.some.injEq] at h
        rw [← h]; simp
      · split at h
        · simp at h
        · rename_i rest hrest
          simp only [Option.some.injEq] at h
          have := ih _ _ hrest
          rw [← h]; simp; omega

theorem bpf_probe_read_str_le (m : Nat → Option Nat) (buf : Nat → Nat) (dst size src : Nat) :
    (bpf_probe_read_str m buf dst size src).1 ≤ size := by
  unfold bpf_probe_read_str
  split_ifs with h0
  · simp [h0]
  · split
    · rename_i bytes hb
      have := read_string_length m _ _ _ hb
      simp only
      omega
    · simp only
      omega

theorem charbuf_read_le (c : driver_consts) (data : filler_data) (cb val : Nat)
    (mem : read_memory) : (charbuf_read c data cb val mem).1 ≤ c.PPM_MAX_ARG_SIZE := by
  unfold charbuf_read
  split_ifs
  · exact bpf_probe_read_str_le _ _ _ _ _
  · simp only
    omega

/-- The payload length at the end of the `switch` is at most
`PPM_MAX_ARG_SIZE`, at most 8, or the low 32 bits of `val_len`. -/
theorem val_to_ring_payload_len (c : driver_consts) (data : filler_data)
    (cb val val_len : Nat) (type : ppm_param_type) (enforce_snaplen : Bool) (mem : read_memory)
    (len : Nat) (d : filler_data)
    (h : val_to_ring_payload c data cb val val_len type enforce_snaplen mem = .ok (len, d)) :
    len ≤ c.PPM_MAX_ARG_SIZE ∨ len ≤ 8 ∨ len = val_len % 4294967296 := by
  have hchar : ∀ l d, charbuf_payload c data cb val val_len mem = .ok (l, d) →
      l ≤ c.PPM_MAX_ARG_SIZE ∨ l ≤ 8 ∨ l = val_len % 4294967296 := by
    intro l d h
    unfold charbuf_payload at h
    have hle := charbuf_read_le c data cb val mem
    split_ifs at h with h1 h2 <;> simp only [Except.ok.injEq, Prod.mk.injEq] at h
    · left
      rw [← h.1]
      have : (charbuf_read c data cb val mem).1.toNat ≤ c.PPM_MAX_ARG_SIZE := by omega
      exact le_trans (Nat.mod_le _ _) this
    · right; left; omega
    · right; right; exact h.1.symm
  have hsock : ∀ l d, sockaddr_payload data val val_len = .ok (l, d) →
      l ≤ c.PPM_MAX_ARG_SIZE ∨ l ≤ 8 ∨ l = val_len % 4294967296 := by
    intro l d h
    unfold sockaddr_payload at h
    split_ifs at h <;> simp only [Except.ok.injEq, Prod.mk.injEq] at h
    · right; right; exact h.1.symm
    · right; left; omega
  have hrd : ∀ dd ll l d, bytebuf_read_payload c dd val ll mem = .ok (l, d) →
      l ≤ c.PPM_MAX_ARG_SIZE := by
    intro dd ll l d h
    unfold bytebuf_read_payload at h
    simp only at h
    split_ifs at h <;> simp only [Except.ok.injEq, Prod.mk.injEq] at h <;> omega
  unfold val_to_ring_payload at h
  split at h
  · exact hchar _ _ h
  · exact hchar _ _ h
  · exact hchar _ _ h
  · left
    unfold bytebuf_payload at h
    simp only at h
    split_ifs at h
    · simp only [Except.ok.injEq, Prod.mk.injEq] at h; omega
    · exact hrd _ _ _ _ h
    · exact hrd _ _ _ _ h
    · exact hrd _ _ _ _ h
    · simp only [Except.ok.injEq, Prod.mk.injEq] at h; omega
  · exact hsock _ _ h
  · exact hsock _ _ h
  · exact hsock _ _ h
  · right; left
    unfold fixed_payload at h
    split at h
    · rename_i w hw
      simp only [Except.ok.injEq, Prod.mk.injEq] at h
      rw [← h.1]
      unfold fixed_width at hw
      split at hw <;> simp only [Option.some.injEq, reduceCtorEq] at hw <;> omega
    · simp only [reduceCtorEq] at h

theorem read_bytes_of_readable (m : Nat → Option Nat) (h : ∀ a, ∃ b, m a = some b)
    (n src : Nat) : ∃ l, read_bytes m src n = some l := by
  induction n generalizing src with
  | zero => exact ⟨[], rfl⟩
  | succ n ih =>
    obtain ⟨b, hb⟩ := h src
    obtain ⟨l, hl⟩ := ih (src + 1)
    exact ⟨b % 256 :: l, by rw [read_bytes, hb, hl]⟩

theorem read_val_into_of_readable (c : driver_consts) (data : filler_data)
    (cb val read_size : Nat) (mem : read_memory)
    (h : ∀ a, ∃ b, memory_of data mem a = some b)
    (hz : c.BPF_FORBIDS_ZERO_ACCESS = false ∨ read_size ≠ 0) :
    (__bpf_read_val_into c data cb val read_size mem).1 = 0 := by
  unfold __bpf_read_val_into bpf_probe_read
  split_ifs with h1 h2
  · rcases hz with hz | hz
    · rw [hz] at h1; simp at h1
    · exact absurd h2 hz
  · obtain ⟨l, hl⟩ := read_bytes_of_readable _ h
      (Nat.land (read_size - 1) c.SCRATCH_SIZE_HALF + 1) val
    rw [hl]
  · obtain ⟨l, hl⟩ := read_bytes_of_readable _ h (Nat.land read_size c.SCRATCH_SIZE_HALF) val
    rw [hl]

theorem payload_read_rc_of_readable (c : driver_consts) (data : filler_data)
    (val len : Nat) (mem : read_memory)
    (h : ∀ a, ∃ b, memory_of data mem a = some b)
    (hz : c.BPF_FORBIDS_ZERO_ACCESS = false) :
    payload_read_rc c data val len mem = 0 := by
  unfold payload_read_rc
  exact read_val_into_of_readable c data _ val _ mem h (Or.inl hz)

theorem val_to_ring_payload_bytebuf (c : driver_consts) (data : filler_data)
    (cb val val_len : Nat) (enforce_snaplen : Bool) (mem : read_memory) :
    val_to_ring_payload c data cb val val_len PT_BYTEBUF enforce_snaplen mem
      = bytebuf_payload c data cb val val_len enforce_snaplen mem := rfl

/-- The `PT_BYTEBUF` case without snaplen for a declared length above
`PPM_MAX_ARG_SIZE` and below `2^32`: the payload length is the cap. -/
theorem bytebuf_over_length (c : driver_consts) (d : filler_data) (val val_len : Nat)
    (mem : read_memory) (hcur : d.curoff ≤ c.SCRATCH_SIZE_HALF) (hval : val ≠ 0)
    (h1 : c.PPM_MAX_ARG_SIZE < val_len) (h2 : val_len < 4294967296)
    (hread : d.curarg_already_on_frame = false →
      payload_read_rc c d val (val_len % 4294967296) mem = 0) :
    ∃ d2, bytebuf_payload c d (Nat.land d.curoff c.SCRATCH_SIZE_HALF) val val_len false mem
      = .ok (c.PPM_MAX_ARG_SIZE, d2) := by
  have hmod : val_len % 4294967296 = val_len := Nat.mod_eq_of_lt h2
  have hne : val_len ≠ 0 := by omega
  unfold bytebuf_payload
  simp only [Bool.false_eq_true, if_false]
  rw [if_pos (Or.inr ⟨hval, hne⟩)]
  unfold bytebuf_read_payload
  simp only
  rw [hmod, if_pos h1]
  cases hf : d.curarg_already_on_frame with
  | true => exact ⟨d, by simp⟩
  | false =>
    have hr := hread hf
    unfold payload_read_rc at hr
    rw [hmod, if_pos h1] at hr
    simp only [Bool.not_false, if_true]
    rw [if_neg (by omega), if_neg (by rw [hr]; simp)]
    exact ⟨_, rfl⟩

theorem write_dyn_idx_none (c : driver_consts) (data : filler_data) (dyn_idx : Nat)
    (h : dyn_idx % 256 = 255) : write_dyn_idx c data dyn_idx = data := by
  unfold write_dyn_idx
  rw [if_neg (by simp [h])]

theorem len_dyn_of_none (dyn_idx : Nat) (h : dyn_idx % 256 = 255) : len_dyn_of dyn_idx = 0 := by
  unfold len_dyn_of
  rw [if_neg (by simp [h])]

theorem len_dyn_of_some (dyn_idx : Nat) (h : dyn_idx % 256 ≠ 255) : len_dyn_of dyn_idx = 1 := by
  unfold len_dyn_of
  rw [if_pos h]

theorem len_dyn_of_le (dyn_idx : Nat) : len_dyn_of dyn_idx ≤ 1 := by
  unfold len_dyn_of
  split <;> omega

theorem write_dyn_idx_fields (c : driver_consts) (data : filler_data) (dyn_idx : Nat) :
    (write_dyn_idx c data dyn_idx).curoff = data.curoff + len_dyn_of dyn_idx ∧
    (write_dyn_idx c data dyn_idx).len = data.len + len_dyn_of dyn_idx ∧
    (write_dyn_idx c data dyn_idx).curarg = data.curarg ∧
    (write_dyn_idx c data dyn_idx).arg_lens = data.arg_lens ∧
    (write_dyn_idx c data dyn_idx).curarg_already_on_frame = data.curarg_already_on_frame ∧
    (write_dyn_idx c data dyn_idx).user_mem = data.user_mem ∧
    (write_dyn_idx c data dyn_idx).kernel_mem = data.kernel_mem := by
  unfold write_dyn_idx len_dyn_of
  split <;> simp

theorem same_but_buf_fields (d1 d2 : filler_data) (h : same_but_buf d1 d2) :
    d2.curoff = d1.curoff ∧ d2.len = d1.len ∧ d2.curarg = d1.curarg ∧
    d2.arg_lens = d1.arg_lens ∧
    d2.curarg_already_on_frame = d1.curarg_already_on_frame := by
  unfold same_but_buf at h
  rw [h]
  exact ⟨rfl, rfl, rfl, rfl, rfl⟩

/-! ## Claims C14 to C20: the encoder -/

/-- Claim C14 as stated fails with a dynamic-index byte: a readable byte buffer
of declared length 65001 (`PPM_MAX_ARG_SIZE` is 65000) encoded without snaplen
and with `dyn_idx = 0` is cut to 65000 bytes, the check of
`len_dyn + len > PPM_MAX_ARG_SIZE` fails and the call returns
`PPM_FAILURE_FRAME_SCRATCH_MAP_FULL` without recording a length. -/
theorem bytebuf_over_length_with_dyn_idx_fails :
    (__bpf_val_to_ring upstream_consts readable_memory 100 65001 PT_BYTEBUF 0 false USER).1
      = PPM_FAILURE_FRAME_SCRATCH_MAP_FULL := by
  have hr : ∀ a, ∃ b, memory_of (write_dyn_idx upstream_consts readable_memory 0) USER a
      = some b := fun a => ⟨7, rfl⟩
  obtain ⟨d2, hd2⟩ := bytebuf_over_length upstream_consts
    (write_dyn_idx upstream_consts readable_memory 0) 100 65001 USER (by decide) (by decide)
    (by decide) (by decide)
    (fun _ => payload_read_rc_of_readable _ _ _ _ _ hr rfl)
  have hp : val_to_ring_payload upstream_consts (write_dyn_idx upstream_consts readable_memory 0)
      (Nat.land (write_dyn_idx upstream_consts readable_memory 0).curoff
        upstream_consts.SCRATCH_SIZE_HALF) 100 65001 PT_BYTEBUF false USER
      = .ok (upstream_consts.PPM_MAX_ARG_SIZE, d2) := by
    rw [val_to_ring_payload_bytebuf]; exact hd2
  rw [val_to_ring_of_payload upstream_consts readable_memory 100 65001 PT_BYTEBUF 0 false USER
    _ d2 (by decide) hp]
  rw [if_pos (by decide)]

/-- Claim C14, amended: for a `PT_BYTEBUF` encode through `__bpf_val_to_ring`
with the cursor inside the window, no dynamic-index byte (`dyn_idx` is `0xFF`),
snaplen not enforced, a non-null source that is readable (when the value is
not already on the frame) and a declared length `val_len` above
`PPM_MAX_ARG_SIZE` and below `2^32`, the call succeeds, the length recorded at
the current argument is exactly `PPM_MAX_ARG_SIZE`, the cursor and the total
length advance by `PPM_MAX_ARG_SIZE` and `curarg` by one. -/
theorem bytebuf_over_length_cap (c : driver_consts) (data : filler_data) (val val_len : Nat)
    (dyn_idx : Nat) (mem : read_memory)
    (hcur : data.curoff ≤ c.SCRATCH_SIZE_HALF) (hdyn : dyn_idx % 256 = 255)
    (hval : val ≠ 0) (h1 : c.PPM_MAX_ARG_SIZE < val_len) (h2 : val_len < 4294967296)
    (hread : data.curarg_already_on_frame = false →
      payload_read_rc c data val (val_len % 4294967296) mem = 0) :
    (__bpf_val_to_ring c data val val_len PT_BYTEBUF dyn_idx false mem).1 = PPM_SUCCESS ∧
    (__bpf_val_to_ring c data val val_len PT_BYTEBUF dyn_idx false mem).2.arg_lens data.curarg
      = c.PPM_MAX_ARG_SIZE ∧
    (__bpf_val_to_ring c data val val_len PT_BYTEBUF dyn_idx false mem).2.curoff
      = data.curoff + c.PPM_MAX_ARG_SIZE ∧
    (__bpf_val_to_ring c data val val_len PT_BYTEBUF dyn_idx false mem).2.len
      = data.len + c.PPM_MAX_ARG_SIZE ∧
    (__bpf_val_to_ring c data val val_len PT_BYTEBUF dyn_idx false mem).2.curarg
      = data.curarg + 1 := by
  obtain ⟨d2, hd2⟩ := bytebuf_over_length c data val val_len mem hcur hval h1 h2 hread
  have hw := write_dyn_idx_none c data dyn_idx hdyn
  have hp : val_to_ring_payload c (write_dyn_idx c data dyn_idx)
      (Nat.land (write_dyn_idx c data dyn_idx).curoff c.SCRATCH_SIZE_HALF) val val_len
      PT_BYTEBUF false mem = .ok (c.PPM_MAX_ARG_SIZE, d2) := by
    rw [hw, val_to_ring_payload_bytebuf]; exact hd2
  have hf := same_but_buf_fields data d2
    ((bytebuf_payload_frame c data _ val val_len false mem).1 _ _ hd2)
  rw [val_to_ring_of_payload c data val val_len PT_BYTEBUF dyn_idx false mem _ d2
    (by rw [hw]; exact hcur) hp, len_dyn_of_none dyn_idx hdyn]
  have hm : (0 + c.PPM_MAX_ARG_SIZE) % 4294967296 = c.PPM_MAX_ARG_SIZE := by
    rw [Nat.zero_add]; exact Nat.mod_eq_of_lt (by omega)
  rw [hm, if_neg (by omega)]
  simp only [fixup_evt_arg_len, hf.1, hf.2.1, hf.2.2.1, if_true, and_self]

/-- Witness of `bytebuf_over_length_cap`: a readable buffer of declared
length 70000 at address 100, encoded with `dyn_idx = 0xFF`. -/
theorem bytebuf_over_length_cap_witness :
    (__bpf_val_to_ring upstream_consts readable_memory 100 70000 PT_BYTEBUF 255 false USER).1
      = PPM_SUCCESS ∧
    (__bpf_val_to_ring upstream_consts readable_memory 100 70000 PT_BYTEBUF 255 false
      USER).2.arg_lens readable_memory.curarg = upstream_consts.PPM_MAX_ARG_SIZE ∧
    (__bpf_val_to_ring upstream_consts readable_memory 100 70000 PT_BYTEBUF 255 false
      USER).2.curoff = readable_memory.curoff + upstream_consts.PPM_MAX_ARG_SIZE ∧
    (__bpf_val_to_ring upstream_consts readable_memory 100 70000 PT_BYTEBUF 255 false
      USER).2.len = readable_memory.len + upstream_consts.PPM_MAX_ARG_SIZE ∧
    (__bpf_val_to_ring upstream_consts readable_memory 100 70000 PT_BYTEBUF 255 false
      USER).2.curarg = readable_memory.curarg + 1 :=
  bytebuf_over_length_cap upstream_consts readable_memory 100 70000 255 USER (by decide)
    (by decide) (by decide) (by decide) (by decide)
    (fun _ => payload_read_rc_of_readable _ _ _ _ _ (fun _ => ⟨7, rfl⟩) rfl)

theorem push_to_ring_full (c : driver_consts) (data : filler_data) (w val : Nat)
    (h : data.curoff > c.SCRATCH_SIZE_HALF) :
    push_to_ring c data w val = (PPM_FAILURE_FRAME_SCRATCH_MAP_FULL, data) := by
  unfold push_to_ring
  rw [if_pos h]

/-- Claim C17: in every state whose cursor `tail_ctx.curoff` is greater than
`SCRATCH_SIZE_HALF`, `__bpf_val_to_ring` (for all arguments) and each of
`bpf_push_s64/u64/s32/u32/s16/u16/s8/u8_to_ring` (for every value) returns
`PPM_FAILURE_FRAME_SCRATCH_MAP_FULL` and leaves the whole state (buffer,
`curoff`, `len`, `curarg`, length prefixes) as it was. -/
theorem buffer_full_no_change (c : driver_consts) (data : filler_data)
    (h : data.curoff > c.SCRATCH_SIZE_HALF) (val val_len : Nat) (type : ppm_param_type)
    (dyn_idx : Nat) (enforce_snaplen : Bool) (mem : read_memory) (sval : Int) (uval : Nat) :
    __bpf_val_to_ring c data val val_len type dyn_idx enforce_snaplen mem
      = (PPM_FAILURE_FRAME_SCRATCH_MAP_FULL, data) ∧
    bpf_push_s64_to_ring c data sval = (PPM_FAILURE_FRAME_SCRATCH_MAP_FULL, data) ∧
    bpf_push_u64_to_ring c data uval = (PPM_FAILURE_FRAME_SCRATCH_MAP_FULL, data) ∧
    bpf_push_s32_to_ring c data sval = (PPM_FAILURE_FRAME_SCRATCH_MAP_FULL, data) ∧
    bpf_push_u32_to_ring c data uval = (PPM_FAILURE_FRAME_SCRATCH_MAP_FULL, data) ∧
    bpf_push_s16_to_ring c data sval = (PPM_FAILURE_FRAME_SCRATCH_MAP_FULL, data) ∧
    bpf_push_u16_to_ring c data uval = (PPM_FAILURE_FRAME_SCRATCH_MAP_FULL, data) ∧
    bpf_push_s8_to_ring c data sval = (PPM_FAILURE_FRAME_SCRATCH_MAP_FULL, data) ∧
    bpf_push_u8_to_ring c data uval = (PPM_FAILURE_FRAME_SCRATCH_MAP_FULL, data) := by
  refine ⟨?_, push_to_ring_full c data _ _ h, push_to_ring_full c data _ _ h,
    push_to_ring_full c data _ _ h, push_to_ring_full c data _ _ h,
    push_to_ring_full c data _ _ h, push_to_ring_full c data _ _ h,
    push_to_ring_full c data _ _ h, push_to_ring_full c data _ _ h⟩
  unfold __bpf_val_to_ring
  rw [if_pos h]

/-- Witness of `buffer_full_no_change`: the state `cursor_past_half` (cursor
131072), a `PT_UINT32` encode with a dynamic-index byte and the pushes of -1
and 5. -/
theorem buffer_full_no_change_witness :
    __bpf_val_to_ring upstream_consts cursor_past_half 9 0 PT_UINT32 0 false KERNEL
      = (PPM_FAILURE_FRAME_SCRATCH_MAP_FULL, cursor_past_half) ∧
    bpf_push_s64_to_ring upstream_consts cursor_past_half (-1)
      = (PPM_FAILURE_FRAME_SCRATCH_MAP_FULL, cursor_past_half) ∧
    bpf_push_u64_to_ring upstream_consts cursor_past_half 5
      = (PPM_FAILURE_FRAME_SCRATCH_MAP_FULL, cursor_past_half) ∧
    bpf_push_s32_to_ring upstream_consts cursor_past_half (-1)
      = (PPM_FAILURE_FRAME_SCRATCH_MAP_FULL, cursor_past_half) ∧
    bpf_push_u32_to_ring upstream_consts cursor_past_half 5
      = (PPM_FAILURE_FRAME_SCRATCH_MAP_FULL, cursor_past_half) ∧
    bpf_push_s16_to_ring upstream_consts cursor_past_half (-1)
      = (PPM_FAILURE_FRAME_SCRATCH_MAP_FULL, cursor_past_half) ∧
    bpf_push_u16_to_ring upstream_consts cursor_past_half 5
      = (PPM_FAILURE_FRAME_SCRATCH_MAP_FULL, cursor_past_half) ∧
    bpf_push_s8_to_ring upstream_consts cursor_past_half (-1)
      = (PPM_FAILURE_FRAME_SCRATCH_MAP_FULL, cursor_past_half) ∧
    bpf_push_u8_to_ring upstream_consts cursor_past_half 5
      = (PPM_FAILURE_FRAME_SCRATCH_MAP_FULL, cursor_past_half) :=
  buffer_full_no_change upstream_consts cursor_past_half (by decide) 9 0 PT_UINT32 0 false
    KERNEL (-1) 5

/-- Success of `__bpf_val_to_ring`: the cursor on entry and after the call,
when the sum `len_dyn + len` does not reach `2^32`. -/
theorem val_to_ring_success_cursor (c : driver_consts) (data : filler_data) (val val_len : Nat)
    (type : ppm_param_type) (dyn_idx : Nat) (enforce_snaplen : Bool) (mem : read_memory)
    (hmax32 : c.PPM_MAX_ARG_SIZE + 1 < 4294967296)
    (hnw : dyn_idx % 256 = 255 ∨ val_len % 4294967296 < 4294967295)
    (h : (__bpf_val_to_ring c data val val_len type dyn_idx enforce_snaplen mem).1
      = PPM_SUCCESS) :
    data.curoff ≤ c.SCRATCH_SIZE_HALF ∧
    (__bpf_val_to_ring c data val val_len type dyn_idx enforce_snaplen mem).2.curoff
      ≤ data.curoff + (c.PPM_MAX_ARG_SIZE ⊔ 8) ∧
    (__bpf_val_to_ring c data val val_len type dyn_idx enforce_snaplen mem).2.curoff
      ≤ c.SCRATCH_SIZE_HALF + c.PPM_MAX_ARG_SIZE := by
  obtain ⟨h0, h1, len, d, hp, hle, heq⟩ := val_to_ring_success c data val val_len type
    dyn_idx enforce_snaplen mem h
  have hf := same_but_buf_fields _ d ((val_to_ring_payload_frame c _ _ val val_len type
    enforce_snaplen mem).1 _ _ hp)
  have hw := write_dyn_idx_fields c data dyn_idx
  have hlen := val_to_ring_payload_len c _ _ val val_len type enforce_snaplen mem len d hp
  have hd1 := len_dyn_of_le dyn_idx
  have hsum : len_dyn_of dyn_idx + len < 4294967296 := by
    rcases hlen with hl | hl | hl
    · omega
    · omega
    · rcases hnw with hn | hn
      · rw [len_dyn_of_none dyn_idx hn]; omega
      · omega
  rw [Nat.mod_eq_of_lt hsum] at hle
  rw [heq]
  simp only [hf.1, hw.1]
  refine ⟨h0, ?_, ?_⟩
  · have : c.PPM_MAX_ARG_SIZE ≤ c.PPM_MAX_ARG_SIZE ⊔ 8 := le_sup_left
    omega
  · omega

theorem push_to_ring_success_cursor (c : driver_consts) (data : filler_data) (w val : Nat)
    (hw : w ≤ 8) (hmax8 : 8 ≤ c.PPM_MAX_ARG_SIZE)
    (h : (push_to_ring c data w val).1 = PPM_SUCCESS) :
    data.curoff ≤ c.SCRATCH_SIZE_HALF ∧
    (push_to_ring c data w val).2.curoff ≤ c.SCRATCH_SIZE_HALF + c.PPM_MAX_ARG_SIZE := by
  unfold push_to_ring at h ⊢
  by_cases hc : data.curoff > c.SCRATCH_SIZE_HALF
  · rw [if_pos hc] at h
    simp only [reduceCtorEq] at h
  · rw [if_neg hc]
    simp only
    omega

/-- One call of the encoder interface that returns `PPM_SUCCESS`: the cursor on
entry and after the call. -/
theorem apply_op_success_cursor (c : driver_consts) (data : filler_data) (op : encoder_op)
    (hmax8 : 8 ≤ c.PPM_MAX_ARG_SIZE) (hmax32 : c.PPM_MAX_ARG_SIZE + 1 < 4294967296)
    (hnw : op_no_wrap op) (h : (apply_op c data op).1 = PPM_SUCCESS) :
    data.curoff ≤ c.SCRATCH_SIZE_HALF ∧
    (apply_op c data op).2.curoff ≤ c.SCRATCH_SIZE_HALF + c.PPM_MAX_ARG_SIZE := by
  have core : ∀ val val_len type dyn_idx enforce_snaplen mem,
      (dyn_idx % 256 = 255 ∨ val_len % 4294967296 < 4294967295) →
      (__bpf_val_to_ring c data val val_len type dyn_idx enforce_snaplen mem).1 = PPM_SUCCESS →
      data.curoff ≤ c.SCRATCH_SIZE_HALF ∧
      (__bpf_val_to_ring c data val val_len type dyn_idx enforce_snaplen mem).2.curoff
        ≤ c.SCRATCH_SIZE_HALF + c.PPM_MAX_ARG_SIZE := by
    intro val val_len type dyn_idx enforce_snaplen mem hn hs
    have := val_to_ring_success_cursor c data val val_len type dyn_idx enforce_snaplen mem
      hmax32 hn hs
    exact ⟨this.1, this.2.2⟩
  cases op with
  | val_to_ring val val_len type dyn_idx enforce_snaplen mem =>
    exact core _ _ _ _ _ _ hnw h
  | ring val =>
    change (bpf_val_to_ring c data val).1 = PPM_SUCCESS at h
    change data.curoff ≤ c.SCRATCH_SIZE_HALF ∧
      (bpf_val_to_ring c data val).2.curoff ≤ c.SCRATCH_SIZE_HALF + c.PPM_MAX_ARG_SIZE
    unfold bpf_val_to_ring at h ⊢
    split_ifs at h ⊢ with hc
    exact core _ _ _ _ _ _ (Or.inl rfl) h
  | ring_len val val_len =>
    change (bpf_val_to_ring_len c data val val_len).1 = PPM_SUCCESS at h
    change data.curoff ≤ c.SCRATCH_SIZE_HALF ∧
      (bpf_val_to_ring_len c data val val_len).2.curoff ≤ c.SCRATCH_SIZE_HALF + c.PPM_MAX_ARG_SIZE
    unfold bpf_val_to_ring_len at h ⊢
    split_ifs at h ⊢ with hc
    exact core _ _ _ _ _ _ (Or.inl rfl) h
  | ring_mem val mem =>
    change (bpf_val_to_ring_mem c data val mem).1 = PPM_SUCCESS at h
    change data.curoff ≤ c.SCRATCH_SIZE_HALF ∧
      (bpf_val_to_ring_mem c data val mem).2.curoff ≤ c.SCRATCH_SIZE_HALF + c.PPM_MAX_ARG_SIZE
    unfold bpf_val_to_ring_mem at h ⊢
    split_ifs at h ⊢ with hc
    exact core _ _ _ _ _ _ (Or.inl rfl) h
  | ring_dyn val type dyn_idx => exact core _ _ _ _ _ _ (Or.inr (by decide)) h
  | ring_type val type => exact core _ _ _ _ _ _ (Or.inl rfl) h
  | ring_type_mem val type mem => exact core _ _ _ _ _ _ (Or.inl rfl) h
  | push_s64 val => exact push_to_ring_success_cursor c data 8 _ (by omega) hmax8 h
  | push_u64 val => exact push_to_ring_success_cursor c data 8 _ (by omega) hmax8 h
  | push_s32 val => exact push_to_ring_success_cursor c data 4 _ (by omega) hmax8 h
  | push_u32 val => exact push_to_ring_success_cursor c data 4 _ (by omega) hmax8 h
  | push_s16 val => exact push_to_ring_success_cursor c data 2 _ (by omega) hmax8 h
  | push_u16 val => exact push_to_ring_success_cursor c data 2 _ (by omega) hmax8 h
  | push_s8 val => exact push_to_ring_success_cursor c data 1 _ (by omega) hmax8 h
  | push_u8 val => exact push_to_ring_success_cursor c data 1 _ (by omega) hmax8 h

/-- Claim C18 as stated fails: from the cursor `SCRATCH_SIZE_HALF` = 131071,
inside the window, `bpf_push_u64_to_ring` returns `PPM_SUCCESS` and leaves the
cursor at 131079, past the window. -/
theorem push_moves_cursor_past_half :
    cursor_at_half.curoff ≤ upstream_consts.SCRATCH_SIZE_HALF ∧
    (bpf_push_u64_to_ring upstream_consts cursor_at_half 5).1 = PPM_SUCCESS ∧
    (bpf_push_u64_to_ring upstream_consts cursor_at_half 5).2.curoff = 131079 ∧
    ¬ (bpf_push_u64_to_ring upstream_consts cursor_at_half 5).2.curoff
      ≤ upstream_consts.SCRATCH_SIZE_HALF := by
  decide

/-- Claim C18, amended: in every sequence of encoder operations (the direct
calls of `__bpf_val_to_ring` with a length sum that does not reach `2^32`),
each operation that returns `PPM_SUCCESS` was entered with the cursor
`tail_ctx.curoff <= SCRATCH_SIZE_HALF` and leaves it at most at
`SCRATCH_SIZE_HALF + PPM_MAX_ARG_SIZE`; the cursor is tested on entry, not
after the advance. -/
theorem cursor_after_success (c : driver_consts) (data : filler_data) (ops : List encoder_op)
    (op : encoder_op) (hmax8 : 8 ≤ c.PPM_MAX_ARG_SIZE)
    (hmax32 : c.PPM_MAX_ARG_SIZE + 1 < 4294967296) (hnw : op_no_wrap op)
    (h : (apply_op c (run_ops c data ops) op).1 = PPM_SUCCESS) :
    (run_ops c data ops).curoff ≤ c.SCRATCH_SIZE_HALF ∧
    (apply_op c (run_ops c data ops) op).2.curoff
      ≤ c.SCRATCH_SIZE_HALF + c.PPM_MAX_ARG_SIZE :=
  apply_op_success_cursor c (run_ops c data ops) op hmax8 hmax32 hnw h

/-- Witness of `cursor_after_success`: after a push of 8 bytes and a
`PT_UINT16` encode with a dynamic-index byte, a push of 4 bytes. -/
theorem cursor_after_success_witness :
    (run_ops upstream_consts {}
        [encoder_op.push_u64 5, encoder_op.ring_dyn 9 PT_UINT16 0]).curoff
      ≤ upstream_consts.SCRATCH_SIZE_HALF ∧
    (apply_op upstream_consts
        (run_ops upstream_consts {} [encoder_op.push_u64 5, encoder_op.ring_dyn 9 PT_UINT16 0])
        (encoder_op.push_s32 (-1))).2.curoff
      ≤ upstream_consts.SCRATCH_SIZE_HALF + upstream_consts.PPM_MAX_ARG_SIZE :=
  cursor_after_success upstream_consts {}
    [encoder_op.push_u64 5, encoder_op.ring_dyn 9 PT_UINT16 0] (encoder_op.push_s32 (-1))
    (by decide) (by decide) trivial (by decide)

/-- The `switch` ends with payload length 0 when the value is unavailable. -/
theorem val_to_ring_payload_unavailable (c : driver_consts) (d : filler_data)
    (val val_len : Nat) (type : ppm_param_type) (enforce_snaplen : Bool) (mem : read_memory)
    (hframe : d.curarg_already_on_frame = false) (hcur : d.curoff ≤ c.SCRATCH_SIZE_HALF)
    (hun : value_unavailable c d val val_len type enforce_snaplen mem) :
    ∃ d2, val_to_ring_payload c d (Nat.land d.curoff c.SCRATCH_SIZE_HALF) val val_len type
      enforce_snaplen mem = .ok (0, d2) := by
  have hchar : (val = 0 ∨
      (charbuf_read c d (Nat.land d.curoff c.SCRATCH_SIZE_HALF) val mem).1 < 0) →
      ∃ d2, charbuf_payload c d (Nat.land d.curoff c.SCRATCH_SIZE_HALF) val val_len mem
        = .ok (0, d2) := by
    intro h
    have hneg : ¬ (charbuf_read c d (Nat.land d.curoff c.SCRATCH_SIZE_HALF) val mem).1 ≥ 0 := by
      rcases h with h | h
      · unfold charbuf_read
        rw [if_neg (by simp [h])]
        simp
      · omega
    unfold charbuf_payload
    rw [hframe]
    simp only [Bool.not_false, if_true]
    rw [if_neg hneg]
    exact ⟨_, rfl⟩
  rcases hun with ⟨ht, h⟩ | ⟨ht, h⟩
  · rcases ht with ht | ht | ht <;> subst ht <;> exact hchar h
  · subst ht
    rw [val_to_ring_payload_bytebuf]
    unfold bytebuf_payload
    have hnf : (!d.curarg_already_on_frame) = true := by rw [hframe]; rfl
    by_cases hv : val = 0
    · rw [if_neg (by simp [hv, hframe])]
      exact ⟨_, rfl⟩
    by_cases hl : val_len = 0
    · rw [if_neg (by simp [hl, hframe])]
      exact ⟨_, rfl⟩
    rw [if_pos (Or.inr ⟨hv, hl⟩)]
    have hread : ∀ (d1 : filler_data) (len : Nat), d1.curarg_already_on_frame = false →
        d1.curoff ≤ c.SCRATCH_SIZE_HALF → payload_read_rc c d1 val len mem ≠ 0 →
        ∃ d2, bytebuf_read_payload c d1 val len mem = .ok (0, d2) := by
      intro d1 len hf1 hc1 hrc
      unfold payload_read_rc at hrc
      unfold bytebuf_read_payload
      simp only [hf1, Bool.not_false, if_true]
      rw [if_neg (by omega), if_pos hrc]
      exact ⟨_, rfl⟩
    rcases h with h | h | ⟨he, h⟩ | ⟨he, h0, h⟩ | ⟨he, h⟩
    · exact absurd h hv
    · exact absurd h hl
    · subst he
      unfold lookahead_read at h
      simp only [if_true]
      rw [if_pos hnf, if_pos h]
      exact ⟨_, rfl⟩
    · subst he
      unfold lookahead_read at h h0
      simp only [if_true]
      rw [if_pos hnf, if_neg (by rw [h0]; simp)]
      exact hread _ _ hframe hcur h
    · subst he
      simp only [Bool.false_eq_true, if_false]
      exact hread _ _ hframe hcur h

/-- The result of `__bpf_val_to_ring` when the `switch` ends with the payload
length `len` and `len_dyn + len` is at most `PPM_MAX_ARG_SIZE`. -/
theorem val_to_ring_recorded (c : driver_consts) (data : filler_data) (val val_len : Nat)
    (type : ppm_param_type) (dyn_idx : Nat) (enforce_snaplen : Bool) (mem : read_memory)
    (len : Nat) (d : filler_data)
    (hcur : (write_dyn_idx c data dyn_idx).curoff ≤ c.SCRATCH_SIZE_HALF)
    (hp : val_to_ring_payload c (write_dyn_idx c data dyn_idx)
      (Nat.land (write_dyn_idx c data dyn_idx).curoff c.SCRATCH_SIZE_HALF) val val_len type
      enforce_snaplen mem = .ok (len, d))
    (hmax : len_dyn_of dyn_idx + len ≤ c.PPM_MAX_ARG_SIZE)
    (hlt : len_dyn_of dyn_idx + len < 4294967296) :
    (__bpf_val_to_ring c data val val_len type dyn_idx enforce_snaplen mem).1 = PPM_SUCCESS ∧
    (__bpf_val_to_ring c data val val_len type dyn_idx enforce_snaplen mem).2.arg_lens
      data.curarg = len_dyn_of dyn_idx + len ∧
    (__bpf_val_to_ring c data val val_len type dyn_idx enforce_snaplen mem).2.curoff
      = data.curoff + (len_dyn_of dyn_idx + len) ∧
    (__bpf_val_to_ring c data val val_len type dyn_idx enforce_snaplen mem).2.len
      = data.len + (len_dyn_of dyn_idx + len) ∧
    (__bpf_val_to_ring c data val val_len type dyn_idx enforce_snaplen mem).2.curarg
      = data.curarg + 1 := by
  have hf := same_but_buf_fields _ d ((val_to_ring_payload_frame c _ _ val val_len type
    enforce_snaplen mem).1 _ _ hp)
  have hw := write_dyn_idx_fields c data dyn_idx
  rw [val_to_ring_of_payload c data val val_len type dyn_idx enforce_snaplen mem len d hcur hp,
    Nat.mod_eq_of_lt hlt, if_neg (by omega)]
  simp only [hf.1, hf.2.1, hf.2.2.1, hf.2.2.2.1, hw.1, hw.2.1, hw.2.2.1, hw.2.2.2.1,
    fixup_evt_arg_len, if_true]
  refine ⟨trivial, trivial, ?_, ?_, trivial⟩ <;> omega

/-- Claim C19 as stated fails: from the cursor `SCRATCH_SIZE_HALF` = 131071,
inside the window, the encode of a `PT_CHARBUF` whose pointer is `NULL`, with
the dynamic-index byte 0, returns `PPM_FAILURE_FRAME_SCRATCH_MAP_FULL` and does
not advance `curarg`: the dynamic-index byte moved the cursor out of the
window. -/
theorem null_string_at_window_end_fails :
    cursor_at_half.curoff ≤ upstream_consts.SCRATCH_SIZE_HALF ∧
    cursor_at_half.curarg_already_on_frame = false ∧
    (__bpf_val_to_ring upstream_consts cursor_at_half 0 0 PT_CHARBUF 0 false USER).1
      = PPM_FAILURE_FRAME_SCRATCH_MAP_FULL ∧
    (__bpf_val_to_ring upstream_consts cursor_at_half 0 0 PT_CHARBUF 0 false USER).2.curarg
      = cursor_at_half.curarg := by
  decide

/-- Claim C19, amended: when the value is not already on the frame, the cursor
after the dynamic-index byte (if any) is still `<= SCRATCH_SIZE_HALF` and
`len_dyn <= PPM_MAX_ARG_SIZE`, an encode of an unavailable value (a string
whose pointer is `NULL` or whose read fails; a byte buffer whose pointer is
`NULL`, whose `val_len` is 0, whose lookahead read or payload read fails)
returns `PPM_SUCCESS`, records the payload length 0 (the length prefix is
`len_dyn`), advances `curoff` and `len` by `len_dyn` only and `curarg` by
one. -/
theorem unavailable_value_encodes_empty (c : driver_consts) (data : filler_data)
    (val val_len : Nat) (type : ppm_param_type) (dyn_idx : Nat) (enforce_snaplen : Bool)
    (mem : read_memory)
    (hframe : data.curarg_already_on_frame = false)
    (hcur : (write_dyn_idx c data dyn_idx).curoff ≤ c.SCRATCH_SIZE_HALF)
    (hmax : len_dyn_of dyn_idx ≤ c.PPM_MAX_ARG_SIZE)
    (hun : value_unavailable c (write_dyn_idx c data dyn_idx) val val_len type enforce_snaplen
      mem) :
    (__bpf_val_to_ring c data val val_len type dyn_idx enforce_snaplen mem).1 = PPM_SUCCESS ∧
    (__bpf_val_to_ring c data val val_len type dyn_idx enforce_snaplen mem).2.arg_lens
      data.curarg = len_dyn_of dyn_idx + 0 ∧
    (__bpf_val_to_ring c data val val_len type dyn_idx enforce_snaplen mem).2.curoff
      = data.curoff + (len_dyn_of dyn_idx + 0) ∧
    (__bpf_val_to_ring c data val val_len type dyn_idx enforce_snaplen mem).2.len
      = data.len + (len_dyn_of dyn_idx + 0) ∧
    (__bpf_val_to_ring c data val val_len type dyn_idx enforce_snaplen mem).2.curarg
      = data.curarg + 1 := by
  obtain ⟨d2, hp⟩ := val_to_ring_payload_unavailable c (write_dyn_idx c data dyn_idx) val
    val_len type enforce_snaplen mem
    ((write_dyn_idx_fields c data dyn_idx).2.2.2.2.1.trans hframe) hcur hun
  have := len_dyn_of_le dyn_idx
  exact val_to_ring_recorded c data val val_len type dyn_idx enforce_snaplen mem 0 d2 hcur hp
    (by omega) (by omega)

/-- Witness of `unavailable_value_encodes_empty`: a `PT_BYTEBUF` of declared
length 10 at the unreadable address 200 of `string_memory`, with the
dynamic-index byte 3 and snaplen not enforced. -/
theorem unavailable_value_encodes_empty_witness :
    (__bpf_val_to_ring upstream_consts string_memory 200 10 PT_BYTEBUF 3 false USER).1
      = PPM_SUCCESS ∧
    (__bpf_val_to_ring upstream_consts string_memory 200 10 PT_BYTEBUF 3 false USER).2.arg_lens
      string_memory.curarg = len_dyn_of 3 + 0 ∧
    (__bpf_val_to_ring upstream_consts string_memory 200 10 PT_BYTEBUF 3 false USER).2.curoff
      = string_memory.curoff + (len_dyn_of 3 + 0) ∧
    (__bpf_val_to_ring upstream_consts string_memory 200 10 PT_BYTEBUF 3 false USER).2.len
      = string_memory.len + (len_dyn_of 3 + 0) ∧
    (__bpf_val_to_ring upstream_consts string_memory 200 10 PT_BYTEBUF 3 false USER).2.curarg
      = string_memory.curarg + 1 :=
  unavailable_value_encodes_empty upstream_consts string_memory 200 10 PT_BYTEBUF 3 false USER
    (by decide) (by decide) (by decide)
    (Or.inr ⟨rfl, Or.inr (Or.inr (Or.inr (Or.inr ⟨rfl, by decide⟩)))⟩)

/-- The string read of a source whose read faults returns a negative value. -/
theorem charbuf_read_of_fault (c : driver_consts) (d : filler_data) (cb val : Nat)
    (mem : read_memory) (hmax : c.PPM_MAX_ARG_SIZE ≠ 0) (hval : val ≠ 0)
    (hfail : read_string (memory_of d mem) val (c.PPM_MAX_ARG_SIZE - 1) = none) :
    (charbuf_read c d cb val mem).1 < 0 := by
  unfold charbuf_read bpf_probe_read_str
  rw [if_pos hval, if_neg hmax, hfail]
  simp

/-- The string read of a readable empty string returns 1: the terminating NUL
is counted. -/
theorem charbuf_read_of_empty (c : driver_consts) (d : filler_data) (cb val b : Nat)
    (mem : read_memory) (hmax : 2 ≤ c.PPM_MAX_ARG_SIZE) (hval : val ≠ 0)
    (hb : memory_of d mem val = some b) (hnul : b % 256 = 0) :
    (charbuf_read c d cb val mem).1 = 1 := by
  obtain ⟨n, hn⟩ : ∃ n, c.PPM_MAX_ARG_SIZE - 1 = n + 1 := ⟨c.PPM_MAX_ARG_SIZE - 2, by omega⟩
  unfold charbuf_read bpf_probe_read_str
  rw [if_pos hval, if_neg (by omega), hn, read_string, hb]
  simp only [hnul, if_true]
  rfl

/-- The `switch` of a string type, value not on the frame: the payload length
is the return value of the string read when it is not negative. -/
theorem charbuf_payload_of_read (c : driver_consts) (d : filler_data) (val val_len : Nat)
    (type : ppm_param_type) (enforce_snaplen : Bool) (mem : read_memory) (n : Nat)
    (htype : type = PT_CHARBUF ∨ type = PT_FSPATH ∨ type = PT_FSRELPATH)
    (hframe : d.curarg_already_on_frame = false)
    (hread : (charbuf_read c d (Nat.land d.curoff c.SCRATCH_SIZE_HALF) val mem).1 = (n : Int))
    (hn : n < 4294967296) :
    ∃ d2, val_to_ring_payload c d (Nat.land d.curoff c.SCRATCH_SIZE_HALF) val val_len type
      enforce_snaplen mem = .ok (n, d2) := by
  have hchar : ∃ d2, charbuf_payload c d (Nat.land d.curoff c.SCRATCH_SIZE_HALF) val val_len
      mem = .ok (n, d2) := by
    unfold charbuf_payload
    have hnf : (!d.curarg_already_on_frame) = true := by rw [hframe]; rfl
    rw [if_pos hnf, if_pos (by rw [hread]; omega), hread, Int.toNat_ofNat, Nat.mod_eq_of_lt hn]
    exact ⟨_, rfl⟩
  rcases htype with ht | ht | ht <;> subst ht <;> exact hchar

/-- Claim C20 as stated fails: in `string_memory` the empty string at address
100 is recorded with length 1 (the terminating NUL is stored and counted),
the unreadable address 200 with length 0; both encodes return
`PPM_SUCCESS`. -/
theorem empty_string_recorded_with_length_one :
    string_memory.user_mem 100 = some 0 ∧ string_memory.user_mem 200 = none ∧
    (__bpf_val_to_ring upstream_consts string_memory 100 0 PT_CHARBUF 255 false USER).1
      = PPM_SUCCESS ∧
    (__bpf_val_to_ring upstream_consts string_memory 100 0 PT_CHARBUF 255 false
      USER).2.arg_lens string_memory.curarg = 1 ∧
    (__bpf_val_to_ring upstream_consts string_memory 200 0 PT_CHARBUF 255 false USER).1
      = PPM_SUCCESS ∧
    (__bpf_val_to_ring upstream_consts string_memory 200 0 PT_CHARBUF 255 false
      USER).2.arg_lens string_memory.curarg = 0 := by
  decide

/-- Claim C20, amended: for a `PT_CHARBUF`, `PT_FSPATH` or `PT_FSRELPATH`
parameter not already on the frame, with the cursor after the dynamic-index
byte (if any) still `<= SCRATCH_SIZE_HALF` and `2 <= PPM_MAX_ARG_SIZE`, both
the encode of a source whose read faults and the encode of a readable empty
string (first byte NUL) return `PPM_SUCCESS`, but the recorded lengths differ:
`len_dyn + 0` for the failed read and `len_dyn + 1` for the empty string,
whose terminating NUL is counted. -/
theorem string_failure_and_empty_string (c : driver_consts) (data : filler_data)
    (val_fail val_empty val_len : Nat) (type : ppm_param_type) (dyn_idx : Nat)
    (enforce_snaplen : Bool) (mem : read_memory) (b : Nat)
    (htype : type = PT_CHARBUF ∨ type = PT_FSPATH ∨ type = PT_FSRELPATH)
    (hframe : data.curarg_already_on_frame = false)
    (hcur : (write_dyn_idx c data dyn_idx).curoff ≤ c.SCRATCH_SIZE_HALF)
    (hmax : 2 ≤ c.PPM_MAX_ARG_SIZE)
    (hfail : val_fail ≠ 0 ∧
      read_string (memory_of data mem) val_fail (c.PPM_MAX_ARG_SIZE - 1) = none)
    (hempty : val_empty ≠ 0 ∧ memory_of data mem val_empty = some b ∧ b % 256 = 0) :
    (__bpf_val_to_ring c data val_fail val_len type dyn_idx enforce_snaplen mem).1
      = PPM_SUCCESS ∧
    (__bpf_val_to_ring c data val_fail val_len type dyn_idx enforce_snaplen mem).2.arg_lens
      data.curarg = len_dyn_of dyn_idx + 0 ∧
    (__bpf_val_to_ring c data val_empty val_len type dyn_idx enforce_snaplen mem).1
      = PPM_SUCCESS ∧
    (__bpf_val_to_ring c data val_empty val_len type dyn_idx enforce_snaplen mem).2.arg_lens
      data.curarg = len_dyn_of dyn_idx + 1 := by
  have hw := write_dyn_idx_fields c data dyn_idx
  have hf1 : (write_dyn_idx c data dyn_idx).curarg_already_on_frame = false :=
    hw.2.2.2.2.1.trans hframe
  have hmem : memory_of (write_dyn_idx c data dyn_idx) mem = memory_of data mem := by
    cases mem
    · exact hw.2.2.2.2.2.1
    · exact hw.2.2.2.2.2.2
  have hd := len_dyn_of_le dyn_idx
  have hun : value_unavailable c (write_dyn_idx c data dyn_idx) val_fail val_len type
      enforce_snaplen mem :=
    Or.inl ⟨htype, Or.inr (charbuf_read_of_fault c _ _ val_fail mem (by omega) hfail.1
      (by rw [hmem]; exact hfail.2))⟩
  obtain ⟨d1, hp1⟩ := val_to_ring_payload_unavailable c _ val_fail val_len type
    enforce_snaplen mem hf1 hcur hun
  obtain ⟨d2, hp2⟩ := charbuf_payload_of_read c (write_dyn_idx c data dyn_idx) val_empty
    val_len type enforce_snaplen mem 1 htype hf1
    (charbuf_read_of_empty c _ _ val_empty b mem hmax hempty.1 (by rw [hmem]; exact hempty.2.1)
      hempty.2.2) (by omega)
  have r1 := val_to_ring_recorded c data val_fail val_len type dyn_idx enforce_snaplen mem 0 d1
    hcur hp1 (by omega) (by omega)
  have r2 := val_to_ring_recorded c data val_empty val_len type dyn_idx enforce_snaplen mem 1 d2
    hcur hp2 (by omega) (by omega)
  exact ⟨r1.1, r1.2.1, r2.1, r2.2.1⟩

/-- Witness of `string_failure_and_empty_string`: in `string_memory` the
unreadable address 200 and the empty string at address 100, as `PT_FSPATH`
with the dynamic-index byte 2. -/
theorem string_failure_and_empty_string_witness :
    (__bpf_val_to_ring upstream_consts string_memory 200 0 PT_FSPATH 2 false USER).1
      = PPM_SUCCESS ∧
    (__bpf_val_to_ring upstream_consts string_memory 200 0 PT_FSPATH 2 false USER).2.arg_lens
      string_memory.curarg = len_dyn_of 2 + 0 ∧
    (__bpf_val_to_ring upstream_consts string_memory 100 0 PT_FSPATH 2 false USER).1
      = PPM_SUCCESS ∧
    (__bpf_val_to_ring upstream_consts string_memory 100 0 PT_FSPATH 2 false USER).2.arg_lens
      string_memory.curarg = len_dyn_of 2 + 1 :=
  string_failure_and_empty_string upstream_consts string_memory 200 100 0 PT_FSPATH 2 false
    USER 0 (Or.inr (Or.inl rfl)) (by decide) (by decide) (by decide)
    ⟨by decide, by decide⟩ ⟨by decide, by decide, by decide⟩

end filler_helpers

/-!
# Theorems on the suppression engine: claims C28 and C29
-/

namespace libsinsp

/-! ## Claim C28: `finalize()` suppresses descendants only -/

theorem mem_set_insert (x y : Nat) (l : List Nat) : y ∈ set_insert x l ↔ y = x ∨ y ∈ l := by
  unfold set_insert
  split_ifs with h
  · constructor
    · exact Or.inr
    · rintro (h1 | h1)
      · rw [h1]; exact h
      · exact h1
  · simp

theorem suppress_children (children : List Nat) (s : sinsp_suppress) :
    (children.foldl (fun acc child_tid => acc.suppress_tid child_tid) s).m_suppressed_comms
      = s.m_suppressed_comms ∧
    ∀ x, x ∈ (children.foldl (fun acc child_tid => acc.suppress_tid child_tid)
      s).m_suppressed_tids ↔ x ∈ s.m_suppressed_tids ∨ x ∈ children := by
  induction children generalizing s with
  | nil => simp
  | cons c rest ih =>
    simp only [List.foldl_cons]
    obtain ⟨h1, h2⟩ := ih (s.suppress_tid c)
    refine ⟨h1, fun x => ?_⟩
    rw [h2 x]
    simp only [sinsp_suppress.suppress_tid, mem_set_insert, List.mem_cons]
    tauto

theorem is_suppressed_tid_iff (s : sinsp_suppress) (tid : Nat) :
    s.is_suppressed_tid tid = true ↔ tid ≠ 0 ∧ tid ∈ s.m_suppressed_tids := by
  unfold sinsp_suppress.is_suppressed_tid
  split_ifs with h
  · simp [h]
  · simp [h]

/-- What the loop of `finalize` keeps true, with `s0` the state before the
loop. -/
theorem finalize_step_keeps (t : tid_tree) (hk : tree_keyed t) (s0 acc : sinsp_suppress)
    (kv : Nat × tid_tree_node) (hkv : kv ∈ t)
    (h : acc.m_suppressed_comms = s0.m_suppressed_comms ∧
      (∀ x, x ∈ s0.m_suppressed_tids → x ∈ acc.m_suppressed_tids) ∧
      (∀ x, x ∈ acc.m_suppressed_tids → x ∈ s0.m_suppressed_tids ∨
        ∃ p, s0.is_suppressed_tid p = true ∧ descendant t p x)) :
    (finalize_step acc kv).m_suppressed_comms = s0.m_suppressed_comms ∧
      (∀ x, x ∈ s0.m_suppressed_tids → x ∈ (finalize_step acc kv).m_suppressed_tids) ∧
      (∀ x, x ∈ (finalize_step acc kv).m_suppressed_tids → x ∈ s0.m_suppressed_tids ∨
        ∃ p, s0.is_suppressed_tid p = true ∧ descendant t p x) := by
  obtain ⟨h1, h2, h3⟩ := h
  unfold finalize_step
  split_ifs with hs
  · obtain ⟨c1, c2⟩ := suppress_children kv.2.m_children acc
    refine ⟨c1.trans h1, fun x hx => (c2 x).2 (Or.inl (h2 x hx)), fun x hx => ?_⟩
    rcases (c2 x).1 hx with hx | hx
    · exact h3 x hx
    · right
      obtain ⟨hne, hmem⟩ := (is_suppressed_tid_iff acc _).1 hs
      have hkey : kv.2.m_tid = kv.1 := by
        rcases hk kv hkv with h0 | h0
        · exact absurd h0 hne
        · exact h0
      have hlink : child_link t kv.2.m_tid x := ⟨kv, hkv, hkey.symm, hx⟩
      rcases h3 _ hmem with hin | ⟨p, hp, hd⟩
      · exact ⟨kv.2.m_tid, (is_suppressed_tid_iff s0 _).2 ⟨hne, hin⟩,
          Relation.TransGen.single hlink⟩
      · exact ⟨p, hp, Relation.TransGen.tail hd hlink⟩
  · exact ⟨h1, h2, h3⟩

theorem finalize_loop_keeps (t : tid_tree) (hk : tree_keyed t) (s0 : sinsp_suppress)
    (l : List (Nat × tid_tree_node)) (hl : ∀ kv ∈ l, kv ∈ t) (acc : sinsp_suppress)
    (h : acc.m_suppressed_comms = s0.m_suppressed_comms ∧
      (∀ x, x ∈ s0.m_suppressed_tids → x ∈ acc.m_suppressed_tids) ∧
      (∀ x, x ∈ acc.m_suppressed_tids → x ∈ s0.m_suppressed_tids ∨
        ∃ p, s0.is_suppressed_tid p = true ∧ descendant t p x)) :
    (l.foldl finalize_step acc).m_suppressed_comms = s0.m_suppressed_comms ∧
      (∀ x, x ∈ s0.m_suppressed_tids → x ∈ (l.foldl finalize_step acc).m_suppressed_tids) ∧
      (∀ x, x ∈ (l.foldl finalize_step acc).m_suppressed_tids → x ∈ s0.m_suppressed_tids ∨
        ∃ p, s0.is_suppressed_tid p = true ∧ descendant t p x) := by
  induction l generalizing acc with
  | nil => exact h
  | cons kv rest ih =>
    simp only [List.foldl_cons]
    exact ih (fun kv1 h1 => hl kv1 (List.mem_cons_of_mem _ h1)) _
      (finalize_step_keeps t hk s0 acc kv (hl kv (List.mem_cons_self _ _)) h)

/-- The trees that `handle_thread` builds are keyed. -/
theorem handle_thread_keyed (s : sinsp_suppress) (tid parent_tid : Nat) (comm : List Nat)
    (h : keyed_inv s) : keyed_inv (s.handle_thread tid parent_tid comm) := by
  intro t ht
  unfold sinsp_suppress.handle_thread at ht
  split_ifs at ht with h0
  · exact h t ht
  · split at ht
    · exact h t ht
    · rename_i t0 ht0
      simp only [Option.some.injEq] at ht
      rw [← ht]
      have hk0 := h t0 ht0
      unfold tree_keyed
      apply tree_update_forall (fun kv => kv.2.m_tid = 0 ∨ kv.2.m_tid = kv.1)
      · exact Or.inl rfl
      · intro n hn; exact hn
      · apply tree_update_forall (fun kv => kv.2.m_tid = 0 ∨ kv.2.m_tid = kv.1)
        · exact Or.inr rfl
        · intro n _; exact Or.inr rfl
        · apply tree_update_forall (fun kv => kv.2.m_tid = 0 ∨ kv.2.m_tid = kv.1)
          · exact Or.inl rfl
          · intro n hn; exact hn
          · exact hk0

theorem keyed_inv_of_tree_eq (s s1 : sinsp_suppress) (h : keyed_inv s)
    (ht : s1.m_tids_tree = s.m_tids_tree) : keyed_inv s1 := by
  unfold keyed_inv at h ⊢
  rw [ht]; exact h

theorem check_suppressed_comm_keyed (s : sinsp_suppress) (tid parent_tid : Nat)
    (comm : List Nat) (h : keyed_inv s) :
    keyed_inv (s.check_suppressed_comm tid parent_tid comm).2 := by
  have hh := handle_thread_keyed s tid parent_tid comm h
  unfold sinsp_suppress.check_suppressed_comm
  simp only
  split
  · exact keyed_inv_of_tree_eq _ _ hh rfl
  · exact hh

theorem process_lineage_event_keyed (s s1 : sinsp_suppress) (e : scap_evt) (rc : scap_rc)
    (h : keyed_inv s) (hr : s.process_lineage_event e = some (rc, s1)) : keyed_inv s1 := by
  unfold sinsp_suppress.process_lineage_event at hr
  split at hr
  · simp only [Option.some.injEq, Prod.mk.injEq] at hr
    rw [← hr.2]; exact h
  · split at hr
    · simp at hr
    · simp only [Option.some.injEq, Prod.mk.injEq] at hr
      rw [← hr.2]; exact h
    · split at hr
      · simp at hr
      · split at hr
        · simp only [Option.some.injEq, Prod.mk.injEq] at hr
          rw [← hr.2]; exact keyed_inv_of_tree_eq _ _ h rfl
        · split at hr
          · simp at hr
          · rename_i ptid _ _ _ comm _
            have hc := check_suppressed_comm_keyed s e.tid ptid comm h
            split at hr
            · rename_i s2 heq
              simp only [Option.some.injEq, Prod.mk.injEq] at hr
              rw [← hr.2]; rw [heq] at hc; exact hc
            · rename_i s2 heq
              simp only [Option.some.injEq, Prod.mk.injEq] at hr
              rw [← hr.2]; rw [heq] at hc; exact hc

theorem process_event_keyed (s s1 : sinsp_suppress) (e : scap_evt) (rc : scap_rc)
    (h : keyed_inv s) (hr : s.process_event e = some (rc, s1)) : keyed_inv s1 := by
  unfold sinsp_suppress.process_event at hr
  split at hr
  · simp only [Option.some.injEq, Prod.mk.injEq] at hr
    rw [← hr.2]; exact h
  · by_cases hl : is_lineage_type e.type = true
    · have hr1 : s.process_lineage_event e = some (rc, s1) := by
        cases hty : e.type <;> simp [hty, is_lineage_type] at hl hr <;> exact hr
      exact process_lineage_event_keyed s s1 e rc h hr1
    · have hr1 : s1.m_tids_tree = s.m_tids_tree := by
        cases hty : e.type <;> simp [hty, is_lineage_type] at hl hr
        · rw [← hr.2]
        all_goals
          split at hr
          · simp only [Option.some.injEq, Prod.mk.injEq] at hr
            rw [← hr.2]
          · simp only [Option.some.injEq, Prod.mk.injEq] at hr
            rw [← hr.2]
      exact keyed_inv_of_tree_eq _ _ h hr1

theorem apply_call_keyed (s s1 : sinsp_suppress) (call : suppress_call)
    (h : keyed_inv s) (hr : apply_call s call = some s1) : keyed_inv s1 := by
  cases call with
  | suppress_comm comm =>
    simp only [apply_call, Option.some.injEq] at hr
    rw [← hr]; exact keyed_inv_of_tree_eq _ _ h rfl
  | suppress_tid tid =>
    simp only [apply_call, Option.some.injEq] at hr
    rw [← hr]; exact keyed_inv_of_tree_eq _ _ h rfl
  | clear_suppress_comm =>
    simp only [apply_call, Option.some.injEq] at hr
    rw [← hr]; exact keyed_inv_of_tree_eq _ _ h rfl
  | clear_suppress_tid =>
    simp only [apply_call, Option.some.injEq] at hr
    rw [← hr]; exact keyed_inv_of_tree_eq _ _ h rfl
  | check_suppressed_comm tid parent_tid comm =>
    simp only [apply_call, Option.some.injEq] at hr
    rw [← hr]; exact check_suppressed_comm_keyed s tid parent_tid comm h
  | process_event e =>
    simp only [apply_call, Option.map_eq_some'] at hr
    obtain ⟨⟨rc, s2⟩, hpe, hs2⟩ := hr
    simp only at hs2
    rw [← hs2]; exact process_event_keyed s s2 e rc h hpe
  | init =>
    simp only [apply_call, Option.some.injEq] at hr
    rw [← hr]
    intro t ht
    have : t = [] := by
      unfold sinsp_suppress.initialize at ht
      split at ht <;> simp at ht <;> exact ht
    rw [this]
    intro kv hkv
    simp at hkv
  | finalize =>
    simp only [apply_call] at hr
    unfold sinsp_suppress.finalize at hr
    split at hr
    · simp at hr
    · simp only [Option.some.injEq] at hr
      rw [← hr]
      intro t ht
      simp at ht

theorem run_calls_keyed (calls : List suppress_call) (s s1 : sinsp_suppress)
    (h : keyed_inv s) (hr : run_calls s calls = some s1) : keyed_inv s1 := by
  induction calls generalizing s with
  | nil =>
    simp only [run_calls, Option.some.injEq] at hr
    rw [← hr]; exact h
  | cons call rest ih =>
    unfold run_calls at hr
    split at hr
    · simp at hr
    · rename_i s2 hs2
      exact ih s2 (apply_call_keyed s s2 call h hs2) hr

/-- Every state reached from a freshly constructed object has keyed lineage
trees. -/
theorem reachable_keyed (calls : List suppress_call) (s : sinsp_suppress)
    (hr : run_calls {} calls = some s) : keyed_inv s :=
  run_calls_keyed calls {} s (fun t ht => by simp at ht) hr

/-- Claim C28: for every keyed lineage tree (each node carries its key as
`m_tid` or the value-initialised 0, as in every tree that `handle_thread`
builds) and every suppressed-tid set, every tid that is suppressed after
`finalize()` was suppressed before or is a recorded descendant of a tid that
was suppressed before; a tid that is neither stays unsuppressed; no tid leaves
the set and the denylisted-command set is unchanged. -/
theorem finalize_never_over_suppresses (s s1 : sinsp_suppress) (t : tid_tree)
    (ht : s.m_tids_tree = some t) (hk : tree_keyed t) (hf : s.finalize = some s1) :
    (∀ tid, s1.is_suppressed_tid tid = true →
      s.is_suppressed_tid tid = true ∨ ∃ p, s.is_suppressed_tid p = true ∧ descendant t p tid) ∧
    (∀ tid, s.is_suppressed_tid tid = false →
      (∀ p, s.is_suppressed_tid p = true → ¬ descendant t p tid) →
      s1.is_suppressed_tid tid = false) ∧
    (∀ tid, tid ∈ s.m_suppressed_tids → tid ∈ s1.m_suppressed_tids) ∧
    s1.m_suppressed_comms = s.m_suppressed_comms := by
  unfold sinsp_suppress.finalize at hf
  rw [ht] at hf
  simp only [Option.some.injEq] at hf
  obtain ⟨h1, h2, h3⟩ := finalize_loop_keeps t hk s t (fun _ h => h) s
    ⟨rfl, fun _ h => h, fun _ h => Or.inl h⟩
  have hover : ∀ tid, s1.is_suppressed_tid tid = true →
      s.is_suppressed_tid tid = true ∨
        ∃ p, s.is_suppressed_tid p = true ∧ descendant t p tid := by
    intro tid hs
    obtain ⟨hne, hmem⟩ := (is_suppressed_tid_iff s1 tid).1 hs
    rw [← hf] at hmem
    rcases h3 tid hmem with hin | hd
    · exact Or.inl ((is_suppressed_tid_iff s tid).2 ⟨hne, hin⟩)
    · exact Or.inr hd
  refine ⟨hover, fun tid hns hnd => ?_, fun tid hm => ?_, ?_⟩
  · cases hs : s1.is_suppressed_tid tid with
    | false => rfl
    | true =>
      rcases hover tid hs with h | ⟨p, hp, hd⟩
      · rw [hns] at h; exact absurd h (by decide)
      · exact absurd hd (hnd p hp)
  · rw [← hf]; exact h2 tid hm
  · rw [← hf]; exact h1

/-- Witness of `finalize_never_over_suppresses`: thread 2 is suppressed, 5 is
its child and 7 its grandchild; 9 is the child of the unsuppressed thread 8. -/
theorem finalize_never_over_suppresses_witness :
    (∀ tid, lineage_state_final.is_suppressed_tid tid = true →
      lineage_state.is_suppressed_tid tid = true ∨
        ∃ p, lineage_state.is_suppressed_tid p = true ∧ descendant lineage_state_tree p tid) ∧
    (∀ tid, lineage_state.is_suppressed_tid tid = false →
      (∀ p, lineage_state.is_suppressed_tid p = true → ¬ descendant lineage_state_tree p tid) →
      lineage_state_final.is_suppressed_tid tid = false) ∧
    (∀ tid, tid ∈ lineage_state.m_suppressed_tids →
      tid ∈ lineage_state_final.m_suppressed_tids) ∧
    lineage_state_final.m_suppressed_comms = lineage_state.m_suppressed_comms :=
  finalize_never_over_suppresses lineage_state lineage_state_final lineage_state_tree
    (by decide) (by unfold tree_keyed; decide) (by decide)

/-! ## Claim C29: the positions of the parent tid and of the comm -/

theorem read_u8_at (e : scap_evt) (pre post : List Nat) (b : Nat)
    (hpay : e.payload = pre ++ b :: post)
    (hin : sizeof_ppm_evt_hdr + pre.length < e.len) :
    read_u8 e pre.length = some (b % 256) := by
  unfold read_u8
  rw [if_pos hin, hpay, List.get?_eq_getElem?, List.getElem?_append_right (Nat.le_refl _)]
  simp

/-- The `n` bytes `le_bytes n v` found in the record after the bytes `pre`
are read as `v` modulo `256^n`. -/
theorem read_le_at (e : scap_evt) (n : Nat) (pre post : List Nat) (v : Nat)
    (hpay : e.payload = pre ++ le_bytes n v ++ post)
    (hin : sizeof_ppm_evt_hdr + pre.length + n ≤ e.len) :
    read_le e pre.length n = some (v % 256 ^ n) := by
  induction n generalizing pre v with
  | zero => simp [read_le, Nat.mod_one]
  | succ n ih =>
    have h1 : read_u8 e pre.length = some (v % 256 % 256) :=
      read_u8_at e pre (le_bytes n (v / 256) ++ post) (v % 256)
        (by rw [hpay]; simp [le_bytes]) (by omega)
    have hl : (pre ++ [v % 256]).length = pre.length + 1 := by simp
    have h2 := ih (pre ++ [v % 256]) (v / 256)
      (by rw [hpay]; simp [le_bytes]) (by rw [hl]; omega)
    rw [hl] at h2
    rw [read_le, h1, h2]
    simp only [Nat.mod_mod, Option.some.injEq]
    rw [pow_succ, Nat.mul_comm (256 ^ n) 256, Nat.mod_mul]

/-- The string `comm` found in the record after the bytes `pre`, followed by
a NUL, is read as `comm`. -/
theorem read_cstr_aux_at (e : scap_evt) (comm pre post : List Nat) (fuel : Nat)
    (hpay : e.payload = pre ++ comm ++ 0 :: post)
    (hcomm : ∀ b ∈ comm, 0 < b ∧ b < 256)
    (hin : sizeof_ppm_evt_hdr + pre.length + comm.length < e.len)
    (hfuel : comm.length < fuel) :
    read_cstr_aux e fuel pre.length = some comm := by
  induction comm generalizing pre fuel with
  | nil =>
    simp only [List.length_nil] at hin hfuel
    obtain ⟨f, hf⟩ : ∃ f, fuel = f + 1 := ⟨fuel - 1, by omega⟩
    subst hf
    have h1 := read_u8_at e pre post 0 (by rw [hpay]; simp) (by omega)
    rw [read_cstr_aux, h1]
    simp
  | cons b rest ih =>
    simp only [List.length_cons] at hin hfuel
    obtain ⟨f, hf⟩ : ∃ f, fuel = f + 1 := ⟨fuel - 1, by omega⟩
    subst hf
    have hb := hcomm b (List.mem_cons_self _ _)
    have h1 := read_u8_at e pre (rest ++ 0 :: post) b (by rw [hpay]; simp) (by omega)
    have hl : (pre ++ [b]).length = pre.length + 1 := by simp
    have h2 := ih (pre ++ [b]) f (by rw [hpay]; simp)
      (fun x hx => hcomm x (List.mem_cons_of_mem _ hx)) (by rw [hl]; omega) (by omega)
    rw [hl] at h2
    rw [read_cstr_aux, h1]
    simp only [Nat.mod_eq_of_lt hb.2]
    rw [if_neg (by omega), h2]

theorem prefixes_length (values : List (List Nat)) :
    ((values.map (fun v => le_bytes 2 v.length)).flatten).length = 2 * values.length := by
  induction values with
  | nil => rfl
  | cons v rest ih =>
    simp only [List.map_cons, List.flatten_cons, List.length_append, ih, List.length_cons]
    simp [le_bytes]
    omega

theorem le_bytes_length (n v : Nat) : (le_bytes n v).length = n := by
  induction n generalizing v with
  | zero => rfl
  | succ n ih => simp [le_bytes, ih]

theorem encode_record_len (type : ppm_event_code) (ts tid : Nat) (values : List (List Nat)) :
    (encode_record type ts tid values).len
      = sizeof_ppm_evt_hdr + 2 * values.length + values.flatten.length := by
  simp only [encode_record, List.length_append, prefixes_length]
  omega

/-- The length prefix of a parameter of a built record is the length of its
value. -/
theorem param_len_encode (type : ppm_event_code) (ts tid : Nat) (A B : List (List Nat))
    (v : List Nat) (hv : v.length < 65536) :
    param_len (encode_record type ts tid (A ++ v :: B)) A.length = v.length := by
  have hpre : ((A.map (fun v => le_bytes 2 v.length)).flatten).length = 2 * A.length :=
    prefixes_length A
  have hr := read_le_at (encode_record type ts tid (A ++ v :: B)) 2
    ((A.map (fun v => le_bytes 2 v.length)).flatten)
    (((B.map (fun v => le_bytes 2 v.length)).flatten) ++ (A ++ v :: B).flatten) v.length
    (by simp [encode_record, List.append_assoc])
    (by
      rw [encode_record_len, hpre]
      simp only [List.length_append, List.length_cons]
      omega)
  rw [hpre] at hr
  unfold param_len
  rw [hr]
  simp only [Option.getD_some]
  exact Nat.mod_eq_of_lt (by omega)

/-- The offset of a parameter of a built record: the prefix array, then the
values of the parameters before it. -/
theorem param_off_encode (type : ppm_event_code) (ts tid : Nat) (A B : List (List Nat))
    (hA : ∀ v ∈ A, v.length < 65536) :
    param_off (encode_record type ts tid (A ++ B)) A.length
      = 2 * (A ++ B).length + A.flatten.length := by
  induction A using List.reverseRecOn generalizing B with
  | nil => simp [param_off, encode_record]
  | append_singleton A v ih =>
    have h1 := ih ([v] ++ B) (fun x hx => hA x (List.mem_append_left _ hx))
    have h2 := param_len_encode type ts tid A B v
      (hA v (List.mem_append_right _ (List.mem_singleton_self v)))
    simp only [List.singleton_append] at h1
    rw [List.length_append, List.length_singleton, param_off_succ, List.append_assoc,
      List.singleton_append, h1, h2]
    simp only [List.flatten_append, List.length_append, List.flatten_cons, List.flatten_nil,
      List.append_nil]
    omega

/-- The reads of `process_event` on a built record whose parameter 5 is the
8-byte value `ptid` and whose parameter 13 is the string `comm`. -/
theorem encode_record_lineage (type : ppm_event_code) (ts tid : Nat) (A M B : List (List Nat))
    (ptid : Nat) (comm : List Nat) (hA : A.length = 5) (hM : M.length = 7)
    (hAl : ∀ v ∈ A, v.length < 65536) (hMl : ∀ v ∈ M, v.length < 65536)
    (hptid : ptid < 256 ^ 8) (hcomm : ∀ b ∈ comm, 0 < b ∧ b < 256) :
    lineage_ptid (encode_record type ts tid (A ++ le_bytes 8 ptid :: (M ++ (comm ++ [0]) :: B)))
      = some ptid ∧
    lineage_comm (encode_record type ts tid (A ++ le_bytes 8 ptid :: (M ++ (comm ++ [0]) :: B)))
      = some comm := by
  have hlenE := encode_record_len type ts tid (A ++ le_bytes 8 ptid :: (M ++ (comm ++ [0]) :: B))
  have hnp : (encode_record type ts tid
      (A ++ le_bytes 8 ptid :: (M ++ (comm ++ [0]) :: B))).nparams
      = (A ++ le_bytes 8 ptid :: (M ++ (comm ++ [0]) :: B)).length := rfl
  have hcount : (A ++ le_bytes 8 ptid :: (M ++ (comm ++ [0]) :: B)).length
      = 14 + B.length := by
    simp only [List.length_append, List.length_cons, hA, hM]
    omega
  have hpl : (encode_record type ts tid
      (A ++ le_bytes 8 ptid :: (M ++ (comm ++ [0]) :: B))).payload.length
      = 2 * (14 + B.length)
        + (A ++ le_bytes 8 ptid :: (M ++ (comm ++ [0]) :: B)).flatten.length := by
    simp only [encode_record, List.length_append, prefixes_length, hcount]
  have hw := walk_params_eq _ (by rw [hnp, hcount]; omega)
    (by rw [hlenE, hnp]; omega) (by rw [hlenE, hpl, hcount]; omega)
  have h5 := param_off_encode type ts tid A (le_bytes 8 ptid :: (M ++ (comm ++ [0]) :: B)) hAl
  rw [hA] at h5
  have h13 := param_off_encode type ts tid (A ++ le_bytes 8 ptid :: M) ((comm ++ [0]) :: B)
    (by
      intro v hv
      rcases List.mem_append.1 hv with h | h
      · exact hAl v h
      · rcases List.mem_cons.1 h with h | h
        · rw [h, le_bytes_length]; omega
        · exact hMl v h)
  have hl13 : (A ++ le_bytes 8 ptid :: M).length = 13 := by
    simp only [List.length_append, List.length_cons, hA, hM]
  rw [hl13, List.append_assoc, List.cons_append] at h13
  have hflat : (A ++ le_bytes 8 ptid :: (M ++ (comm ++ [0]) :: B)).flatten.length
      = A.flatten.length + 8 + M.flatten.length + (comm.length + 1) + B.flatten.length := by
    simp only [List.flatten_append, List.flatten_cons, List.length_append, le_bytes_length,
      List.length_singleton]
    omega
  constructor
  · have hr := read_le_at (encode_record type ts tid
        (A ++ le_bytes 8 ptid :: (M ++ (comm ++ [0]) :: B))) 8
      (((A ++ le_bytes 8 ptid :: (M ++ (comm ++ [0]) :: B)).map
        (fun v => le_bytes 2 v.length)).flatten ++ A.flatten)
      ((M ++ (comm ++ [0]) :: B).flatten) ptid
      (by simp [encode_record, List.append_assoc])
      (by
        rw [hlenE, hflat]
        simp only [List.length_append, prefixes_length]
        omega)
    rw [List.length_append, prefixes_length, hcount, Nat.mod_eq_of_lt hptid] at hr
    rw [hcount] at h5
    unfold lineage_ptid
    rw [hw]
    simp only
    rw [h5]
    exact hr
  · have hr := read_cstr_aux_at (encode_record type ts tid
        (A ++ le_bytes 8 ptid :: (M ++ (comm ++ [0]) :: B))) comm
      (((A ++ le_bytes 8 ptid :: (M ++ (comm ++ [0]) :: B)).map
        (fun v => le_bytes 2 v.length)).flatten ++ (A ++ le_bytes 8 ptid :: M).flatten)
      B.flatten
      (encode_record type ts tid (A ++ le_bytes 8 ptid :: (M ++ (comm ++ [0]) :: B))).len
      (by simp [encode_record, List.append_assoc])
      hcomm
      (by
        rw [hlenE, hflat]
        simp only [List.length_append, prefixes_length, List.flatten_append, List.flatten_cons,
          le_bytes_length]
        omega)
      (by rw [hlenE, hflat]; omega)
    rw [List.length_append, prefixes_length, hcount] at hr
    rw [hcount] at h13
    unfold lineage_comm read_cstr
    rw [hw]
    simp only
    rw [h13]
    exact hr

theorem spawn_process_parent_reads (ts : Nat) (tail : List (List Nat)) :
    lineage_ptid (spawn_process_parent_clone_exit ts tail) = some 0 ∧
    lineage_comm (spawn_process_parent_clone_exit ts tail) = some ascii_init :=
  encode_record_lineage ppm_event_code.PPME_SYSCALL_CLONE_20_X ts 1
    [le_bytes 8 20, ascii_bash ++ [0], [], le_bytes 8 1, le_bytes 8 1]
    [[0], le_bytes 8 1024, le_bytes 8 0, le_bytes 8 1, le_bytes 4 12088, le_bytes 4 7208,
      le_bytes 4 0] tail 0 ascii_init rfl rfl (by decide) (by decide) (by decide) (by decide)

theorem spawn_process_child_reads (ts : Nat) (tail : List (List Nat)) :
    lineage_ptid (spawn_process_child_clone_exit ts tail) = some 1 ∧
    lineage_comm (spawn_process_child_clone_exit ts tail) = some ascii_init :=
  encode_record_lineage ppm_event_code.PPME_SYSCALL_CLONE_20_X ts 20
    [le_bytes 8 0, ascii_bash ++ [0], [], le_bytes 8 20, le_bytes 8 20]
    [[0], le_bytes 8 1024, le_bytes 8 0, le_bytes 8 1, le_bytes 4 12088, le_bytes 4 3764,
      le_bytes 4 0] tail 1 ascii_init rfl rfl (by decide) (by decide) (by decide) (by decide)

theorem spawn_process_execve_reads (ts : Nat) (tail : List (List Nat)) :
    lineage_ptid (spawn_process_execve_exit ts tail) = some 1 ∧
    lineage_comm (spawn_process_execve_exit ts tail) = some ascii_test_exe :=
  encode_record_lineage ppm_event_code.PPME_SYSCALL_EXECVE_19_X ts 20
    [le_bytes 8 0, ascii_bin_test_exe ++ [0], spawn_process_argsv, le_bytes 8 20, le_bytes 8 20]
    [[0], le_bytes 8 1024, le_bytes 8 0, le_bytes 8 1, le_bytes 4 29612, le_bytes 4 4,
      le_bytes 4 0] tail 1 ascii_test_exe rfl rfl (by decide) (by decide) (by decide)
    (by decide)

/-- Claim C29: for every process-creation exit record with at least 14
parameters whose array of 16-bit length prefixes lies inside the record, the
parent tid that `process_event` tests is the 8-byte value at the offset of
parameter 5 (the prefix array, then the sum of the length prefixes 0..4), the
comm it matches is the NUL-terminated string at the offset of parameter 13
(the sum of the length prefixes 0..12) and the tid is the one of the record
header; for the parent clone, child clone and execve exit events that the test
`spawn_process` builds these are its `ptid` and `comm` arguments (0 and
"init", 1 and "init", 1 and "test-exe"), whatever the encoded values of the
later parameters. -/
theorem fixed_argument_positions (e : scap_evt) (s : sinsp_suppress) (hn : 14 ≤ e.nparams)
    (hlen : sizeof_ppm_evt_hdr + 2 * e.nparams ≤ e.len)
    (hm : e.len ≤ sizeof_ppm_evt_hdr + e.payload.length) :
    lineage_ptid e = read_le e (param_off e 5) 8 ∧
    lineage_comm e = read_cstr e (param_off e 13) ∧
    param_off e 5 = 2 * e.nparams
      + (param_len e 0 + param_len e 1 + param_len e 2 + param_len e 3 + param_len e 4) ∧
    param_off e 13 = 2 * e.nparams
      + (param_len e 0 + param_len e 1 + param_len e 2 + param_len e 3 + param_len e 4
        + param_len e 5 + param_len e 6 + param_len e 7 + param_len e 8 + param_len e 9
        + param_len e 10 + param_len e 11 + param_len e 12) ∧
    (∀ ptid comm, is_lineage_type e.type = true →
      (s.m_suppressed_tids.isEmpty && s.m_suppressed_comms.isEmpty) = false →
      read_le e (param_off e 5) 8 = some ptid → read_cstr e (param_off e 13) = some comm →
      s.process_event e =
        if s.is_suppressed_tid ptid then
          some (scap_rc.SCAP_FILTERED_EVENT, { s with
            m_suppressed_tids := set_insert e.tid s.m_suppressed_tids
            m_num_suppressed_events := s.m_num_suppressed_events + 1 })
        else if comm ∈ s.m_suppressed_comms then
          some (scap_rc.SCAP_FILTERED_EVENT, (s.check_suppressed_comm e.tid ptid comm).2)
        else some (scap_rc.SCAP_SUCCESS, s.handle_thread e.tid ptid comm)) ∧
    (∀ ts tail,
      (spawn_process_parent_clone_exit ts tail).tid = 1 ∧
      lineage_ptid (spawn_process_parent_clone_exit ts tail) = some 0 ∧
      lineage_comm (spawn_process_parent_clone_exit ts tail) = some ascii_init ∧
      (spawn_process_child_clone_exit ts tail).tid = 20 ∧
      lineage_ptid (spawn_process_child_clone_exit ts tail) = some 1 ∧
      lineage_comm (spawn_process_child_clone_exit ts tail) = some ascii_init ∧
      (spawn_process_execve_exit ts tail).tid = 20 ∧
      lineage_ptid (spawn_process_execve_exit ts tail) = some 1 ∧
      lineage_comm (spawn_process_execve_exit ts tail) = some ascii_test_exe) := by
  have hw := walk_params_eq e hn hlen hm
  have hp : lineage_ptid e = read_le e (param_off e 5) 8 := by
    unfold lineage_ptid
    rw [hw]
  have hc : lineage_comm e = read_cstr e (param_off e 13) := by
    unfold lineage_comm
    rw [hw]
  refine ⟨hp, hc, ?_, ?_, ?_, ?_⟩
  · unfold param_off
    simp [List.range_succ]
    omega
  · unfold param_off
    simp [List.range_succ]
    omega
  · intro ptid comm ht hfast hptid hcomm
    rw [process_event_lineage s e hfast ht]
    exact process_lineage_event_eq s e ptid comm hn (hp.trans hptid) (hc.trans hcomm)
  · intro ts tail
    exact ⟨rfl, (spawn_process_parent_reads ts tail).1, (spawn_process_parent_reads ts tail).2,
      rfl, (spawn_process_child_reads ts tail).1, (spawn_process_child_reads ts tail).2,
      rfl, (spawn_process_execve_reads ts tail).1, (spawn_process_execve_reads ts tail).2⟩

/-- Witness of `fixed_argument_positions`: the clone exit record of thread 8
with parent 7 and comm "b", in the state where "b" is denylisted. -/
theorem fixed_argument_positions_witness :
    lineage_ptid clone_exit_record
      = read_le clone_exit_record (param_off clone_exit_record 5) 8 ∧
    lineage_comm clone_exit_record
      = read_cstr clone_exit_record (param_off clone_exit_record 13) ∧
    param_off clone_exit_record 5 = 2 * clone_exit_record.nparams
      + (param_len clone_exit_record 0 + param_len clone_exit_record 1
        + param_len clone_exit_record 2 + param_len clone_exit_record 3
        + param_len clone_exit_record 4) ∧
    param_off clone_exit_record 13 = 2 * clone_exit_record.nparams
      + (param_len clone_exit_record 0 + param_len clone_exit_record 1
        + param_len clone_exit_record 2 + param_len clone_exit_record 3
        + param_len clone_exit_record 4 + param_len clone_exit_record 5
        + param_len clone_exit_record 6 + param_len clone_exit_record 7
        + param_len clone_exit_record 8 + param_len clone_exit_record 9
        + param_len clone_exit_record 10 + param_len clone_exit_record 11
        + param_len clone_exit_record 12) ∧
    (∀ ptid comm, is_lineage_type clone_exit_record.type = true →
      (comm_b_denylisted.m_suppressed_tids.isEmpty
        && comm_b_denylisted.m_suppressed_comms.isEmpty) = false →
      read_le clone_exit_record (param_off clone_exit_record 5) 8 = some ptid →
      read_cstr clone_exit_record (param_off clone_exit_record 13) = some comm →
      comm_b_denylisted.process_event clone_exit_record =
        if comm_b_denylisted.is_suppressed_tid ptid then
          some (scap_rc.SCAP_FILTERED_EVENT, { comm_b_denylisted with
            m_suppressed_tids := set_insert clone_exit_record.tid
              comm_b_denylisted.m_suppressed_tids
            m_num_suppressed_events := comm_b_denylisted.m_num_suppressed_events + 1 })
        else if comm ∈ comm_b_denylisted.m_suppressed_comms then
          some (scap_rc.SCAP_FILTERED_EVENT,
            (comm_b_denylisted.check_suppressed_comm clone_exit_record.tid ptid comm).2)
        else some (scap_rc.SCAP_SUCCESS,
          comm_b_denylisted.handle_thread clone_exit_record.tid ptid comm)) ∧
    (∀ ts tail,
      (spawn_process_parent_clone_exit ts tail).tid = 1 ∧
      lineage_ptid (spawn_process_parent_clone_exit ts tail) = some 0 ∧
      lineage_comm (spawn_process_parent_clone_exit ts tail) = some ascii_init ∧
      (spawn_process_child_clone_exit ts tail).tid = 20 ∧
      lineage_ptid (spawn_process_child_clone_exit ts tail) = some 1 ∧
      lineage_comm (spawn_process_child_clone_exit ts tail) = some ascii_init ∧
      (spawn_process_execve_exit ts tail).tid = 20 ∧
      lineage_ptid (spawn_process_execve_exit ts tail) = some 1 ∧
      lineage_comm (spawn_process_execve_exit ts tail) = some ascii_test_exe) :=
  fixed_argument_positions clone_exit_record comm_b_denylisted (by decide) (by decide)
    (by decide)

end libsinsp

/-!
# Theorems on the encoder and the snaplen: claims C21, C22 and C30
-/

namespace filler_helpers

open ppm_param_type ppm_rc read_memory

/-- Claim C30: for every lookahead size, buffer and cursor, if
`settings->do_dynamic_snaplen` is false, or `data->fd` is -1, or the fd does
not resolve to a socket (or the socket has no `sk`), `bpf_compute_snaplen`
returns `settings->snaplen`. -/
theorem dynamic_snaplen_off (c : driver_consts) (data : filler_data) (lookahead_size : Nat)
    (buf : Nat → Nat) (curoff : Nat)
    (h : data.settings.do_dynamic_snaplen = false ∨ data.fd = -1 ∨ data.sockfd_lookup = none ∨
      ∃ so, data.sockfd_lookup = some so ∧ so.sk = none) :
    bpf_compute_snaplen c { data with buf := buf, curoff := curoff } lookahead_size
      = data.settings.snaplen := by
  have hp : snaplen_socket_ports c data = none := by
    unfold snaplen_socket_ports
    rcases h with h | h | h | ⟨so, h, hsk⟩
    · simp [h]
    · simp [h]
    · simp [h]
    · simp [h, hsk]
  unfold bpf_compute_snaplen
  simp only [(snaplen_socket_ports_buf c data buf curoff).trans hp]

/-- Witness of `dynamic_snaplen_off`: a socket whose ports are in the
full-capture range, dynamic snaplen off, base snaplen 80. -/
theorem dynamic_snaplen_off_witness :
    bpf_compute_snaplen upstream_consts
      { dynamic_snaplen_off_input with buf := fun _ => 3, curoff := 10 } 16
      = dynamic_snaplen_off_input.settings.snaplen :=
  dynamic_snaplen_off upstream_consts dynamic_snaplen_off_input 16 (fun _ => 3) 10
    (Or.inl rfl)

/-! ## Claim C21: the pre-rendered types -/

theorem val_to_ring_payload_sockaddr (c : driver_consts) (d : filler_data)
    (cb val val_len : Nat) (type : ppm_param_type) (enforce_snaplen : Bool) (mem : read_memory)
    (htype : type = PT_SOCKADDR ∨ type = PT_SOCKTUPLE ∨ type = PT_FDLIST) :
    val_to_ring_payload c d cb val val_len type enforce_snaplen mem
      = sockaddr_payload d val val_len := by
  rcases htype with h | h | h <;> subst h <;> rfl

/-- The result of `__bpf_val_to_ring` when the `switch` ends with a `return`. -/
theorem val_to_ring_of_payload_error (c : driver_consts) (data : filler_data)
    (val val_len : Nat) (type : ppm_param_type) (dyn_idx : Nat) (enforce_snaplen : Bool)
    (mem : read_memory) (r : ppm_rc × filler_data)
    (hcur : (write_dyn_idx c data dyn_idx).curoff ≤ c.SCRATCH_SIZE_HALF)
    (hp : val_to_ring_payload c (write_dyn_idx c data dyn_idx)
      (Nat.land (write_dyn_idx c data dyn_idx).curoff c.SCRATCH_SIZE_HALF) val val_len type
      enforce_snaplen mem = .error r) :
    __bpf_val_to_ring c data val val_len type dyn_idx enforce_snaplen mem = r := by
  have h0 := (write_dyn_idx_fields c data dyn_idx).1
  unfold __bpf_val_to_ring
  simp only
  rw [if_neg (by omega), if_neg (by omega), hp]

/-- Claim C21 as stated fails for a pre-rendered value longer than
`PPM_MAX_ARG_SIZE`: a `PT_SOCKTUPLE` already on the frame with
`val_len = 70000` is not recorded with length 70000, the call returns
`PPM_FAILURE_FRAME_SCRATCH_MAP_FULL` and `curarg` stays. -/
theorem on_frame_socktuple_over_max_fails :
    arg_on_frame.curarg_already_on_frame = true ∧
    arg_on_frame.curoff ≤ upstream_consts.SCRATCH_SIZE_HALF ∧
    (__bpf_val_to_ring upstream_consts arg_on_frame 0 70000 PT_SOCKTUPLE 255 false USER).1
      = PPM_FAILURE_FRAME_SCRATCH_MAP_FULL ∧
    (__bpf_val_to_ring upstream_consts arg_on_frame 0 70000 PT_SOCKTUPLE 255 false
      USER).2.curarg = arg_on_frame.curarg := by
  decide

/-- Claim C21, amended: for `PT_SOCKADDR`, `PT_SOCKTUPLE` and `PT_FDLIST`, with
the cursor after the dynamic-index byte (if any) still `<= SCRATCH_SIZE_HALF`,
`__bpf_val_to_ring` stores nothing but that byte and
(a) if `curarg_already_on_frame` is set and `len_dyn + val_len` is at most
`PPM_MAX_ARG_SIZE`, it succeeds and records the payload length `val_len`
(length prefix `len_dyn + val_len`), and if `len_dyn + val_len` is above
`PPM_MAX_ARG_SIZE` (and below `2^32`) it returns
`PPM_FAILURE_FRAME_SCRATCH_MAP_FULL` without recording a prefix or advancing
`curarg`;
(b) otherwise, if `val` is 0 (and `len_dyn <= PPM_MAX_ARG_SIZE`), it succeeds
and records the payload length 0;
(c) otherwise it returns `PPM_FAILURE_BUG` without recording a prefix or
advancing `curarg`. -/
theorem pre_rendered_types (c : driver_consts) (data : filler_data) (val val_len : Nat)
    (type : ppm_param_type) (dyn_idx : Nat) (enforce_snaplen : Bool) (mem : read_memory)
    (htype : type = PT_SOCKADDR ∨ type = PT_SOCKTUPLE ∨ type = PT_FDLIST)
    (hcur : (write_dyn_idx c data dyn_idx).curoff ≤ c.SCRATCH_SIZE_HALF) :
    (data.curarg_already_on_frame = true → len_dyn_of dyn_idx + val_len ≤ c.PPM_MAX_ARG_SIZE →
      len_dyn_of dyn_idx + val_len < 4294967296 →
      (__bpf_val_to_ring c data val val_len type dyn_idx enforce_snaplen mem).1 = PPM_SUCCESS ∧
      (__bpf_val_to_ring c data val val_len type dyn_idx enforce_snaplen mem).2.arg_lens
        data.curarg = len_dyn_of dyn_idx + val_len ∧
      (__bpf_val_to_ring c data val val_len type dyn_idx enforce_snaplen mem).2.curoff
        = data.curoff + (len_dyn_of dyn_idx + val_len) ∧
      (__bpf_val_to_ring c data val val_len type dyn_idx enforce_snaplen mem).2.len
        = data.len + (len_dyn_of dyn_idx + val_len) ∧
      (__bpf_val_to_ring c data val val_len type dyn_idx enforce_snaplen mem).2.curarg
        = data.curarg + 1 ∧
      (__bpf_val_to_ring c data val val_len type dyn_idx enforce_snaplen mem).2.buf
        = (write_dyn_idx c data dyn_idx).buf) ∧
    (data.curarg_already_on_frame = true → c.PPM_MAX_ARG_SIZE < len_dyn_of dyn_idx + val_len →
      len_dyn_of dyn_idx + val_len < 4294967296 →
      __bpf_val_to_ring c data val val_len type dyn_idx enforce_snaplen mem
        = (PPM_FAILURE_FRAME_SCRATCH_MAP_FULL, write_dyn_idx c data dyn_idx)) ∧
    (data.curarg_already_on_frame = false → val = 0 →
      len_dyn_of dyn_idx ≤ c.PPM_MAX_ARG_SIZE →
      (__bpf_val_to_ring c data val val_len type dyn_idx enforce_snaplen mem).1 = PPM_SUCCESS ∧
      (__bpf_val_to_ring c data val val_len type dyn_idx enforce_snaplen mem).2.arg_lens
        data.curarg = len_dyn_of dyn_idx + 0 ∧
      (__bpf_val_to_ring c data val val_len type dyn_idx enforce_snaplen mem).2.curoff
        = data.curoff + (len_dyn_of dyn_idx + 0) ∧
      (__bpf_val_to_ring c data val val_len type dyn_idx enforce_snaplen mem).2.len
        = data.len + (len_dyn_of dyn_idx + 0) ∧
      (__bpf_val_to_ring c data val val_len type dyn_idx enforce_snaplen mem).2.curarg
        = data.curarg + 1 ∧
      (__bpf_val_to_ring c data val val_len type dyn_idx enforce_snaplen mem).2.buf
        = (write_dyn_idx c data dyn_idx).buf) ∧
    (data.curarg_already_on_frame = false → val ≠ 0 →
      __bpf_val_to_ring c data val val_len type dyn_idx enforce_snaplen mem
        = (PPM_FAILURE_BUG, write_dyn_idx c data dyn_idx)) := by
  have hw := write_dyn_idx_fields c data dyn_idx
  have hd := len_dyn_of_le dyn_idx
  have hpay := val_to_ring_payload_sockaddr c (write_dyn_idx c data dyn_idx)
    (Nat.land (write_dyn_idx c data dyn_idx).curoff c.SCRATCH_SIZE_HALF) val val_len type
    enforce_snaplen mem htype
  refine ⟨fun hf hmax hlt => ?_, fun hf hmax hlt => ?_, fun hf hv hmax => ?_, fun hf hv => ?_⟩
  · have hp : val_to_ring_payload c (write_dyn_idx c data dyn_idx)
        (Nat.land (write_dyn_idx c data dyn_idx).curoff c.SCRATCH_SIZE_HALF) val val_len type
        enforce_snaplen mem = .ok (val_len % 4294967296, write_dyn_idx c data dyn_idx) := by
      rw [hpay]
      unfold sockaddr_payload
      rw [if_pos (hw.2.2.2.2.1.trans hf)]
    rw [Nat.mod_eq_of_lt (by omega)] at hp
    have r := val_to_ring_recorded c data val val_len type dyn_idx enforce_snaplen mem val_len _
      hcur hp hmax hlt
    refine ⟨r.1, r.2.1, r.2.2.1, r.2.2.2.1, r.2.2.2.2, ?_⟩
    rw [val_to_ring_of_payload c data val val_len type dyn_idx enforce_snaplen mem _ _ hcur hp,
      Nat.mod_eq_of_lt hlt, if_neg (by omega)]
  · have hp : val_to_ring_payload c (write_dyn_idx c data dyn_idx)
        (Nat.land (write_dyn_idx c data dyn_idx).curoff c.SCRATCH_SIZE_HALF) val val_len type
        enforce_snaplen mem = .ok (val_len % 4294967296, write_dyn_idx c data dyn_idx) := by
      rw [hpay]
      unfold sockaddr_payload
      rw [if_pos (hw.2.2.2.2.1.trans hf)]
    rw [Nat.mod_eq_of_lt (by omega)] at hp
    rw [val_to_ring_of_payload c data val val_len type dyn_idx enforce_snaplen mem _ _ hcur hp,
      Nat.mod_eq_of_lt hlt, if_pos (by omega)]
  · have hp : val_to_ring_payload c (write_dyn_idx c data dyn_idx)
        (Nat.land (write_dyn_idx c data dyn_idx).curoff c.SCRATCH_SIZE_HALF) val val_len type
        enforce_snaplen mem = .ok (0, write_dyn_idx c data dyn_idx) := by
      rw [hpay]
      unfold sockaddr_payload
      rw [if_neg (by rw [hw.2.2.2.2.1.trans hf]; decide), if_pos hv]
    have r := val_to_ring_recorded c data val val_len type dyn_idx enforce_snaplen mem 0 _
      hcur hp (by omega) (by omega)
    refine ⟨r.1, r.2.1, r.2.2.1, r.2.2.2.1, r.2.2.2.2, ?_⟩
    rw [val_to_ring_of_payload c data val val_len type dyn_idx enforce_snaplen mem _ _ hcur hp,
      if_neg (by rw [Nat.mod_eq_of_lt (by omega)]; omega)]
  · apply val_to_ring_of_payload_error c data val val_len type dyn_idx enforce_snaplen mem _ hcur
    rw [hpay]
    unfold sockaddr_payload
    rw [if_neg (by rw [hw.2.2.2.2.1.trans hf]; decide), if_neg hv]

/-- Witness of `pre_rendered_types`: a `PT_SOCKADDR` of 7 bytes already on the
frame, with the dynamic-index byte 1. -/
theorem pre_rendered_types_witness :
    (__bpf_val_to_ring upstream_consts arg_on_frame 0 7 PT_SOCKADDR 1 false USER).1
      = PPM_SUCCESS ∧
    (__bpf_val_to_ring upstream_consts arg_on_frame 0 7 PT_SOCKADDR 1 false USER).2.arg_lens
      arg_on_frame.curarg = len_dyn_of 1 + 7 ∧
    (__bpf_val_to_ring upstream_consts arg_on_frame 0 7 PT_SOCKADDR 1 false USER).2.curoff
      = arg_on_frame.curoff + (len_dyn_of 1 + 7) ∧
    (__bpf_val_to_ring upstream_consts arg_on_frame 0 7 PT_SOCKADDR 1 false USER).2.len
      = arg_on_frame.len + (len_dyn_of 1 + 7) ∧
    (__bpf_val_to_ring upstream_consts arg_on_frame 0 7 PT_SOCKADDR 1 false USER).2.curarg
      = arg_on_frame.curarg + 1 ∧
    (__bpf_val_to_ring upstream_consts arg_on_frame 0 7 PT_SOCKADDR 1 false USER).2.buf
      = (write_dyn_idx upstream_consts arg_on_frame 1).buf :=
  (pre_rendered_types upstream_consts arg_on_frame 0 7 PT_SOCKADDR 1 false USER (Or.inl rfl)
    (by decide)).1 rfl (by decide) (by decide)

/-! ## Claim C22: the fixed-width types -/

theorem val_to_ring_payload_fixed (c : driver_consts) (d : filler_data) (cb val val_len : Nat)
    (type : ppm_param_type) (enforce_snaplen : Bool) (mem : read_memory) (w : Nat)
    (hw : fixed_width type = some w) :
    val_to_ring_payload c d cb val val_len type enforce_snaplen mem
      = .ok (w, { d with buf := buf_write d.buf cb (store_bytes w val) }) := by
  cases type <;> simp only [fixed_width, Option.some.injEq, reduceCtorEq] at hw <;>
    subst hw <;> rfl

theorem fixed_width_mem (type : ppm_param_type) (w : Nat) (hw : fixed_width type = some w) :
    w ∈ [1, 2, 4, 8] := by
  cases type <;> simp only [fixed_width, Option.some.injEq, reduceCtorEq] at hw <;>
    subst hw <;> decide

theorem store_bytes_length (w v : Nat) : (store_bytes w v).length = w := by
  induction w generalizing v with
  | zero => rfl
  | succ n ih => simp [store_bytes, ih]

theorem load_le_congr (b1 b2 : Nat → Nat) (off w : Nat)
    (h : ∀ k, k < w → b1 (off + k) = b2 (off + k)) : load_le b1 off w = load_le b2 off w := by
  induction w generalizing off with
  | zero => rfl
  | succ n ih =>
    simp only [load_le]
    rw [show b1 off = b2 off from h 0 (by omega), ih (off + 1) (fun k hk => by
      have := h (k + 1) (by omega)
      rw [show off + 1 + k = off + (k + 1) by omega]; exact this)]

/-- Reading back the `w` bytes that were stored for `v` gives `v` modulo
`256^w`. -/
theorem load_le_store_bytes (buf : Nat → Nat) (off w v : Nat) :
    load_le (buf_write buf off (store_bytes w v)) off w = v % 256 ^ w := by
  induction w generalizing buf off v with
  | zero => simp [load_le, Nat.mod_one]
  | succ n ih =>
    have hrest : load_le (buf_write buf off (store_bytes (n + 1) v)) (off + 1) n
        = load_le (buf_write buf (off + 1) (store_bytes n (v / 256))) (off + 1) n := by
      apply load_le_congr
      intro k hk
      simp only [buf_write, store_bytes, List.length_cons, store_bytes_length]
      rw [if_pos (by omega), if_pos (by omega)]
      rw [show off + 1 + k - off = (k + 1) by omega, show off + 1 + k - (off + 1) = k by omega]
      rfl
    simp only [load_le]
    rw [hrest, ih]
    have h0 : buf_write buf off (store_bytes (n + 1) v) off = v % 256 := by
      simp only [buf_write, store_bytes, List.length_cons, store_bytes_length]
      rw [if_pos (by omega)]
      simp
    rw [h0, Nat.mod_mod, pow_succ, Nat.mul_comm (256 ^ n) 256, Nat.mod_mul]

/-- Claim C22 as stated fails with a dynamic-index byte: the encode of the
`PT_UINT16` value 9 with `dyn_idx = 5` succeeds, records the length 3 and not
2, and the two bytes at the old cursor 0 are the dynamic-index byte and the
low byte of the value: read back they give 2309, not 9. -/
theorem fixed_width_with_dyn_idx_shifted :
    fixed_width PT_UINT16 = some 2 ∧
    (__bpf_val_to_ring upstream_consts {} 9 0 PT_UINT16 5 false KERNEL).1 = PPM_SUCCESS ∧
    (__bpf_val_to_ring upstream_consts {} 9 0 PT_UINT16 5 false KERNEL).2.arg_lens 0 = 3 ∧
    load_le (__bpf_val_to_ring upstream_consts {} 9 0 PT_UINT16 5 false KERNEL).2.buf 0 2
      = 2309 := by
  decide

/-- Claim C22, amended: for every type that `__bpf_val_to_ring` stores with a
fixed width `w` and every value `val`, `w` is 1, 2, 4 or 8 and a successful
encode records the length `len_dyn + w`, advances the cursor by as much, and
the `w` bytes stored after the dynamic-index byte (at the masked index of the
old cursor plus `len_dyn`), read back as a `w`-byte little-endian integer,
are `val` modulo `2^(8w)`: `val` itself when `val < 2^(8w)`.  Without a
dynamic-index byte the length is `w` and the bytes are at the old cursor. -/
theorem fixed_width_round_trip (c : driver_consts) (data : filler_data) (val val_len : Nat)
    (type : ppm_param_type) (dyn_idx : Nat) (enforce_snaplen : Bool) (mem : read_memory)
    (w : Nat) (hw : fixed_width type = some w)
    (hs : (__bpf_val_to_ring c data val val_len type dyn_idx enforce_snaplen mem).1
      = PPM_SUCCESS) :
    w ∈ [1, 2, 4, 8] ∧
    (__bpf_val_to_ring c data val val_len type dyn_idx enforce_snaplen mem).2.arg_lens
      data.curarg = len_dyn_of dyn_idx + w ∧
    (__bpf_val_to_ring c data val val_len type dyn_idx enforce_snaplen mem).2.curoff
      = data.curoff + (len_dyn_of dyn_idx + w) ∧
    load_le (__bpf_val_to_ring c data val val_len type dyn_idx enforce_snaplen mem).2.buf
      (Nat.land (data.curoff + len_dyn_of dyn_idx) c.SCRATCH_SIZE_HALF) w = val % 256 ^ w ∧
    (val < 256 ^ w →
      load_le (__bpf_val_to_ring c data val val_len type dyn_idx enforce_snaplen mem).2.buf
        (Nat.land (data.curoff + len_dyn_of dyn_idx) c.SCRATCH_SIZE_HALF) w = val) ∧
    (dyn_idx % 256 = 255 →
      (__bpf_val_to_ring c data val val_len type dyn_idx enforce_snaplen mem).2.arg_lens
        data.curarg = w ∧
      load_le (__bpf_val_to_ring c data val val_len type dyn_idx enforce_snaplen mem).2.buf
        (Nat.land data.curoff c.SCRATCH_SIZE_HALF) w = val % 256 ^ w) := by
  obtain ⟨h0, hcur, len, d, hp, hle, heq⟩ := val_to_ring_success c data val val_len type
    dyn_idx enforce_snaplen mem hs
  have hmem := fixed_width_mem type w hw
  have hw8 : w ≤ 8 := by
    simp only [List.mem_cons, List.mem_singleton, List.not_mem_nil, or_false] at hmem
    omega
  have hwf := write_dyn_idx_fields c data dyn_idx
  have hd := len_dyn_of_le dyn_idx
  rw [val_to_ring_payload_fixed c _ _ val val_len type enforce_snaplen mem w hw] at hp
  simp only [Except.ok.injEq, Prod.mk.injEq] at hp
  obtain ⟨hlen, hd2⟩ := hp
  subst hlen
  have hm : (len_dyn_of dyn_idx + w) % 4294967296 = len_dyn_of dyn_idx + w :=
    Nat.mod_eq_of_lt (by omega)
  have hload : load_le (__bpf_val_to_ring c data val val_len type dyn_idx enforce_snaplen
      mem).2.buf (Nat.land (data.curoff + len_dyn_of dyn_idx) c.SCRATCH_SIZE_HALF) w
      = val % 256 ^ w := by
    rw [heq, ← hd2, hwf.1]
    exact load_le_store_bytes _ _ _ _
  have hrec : (__bpf_val_to_ring c data val val_len type dyn_idx enforce_snaplen
      mem).2.arg_lens data.curarg = len_dyn_of dyn_idx + w := by
    rw [heq, ← hd2, hm]
    simp only [fixup_evt_arg_len, hwf.2.2.1, if_true]
  refine ⟨hmem, hrec, ?_, hload, fun hv => ?_, fun hdyn => ?_⟩
  · rw [heq, ← hd2]
    simp only [hwf.1]
    omega
  · rw [hload, Nat.mod_eq_of_lt hv]
  · have hz := len_dyn_of_none dyn_idx hdyn
    rw [hz, Nat.zero_add] at hrec
    rw [hz, Nat.add_zero] at hload
    exact ⟨hrec, hload⟩

/-- Witness of `fixed_width_round_trip`: the `PT_INT32` encode of the value
`2^32 + 5` at cursor 0 without a dynamic-index byte. -/
theorem fixed_width_round_trip_witness :
    4 ∈ [1, 2, 4, 8] ∧
    (__bpf_val_to_ring upstream_consts {} 4294967301 0 PT_INT32 255 false KERNEL).2.arg_lens
      ({} : filler_data).curarg = len_dyn_of 255 + 4 ∧
    (__bpf_val_to_ring upstream_consts {} 4294967301 0 PT_INT32 255 false KERNEL).2.curoff
      = ({} : filler_data).curoff + (len_dyn_of 255 + 4) ∧
    load_le (__bpf_val_to_ring upstream_consts {} 4294967301 0 PT_INT32 255 false KERNEL).2.buf
      (Nat.land (({} : filler_data).curoff + len_dyn_of 255) upstream_consts.SCRATCH_SIZE_HALF) 4
      = 4294967301 % 256 ^ 4 ∧
    (4294967301 < 256 ^ 4 →
      load_le (__bpf_val_to_ring upstream_consts {} 4294967301 0 PT_INT32 255 false
        KERNEL).2.buf
        (Nat.land (({} : filler_data).curoff + len_dyn_of 255) upstream_consts.SCRATCH_SIZE_HALF)
        4 = 4294967301) ∧
    (255 % 256 = 255 →
      (__bpf_val_to_ring upstream_consts {} 4294967301 0 PT_INT32 255 false KERNEL).2.arg_lens
        ({} : filler_data).curarg = 4 ∧
      load_le (__bpf_val_to_ring upstream_consts {} 4294967301 0 PT_INT32 255 false
        KERNEL).2.buf (Nat.land ({} : filler_data).curoff upstream_consts.SCRATCH_SIZE_HALF) 4
        = 4294967301 % 256 ^ 4) :=
  fixed_width_round_trip upstream_consts {} 4294967301 0 PT_INT32 255 false KERNEL 4 rfl
    (by decide)

end filler_helpers

/-!
# Theorems on socket addresses: claims C25, C26 and C27
-/

namespace filler_helpers

open ppm_param_type ppm_rc read_memory

theorem buf_write_in (buf : Nat → Nat) (off : Nat) (bytes : List Nat) (i : Nat)
    (h1 : off ≤ i) (h2 : i < off + bytes.length) :
    buf_write buf off bytes i = bytes.getD (i - off) 0 := by
  unfold buf_write
  rw [if_pos ⟨h1, h2⟩]

theorem buf_write_out (buf : Nat → Nat) (off : Nat) (bytes : List Nat) (i : Nat)
    (h : i < off ∨ off + bytes.length ≤ i) :
    buf_write buf off bytes i = buf i := by
  unfold buf_write
  rw [if_neg (by omega)]

theorem load_le_buf_write_out (buf : Nat → Nat) (off : Nat) (bytes : List Nat) (o w : Nat)
    (h : o + w ≤ off ∨ off + bytes.length ≤ o) :
    load_le (buf_write buf off bytes) o w = load_le buf o w := by
  apply load_le_congr
  intro k hk
  exact buf_write_out _ _ _ _ (by omega)

theorem sa_bytes_length (sa : Nat → Nat) (off n : Nat) : (sa_bytes sa off n).length = n := by
  simp [sa_bytes]

theorem sa_bytes_getD (sa : Nat → Nat) (off n k : Nat) (hk : k < n) :
    (sa_bytes sa off n).getD k 0 = sa (off + k) % 256 := by
  simp [sa_bytes, List.getD_eq_getElem?_getD, hk]

theorem sa_bytes_succ (sa : Nat → Nat) (off n : Nat) :
    sa_bytes sa off (n + 1) = sa off % 256 :: sa_bytes sa (off + 1) n := by
  apply List.ext_getElem
  · simp [sa_bytes]
  · intro k h1 h2
    simp only [sa_bytes, List.length_map, List.length_range] at h1
    cases k with
    | zero => simp [sa_bytes]
    | succ k =>
      simp only [sa_bytes, List.getElem_map, List.getElem_range, List.getElem_cons_succ]
      rw [show off + (k + 1) = off + 1 + k by omega]

/-- Storing the value read from `w` bytes stores these bytes. -/
theorem store_bytes_load_le (sa : Nat → Nat) (off w : Nat) :
    store_bytes w (load_le sa off w) = sa_bytes sa off w := by
  induction w generalizing off with
  | zero => rfl
  | succ n ih =>
    rw [sa_bytes_succ, load_le, store_bytes, ← ih (off + 1)]
    have h1 : (sa off % 256 + 256 * load_le sa (off + 1) n) % 256 = sa off % 256 := by omega
    have h2 : (sa off % 256 + 256 * load_le sa (off + 1) n) / 256 = load_le sa (off + 1) n := by
      omega
    rw [h1, h2]

theorem ntohs_lt (x : Nat) : ntohs x < 65536 := by
  unfold ntohs
  omega

/-! ## Claim C25: the layout of a packed address -/

/-- Claim C25 as stated fails at the end of the window: with the cursor at
`SCRATCH_SIZE_HALF` = 131071, `bpf_pack_addr` stores the family tag of an
`AF_INET` address at index 131071 and, each offset being masked on its own,
the address 10.0.0.1 at the indices 0 to 3 and the port at 4 and 5, not after
the tag. -/
theorem pack_addr_wraps_at_window_end :
    sa_family inet_sockaddr = upstream_consts.AF_INET ∧
    (bpf_pack_addr upstream_consts id cursor_at_half inet_sockaddr 16).1 = 7 ∧
    (bpf_pack_addr upstream_consts id cursor_at_half inet_sockaddr 16).2.1.buf 131071 = 2 ∧
    (bpf_pack_addr upstream_consts id cursor_at_half inet_sockaddr 16).2.1.buf 131072 = 0 ∧
    (bpf_pack_addr upstream_consts id cursor_at_half inet_sockaddr 16).2.1.buf 0 = 10 ∧
    (bpf_pack_addr upstream_consts id cursor_at_half inet_sockaddr 16).2.1.buf 3 = 1 ∧
    (bpf_pack_addr upstream_consts id cursor_at_half inet_sockaddr 16).2.1.buf 4 = 80 := by
  decide

/-- Claim C25, amended: when the masked offsets do not wrap (the masked index
of `curoff + k` is the masked index of `curoff` plus `k`, for the offsets `k`
of the fields), for every `AF_INET` address `bpf_pack_addr` returns 7 and the
buffer holds, from the cursor on, the family tag, the 4 address bytes
unchanged and the 2-byte port `ntohs(sin_port)` in host byte order; for every
`AF_INET6` address it returns 19 and the buffer holds the family tag, the 16
address bytes unchanged and the 2-byte port `ntohs(sin6_port)`; no other byte
of the buffer changes.  For every family other than `AF_INET`, `AF_INET6` and
`AF_UNIX` it returns 0 and changes nothing, whatever the cursor. -/
theorem pack_addr_layout (c : driver_consts) (socket_family_to_scap : Nat → Nat)
    (data : filler_data) (usrsockaddr : Nat → Nat) (ulen : Nat) :
    (sa_family usrsockaddr = c.AF_INET →
      Nat.land (data.curoff + 1) c.SCRATCH_SIZE_HALF
        = Nat.land data.curoff c.SCRATCH_SIZE_HALF + 1 →
      Nat.land (data.curoff + 5) c.SCRATCH_SIZE_HALF
        = Nat.land data.curoff c.SCRATCH_SIZE_HALF + 5 →
      (bpf_pack_addr c socket_family_to_scap data usrsockaddr ulen).1 = 7 ∧
      (bpf_pack_addr c socket_family_to_scap data usrsockaddr ulen).2.2 = usrsockaddr ∧
      same_but_buf data (bpf_pack_addr c socket_family_to_scap data usrsockaddr ulen).2.1 ∧
      (bpf_pack_addr c socket_family_to_scap data usrsockaddr ulen).2.1.buf
        (Nat.land data.curoff c.SCRATCH_SIZE_HALF) = socket_family_to_scap c.AF_INET % 256 ∧
      (∀ k, k < 4 →
        (bpf_pack_addr c socket_family_to_scap data usrsockaddr ulen).2.1.buf
          (Nat.land data.curoff c.SCRATCH_SIZE_HALF + 1 + k) = usrsockaddr (4 + k) % 256) ∧
      load_le (bpf_pack_addr c socket_family_to_scap data usrsockaddr ulen).2.1.buf
        (Nat.land data.curoff c.SCRATCH_SIZE_HALF + 5) 2 = ntohs (sin_port usrsockaddr) ∧
      (∀ i, i < Nat.land data.curoff c.SCRATCH_SIZE_HALF
          ∨ Nat.land data.curoff c.SCRATCH_SIZE_HALF + 7 ≤ i →
        (bpf_pack_addr c socket_family_to_scap data usrsockaddr ulen).2.1.buf i = data.buf i)) ∧
    (sa_family usrsockaddr = c.AF_INET6 → c.AF_INET6 ≠ c.AF_INET →
      Nat.land (data.curoff + 1) c.SCRATCH_SIZE_HALF
        = Nat.land data.curoff c.SCRATCH_SIZE_HALF + 1 →
      Nat.land (data.curoff + 17) c.SCRATCH_SIZE_HALF
        = Nat.land data.curoff c.SCRATCH_SIZE_HALF + 17 →
      (bpf_pack_addr c socket_family_to_scap data usrsockaddr ulen).1 = 19 ∧
      (bpf_pack_addr c socket_family_to_scap data usrsockaddr ulen).2.2 = usrsockaddr ∧
      same_but_buf data (bpf_pack_addr c socket_family_to_scap data usrsockaddr ulen).2.1 ∧
      (bpf_pack_addr c socket_family_to_scap data usrsockaddr ulen).2.1.buf
        (Nat.land data.curoff c.SCRATCH_SIZE_HALF) = socket_family_to_scap c.AF_INET6 % 256 ∧
      (∀ k, k < 16 →
        (bpf_pack_addr c socket_family_to_scap data usrsockaddr ulen).2.1.buf
          (Nat.land data.curoff c.SCRATCH_SIZE_HALF + 1 + k) = usrsockaddr (8 + k) % 256) ∧
      load_le (bpf_pack_addr c socket_family_to_scap data usrsockaddr ulen).2.1.buf
        (Nat.land data.curoff c.SCRATCH_SIZE_HALF + 17) 2 = ntohs (sin_port usrsockaddr) ∧
      (∀ i, i < Nat.land data.curoff c.SCRATCH_SIZE_HALF
          ∨ Nat.land data.curoff c.SCRATCH_SIZE_HALF + 19 ≤ i →
        (bpf_pack_addr c socket_family_to_scap data usrsockaddr ulen).2.1.buf i = data.buf i)) ∧
    (sa_family usrsockaddr ≠ c.AF_INET → sa_family usrsockaddr ≠ c.AF_INET6 →
      sa_family usrsockaddr ≠ c.AF_UNIX →
      bpf_pack_addr c socket_family_to_scap data usrsockaddr ulen = (0, data, usrsockaddr)) := by
  refine ⟨fun hf h1 h5 => ?_, fun hf hne h1 h17 => ?_, fun h4 h6 hu => ?_⟩
  · unfold bpf_pack_addr
    simp only [hf, if_true, h1, h5]
    have hl4 : (store_bytes 4 (s_addr usrsockaddr)).length = 4 := store_bytes_length _ _
    have hl2 : (store_bytes 2 (ntohs (sin_port usrsockaddr))).length = 2 :=
      store_bytes_length _ _
    refine ⟨trivial, trivial, rfl, ?_, fun k hk => ?_, ?_, fun i hi => ?_⟩
    · rw [buf_write_out _ _ _ _ (by omega), buf_write_out _ _ _ _ (by omega),
        buf_write_in _ _ _ _ (by omega) (by simp)]
      simp
    · rw [buf_write_out _ _ _ _ (by omega), buf_write_in _ _ _ _ (by omega) (by omega)]
      unfold s_addr
      rw [store_bytes_load_le, show Nat.land data.curoff c.SCRATCH_SIZE_HALF + 1 + k
        - (Nat.land data.curoff c.SCRATCH_SIZE_HALF + 1) = k by omega, sa_bytes_getD _ _ _ _ hk]
    · rw [load_le_store_bytes]
      exact Nat.mod_eq_of_lt (by have := ntohs_lt (sin_port usrsockaddr); omega)
    · rw [buf_write_out _ _ _ _ (by omega), buf_write_out _ _ _ _ (by omega),
        buf_write_out _ _ _ _ (by simp only [List.length_singleton]; omega)]
  · unfold bpf_pack_addr
    have hne' : ¬ c.AF_INET6 = c.AF_INET := hne
    simp only [hf, hne', if_false, if_true, h1, h17]
    have hl16 : (s6_addr usrsockaddr).length = 16 := sa_bytes_length _ _ _
    have hl2 : (store_bytes 2 (ntohs (sin_port usrsockaddr))).length = 2 :=
      store_bytes_length _ _
    refine ⟨trivial, trivial, rfl, ?_, fun k hk => ?_, ?_, fun i hi => ?_⟩
    · rw [buf_write_out _ _ _ _ (by omega), buf_write_out _ _ _ _ (by omega),
        buf_write_in _ _ _ _ (by omega) (by simp)]
      simp
    · rw [buf_write_out _ _ _ _ (by omega), buf_write_in _ _ _ _ (by omega) (by omega)]
      unfold s6_addr
      rw [show Nat.land data.curoff c.SCRATCH_SIZE_HALF + 1 + k
        - (Nat.land data.curoff c.SCRATCH_SIZE_HALF + 1) = k by omega, sa_bytes_getD _ _ _ _ hk]
    · rw [load_le_store_bytes]
      exact Nat.mod_eq_of_lt (by have := ntohs_lt (sin_port usrsockaddr); omega)
    · rw [buf_write_out _ _ _ _ (by omega), buf_write_out _ _ _ _ (by omega),
        buf_write_out _ _ _ _ (by simp only [List.length_singleton]; omega)]
  · unfold bpf_pack_addr
    simp only [h4, h6, hu, if_false]

/-- Witness of `pack_addr_layout`: the address 10.0.0.1:80 packed at
cursor 0. -/
theorem pack_addr_layout_witness :
    (bpf_pack_addr upstream_consts id {} inet_sockaddr 16).1 = 7 ∧
    (bpf_pack_addr upstream_consts id {} inet_sockaddr 16).2.2 = inet_sockaddr ∧
    same_but_buf {} (bpf_pack_addr upstream_consts id {} inet_sockaddr 16).2.1 ∧
    (bpf_pack_addr upstream_consts id {} inet_sockaddr 16).2.1.buf
      (Nat.land ({} : filler_data).curoff upstream_consts.SCRATCH_SIZE_HALF)
      = id upstream_consts.AF_INET % 256 ∧
    (∀ k, k < 4 →
      (bpf_pack_addr upstream_consts id {} inet_sockaddr 16).2.1.buf
        (Nat.land ({} : filler_data).curoff upstream_consts.SCRATCH_SIZE_HALF + 1 + k)
        = inet_sockaddr (4 + k) % 256) ∧
    load_le (bpf_pack_addr upstream_consts id {} inet_sockaddr 16).2.1.buf
      (Nat.land ({} : filler_data).curoff upstream_consts.SCRATCH_SIZE_HALF + 5) 2
      = ntohs (sin_port inet_sockaddr) ∧
    (∀ i, i < Nat.land ({} : filler_data).curoff upstream_consts.SCRATCH_SIZE_HALF
        ∨ Nat.land ({} : filler_data).curoff upstream_consts.SCRATCH_SIZE_HALF + 7 ≤ i →
      (bpf_pack_addr upstream_consts id {} inet_sockaddr 16).2.1.buf i
        = ({} : filler_data).buf i) :=
  (pack_addr_layout upstream_consts id {} inet_sockaddr 16).1 (by decide) (by decide)
    (by decide)

/-! ## Claim C26: abstract UNIX addresses -/

/-- Claim C26 at the failing inputs.  For the abstract address of length 6
whose `sun_path` is NUL, "a", NUL, "b", `bpf_pack_addr` returns 3 and stores
the tag, "a" and a NUL: the byte "b", covered by the address length, is not
stored (the string read stops at the NUL).  For the abstract address of
length 5 whose `sun_path` is NUL, NUL, "b", it returns 2 and stores the same
bytes as for the "no address available" structure of `bpf_getsockname`. -/
theorem unix_abstract_name_truncated :
    sa_family unix_abstract_sockaddr = upstream_consts.AF_UNIX ∧
    sa_bytes unix_abstract_sockaddr 2 4 = [0, 97, 0, 98] ∧
    (bpf_pack_addr upstream_consts id {} unix_abstract_sockaddr 6).1 = 3 ∧
    (List.range 4).map (bpf_pack_addr upstream_consts id {} unix_abstract_sockaddr 6).2.1.buf
      = [1, 97, 0, 0] ∧
    sa_family unix_abstract_nul_sockaddr = upstream_consts.AF_UNIX ∧
    sa_bytes unix_abstract_nul_sockaddr 2 3 = [0, 0, 98] ∧
    sa_family unix_sentinel = upstream_consts.AF_UNIX ∧
    sa_bytes unix_sentinel 2 3 = [0, 0, 7] ∧
    (bpf_pack_addr upstream_consts id {} unix_abstract_nul_sockaddr 5).1 = 2 ∧
    (bpf_pack_addr upstream_consts id {} unix_sentinel 4).1 = 2 ∧
    (List.range 4).map (bpf_pack_addr upstream_consts id {} unix_abstract_nul_sockaddr 5).2.1.buf
      = (List.range 4).map (bpf_pack_addr upstream_consts id {} unix_sentinel 4).2.1.buf := by
  decide

/-! ## Claim C27: the direction of a socket tuple -/

theorem sa_bytes_congr (a b : Nat → Nat) (off n : Nat)
    (h : ∀ k, k < n → a (off + k) = b (off + k)) : sa_bytes a off n = sa_bytes b off n := by
  unfold sa_bytes
  apply List.map_congr_left
  intro k hk
  rw [h k (List.mem_range.1 hk)]

theorem in6_bytes_length (l : List Nat) : (in6_bytes l).length = 16 := by
  simp [in6_bytes]

theorem in6_bytes_lt (l : List Nat) (b : Nat) (hb : b ∈ in6_bytes l) : b < 256 := by
  simp only [in6_bytes, List.mem_map] at hb
  obtain ⟨k, _, hk⟩ := hb
  rw [← hk]
  omega

/-- Reading back `n` stored bytes gives these bytes. -/
theorem sa_bytes_buf_write (buf : Nat → Nat) (off : Nat) (bytes : List Nat)
    (hb : ∀ b ∈ bytes, b < 256) :
    sa_bytes (buf_write buf off bytes) off bytes.length = bytes := by
  apply List.ext_getElem
  · simp [sa_bytes]
  · intro k h1 h2
    simp only [sa_bytes, List.getElem_map, List.getElem_range]
    rw [buf_write_in _ _ _ _ (by omega) (by omega), show off + k - off = k by omega,
      List.getD_eq_getElem _ _ h2]
    exact Nat.mod_eq_of_lt (hb _ (List.getElem_mem _))

/-- The address that `bpf_getsockname` writes for an `AF_INET` socket. -/
theorem getsockname_inet (c : driver_consts) (so : socket) (sk : sock) (addr : Nat → Nat)
    (peer : Bool) (hsk : so.sk = some sk) (hf : sk.sk_family = c.AF_INET) :
    (bpf_getsockname c so addr peer).1 = true ∧
    s_addr (bpf_getsockname c so addr peer).2
      = (if peer then sk.inet_daddr else inet_local_addr sk) % 256 ^ 4 ∧
    sin_port (bpf_getsockname c so addr peer).2
      = (if peer then sk.inet_dport else sk.inet_sport) % 256 ^ 2 := by
  unfold bpf_getsockname
  simp only [hsk, hf, if_true]
  cases peer
  · simp only [Bool.false_eq_true, if_false]
    refine ⟨trivial, ?_, ?_⟩
    · unfold s_addr inet_local_addr
      exact load_le_store_bytes _ _ _ _
    · unfold sin_port
      rw [load_le_buf_write_out _ _ _ _ _ (by omega)]
      exact load_le_store_bytes _ _ _ _
  · simp only [if_true]
    refine ⟨trivial, ?_, ?_⟩
    · unfold s_addr
      exact load_le_store_bytes _ _ _ _
    · unfold sin_port
      rw [load_le_buf_write_out _ _ _ _ _ (by omega)]
      exact load_le_store_bytes _ _ _ _

/-- The address that `bpf_getsockname` writes for an `AF_INET6` socket. -/
theorem getsockname_inet6 (c : driver_consts) (so : socket) (sk : sock) (addr : Nat → Nat)
    (peer : Bool) (hsk : so.sk = some sk) (hf : sk.sk_family = c.AF_INET6)
    (hne : c.AF_INET6 ≠ c.AF_INET) :
    (bpf_getsockname c so addr peer).1 = true ∧
    s6_addr (bpf_getsockname c so addr peer).2
      = (if peer then in6_bytes sk.sk_v6_daddr else inet6_local_addr sk) ∧
    sin_port (bpf_getsockname c so addr peer).2
      = (if peer then sk.inet_dport else sk.inet_sport) % 256 ^ 2 := by
  have hne' : ¬ c.AF_INET6 = c.AF_INET := hne
  unfold bpf_getsockname
  simp only [hsk, hf, hne', if_false, if_true]
  cases peer
  · simp only [Bool.false_eq_true, if_false]
    have hl : (inet6_local_addr sk).length = 16 := by
      unfold inet6_local_addr
      split <;> exact in6_bytes_length _
    have hb : ∀ b ∈ inet6_local_addr sk, b < 256 := by
      unfold inet6_local_addr
      split <;> exact in6_bytes_lt _
    refine ⟨trivial, ?_, ?_⟩
    · have hfold : (if bpf_ipv6_addr_any sk.sk_v6_rcv_saddr = true then in6_bytes sk.np_saddr
          else in6_bytes sk.sk_v6_rcv_saddr) = inet6_local_addr sk := rfl
      rw [hfold]
      unfold s6_addr
      have h1 := sa_bytes_congr
        (buf_write (buf_write (buf_write addr 0 (store_bytes 2 c.AF_INET6)) 8
          (inet6_local_addr sk)) 2 (store_bytes 2 sk.inet_sport))
        (buf_write (buf_write addr 0 (store_bytes 2 c.AF_INET6)) 8 (inet6_local_addr sk)) 8 16
        (fun k _ => buf_write_out _ _ _ _ (Or.inr (by rw [store_bytes_length]; omega)))
      have h2 := sa_bytes_buf_write (buf_write addr 0 (store_bytes 2 c.AF_INET6)) 8
        (inet6_local_addr sk) hb
      rw [hl] at h2
      rw [h1, h2]
    · unfold sin_port
      exact load_le_store_bytes _ _ _ _
  · simp only [if_true]
    refine ⟨trivial, ?_, ?_⟩
    · unfold s6_addr
      have := sa_bytes_buf_write (buf_write (buf_write addr 0 (store_bytes 2 c.AF_INET6)) 2
        (store_bytes 2 sk.inet_dport)) 8 (in6_bytes sk.sk_v6_daddr) (in6_bytes_lt _)
      rw [in6_bytes_length] at this
      exact this
    · unfold sin_port
      rw [load_le_buf_write_out _ _ _ _ _ (by omega)]
      exact load_le_store_bytes _ _ _ _

/-- Claim C27: for every socket whose `sk` is of family `AF_INET` or
`AF_INET6`, with `use_userdata` false, `bpf_fd_to_socktuple` returns 13
(IPv4) or 37 (IPv6) and stores the family tag and, with `is_inbound` true,
the peer address and port (`inet_daddr` / `sk_v6_daddr`, `inet_dport`) as the
source fields and the local address and port as the destination fields; with
`is_inbound` false, the local ones as source and the peer ones as destination:
the two outputs are the same stores with the pair (source address, source
port) and the pair (destination address, destination port) exchanged.  When
the masked field offsets do not wrap, the fields are read back from the
buffer at the offsets 1, 5, 7, 11 (IPv4) and 1, 17, 19, 35 (IPv6) after the
cursor. -/
theorem tuple_direction (c : driver_consts) (socket_family_to_scap : Nat → Nat)
    (data : filler_data) (so : socket) (sk : sock) (usrsockaddr : Option (Nat → Nat))
    (ulen : Nat) (sock_address peer_address : Nat → Nat) (hsk : so.sk = some sk) :
    (sk.sk_family = c.AF_INET →
      bpf_fd_to_socktuple c socket_family_to_scap data (some so) usrsockaddr ulen false true
          sock_address peer_address
        = some (13, socktuple_store_inet c data (socket_family_to_scap c.AF_INET)
            (sk.inet_daddr % 256 ^ 4) (ntohs (sk.inet_dport % 256 ^ 2))
            (inet_local_addr sk % 256 ^ 4) (ntohs (sk.inet_sport % 256 ^ 2))) ∧
      bpf_fd_to_socktuple c socket_family_to_scap data (some so) usrsockaddr ulen false false
          sock_address peer_address
        = some (13, socktuple_store_inet c data (socket_family_to_scap c.AF_INET)
            (inet_local_addr sk % 256 ^ 4) (ntohs (sk.inet_sport % 256 ^ 2))
            (sk.inet_daddr % 256 ^ 4) (ntohs (sk.inet_dport % 256 ^ 2)))) ∧
    (sk.sk_family = c.AF_INET6 → c.AF_INET6 ≠ c.AF_INET →
      bpf_fd_to_socktuple c socket_family_to_scap data (some so) usrsockaddr ulen false true
          sock_address peer_address
        = some (37, socktuple_store_inet6 c data (socket_family_to_scap c.AF_INET6)
            (in6_bytes sk.sk_v6_daddr) (ntohs (sk.inet_dport % 256 ^ 2))
            (inet6_local_addr sk) (ntohs (sk.inet_sport % 256 ^ 2))) ∧
      bpf_fd_to_socktuple c socket_family_to_scap data (some so) usrsockaddr ulen false false
          sock_address peer_address
        = some (37, socktuple_store_inet6 c data (socket_family_to_scap c.AF_INET6)
            (inet6_local_addr sk) (ntohs (sk.inet_sport % 256 ^ 2))
            (in6_bytes sk.sk_v6_daddr) (ntohs (sk.inet_dport % 256 ^ 2)))) ∧
    (∀ tag sip sport dip dport,
      Nat.land (data.curoff + 1) c.SCRATCH_SIZE_HALF
        = Nat.land data.curoff c.SCRATCH_SIZE_HALF + 1 →
      Nat.land (data.curoff + 5) c.SCRATCH_SIZE_HALF
        = Nat.land data.curoff c.SCRATCH_SIZE_HALF + 5 →
      Nat.land (data.curoff + 7) c.SCRATCH_SIZE_HALF
        = Nat.land data.curoff c.SCRATCH_SIZE_HALF + 7 →
      Nat.land (data.curoff + 11) c.SCRATCH_SIZE_HALF
        = Nat.land data.curoff c.SCRATCH_SIZE_HALF + 11 →
      (socktuple_store_inet c data tag sip sport dip dport).buf
        (Nat.land data.curoff c.SCRATCH_SIZE_HALF) = tag % 256 ∧
      load_le (socktuple_store_inet c data tag sip sport dip dport).buf
        (Nat.land data.curoff c.SCRATCH_SIZE_HALF + 1) 4 = sip % 256 ^ 4 ∧
      load_le (socktuple_store_inet c data tag sip sport dip dport).buf
        (Nat.land data.curoff c.SCRATCH_SIZE_HALF + 5) 2 = sport % 256 ^ 2 ∧
      load_le (socktuple_store_inet c data tag sip sport dip dport).buf
        (Nat.land data.curoff c.SCRATCH_SIZE_HALF + 7) 4 = dip % 256 ^ 4 ∧
      load_le (socktuple_store_inet c data tag sip sport dip dport).buf
        (Nat.land data.curoff c.SCRATCH_SIZE_HALF + 11) 2 = dport % 256 ^ 2) ∧
    (∀ tag sip6 sport dip6 dport, sip6.length = 16 → dip6.length = 16 →
      (∀ b ∈ sip6, b < 256) → (∀ b ∈ dip6, b < 256) →
      Nat.land (data.curoff + 1) c.SCRATCH_SIZE_HALF
        = Nat.land data.curoff c.SCRATCH_SIZE_HALF + 1 →
      Nat.land (data.curoff + 17) c.SCRATCH_SIZE_HALF
        = Nat.land data.curoff c.SCRATCH_SIZE_HALF + 17 →
      Nat.land (data.curoff + 19) c.SCRATCH_SIZE_HALF
        = Nat.land data.curoff c.SCRATCH_SIZE_HALF + 19 →
      Nat.land (data.curoff + 35) c.SCRATCH_SIZE_HALF
        = Nat.land data.curoff c.SCRATCH_SIZE_HALF + 35 →
      (socktuple_store_inet6 c data tag sip6 sport dip6 dport).buf
        (Nat.land data.curoff c.SCRATCH_SIZE_HALF) = tag % 256 ∧
      sa_bytes (socktuple_store_inet6 c data tag sip6 sport dip6 dport).buf
        (Nat.land data.curoff c.SCRATCH_SIZE_HALF + 1) 16 = sip6 ∧
      load_le (socktuple_store_inet6 c data tag sip6 sport dip6 dport).buf
        (Nat.land data.curoff c.SCRATCH_SIZE_HALF + 17) 2 = sport % 256 ^ 2 ∧
      sa_bytes (socktuple_store_inet6 c data tag sip6 sport dip6 dport).buf
        (Nat.land data.curoff c.SCRATCH_SIZE_HALF + 19) 16 = dip6 ∧
      load_le (socktuple_store_inet6 c data tag sip6 sport dip6 dport).buf
        (Nat.land data.curoff c.SCRATCH_SIZE_HALF + 35) 2 = dport % 256 ^ 2) := by
  refine ⟨fun hf => ?_, fun hf hne => ?_, ?_, ?_⟩
  · have hl := getsockname_inet c so sk sock_address false hsk hf
    have hp := getsockname_inet c so sk peer_address true hsk hf
    simp only [Bool.false_eq_true, if_false, if_true] at hl hp
    unfold bpf_fd_to_socktuple socktuple_inet
    simp only [hsk, hf, hl.1, hl.2.1, hl.2.2, hp.1, hp.2.1, hp.2.2, Bool.not_true,
      Bool.not_false, Bool.false_eq_true, if_false, if_true]
    exact ⟨rfl, rfl⟩
  · have hl := getsockname_inet6 c so sk sock_address false hsk hf hne
    have hp := getsockname_inet6 c so sk peer_address true hsk hf hne
    have hne' : ¬ c.AF_INET6 = c.AF_INET := hne
    simp only [Bool.false_eq_true, if_false, if_true] at hl hp
    unfold bpf_fd_to_socktuple socktuple_inet6
    simp only [hsk, hf, hne', hl.1, hl.2.1, hl.2.2, hp.1, hp.2.1, hp.2.2, Bool.not_true,
      Bool.not_false, Bool.false_eq_true, if_false, if_true]
    exact ⟨rfl, rfl⟩
  · intro tag sip sport dip dport h1 h5 h7 h11
    unfold socktuple_store_inet
    simp only [h1, h5, h7, h11]
    refine ⟨?_, ?_, ?_, ?_, ?_⟩
    · rw [buf_write_out _ _ _ _ (by omega), buf_write_out _ _ _ _ (by omega),
        buf_write_out _ _ _ _ (by omega), buf_write_out _ _ _ _ (by omega),
        buf_write_in _ _ _ _ (by omega) (by simp)]
      simp
    · rw [load_le_buf_write_out _ _ _ _ _ (by omega), load_le_buf_write_out _ _ _ _ _ (by omega),
        load_le_buf_write_out _ _ _ _ _ (by omega)]
      exact load_le_store_bytes _ _ _ _
    · rw [load_le_buf_write_out _ _ _ _ _ (by omega), load_le_buf_write_out _ _ _ _ _ (by omega)]
      exact load_le_store_bytes _ _ _ _
    · rw [load_le_buf_write_out _ _ _ _ _ (by omega)]
      exact load_le_store_bytes _ _ _ _
    · exact load_le_store_bytes _ _ _ _
  · intro tag sip6 sport dip6 dport hs hd hsb hdb h1 h17 h19 h35
    unfold socktuple_store_inet6
    simp only [h1, h17, h19, h35]
    have hsl := store_bytes_length 2 sport
    have hdl := store_bytes_length 2 dport
    refine ⟨?_, ?_, ?_, ?_, ?_⟩
    · rw [buf_write_out _ _ _ _ (by omega), buf_write_out _ _ _ _ (by omega),
        buf_write_out _ _ _ _ (by omega), buf_write_out _ _ _ _ (by omega),
        buf_write_in _ _ _ _ (by omega) (by simp)]
      simp
    · rw [sa_bytes_congr _ _ _ _ (fun k hk => buf_write_out _ _ _ _ (by omega)),
        sa_bytes_congr _ _ _ _ (fun k hk => buf_write_out _ _ _ _ (by omega)),
        sa_bytes_congr _ _ _ _ (fun k hk => buf_write_out _ _ _ _ (by omega))]
      have := sa_bytes_buf_write (buf_write data.buf (Nat.land data.curoff c.SCRATCH_SIZE_HALF)
        [tag % 256]) (Nat.land data.curoff c.SCRATCH_SIZE_HALF + 1) sip6 hsb
      rw [hs] at this
      exact this
    · rw [load_le_buf_write_out _ _ _ _ _ (by omega), load_le_buf_write_out _ _ _ _ _ (by omega)]
      exact load_le_store_bytes _ _ _ _
    · rw [sa_bytes_congr _ _ _ _ (fun k hk => buf_write_out _ _ _ _ (by omega))]
      have := sa_bytes_buf_write (buf_write (buf_write (buf_write data.buf
        (Nat.land data.curoff c.SCRATCH_SIZE_HALF) [tag % 256])
        (Nat.land data.curoff c.SCRATCH_SIZE_HALF + 1) sip6)
        (Nat.land data.curoff c.SCRATCH_SIZE_HALF + 17) (store_bytes 2 sport))
        (Nat.land data.curoff c.SCRATCH_SIZE_HALF + 19) dip6 hdb
      rw [hd] at this
      exact this
    · exact load_le_store_bytes _ _ _ _

/-- Witness of `tuple_direction`: the connected IPv4 socket `inet_socket`
(local 10.0.0.1:8080, remote 10.0.0.2:443) at cursor 0. -/
theorem tuple_direction_witness :
    bpf_fd_to_socktuple upstream_consts id {} (some inet_socket) none 0 false true
        (fun _ => 0) (fun _ => 0)
      = some (13, socktuple_store_inet upstream_consts {} (id upstream_consts.AF_INET)
          (inet_sk.inet_daddr % 256 ^ 4) (ntohs (inet_sk.inet_dport % 256 ^ 2))
          (inet_local_addr inet_sk % 256 ^ 4) (ntohs (inet_sk.inet_sport % 256 ^ 2))) ∧
    bpf_fd_to_socktuple upstream_consts id {} (some inet_socket) none 0 false false
        (fun _ => 0) (fun _ => 0)
      = some (13, socktuple_store_inet upstream_consts {} (id upstream_consts.AF_INET)
          (inet_local_addr inet_sk % 256 ^ 4) (ntohs (inet_sk.inet_sport % 256 ^ 2))
          (inet_sk.inet_daddr % 256 ^ 4) (ntohs (inet_sk.inet_dport % 256 ^ 2))) :=
  (tuple_direction upstream_consts id {} inet_socket inet_sk none 0 (fun _ => 0) (fun _ => 0)
    rfl).1 rfl

end filler_helpers

/-!
# Theorems on the type table
-/

namespace ppm_param_helpers

open filler_helpers filler_helpers.ppm_param_type

theorem recognised_iff (t : ppm_param_type) : t ∈ recognised_types ↔ ∀ n, t ≠ other n := by
  cases t <;> simp [recognised_types]

/-- Claim C23: for every recognised type tag and `len_size` 2 or 4, in every
build, `ppm_param_min_len_from_type` and `ppm_param_max_len_from_type` return
0 and store `min` and `max` with `min <= max`; for a fixed-width type, of the
width `w` that the encoder stores for it (1, 2, 4 or 8), they are `(w, w)`
whatever `len_size`; for the variable-length types they are `(0, 65535)` for
`len_size` 2 and `(0, 4294967295)` for `len_size` 4; every recognised type is
of one of the two kinds. -/
theorem type_table_values (NDEBUG : Bool) (t : ppm_param_type) (len_size min_len max_len : Nat)
    (ht : t ∈ recognised_types) (hls : len_size = 2 ∨ len_size = 4) :
    ∃ mn mx, ppm_param_min_len_from_type NDEBUG t min_len = some (0, mn) ∧
      ppm_param_max_len_from_type NDEBUG t len_size max_len = some (0, mx) ∧ mn ≤ mx ∧
      (∀ w, fixed_width t = some w → mn = w ∧ mx = w ∧ w ∈ [1, 2, 4, 8]) ∧
      (t ∈ variable_length_types →
        mn = 0 ∧ mx = if len_size = 2 then 65535 else 4294967295) ∧
      ((∃ w, fixed_width t = some w) ∨ t ∈ variable_length_types) := by
  rcases hls with h | h <;> subst h <;> cases t <;>
    simp [recognised_types] at ht <;>
    simp [ppm_param_min_len_from_type, ppm_param_max_len_from_type, fixed_width,
      variable_length_types]

/-- Witness of `type_table_values`: `PT_FSPATH` with 16-bit length prefixes. -/
theorem type_table_values_witness :
    ∃ mn mx, ppm_param_min_len_from_type false PT_FSPATH 7 = some (0, mn) ∧
      ppm_param_max_len_from_type false PT_FSPATH 2 7 = some (0, mx) ∧ mn ≤ mx ∧
      (∀ w, fixed_width PT_FSPATH = some w → mn = w ∧ mx = w ∧ w ∈ [1, 2, 4, 8]) ∧
      (PT_FSPATH ∈ variable_length_types →
        mn = 0 ∧ mx = if 2 = 2 then 65535 else 4294967295) ∧
      ((∃ w, fixed_width PT_FSPATH = some w) ∨ PT_FSPATH ∈ variable_length_types) :=
  type_table_values false PT_FSPATH 2 7 7 (by decide) (Or.inl rfl)

/-- Claim C24 as stated fails in a build with assertions (no `NDEBUG`): for an
unrecognised tag, and for a `len_size` of 3, the functions reach
`assert(false)` and do not return. -/
theorem unrecognised_tag_aborts :
    other 0 ∉ recognised_types ∧
    ppm_param_min_len_from_type false (other 0) 7 = none ∧
    ppm_param_max_len_from_type false (other 0) 2 7 = none ∧
    ppm_param_max_len_from_type false PT_UINT8 3 7 = none := by
  decide

/-- Claim C24, amended: in a build with `NDEBUG`, for every tag outside the
recognised set both functions return a negative number and leave the output
length as it was, and `ppm_param_max_len_from_type` does so for every tag when
`len_size` is neither 2 nor 4; in a build without `NDEBUG` these calls do not
return.  In every build, for `len_size` 2 or 4 the two functions return 0 for
exactly the same tags, the recognised ones. -/
theorem type_table_failures (NDEBUG : Bool) (t : ppm_param_type) (len_size min_len max_len : Nat) :
    (t ∉ recognised_types → NDEBUG = true →
      (∃ r, r < 0 ∧ ppm_param_min_len_from_type NDEBUG t min_len = some (r, min_len)) ∧
      (∃ r, r < 0 ∧ ppm_param_max_len_from_type NDEBUG t len_size max_len = some (r, max_len))) ∧
    (len_size ≠ 2 → len_size ≠ 4 → NDEBUG = true →
      ∃ r, r < 0 ∧ ppm_param_max_len_from_type NDEBUG t len_size max_len = some (r, max_len)) ∧
    (t ∉ recognised_types → NDEBUG = false →
      ppm_param_min_len_from_type NDEBUG t min_len = none ∧
      ppm_param_max_len_from_type NDEBUG t len_size max_len = none) ∧
    (len_size ≠ 2 → len_size ≠ 4 → NDEBUG = false →
      ppm_param_max_len_from_type NDEBUG t len_size max_len = none) ∧
    (len_size = 2 ∨ len_size = 4 →
      ((∃ v, ppm_param_min_len_from_type NDEBUG t min_len = some (0, v)) ↔ t ∈ recognised_types) ∧
      ((∃ v, ppm_param_max_len_from_type NDEBUG t len_size max_len = some (0, v))
        ↔ t ∈ recognised_types)) := by
  refine ⟨?_, ?_, ?_, ?_, ?_⟩
  · intro ht hn
    subst hn
    cases t <;> simp [recognised_types] at ht
    refine ⟨⟨-1, by decide, rfl⟩, ?_⟩
    by_cases h : len_size ≠ 2 ∧ len_size ≠ 4
    · exact ⟨-1, by decide, by simp only [ppm_param_max_len_from_type, if_pos h, if_true]⟩
    · exact ⟨-3, by decide, by simp only [ppm_param_max_len_from_type, if_neg h, if_true]⟩
  · intro h2 h4 hn
    subst hn
    unfold ppm_param_max_len_from_type
    rw [if_pos ⟨h2, h4⟩]
    exact ⟨-1, by decide, rfl⟩
  · intro ht hn
    subst hn
    cases t <;> simp [recognised_types] at ht
    refine ⟨rfl, ?_⟩
    by_cases h : len_size ≠ 2 ∧ len_size ≠ 4
    · simp only [ppm_param_max_len_from_type, if_pos h, Bool.false_eq_true, if_false]
    · simp only [ppm_param_max_len_from_type, if_neg h, Bool.false_eq_true, if_false]
  · intro h2 h4 hn
    subst hn
    unfold ppm_param_max_len_from_type
    rw [if_pos ⟨h2, h4⟩]
    rfl
  · intro hls
    rcases hls with h | h <;> subst h <;> cases t <;> cases NDEBUG <;>
      simp [ppm_param_min_len_from_type, ppm_param_max_len_from_type, recognised_types] <;>
      exact ⟨0, rfl⟩

/-- Witness of `type_table_failures`: the unrecognised tag 0 in a build with
`NDEBUG`, with 32-bit length prefixes. -/
theorem type_table_failures_witness :
    (∃ r, r < 0 ∧ ppm_param_min_len_from_type true (other 0) 7 = some (r, 7)) ∧
    (∃ r, r < 0 ∧ ppm_param_max_len_from_type true (other 0) 4 9 = some (r, 9)) :=
  (type_table_failures true (other 0) 4 7 9).1 (by decide) rfl

end ppm_param_helpers

/-!
# Theorems on the suppression engine: claims C33 and C36
-/

namespace libsinsp

/-- Claim C33: for every state not on the fast path and every clone, fork,
vfork, clone3, execve or execveat exit event with fewer than 14 parameters,
`process_event` (with `ASSERT` compiled out) returns `SCAP_SUCCESS` and the
whole state (suppressed tids, denylisted comms, lineage tree, counter of
suppressed events) is the one before the call. -/
theorem malformed_lineage_event_noop (s : sinsp_suppress) (e : scap_evt)
    (hfast : (s.m_suppressed_tids.isEmpty && s.m_suppressed_comms.isEmpty) = false)
    (ht : is_lineage_type e.type = true) (hn : e.nparams < 14) :
    s.process_event e = some (scap_rc.SCAP_SUCCESS, s) := by
  rw [process_event_lineage s e hfast ht]
  unfold sinsp_suppress.process_lineage_event
  rw [if_pos hn]

/-- Witness of `malformed_lineage_event_noop`: a clone exit record with 3
parameters, in a state where tid 7 is suppressed. -/
theorem malformed_lineage_event_noop_witness :
    tid7_suppressed.process_event short_clone_record
      = some (scap_rc.SCAP_SUCCESS, tid7_suppressed) :=
  malformed_lineage_event_noop tid7_suppressed short_clone_record (by decide) (by decide)
    (by decide)

/-! ## Claim C36: direct children are cascaded -/

theorem finalize_step_mono (acc : sinsp_suppress) (kv : Nat × tid_tree_node) (x : Nat)
    (h : x ∈ acc.m_suppressed_tids) : x ∈ (finalize_step acc kv).m_suppressed_tids := by
  unfold finalize_step
  split_ifs
  · exact ((suppress_children kv.2.m_children acc).2 x).2 (Or.inl h)
  · exact h

theorem finalize_loop_mono (l : List (Nat × tid_tree_node)) (acc : sinsp_suppress) (x : Nat)
    (h : x ∈ acc.m_suppressed_tids) : x ∈ (l.foldl finalize_step acc).m_suppressed_tids := by
  induction l generalizing acc with
  | nil => exact h
  | cons kv rest ih =>
    simp only [List.foldl_cons]
    exact ih _ (finalize_step_mono acc kv x h)

/-- The loop of `finalize` adds the children of every node it visits whose
`m_tid` is suppressed when the loop starts. -/
theorem finalize_loop_children (l : List (Nat × tid_tree_node)) (acc : sinsp_suppress)
    (kv : Nat × tid_tree_node) (hkv : kv ∈ l) (hs : acc.is_suppressed_tid kv.2.m_tid = true)
    (c : Nat) (hc : c ∈ kv.2.m_children) :
    c ∈ (l.foldl finalize_step acc).m_suppressed_tids := by
  induction l generalizing acc with
  | nil => simp at hkv
  | cons kv1 rest ih =>
    simp only [List.foldl_cons]
    rcases List.mem_cons.mp hkv with h | h
    · subst h
      apply finalize_loop_mono
      unfold finalize_step
      rw [if_pos hs]
      exact ((suppress_children kv.2.m_children acc).2 c).2 (Or.inr hc)
    · apply ih _ h
      rw [is_suppressed_tid_iff] at hs ⊢
      exact ⟨hs.1, finalize_step_mono acc kv1 _ hs.2⟩

/-- Claim C36: in every state reached from a fresh object by calls of the
interface, for every tid `P` whose node of the lineage tree carries
`m_tid = P` (the thread was registered by `handle_thread(P, ...)`, which
`check_suppressed_comm` calls) and that is suppressed when `finalize()`
starts, every tid in the child list of that node is suppressed after
`finalize()`. -/
theorem direct_children_cascaded (calls : List suppress_call) (s s1 : sinsp_suppress)
    (t : tid_tree) (P : Nat) (n : tid_tree_node)
    (hr : run_calls {} calls = some s) (ht : s.m_tids_tree = some t)
    (hn : (P, n) ∈ t) (hreg : n.m_tid = P) (hs : s.is_suppressed_tid P = true)
    (hf : s.finalize = some s1) :
    ∀ c ∈ n.m_children, s1.is_suppressed_tid c = true := by
  intro c hc
  have hinv : tree_inv s := run_calls_inv calls {} s (fun t ht => by simp at ht) hr
  have hz := hinv t ht (P, n) hn
  have hc0 : c ≠ 0 := fun h0 => hz.1 (h0 ▸ hc)
  unfold sinsp_suppress.finalize at hf
  rw [ht] at hf
  simp only [Option.some.injEq] at hf
  rw [is_suppressed_tid_iff]
  refine ⟨hc0, ?_⟩
  rw [← hf]
  exact finalize_loop_children t s (P, n) hn (by rw [hreg]; exact hs) c hc

/-- Witness of `direct_children_cascaded`: thread 2 is suppressed and
registered with the children 5 and 6. -/
theorem direct_children_cascaded_witness :
    run_calls {} scan_calls = some scan_state ∧
    ∀ c ∈ [5, 6],
      ({ m_suppressed_tids := [6, 5, 2] } : sinsp_suppress).is_suppressed_tid c = true :=
  ⟨by decide, direct_children_cascaded scan_calls scan_state { m_suppressed_tids := [6, 5, 2] }
    _ 2 { m_tid := 2, m_comm := [97], m_children := [5, 6] }
    (by decide) rfl (by decide) rfl (by decide) (by decide)⟩

end libsinsp

/-!
# Theorems on the encoder: claims C37 and C38
-/

namespace filler_helpers

open ppm_param_type ppm_rc read_memory

/-! ## Claim C37: the state after a failed encode -/

/-- Claim C37 as stated fails when a dynamic-index byte is written: a
`PT_SOCKADDR` encode of a non-null value that is not on the frame returns
`PPM_FAILURE_BUG` after the byte was stored, and `curoff` and `len` are 1, not
the 0 of the entry state. -/
theorem failed_encode_keeps_dynamic_index_byte :
    ({} : filler_data).curoff = 0 ∧ ({} : filler_data).len = 0 ∧
    (__bpf_val_to_ring upstream_consts {} 5 0 PT_SOCKADDR 7 false KERNEL).1 = PPM_FAILURE_BUG ∧
    (__bpf_val_to_ring upstream_consts {} 5 0 PT_SOCKADDR 7 false KERNEL).2.curoff = 1 ∧
    (__bpf_val_to_ring upstream_consts {} 5 0 PT_SOCKADDR 7 false KERNEL).2.len = 1 := by
  decide

/-- The state after a call of `__bpf_val_to_ring` that does not return
`PPM_SUCCESS`. -/
theorem val_to_ring_failure_fields (c : driver_consts) (data : filler_data) (val val_len : Nat)
    (type : ppm_param_type) (dyn_idx : Nat) (enforce_snaplen : Bool) (mem : read_memory)
    (r : ppm_rc × filler_data)
    (hr : __bpf_val_to_ring c data val val_len type dyn_idx enforce_snaplen mem = r)
    (h : r.1 ≠ PPM_SUCCESS) :
    r.2.curarg = data.curarg ∧ r.2.arg_lens = data.arg_lens ∧
    r.2.curarg_already_on_frame = data.curarg_already_on_frame ∧
    (data.curoff > c.SCRATCH_SIZE_HALF → r = (PPM_FAILURE_FRAME_SCRATCH_MAP_FULL, data)) ∧
    (data.curoff ≤ c.SCRATCH_SIZE_HALF →
      r.2.curoff = data.curoff + len_dyn_of dyn_idx ∧
      r.2.len = data.len + len_dyn_of dyn_idx) := by
  have hwf := write_dyn_idx_fields c data dyn_idx
  by_cases h0 : data.curoff > c.SCRATCH_SIZE_HALF
  · have hfull : r = (PPM_FAILURE_FRAME_SCRATCH_MAP_FULL, data) := by
      rw [← hr]
      unfold __bpf_val_to_ring
      rw [if_pos h0]
    refine ⟨by rw [hfull], by rw [hfull], by rw [hfull], fun _ => hfull, fun h1 => ?_⟩
    omega
  · by_cases h1 : (write_dyn_idx c data dyn_idx).curoff > c.SCRATCH_SIZE_HALF
    · have hfull : r = (PPM_FAILURE_FRAME_SCRATCH_MAP_FULL, write_dyn_idx c data dyn_idx) := by
        rw [← hr]
        unfold __bpf_val_to_ring
        simp only
        rw [if_neg h0, if_pos h1]
      rw [hfull]
      exact ⟨hwf.2.2.1, hwf.2.2.2.1, hwf.2.2.2.2.1, fun h2 => absurd h2 h0,
        fun _ => ⟨hwf.1, hwf.2.1⟩⟩
    · have hfr := val_to_ring_payload_frame c (write_dyn_idx c data dyn_idx)
        (Nat.land (write_dyn_idx c data dyn_idx).curoff c.SCRATCH_SIZE_HALF) val val_len type
        enforce_snaplen mem
      cases hp : val_to_ring_payload c (write_dyn_idx c data dyn_idx)
        (Nat.land (write_dyn_idx c data dyn_idx).curoff c.SCRATCH_SIZE_HALF) val val_len type
        enforce_snaplen mem with
      | error e =>
        have he := val_to_ring_of_payload_error c data val val_len type dyn_idx
          enforce_snaplen mem e (by omega) hp
        rw [hr] at he
        obtain ⟨rc, d⟩ := e
        have hf := same_but_buf_fields _ _ (hfr.2 rc d hp)
        rw [he]
        exact ⟨hf.2.2.1.trans hwf.2.2.1, hf.2.2.2.1.trans hwf.2.2.2.1,
          hf.2.2.2.2.trans hwf.2.2.2.2.1, fun h2 => absurd h2 h0,
          fun _ => ⟨hf.1.trans hwf.1, hf.2.1.trans hwf.2.1⟩⟩
      | ok p =>
        obtain ⟨len, d⟩ := p
        have he := val_to_ring_of_payload c data val val_len type dyn_idx
          enforce_snaplen mem len d (by omega) hp
        rw [hr] at he
        have hf := same_but_buf_fields _ _ (hfr.1 len d hp)
        by_cases hg : (len_dyn_of dyn_idx + len) % 4294967296 > c.PPM_MAX_ARG_SIZE
        · rw [if_pos hg] at he
          rw [he]
          exact ⟨hf.2.2.1.trans hwf.2.2.1, hf.2.2.2.1.trans hwf.2.2.2.1,
            hf.2.2.2.2.trans hwf.2.2.2.2.1, fun h2 => absurd h2 h0,
            fun _ => ⟨hf.1.trans hwf.1, hf.2.1.trans hwf.2.1⟩⟩
        · rw [if_neg hg] at he
          rw [he] at h
          exact absurd rfl h

/-- Claim C37, amended: whenever `__bpf_val_to_ring` returns a code other than
`PPM_SUCCESS`, `curarg`, the length prefixes and `curarg_already_on_frame` are
the ones on entry; `curoff` and `len` are the ones on entry when the entry
check fails (the whole state is unchanged) or no dynamic-index byte is asked
for, and otherwise they are advanced by the one byte of the dynamic index. -/
theorem failed_encode_state (c : driver_consts) (data : filler_data) (val val_len : Nat)
    (type : ppm_param_type) (dyn_idx : Nat) (enforce_snaplen : Bool) (mem : read_memory)
    (r : ppm_rc × filler_data)
    (hr : __bpf_val_to_ring c data val val_len type dyn_idx enforce_snaplen mem = r)
    (h : r.1 ≠ PPM_SUCCESS) :
    r.2.curarg = data.curarg ∧ r.2.arg_lens = data.arg_lens ∧
    r.2.curarg_already_on_frame = data.curarg_already_on_frame ∧
    (data.curoff > c.SCRATCH_SIZE_HALF → r = (PPM_FAILURE_FRAME_SCRATCH_MAP_FULL, data)) ∧
    (data.curoff ≤ c.SCRATCH_SIZE_HALF →
      r.2.curoff = data.curoff + len_dyn_of dyn_idx ∧ r.2.len = data.len + len_dyn_of dyn_idx) ∧
    (dyn_idx % 256 = 255 → r.2.curoff = data.curoff ∧ r.2.len = data.len) ∧
    (dyn_idx % 256 ≠ 255 → data.curoff ≤ c.SCRATCH_SIZE_HALF →
      r.2.curoff = data.curoff + 1 ∧ r.2.len = data.len + 1) := by
  obtain ⟨k1, k2, k3, k4, k5⟩ := val_to_ring_failure_fields c data val val_len type dyn_idx
    enforce_snaplen mem r hr h
  refine ⟨k1, k2, k3, k4, k5, fun hd => ?_, fun hd h0 => ?_⟩
  · by_cases h0 : data.curoff > c.SCRATCH_SIZE_HALF
    · rw [k4 h0]
      exact ⟨rfl, rfl⟩
    · have := k5 (by omega)
      rw [len_dyn_of_none dyn_idx hd] at this
      exact this
  · have := k5 h0
    rw [len_dyn_of_some dyn_idx hd] at this
    exact this

/-- Witness of `failed_encode_state`: the failing `PT_SOCKADDR` encode with a
dynamic-index byte at cursor 0. -/
theorem failed_encode_state_witness :
    (__bpf_val_to_ring upstream_consts {} 5 0 PT_SOCKADDR 7 false KERNEL).2.curarg
      = ({} : filler_data).curarg ∧
    (__bpf_val_to_ring upstream_consts {} 5 0 PT_SOCKADDR 7 false KERNEL).2.arg_lens
      = ({} : filler_data).arg_lens ∧
    (__bpf_val_to_ring upstream_consts {} 5 0 PT_SOCKADDR 7 false KERNEL).2.curarg_already_on_frame
      = ({} : filler_data).curarg_already_on_frame ∧
    (({} : filler_data).curoff > upstream_consts.SCRATCH_SIZE_HALF →
      __bpf_val_to_ring upstream_consts {} 5 0 PT_SOCKADDR 7 false KERNEL
        = (PPM_FAILURE_FRAME_SCRATCH_MAP_FULL, {})) ∧
    (({} : filler_data).curoff ≤ upstream_consts.SCRATCH_SIZE_HALF →
      (__bpf_val_to_ring upstream_consts {} 5 0 PT_SOCKADDR 7 false KERNEL).2.curoff
        = ({} : filler_data).curoff + len_dyn_of 7 ∧
      (__bpf_val_to_ring upstream_consts {} 5 0 PT_SOCKADDR 7 false KERNEL).2.len
        = ({} : filler_data).len + len_dyn_of 7) ∧
    (7 % 256 = 255 →
      (__bpf_val_to_ring upstream_consts {} 5 0 PT_SOCKADDR 7 false KERNEL).2.curoff
        = ({} : filler_data).curoff ∧
      (__bpf_val_to_ring upstream_consts {} 5 0 PT_SOCKADDR 7 false KERNEL).2.len
        = ({} : filler_data).len) ∧
    (7 % 256 ≠ 255 → ({} : filler_data).curoff ≤ upstream_consts.SCRATCH_SIZE_HALF →
      (__bpf_val_to_ring upstream_consts {} 5 0 PT_SOCKADDR 7 false KERNEL).2.curoff
        = ({} : filler_data).curoff + 1 ∧
      (__bpf_val_to_ring upstream_consts {} 5 0 PT_SOCKADDR 7 false KERNEL).2.len
        = ({} : filler_data).len + 1) :=
  failed_encode_state upstream_consts {} 5 0 PT_SOCKADDR 7 false KERNEL _ rfl (by decide)

/-! ## Claim C38: the typed push helpers and the generic encoder -/

theorem store_bytes_mod (n m v : Nat) (h : n ≤ m) :
    store_bytes n (v % 256 ^ m) = store_bytes n v := by
  induction n generalizing m v with
  | zero => rfl
  | succ k ih =>
    obtain ⟨m1, rfl⟩ : ∃ m1, m = m1 + 1 := ⟨m - 1, by omega⟩
    simp only [store_bytes]
    have h1 : v % 256 ^ (m1 + 1) % 256 = v % 256 := by
      rw [pow_succ]
      exact Nat.mod_mul_left_mod v (256 ^ m1) 256
    have h2 : v % 256 ^ (m1 + 1) / 256 = v / 256 % 256 ^ m1 := by
      rw [pow_succ, Nat.mul_comm]
      exact Nat.mod_mul_right_div_self v 256 (256 ^ m1)
    rw [h1, h2, ih m1 (v / 256) (by omega)]

theorem twos_complement_mod (w : Nat) (v : Int) (hw : w ≤ 8) :
    twos_complement 8 v % 256 ^ w = twos_complement w v % 256 ^ w := by
  unfold twos_complement
  have e1 : ((2 ^ (8 * 8) : Nat) : Int) = ((256 ^ w : Nat) : Int) * ((256 ^ (8 - w) : Nat) : Int) := by
    rw [← Nat.cast_mul, ← pow_add, show w + (8 - w) = 8 by omega]
    norm_num
  have e2 : ((2 ^ (8 * w) : Nat) : Int) = ((256 ^ w : Nat) : Int) := by
    rw [pow_mul]
    norm_num
  have hpos : (0 : Int) < ((256 ^ w : Nat) : Int) := by positivity
  have hpos8 : (0 : Int) < ((2 ^ (8 * 8) : Nat) : Int) := by positivity
  have n1 : 0 ≤ v % ((2 ^ (8 * 8) : Nat) : Int) := Int.emod_nonneg _ (ne_of_gt hpos8)
  have n2 : 0 ≤ v % ((2 ^ (8 * w) : Nat) : Int) := by
    rw [e2]
    exact Int.emod_nonneg _ (ne_of_gt hpos)
  apply Int.ofNat_inj.mp
  simp only [Int.ofNat_eq_coe, Int.natCast_mod, Int.toNat_of_nonneg n1, Int.toNat_of_nonneg n2]
  rw [e2, Int.emod_emod_of_dvd v (dvd_refl _), e1, Int.emod_emod_of_dvd v (Dvd.intro _ rfl)]

theorem store_bytes_twos_complement (w w1 : Nat) (v : Int) (hw : w ≤ w1) (hw1 : w1 ≤ 8) :
    store_bytes w (twos_complement w1 v) = store_bytes w (twos_complement 8 v) := by
  rw [← store_bytes_mod w w1 (twos_complement w1 v) hw,
    ← store_bytes_mod w w1 (twos_complement 8 v) hw, twos_complement_mod w1 v hw1]

/-- The generic encoder on a fixed-width type without a dynamic-index byte
is the body of the push helpers, but for the argument index, which it does
not mask. -/
theorem val_to_ring_type_fixed (c : driver_consts) (data : filler_data) (val w : Nat)
    (type : ppm_param_type) (hw : fixed_width type = some w)
    (hmax : w ≤ c.PPM_MAX_ARG_SIZE) (hw8 : w ≤ 8) :
    bpf_val_to_ring_type c data val type =
      if data.curoff > c.SCRATCH_SIZE_HALF then (PPM_FAILURE_FRAME_SCRATCH_MAP_FULL, data)
      else
        (PPM_SUCCESS, { data with
          buf := buf_write data.buf (Nat.land data.curoff c.SCRATCH_SIZE_HALF)
            (store_bytes w val)
          arg_lens := fixup_evt_arg_len data.arg_lens data.curarg w
          curoff := data.curoff + w
          len := data.len + w
          curarg_already_on_frame := false
          curarg := data.curarg + 1 }) := by
  unfold bpf_val_to_ring_type
  by_cases h0 : data.curoff > c.SCRATCH_SIZE_HALF
  · rw [if_pos h0]
    unfold __bpf_val_to_ring
    rw [if_pos h0]
  · rw [if_neg h0]
    have hd : write_dyn_idx c data 255 = data := write_dyn_idx_none c data 255 (by decide)
    have hl : len_dyn_of 255 = 0 := len_dyn_of_none 255 (by decide)
    have hp := val_to_ring_payload_fixed c data (Nat.land data.curoff c.SCRATCH_SIZE_HALF) val 0
      type false (param_type_to_mem type) w hw
    rw [val_to_ring_of_payload c data val 0 type 255 false (param_type_to_mem type) w _
      (by rw [hd]; omega) (by rw [hd]; exact hp)]
    have hm : (len_dyn_of 255 + w) % 4294967296 = w := by
      rw [hl, Nat.zero_add]
      exact Nat.mod_eq_of_lt (by omega)
    rw [hm, if_neg (by omega)]

/-- Claim C38 as stated fails at the last parameter index: with
`curarg = 31 < PPM_MAX_EVENT_PARAMS = 32` the push helper leaves
`curarg = SAFE_ARG_NUMBER(32) = 0` and the generic encoder `curarg = 32`. -/
theorem push_masks_argument_index :
    last_argument.curarg < upstream_consts.PPM_MAX_EVENT_PARAMS ∧
    (bpf_push_u32_to_ring upstream_consts last_argument 5).1 = PPM_SUCCESS ∧
    (bpf_val_to_ring_type upstream_consts last_argument 5 PT_UINT32).1 = PPM_SUCCESS ∧
    (bpf_push_u32_to_ring upstream_consts last_argument 5).2.curarg = 0 ∧
    (bpf_val_to_ring_type upstream_consts last_argument 5 PT_UINT32).2.curarg = 32 := by
  decide

/-- Claim C38, amended: for every state with `curarg + 1 < PPM_MAX_EVENT_PARAMS`
(a power of two) and every value, each typed push helper returns the same
code and the same state (buffer, length prefixes, `curoff`, `len`, `curarg`,
`curarg_already_on_frame`) as `bpf_val_to_ring_type` with the matching type,
a signed value being passed to the generic encoder as its 64-bit two's
complement; `PPM_MAX_ARG_SIZE` is at least 8. -/
theorem push_agrees_with_generic_encoder (c : driver_consts) (data : filler_data) (k : Nat)
    (sval : Int) (uval : Nat)
    (hpow : c.PPM_MAX_EVENT_PARAMS = 2 ^ k) (harg : data.curarg + 1 < c.PPM_MAX_EVENT_PARAMS)
    (hmax : 8 ≤ c.PPM_MAX_ARG_SIZE) :
    bpf_push_s64_to_ring c data sval
      = bpf_val_to_ring_type c data (twos_complement 8 sval) PT_INT64 ∧
    bpf_push_u64_to_ring c data uval = bpf_val_to_ring_type c data uval PT_UINT64 ∧
    bpf_push_s32_to_ring c data sval
      = bpf_val_to_ring_type c data (twos_complement 8 sval) PT_INT32 ∧
    bpf_push_u32_to_ring c data uval = bpf_val_to_ring_type c data uval PT_UINT32 ∧
    bpf_push_s16_to_ring c data sval
      = bpf_val_to_ring_type c data (twos_complement 8 sval) PT_INT16 ∧
    bpf_push_u16_to_ring c data uval = bpf_val_to_ring_type c data uval PT_UINT16 ∧
    bpf_push_s8_to_ring c data sval
      = bpf_val_to_ring_type c data (twos_complement 8 sval) PT_INT8 ∧
    bpf_push_u8_to_ring c data uval = bpf_val_to_ring_type c data uval PT_UINT8 := by
  have hsafe : SAFE_ARG_NUMBER c (data.curarg + 1) = data.curarg + 1 := by
    unfold SAFE_ARG_NUMBER
    rw [hpow]
    have := Nat.and_pow_two_sub_one_eq_mod (data.curarg + 1) k
    rw [hpow] at harg
    exact this.trans (Nat.mod_eq_of_lt harg)
  have hpush : ∀ w val, push_to_ring c data w val =
      if data.curoff > c.SCRATCH_SIZE_HALF then (PPM_FAILURE_FRAME_SCRATCH_MAP_FULL, data)
      else
        (PPM_SUCCESS, { data with
          buf := buf_write data.buf (Nat.land data.curoff c.SCRATCH_SIZE_HALF)
            (store_bytes w val)
          arg_lens := fixup_evt_arg_len data.arg_lens data.curarg w
          curoff := data.curoff + w
          len := data.len + w
          curarg_already_on_frame := false
          curarg := data.curarg + 1 }) := by
    intro w val
    unfold push_to_ring
    rw [hsafe]
  refine ⟨?_, ?_, ?_, ?_, ?_, ?_, ?_, ?_⟩
  · unfold bpf_push_s64_to_ring
    rw [hpush, val_to_ring_type_fixed c data _ 8 PT_INT64 rfl (by omega) (by omega)]
  · unfold bpf_push_u64_to_ring
    rw [hpush, val_to_ring_type_fixed c data _ 8 PT_UINT64 rfl (by omega) (by omega)]
  · unfold bpf_push_s32_to_ring
    rw [hpush, val_to_ring_type_fixed c data _ 4 PT_INT32 rfl (by omega) (by omega),
      store_bytes_twos_complement 4 4 sval (by omega) (by omega)]
  · unfold bpf_push_u32_to_ring
    rw [hpush, val_to_ring_type_fixed c data _ 4 PT_UINT32 rfl (by omega) (by omega)]
  · unfold bpf_push_s16_to_ring
    rw [hpush, val_to_ring_type_fixed c data _ 2 PT_INT16 rfl (by omega) (by omega),
      store_bytes_twos_complement 2 2 sval (by omega) (by omega)]
  · unfold bpf_push_u16_to_ring
    rw [hpush, val_to_ring_type_fixed c data _ 2 PT_UINT16 rfl (by omega) (by omega)]
  · unfold bpf_push_s8_to_ring
    rw [hpush, val_to_ring_type_fixed c data _ 1 PT_INT8 rfl (by omega) (by omega),
      store_bytes_twos_complement 1 2 sval (by omega) (by omega)]
  · unfold bpf_push_u8_to_ring
    rw [hpush, val_to_ring_type_fixed c data _ 1 PT_UINT8 rfl (by omega) (by omega)]

/-- Witness of `push_agrees_with_generic_encoder`: the value -2 and the value
300 pushed at the start of an event, with the upstream constants. -/
theorem push_agrees_with_generic_encoder_witness :
    bpf_push_s64_to_ring upstream_consts {} (-2)
      = bpf_val_to_ring_type upstream_consts {} (twos_complement 8 (-2)) PT_INT64 ∧
    bpf_push_u64_to_ring upstream_consts {} 300
      = bpf_val_to_ring_type upstream_consts {} 300 PT_UINT64 ∧
    bpf_push_s32_to_ring upstream_consts {} (-2)
      = bpf_val_to_ring_type upstream_consts {} (twos_complement 8 (-2)) PT_INT32 ∧
    bpf_push_u32_to_ring upstream_consts {} 300
      = bpf_val_to_ring_type upstream_consts {} 300 PT_UINT32 ∧
    bpf_push_s16_to_ring upstream_consts {} (-2)
      = bpf_val_to_ring_type upstream_consts {} (twos_complement 8 (-2)) PT_INT16 ∧
    bpf_push_u16_to_ring upstream_consts {} 300
      = bpf_val_to_ring_type upstream_consts {} 300 PT_UINT16 ∧
    bpf_push_s8_to_ring upstream_consts {} (-2)
      = bpf_val_to_ring_type upstream_consts {} (twos_complement 8 (-2)) PT_INT8 ∧
    bpf_push_u8_to_ring upstream_consts {} 300
      = bpf_val_to_ring_type upstream_consts {} 300 PT_UINT8 :=
  push_agrees_with_generic_encoder upstream_consts {} 5 (-2) 300 (by decide) (by decide)
    (by decide)

end filler_helpers

/-!
# Theorems on `bpf_addr_to_kernel`: claim C39
-/

namespace filler_helpers

open ppm_param_type ppm_rc read_memory

/-- The value of `ulen & 0xfff`: `ulen` modulo 4096. -/
theorem addr_len_mask (ulen : Int) :
    Nat.land (twos_complement 4 ulen) 0xfff = (ulen % 4096).toNat := by
  have h := Nat.and_pow_two_sub_one_eq_mod (twos_complement 4 ulen) 12
  have h1 : Nat.land (twos_complement 4 ulen) 0xfff = twos_complement 4 ulen % 4096 := h
  rw [h1]
  unfold twos_complement
  have e : ((2 ^ (8 * 4) : Nat) : Int) = 4294967296 := by norm_num
  rw [e]
  omega

theorem byte_mask (x : Nat) (h : x ≤ 255) : Nat.land x 0xff = x := by
  have h1 : Nat.land x 0xff = x % 256 := Nat.and_pow_two_sub_one_eq_mod x 8
  rw [h1]
  omega

/-- Claim C39 as stated fails outside `0 .. 4095`: the length 4096 is above
`sizeof(struct sockaddr_storage)` and the negative length -4095 is below 0,
yet neither returns `-EINVAL`: 4096 is masked to 0 and returns 0 without a
read, -4095 is masked to 1 and one byte is read. -/
theorem addr_to_kernel_masks_length_first :
    upstream_consts.sizeof_sockaddr_storage = 128 ∧
    (bpf_addr_to_kernel upstream_consts 22 14 (fun _ => some 7) 100 4096 (fun _ => 0)).1 = 0 ∧
    (bpf_addr_to_kernel upstream_consts 22 14 (fun _ => some 7) 100 4096 (fun _ => 0)).2 0
      = 0 ∧
    (bpf_addr_to_kernel upstream_consts 22 14 (fun _ => some 7) 100 (-4095) (fun _ => 0)).1
      = 0 ∧
    (bpf_addr_to_kernel upstream_consts 22 14 (fun _ => some 7) 100 (-4095) (fun _ => 0)).2 0
      = 7 ∧
    (bpf_addr_to_kernel upstream_consts 22 14 (fun _ => some 7) 100 (-4095) (fun _ => 0)).2 1
      = 0 := by
  decide

/-- Claim C39, amended: with `n` the value of `ulen & 0xfff` (`ulen` modulo
4096, which is `ulen` itself for `0 <= ulen <= 4095`) and
`sizeof(struct sockaddr_storage) <= 255`, `bpf_addr_to_kernel` returns
`-EINVAL` without a read when `n > sizeof(struct sockaddr_storage)`, returns 0
without a read when `n = 0`, and otherwise reads exactly `n` bytes from user
memory, returning `-EFAULT` when the read fails and 0 when it succeeds; the
result is the same in every build (`c2`) with the same
`sizeof(struct sockaddr_storage)`, with or without `BPF_FORBIDS_ZERO_ACCESS`. -/
theorem addr_to_kernel_length (c c2 : driver_consts) (EINVAL EFAULT : Int)
    (user_mem : Nat → Option Nat) (uaddr : Nat) (ulen : Int) (kaddr : Nat → Nat)
    (hsz : c.sizeof_sockaddr_storage ≤ 255)
    (hc2 : c2.sizeof_sockaddr_storage = c.sizeof_sockaddr_storage) :
    ((ulen % 4096).toNat > c.sizeof_sockaddr_storage →
      bpf_addr_to_kernel c EINVAL EFAULT user_mem uaddr ulen kaddr = (-EINVAL, kaddr)) ∧
    ((ulen % 4096).toNat = 0 →
      bpf_addr_to_kernel c EINVAL EFAULT user_mem uaddr ulen kaddr = (0, kaddr)) ∧
    (0 < (ulen % 4096).toNat → (ulen % 4096).toNat ≤ c.sizeof_sockaddr_storage →
      bpf_addr_to_kernel c EINVAL EFAULT user_mem uaddr ulen kaddr =
        (if (bpf_probe_read user_mem kaddr 0 (ulen % 4096).toNat uaddr).1 ≠ 0 then -EFAULT
          else 0,
         (bpf_probe_read user_mem kaddr 0 (ulen % 4096).toNat uaddr).2)) ∧
    (0 ≤ ulen → ulen ≤ 4095 → (ulen % 4096).toNat = ulen.toNat) ∧
    bpf_addr_to_kernel c2 EINVAL EFAULT user_mem uaddr ulen kaddr
      = bpf_addr_to_kernel c EINVAL EFAULT user_mem uaddr ulen kaddr := by
  have hm := addr_len_mask ulen
  have key : ∀ c1 : driver_consts, c1.sizeof_sockaddr_storage = c.sizeof_sockaddr_storage →
      bpf_addr_to_kernel c1 EINVAL EFAULT user_mem uaddr ulen kaddr =
        if (ulen % 4096).toNat > c.sizeof_sockaddr_storage then (-EINVAL, kaddr)
        else if (ulen % 4096).toNat = 0 then (0, kaddr)
        else
          (if (bpf_probe_read user_mem kaddr 0 (ulen % 4096).toNat uaddr).1 ≠ 0 then -EFAULT
            else 0,
           (bpf_probe_read user_mem kaddr 0 (ulen % 4096).toNat uaddr).2) := by
    intro c1 h1
    unfold bpf_addr_to_kernel
    simp only
    rw [hm, h1]
    by_cases hgt : (ulen % 4096).toNat > c.sizeof_sockaddr_storage
    · rw [if_pos hgt, if_pos (Or.inr (by omega))]
    · rw [if_neg hgt, if_neg (by omega)]
      by_cases hz : (ulen % 4096).toNat = 0
      · rw [if_pos hz, if_pos (by omega)]
      · rw [if_neg hz, if_neg (by omega)]
        have e1 : Nat.land ((((ulen % 4096).toNat : Nat) : Int) - 1).toNat 0xff + 1
            = (ulen % 4096).toNat := by
          rw [byte_mask _ (by omega)]
          omega
        have e2 : Nat.land (((ulen % 4096).toNat : Nat) : Int).toNat 0xff
            = (ulen % 4096).toNat := by
          rw [byte_mask _ (by omega)]
          omega
        rw [e1, e2]
        cases c1.BPF_FORBIDS_ZERO_ACCESS <;> simp only [Bool.false_eq_true, if_true, if_false] <;>
          split_ifs <;> rfl
  refine ⟨fun h => ?_, fun h => ?_, fun h1 h2 => ?_, fun h1 h2 => ?_, ?_⟩
  · rw [key c rfl, if_pos h]
  · rw [key c rfl, if_neg (by omega), if_pos h]
  · rw [key c rfl, if_neg (by omega), if_neg (by omega)]
  · omega
  · rw [key c rfl, key c2 hc2]

/-- Witness of `addr_to_kernel_length`: the length 16 with the upstream
constants, with and without `BPF_FORBIDS_ZERO_ACCESS`. -/
theorem addr_to_kernel_length_witness :
    (((16 : Int) % 4096).toNat > upstream_consts.sizeof_sockaddr_storage →
      bpf_addr_to_kernel upstream_consts 22 14 (fun _ => some 7) 100 16 (fun _ => 0)
        = (-22, fun _ => 0)) ∧
    (((16 : Int) % 4096).toNat = 0 →
      bpf_addr_to_kernel upstream_consts 22 14 (fun _ => some 7) 100 16 (fun _ => 0)
        = (0, fun _ => 0)) ∧
    (0 < ((16 : Int) % 4096).toNat →
      ((16 : Int) % 4096).toNat ≤ upstream_consts.sizeof_sockaddr_storage →
      bpf_addr_to_kernel upstream_consts 22 14 (fun _ => some 7) 100 16 (fun _ => 0) =
        (if (bpf_probe_read (fun _ => some 7) (fun _ => 0) 0 ((16 : Int) % 4096).toNat 100).1 ≠ 0
          then -14 else 0,
         (bpf_probe_read (fun _ => some 7) (fun _ => 0) 0 ((16 : Int) % 4096).toNat 100).2)) ∧
    ((0 : Int) ≤ 16 → (16 : Int) ≤ 4095 → ((16 : Int) % 4096).toNat = (16 : Int).toNat) ∧
    bpf_addr_to_kernel upstream_consts_forbid_zero 22 14 (fun _ => some 7) 100 16 (fun _ => 0)
      = bpf_addr_to_kernel upstream_consts 22 14 (fun _ => some 7) 100 16 (fun _ => 0) :=
  addr_to_kernel_length upstream_consts upstream_consts_forbid_zero 22 14 (fun _ => some 7) 100
    16 (fun _ => 0) (by decide) rfl

end filler_helpers

/-!
# Theorems on the dynamic snaplen: claim C31
-/

namespace filler_helpers

open ppm_param_type ppm_rc read_memory

/-- The rule chain reads the state through the settings and, under its
guards on the lookahead size, through the four signature tests. -/
theorem snaplen_rules_congr (c : driver_consts) (d1 d2 : filler_data)
    (res port_local port_remote L : Nat) (hs : d2.settings = d1.settings)
    (hmy : L ≥ 5 → mysql_signature c d2 = mysql_signature c d1)
    (hpg : L ≥ 7 → postgres_signature c d2 = postgres_signature c d1)
    (hmg : L ≥ 16 → mongodb_signature c d2 = mongodb_signature c d1)
    (hht : L ≥ 5 → http_signature c d2 = http_signature c d1) :
    snaplen_rules c d2 res port_local port_remote L
      = snaplen_rules c d1 res port_local port_remote L := by
  unfold snaplen_rules
  rw [hs]
  by_cases h5 : L ≥ 5
  · by_cases h7 : L ≥ 7
    · by_cases h16 : L ≥ 16
      · rw [hmy h5, hpg h7, hmg h16, hht h5]
      · rw [hmy h5, hpg h7, hht h5]
        simp only [h16, false_and, or_false]
    · have h16 : ¬ L ≥ 16 := by omega
      rw [hmy h5, hht h5]
      simp only [h7, h16, and_false, false_and, or_false, if_false]
  · have h7 : ¬ L ≥ 7 := by omega
    have h16 : ¬ L ≥ 16 := by omega
    simp only [h5, h7, h16, and_false, false_and, or_false, if_false]

/-- The result for another buffer, given the signature tests agree under
their guards. -/
theorem compute_snaplen_congr (c : driver_consts) (data : filler_data) (b2 : Nat → Nat)
    (L : Nat)
    (hmy : L ≥ 5 → mysql_signature c { data with buf := b2 } = mysql_signature c data)
    (hpg : L ≥ 7 → postgres_signature c { data with buf := b2 } = postgres_signature c data)
    (hmg : L ≥ 16 → mongodb_signature c { data with buf := b2 } = mongodb_signature c data)
    (hht : L ≥ 5 → http_signature c { data with buf := b2 } = http_signature c data) :
    bpf_compute_snaplen c { data with buf := b2 } L = bpf_compute_snaplen c data L := by
  unfold bpf_compute_snaplen
  have hp : snaplen_socket_ports c { data with buf := b2 } = snaplen_socket_ports c data := rfl
  rw [hp]
  cases snaplen_socket_ports c data with
  | none => rfl
  | some p =>
    obtain ⟨pl, pr⟩ := p
    exact snaplen_rules_congr c data { data with buf := b2 } data.settings.snaplen pl pr L rfl
      hmy hpg hmg hht

/-- Claim C31 as stated fails when the masked indices wrap at the end of the
window.  With the cursor at `SCRATCH_SIZE_HALF` and a lookahead of 5:
(a) two buffers that agree at the five masked indices of `get_buf(0..4)`
(131071, 0, 1, 2, 3) get different results, because the 32-bit read of the
HTTP test takes the bytes 131071 to 131074;
(b) two buffers that agree at the five consecutive indices from the cursor on
(131071 to 131075) get different results, because the MySQL test reads
`get_buf(1)` at the wrapped index 0. -/
theorem lookahead_window_wraps :
    (∀ k, k < 5 → get_buf upstream_consts { http_get_at_window_end with buf := only_first_byte } k
      = get_buf upstream_consts http_get_at_window_end k) ∧
    bpf_compute_snaplen upstream_consts http_get_at_window_end 5 = 2000 ∧
    bpf_compute_snaplen upstream_consts { http_get_at_window_end with buf := only_first_byte } 5
      = 80 ∧
    (∀ k, k < 5 → all_ones (131071 + k) = mysql_at_window_end.buf (131071 + k)) ∧
    bpf_compute_snaplen upstream_consts mysql_at_window_end 5 = 2000 ∧
    bpf_compute_snaplen upstream_consts { mysql_at_window_end with buf := all_ones } 5 = 80 := by
  refine ⟨?_, by decide, by decide, ?_, by decide, by decide⟩
  · intro k hk
    have : k = 0 ∨ k = 1 ∨ k = 2 ∨ k = 3 ∨ k = 4 := by omega
    rcases this with h | h | h | h | h <;> subst h <;> decide
  · intro k hk
    have : k = 0 ∨ k = 1 ∨ k = 2 ∨ k = 3 ∨ k = 4 := by omega
    rcases this with h | h | h | h | h <;> subst h <;> decide

/-- Claim C31, amended: when the masked indices of the lookahead window do not
wrap (the masked index of `curoff + k` is the masked index of `curoff` plus
`k`, for `k < lookahead_size`), two states that differ only in the buffer and
whose buffers agree on the `lookahead_size` bytes from the masked cursor on
give the same `bpf_compute_snaplen`; and with a lookahead below 5 the result
does not depend on the buffer at all, wrap or not (no signature is tested).
The function returns a value only: the state it is called on is not
changed. -/
theorem snaplen_reads_lookahead_window_only (c : driver_consts) (data : filler_data)
    (b2 : Nat → Nat) (L : Nat) :
    ((∀ k, k < L → Nat.land (data.curoff + k) c.SCRATCH_SIZE_HALF
        = Nat.land data.curoff c.SCRATCH_SIZE_HALF + k) →
      (∀ k, k < L → b2 (Nat.land data.curoff c.SCRATCH_SIZE_HALF + k)
        = data.buf (Nat.land data.curoff c.SCRATCH_SIZE_HALF + k)) →
      bpf_compute_snaplen c { data with buf := b2 } L = bpf_compute_snaplen c data L) ∧
    (L < 5 → bpf_compute_snaplen c { data with buf := b2 } L = bpf_compute_snaplen c data L) := by
  constructor
  · intro hnw hag
    have hb : ∀ k, k < L → get_buf c { data with buf := b2 } k = get_buf c data k := by
      intro k hk
      unfold get_buf
      simp only
      rw [hnw k hk, hag k hk]
    have hu : ∀ k, k + 3 < L →
        get_buf_u32 c { data with buf := b2 } k = get_buf_u32 c data k := by
      intro k hk
      unfold get_buf_u32
      simp only
      have e0 := hag k (by omega)
      have e1 := hag (k + 1) (by omega)
      have e2 := hag (k + 2) (by omega)
      have e3 := hag (k + 3) (by omega)
      rw [hnw k (by omega)]
      rw [e0, show Nat.land data.curoff c.SCRATCH_SIZE_HALF + k + 1
          = Nat.land data.curoff c.SCRATCH_SIZE_HALF + (k + 1) by omega, e1,
        show Nat.land data.curoff c.SCRATCH_SIZE_HALF + k + 2
          = Nat.land data.curoff c.SCRATCH_SIZE_HALF + (k + 2) by omega, e2,
        show Nat.land data.curoff c.SCRATCH_SIZE_HALF + k + 3
          = Nat.land data.curoff c.SCRATCH_SIZE_HALF + (k + 3) by omega, e3]
    apply compute_snaplen_congr
    · intro h5
      unfold mysql_signature
      rw [hb 0 (by omega), hb 1 (by omega), hb 2 (by omega), hb 3 (by omega), hb 4 (by omega)]
    · intro h7
      unfold postgres_signature
      rw [hb 0 (by omega), hb 1 (by omega), hb 4 (by omega), hb 5 (by omega), hb 6 (by omega)]
    · intro h16
      unfold mongodb_signature get_buf_s32
      simp only
      rw [hu 12 (by omega)]
    · intro h5
      unfold http_signature
      simp only
      rw [hu 0 (by omega), hnw 4 (by omega), hag 4 (by omega)]
  · intro hL
    apply compute_snaplen_congr <;> intro h <;> omega

/-- Witness of `snaplen_reads_lookahead_window_only`: the request "GET /" at
cursor 0 and a buffer that differs from index 5 on. -/
theorem snaplen_reads_lookahead_window_only_witness :
    bpf_compute_snaplen upstream_consts
        { http_get_request with buf := fun i => [71, 69, 84, 32, 47, 9, 9].getD i 0 } 5
      = bpf_compute_snaplen upstream_consts http_get_request 5 ∧
    ((3 : Nat) < 5 →
      bpf_compute_snaplen upstream_consts
          { http_get_request with buf := fun i => [71, 69, 84, 32, 47, 9, 9].getD i 0 } 3
        = bpf_compute_snaplen upstream_consts http_get_request 3) :=
  ⟨(snaplen_reads_lookahead_window_only upstream_consts http_get_request
      (fun i => [71, 69, 84, 32, 47, 9, 9].getD i 0) 5).1
      (fun k hk => by
        have : k = 0 ∨ k = 1 ∨ k = 2 ∨ k = 3 ∨ k = 4 := by omega
        rcases this with h | h | h | h | h <;> subst h <;> decide)
      (fun k hk => by
        have : k = 0 ∨ k = 1 ∨ k = 2 ∨ k = 3 ∨ k = 4 := by omega
        rcases this with h | h | h | h | h <;> subst h <;> decide),
    (snaplen_reads_lookahead_window_only upstream_consts http_get_request
      (fun i => [71, 69, 84, 32, 47, 9, 9].getD i 0) 3).2⟩

end filler_helpers

/-!
# Theorems on the encoder: claim C32
-/

namespace filler_helpers

open ppm_param_type ppm_rc read_memory

theorem read_val_into_rc_of_readable (c : driver_consts) (data : filler_data)
    (cb val read_size : Nat) (mem : read_memory)
    (h : ∀ a, ∃ b, memory_of data mem a = some b)
    (hrc : (__bpf_read_val_into c data cb val read_size mem).1 ≠ 0) : read_size = 0 := by
  by_contra hne
  exact hrc (read_val_into_of_readable c data cb val read_size mem h (Or.inr hne))

/-- Lines 1036-1053 with a readable source: the payload length is the length
capped at `PPM_MAX_ARG_SIZE`. -/
theorem bytebuf_read_payload_len (c : driver_consts) (d : filler_data) (val len : Nat)
    (mem : read_memory) (hcur : d.curoff ≤ c.SCRATCH_SIZE_HALF)
    (hread : ∀ a, ∃ b, memory_of d mem a = some b) (hmax : c.PPM_MAX_ARG_SIZE < 65536) :
    ∃ d2, bytebuf_read_payload c d val len mem = .ok (min len c.PPM_MAX_ARG_SIZE, d2) := by
  have hmin : (if len > c.PPM_MAX_ARG_SIZE then c.PPM_MAX_ARG_SIZE else len)
      = min len c.PPM_MAX_ARG_SIZE := by
    split_ifs <;> omega
  unfold bytebuf_read_payload
  simp only
  rw [hmin]
  cases hf : d.curarg_already_on_frame with
  | true => exact ⟨d, by simp⟩
  | false =>
    simp only [Bool.not_false, if_true]
    rw [if_neg (by omega)]
    by_cases hrc : (__bpf_read_val_into c d (Nat.land d.curoff c.SCRATCH_SIZE_HALF) val
        (min len c.PPM_MAX_ARG_SIZE % 65536) mem).1 ≠ 0
    · rw [if_pos hrc]
      have hz := read_val_into_rc_of_readable c d _ val _ mem hread hrc
      have h0 : min len c.PPM_MAX_ARG_SIZE = 0 := by omega
      rw [h0]
      exact ⟨_, rfl⟩
    · rw [if_neg hrc]
      exact ⟨_, rfl⟩

/-- The `PT_BYTEBUF` case with a readable non-null source and
`0 < val_len < 2^32`. -/
theorem bytebuf_payload_len (c : driver_consts) (d : filler_data) (val val_len : Nat)
    (enforce_snaplen : Bool) (mem : read_memory) (hcur : d.curoff ≤ c.SCRATCH_SIZE_HALF)
    (hval : val ≠ 0) (h0 : 0 < val_len) (h32 : val_len < 4294967296)
    (hread : ∀ a, ∃ b, memory_of d mem a = some b)
    (hdpi : 0 < c.DPI_LOOKAHEAD_SIZE ∧ c.DPI_LOOKAHEAD_SIZE < 65536)
    (hmax : c.PPM_MAX_ARG_SIZE < 65536) :
    ∃ d2, bytebuf_payload c d (Nat.land d.curoff c.SCRATCH_SIZE_HALF) val val_len
        enforce_snaplen mem
      = .ok (if enforce_snaplen then
          min val_len (min (lookahead_snaplen c d val val_len mem) c.PPM_MAX_ARG_SIZE)
        else min val_len c.PPM_MAX_ARG_SIZE, d2) := by
  have hmod : val_len % 4294967296 = val_len := Nat.mod_eq_of_lt h32
  have hne : val_len ≠ 0 := by omega
  unfold bytebuf_payload
  rw [if_pos (Or.inr ⟨hval, hne⟩)]
  simp only
  rw [hmod]
  cases enforce_snaplen with
  | false =>
    simp only [Bool.false_eq_true, if_false]
    exact bytebuf_read_payload_len c d val val_len mem hcur hread hmax
  | true =>
    simp only [if_true]
    have hcut : ∀ d1 : filler_data,
        min (snaplen_cut c d1 (dpi_lookahead c val_len) val_len) c.PPM_MAX_ARG_SIZE
          = min val_len (min (bpf_compute_snaplen c d1 (dpi_lookahead c val_len))
              c.PPM_MAX_ARG_SIZE) := by
      intro d1
      unfold snaplen_cut
      simp only
      split_ifs <;> omega
    unfold lookahead_snaplen
    rw [hmod]
    by_cases hf : d.curarg_already_on_frame = true
    · have hnf : ¬ (!d.curarg_already_on_frame) = true := by simp [hf]
      rw [if_neg hnf, if_pos hf]
      obtain ⟨d2, hd2⟩ := bytebuf_read_payload_len c d val
        (snaplen_cut c d (dpi_lookahead c val_len) val_len) mem hcur hread hmax
      rw [hcut] at hd2
      exact ⟨d2, hd2⟩
    · have hnf : (!d.curarg_already_on_frame) = true := by simpa using hf
      rw [if_pos hnf, if_neg hf]
      have hrs : dpi_lookahead c val_len % 65536 ≠ 0 := by
        unfold dpi_lookahead
        split_ifs <;> omega
      have hrc := read_val_into_of_readable c d (Nat.land d.curoff c.SCRATCH_SIZE_HALF) val
        (dpi_lookahead c val_len % 65536) mem hread (Or.inr hrs)
      rw [if_neg (by rw [hrc]; simp)]
      unfold lookahead_read
      rw [hmod]
      obtain ⟨d2, hd2⟩ := bytebuf_read_payload_len c
        { d with buf := (__bpf_read_val_into c d (Nat.land d.curoff c.SCRATCH_SIZE_HALF) val
            (dpi_lookahead c val_len % 65536) mem).2 } val
        (snaplen_cut c { d with buf := (__bpf_read_val_into c d
            (Nat.land d.curoff c.SCRATCH_SIZE_HALF) val
            (dpi_lookahead c val_len % 65536) mem).2 } (dpi_lookahead c val_len) val_len)
        mem hcur (by cases mem <;> exact hread) hmax
      rw [hcut] at hd2
      exact ⟨d2, hd2⟩

/-- Claim C32 as stated fails for an encode with a dynamic-index byte whose
capped length is `PPM_MAX_ARG_SIZE`: with snaplen enforced, a readable
non-null source, `val_len = 70000` and `s = 80000`, the minimum is 65000, but
the call returns `PPM_FAILURE_FRAME_SCRATCH_MAP_FULL` and records no length
(the prefix of the parameter stays 0, `curarg` stays). -/
theorem enforced_bytebuf_at_cap_with_dyn_idx_fails :
    lookahead_snaplen upstream_consts (write_dyn_idx upstream_consts readable_large_snaplen 3)
      100 70000 USER = 80000 ∧
    min 70000 (min 80000 upstream_consts.PPM_MAX_ARG_SIZE) = 65000 ∧
    (__bpf_val_to_ring upstream_consts readable_large_snaplen 100 70000 PT_BYTEBUF 3 true
      USER).1 = PPM_FAILURE_FRAME_SCRATCH_MAP_FULL ∧
    (__bpf_val_to_ring upstream_consts readable_large_snaplen 100 70000 PT_BYTEBUF 3 true
      USER).2.arg_lens readable_large_snaplen.curarg = 0 ∧
    (__bpf_val_to_ring upstream_consts readable_large_snaplen 100 70000 PT_BYTEBUF 3 true
      USER).2.curarg = readable_large_snaplen.curarg := by
  have hs : lookahead_snaplen upstream_consts
      (write_dyn_idx upstream_consts readable_large_snaplen 3) 100 70000 USER = 80000 := rfl
  obtain ⟨d2, hd2⟩ := bytebuf_payload_len upstream_consts
    (write_dyn_idx upstream_consts readable_large_snaplen 3) 100 70000 true USER
    (by decide) (by decide) (by decide) (by decide) (fun _ => ⟨7, rfl⟩)
    (by decide) (by decide)
  rw [hs] at hd2
  have hm : (if true = true then min 70000 (min 80000 upstream_consts.PPM_MAX_ARG_SIZE)
      else min 70000 upstream_consts.PPM_MAX_ARG_SIZE) = 65000 := by decide
  rw [hm] at hd2
  have hcall := val_to_ring_of_payload upstream_consts readable_large_snaplen 100 70000
    PT_BYTEBUF 3 true USER 65000 d2 (by decide) hd2
  rw [if_pos (by decide)] at hcall
  have hfail : (__bpf_val_to_ring upstream_consts readable_large_snaplen 100 70000 PT_BYTEBUF 3
      true USER).1 ≠ PPM_SUCCESS := by
    rw [hcall]
    simp only [ne_eq, reduceCtorEq, not_false_eq_true]
  have hf := val_to_ring_failure_fields upstream_consts readable_large_snaplen 100 70000
    PT_BYTEBUF 3 true USER _ rfl hfail
  refine ⟨hs, by decide, ?_, ?_, hf.1⟩
  · rw [hcall]
  · rw [hf.2.1]
    rfl

/-- Claim C32, amended: for every `PT_BYTEBUF` encode of a readable non-null
source with `0 < val_len < 2^32`, entered with the cursor after the
dynamic-index byte (if any) still `<= SCRATCH_SIZE_HALF`, with
`0 < DPI_LOOKAHEAD_SIZE < 65536` and `PPM_MAX_ARG_SIZE < 65536`:
when snaplen is enforced and `len_dyn` plus
`min(val_len, s, PPM_MAX_ARG_SIZE)` is at most `PPM_MAX_ARG_SIZE`, the call
succeeds and the length recorded is `len_dyn + min(val_len, s,
PPM_MAX_ARG_SIZE)`, where `s` is the value of `bpf_compute_snaplen` with
lookahead size `min(DPI_LOOKAHEAD_SIZE, val_len)` on the lookahead bytes of
the value; without enforcement, when `len_dyn + min(val_len,
PPM_MAX_ARG_SIZE)` is at most `PPM_MAX_ARG_SIZE`, it is
`len_dyn + min(val_len, PPM_MAX_ARG_SIZE)`.  Without a dynamic-index byte
`len_dyn` is 0 and the bound always holds. -/
theorem bytebuf_recorded_length (c : driver_consts) (data : filler_data) (val val_len : Nat)
    (dyn_idx : Nat) (mem : read_memory)
    (hcur : (write_dyn_idx c data dyn_idx).curoff ≤ c.SCRATCH_SIZE_HALF)
    (hval : val ≠ 0) (h0 : 0 < val_len) (h32 : val_len < 4294967296)
    (hread : ∀ a, ∃ b, memory_of data mem a = some b)
    (hdpi : 0 < c.DPI_LOOKAHEAD_SIZE ∧ c.DPI_LOOKAHEAD_SIZE < 65536)
    (hmax : c.PPM_MAX_ARG_SIZE < 65536) :
    (len_dyn_of dyn_idx + min val_len
        (min (lookahead_snaplen c (write_dyn_idx c data dyn_idx) val val_len mem)
          c.PPM_MAX_ARG_SIZE) ≤ c.PPM_MAX_ARG_SIZE →
      (__bpf_val_to_ring c data val val_len PT_BYTEBUF dyn_idx true mem).1 = PPM_SUCCESS ∧
      (__bpf_val_to_ring c data val val_len PT_BYTEBUF dyn_idx true mem).2.arg_lens data.curarg
        = len_dyn_of dyn_idx + min val_len
          (min (lookahead_snaplen c (write_dyn_idx c data dyn_idx) val val_len mem)
            c.PPM_MAX_ARG_SIZE)) ∧
    (len_dyn_of dyn_idx + min val_len c.PPM_MAX_ARG_SIZE ≤ c.PPM_MAX_ARG_SIZE →
      (__bpf_val_to_ring c data val val_len PT_BYTEBUF dyn_idx false mem).1 = PPM_SUCCESS ∧
      (__bpf_val_to_ring c data val val_len PT_BYTEBUF dyn_idx false mem).2.arg_lens data.curarg
        = len_dyn_of dyn_idx + min val_len c.PPM_MAX_ARG_SIZE) ∧
    (dyn_idx % 256 = 255 →
      (__bpf_val_to_ring c data val val_len PT_BYTEBUF dyn_idx true mem).1 = PPM_SUCCESS ∧
      (__bpf_val_to_ring c data val val_len PT_BYTEBUF dyn_idx true mem).2.arg_lens data.curarg
        = min val_len (min (lookahead_snaplen c data val val_len mem) c.PPM_MAX_ARG_SIZE) ∧
      (__bpf_val_to_ring c data val val_len PT_BYTEBUF dyn_idx false mem).1 = PPM_SUCCESS ∧
      (__bpf_val_to_ring c data val val_len PT_BYTEBUF dyn_idx false mem).2.arg_lens data.curarg
        = min val_len c.PPM_MAX_ARG_SIZE) := by
  have hwf := write_dyn_idx_fields c data dyn_idx
  have hread1 : ∀ a, ∃ b, memory_of (write_dyn_idx c data dyn_idx) mem a = some b := by
    intro a
    obtain ⟨b, hb⟩ := hread a
    refine ⟨b, ?_⟩
    cases mem
    · show (write_dyn_idx c data dyn_idx).user_mem a = some b
      rw [hwf.2.2.2.2.2.1]
      exact hb
    · show (write_dyn_idx c data dyn_idx).kernel_mem a = some b
      rw [hwf.2.2.2.2.2.2]
      exact hb
  have hen : ∀ enforce : Bool, ∀ len : Nat,
      len = (if enforce then
          min val_len (min (lookahead_snaplen c (write_dyn_idx c data dyn_idx) val val_len mem)
            c.PPM_MAX_ARG_SIZE)
        else min val_len c.PPM_MAX_ARG_SIZE) →
      len_dyn_of dyn_idx + len ≤ c.PPM_MAX_ARG_SIZE →
      (__bpf_val_to_ring c data val val_len PT_BYTEBUF dyn_idx enforce mem).1 = PPM_SUCCESS ∧
      (__bpf_val_to_ring c data val val_len PT_BYTEBUF dyn_idx enforce mem).2.arg_lens
        data.curarg = len_dyn_of dyn_idx + len := by
    intro enforce len hlen hle
    obtain ⟨d2, hd2⟩ := bytebuf_payload_len c (write_dyn_idx c data dyn_idx) val val_len enforce
      mem hcur hval h0 h32 hread1 hdpi hmax
    rw [← hlen] at hd2
    have hrec := val_to_ring_recorded c data val val_len PT_BYTEBUF dyn_idx enforce mem len d2
      hcur hd2 hle (by omega)
    exact ⟨hrec.1, hrec.2.1⟩
  refine ⟨fun h => hen true _ rfl h, fun h => hen false _ rfl h, fun hd => ?_⟩
  have hz := len_dyn_of_none dyn_idx hd
  have hw := write_dyn_idx_none c data dyn_idx hd
  have h1 := hen true _ rfl (by rw [hz]; simp only [if_true]; omega)
  have h2 := hen false _ rfl (by rw [hz]; simp only [Bool.false_eq_true, if_false]; omega)
  rw [hz, Nat.zero_add, hw] at h1
  rw [hz, Nat.zero_add] at h2
  exact ⟨h1.1, h1.2, h2.1, h2.2⟩

/-- Witness of `bytebuf_recorded_length`: 300 bytes of a readable source with
base snaplen 80 and a dynamic-index byte. -/
theorem bytebuf_recorded_length_witness :
    (len_dyn_of 3 + min 300
        (min (lookahead_snaplen upstream_consts
          (write_dyn_idx upstream_consts readable_small_snaplen 3) 100 300 USER)
          upstream_consts.PPM_MAX_ARG_SIZE) ≤ upstream_consts.PPM_MAX_ARG_SIZE →
      (__bpf_val_to_ring upstream_consts readable_small_snaplen 100 300 PT_BYTEBUF 3 true
        USER).1 = PPM_SUCCESS ∧
      (__bpf_val_to_ring upstream_consts readable_small_snaplen 100 300 PT_BYTEBUF 3 true
        USER).2.arg_lens readable_small_snaplen.curarg
        = len_dyn_of 3 + min 300
          (min (lookahead_snaplen upstream_consts
            (write_dyn_idx upstream_consts readable_small_snaplen 3) 100 300 USER)
            upstream_consts.PPM_MAX_ARG_SIZE)) ∧
    (len_dyn_of 3 + min 300 upstream_consts.PPM_MAX_ARG_SIZE
        ≤ upstream_consts.PPM_MAX_ARG_SIZE →
      (__bpf_val_to_ring upstream_consts readable_small_snaplen 100 300 PT_BYTEBUF 3 false
        USER).1 = PPM_SUCCESS ∧
      (__bpf_val_to_ring upstream_consts readable_small_snaplen 100 300 PT_BYTEBUF 3 false
        USER).2.arg_lens readable_small_snaplen.curarg
        = len_dyn_of 3 + min 300 upstream_consts.PPM_MAX_ARG_SIZE) ∧
    (3 % 256 = 255 →
      (__bpf_val_to_ring upstream_consts readable_small_snaplen 100 300 PT_BYTEBUF 3 true
        USER).1 = PPM_SUCCESS ∧
      (__bpf_val_to_ring upstream_consts readable_small_snaplen 100 300 PT_BYTEBUF 3 true
        USER).2.arg_lens readable_small_snaplen.curarg
        = min 300 (min (lookahead_snaplen upstream_consts readable_small_snaplen 100 300 USER)
            upstream_consts.PPM_MAX_ARG_SIZE) ∧
      (__bpf_val_to_ring upstream_consts readable_small_snaplen 100 300 PT_BYTEBUF 3 false
        USER).1 = PPM_SUCCESS ∧
      (__bpf_val_to_ring upstream_consts readable_small_snaplen 100 300 PT_BYTEBUF 3 false
        USER).2.arg_lens readable_small_snaplen.curarg
        = min 300 upstream_consts.PPM_MAX_ARG_SIZE) :=
  bytebuf_recorded_length upstream_consts readable_small_snaplen 100 300 3 USER (by decide)
    (by decide) (by decide) (by decide) (fun _ => ⟨7, rfl⟩) (by decide) (by decide)

end filler_helpers

/-!
# Theorems on the encoder: claim C35
-/

namespace filler_helpers

open ppm_param_type ppm_rc read_memory

theorem differ_within_refl (b : Nat → Nat) (lo hi : Nat) : differ_within b b lo hi :=
  fun _ h => absurd rfl h

theorem differ_within_mono (b b2 : Nat → Nat) (lo hi lo1 hi1 : Nat) (h1 : lo1 ≤ lo)
    (h2 : hi ≤ hi1) (h : differ_within b b2 lo hi) : differ_within b b2 lo1 hi1 := by
  intro i hi0
  have := h i hi0
  omega

theorem differ_within_trans (b b2 b3 : Nat → Nat) (lo hi : Nat) (h1 : differ_within b b2 lo hi)
    (h2 : differ_within b2 b3 lo hi) : differ_within b b3 lo hi := by
  intro i hne
  by_cases h : b2 i = b i
  · exact h2 i (by rw [h]; exact hne)
  · exact h1 i h

theorem differ_within_buf_write (b : Nat → Nat) (off : Nat) (bytes : List Nat) (n : Nat)
    (h : bytes.length ≤ n) : differ_within b (buf_write b off bytes) off (off + n) := by
  intro i hne
  by_contra hout
  exact hne (buf_write_out b off bytes i (by omega))

theorem read_bytes_length (m : Nat → Option Nat) (n src : Nat) (l : List Nat)
    (h : read_bytes m src n = some l) : l.length = n := by
  induction n generalizing src l with
  | zero =>
    simp only [read_bytes, Option.some.injEq] at h
    rw [← h]; rfl
  | succ k ih =>
    rw [read_bytes] at h
    split at h
    · simp at h
    · split at h
      · simp at h
      · rename_i rest hrest
        simp only [Option.some.injEq] at h
        rw [← h, List.length_cons, ih _ _ hrest]

theorem bpf_probe_read_within (m : Nat → Option Nat) (buf : Nat → Nat) (dst size src : Nat) :
    differ_within buf (bpf_probe_read m buf dst size src).2 dst (dst + size) := by
  unfold bpf_probe_read
  split
  · rename_i bytes hb
    exact differ_within_buf_write buf dst bytes size (le_of_eq (read_bytes_length m _ _ _ hb))
  · exact differ_within_buf_write buf dst _ size (by simp)

theorem bpf_probe_read_str_within (m : Nat → Option Nat) (buf : Nat → Nat)
    (dst size src : Nat) :
    differ_within buf (bpf_probe_read_str m buf dst size src).2 dst (dst + size) := by
  unfold bpf_probe_read_str
  split_ifs with h0
  · exact differ_within_refl _ _ _
  · split
    · rename_i bytes hb
      have hl := read_string_length m _ _ _ hb
      have hlen : (bytes ++ [0]).length ≤ size := by
        simp only [List.length_append, List.length_singleton]
        omega
      exact differ_within_buf_write buf dst _ size hlen
    · exact differ_within_buf_write buf dst _ size (by simp)

theorem read_val_into_within (c : driver_consts) (data : filler_data) (cb val rs : Nat)
    (mem : read_memory) :
    differ_within data.buf (__bpf_read_val_into c data cb val rs mem).2 cb (cb + rs) := by
  unfold __bpf_read_val_into
  split_ifs with h1 h2
  · exact differ_within_refl _ _ _
  · have hle : Nat.land (rs - 1) c.SCRATCH_SIZE_HALF ≤ rs - 1 := Nat.and_le_left
    exact differ_within_mono _ _ _ _ _ _ (Nat.le_refl _) (by omega)
      (bpf_probe_read_within _ _ _ _ _)
  · have hle : Nat.land rs c.SCRATCH_SIZE_HALF ≤ rs := Nat.and_le_left
    exact differ_within_mono _ _ _ _ _ _ (Nat.le_refl _) (by omega)
      (bpf_probe_read_within _ _ _ _ _)

theorem bytebuf_read_payload_within (c : driver_consts) (data : filler_data) (val len : Nat)
    (mem : read_memory) :
    (∀ l d, bytebuf_read_payload c data val len mem = .ok (l, d) →
      differ_within data.buf d.buf (Nat.land data.curoff c.SCRATCH_SIZE_HALF)
        (Nat.land data.curoff c.SCRATCH_SIZE_HALF + c.PPM_MAX_ARG_SIZE)) ∧
    (∀ rc d, bytebuf_read_payload c data val len mem = .error (rc, d) → d = data) := by
  refine ⟨fun l d h => ?_, (bytebuf_read_payload_frame c data val len mem).2⟩
  have hgen : ∀ n, n ≤ c.PPM_MAX_ARG_SIZE →
      differ_within data.buf
        (__bpf_read_val_into c data (Nat.land data.curoff c.SCRATCH_SIZE_HALF) val (n % 65536)
          mem).2 (Nat.land data.curoff c.SCRATCH_SIZE_HALF)
        (Nat.land data.curoff c.SCRATCH_SIZE_HALF + c.PPM_MAX_ARG_SIZE) := by
    intro n hn
    have := Nat.mod_le n 65536
    exact differ_within_mono _ _ _ _ _ _ (Nat.le_refl _) (by omega)
      (read_val_into_within c data (Nat.land data.curoff c.SCRATCH_SIZE_HALF) val
        (n % 65536) mem)
  unfold bytebuf_read_payload at h
  simp only at h
  split_ifs at h <;> simp only [Except.ok.injEq, Prod.mk.injEq, reduceCtorEq] at h <;>
    rw [← h.2] <;>
    first
    | exact differ_within_refl _ _ _
    | exact hgen _ (Nat.le_refl _)
    | exact hgen _ (by omega)

theorem bytebuf_payload_within (c : driver_consts) (data : filler_data) (val val_len : Nat)
    (enforce_snaplen : Bool) (mem : read_memory)
    (hdpi : c.DPI_LOOKAHEAD_SIZE ≤ c.PPM_MAX_ARG_SIZE) :
    (∀ l d, bytebuf_payload c data (Nat.land data.curoff c.SCRATCH_SIZE_HALF) val val_len
        enforce_snaplen mem = .ok (l, d) →
      differ_within data.buf d.buf (Nat.land data.curoff c.SCRATCH_SIZE_HALF)
        (Nat.land data.curoff c.SCRATCH_SIZE_HALF + c.PPM_MAX_ARG_SIZE)) ∧
    (∀ rc d, bytebuf_payload c data (Nat.land data.curoff c.SCRATCH_SIZE_HALF) val val_len
        enforce_snaplen mem = .error (rc, d) →
      differ_within data.buf d.buf (Nat.land data.curoff c.SCRATCH_SIZE_HALF)
        (Nat.land data.curoff c.SCRATCH_SIZE_HALF + c.PPM_MAX_ARG_SIZE)) := by
  have hrs : dpi_lookahead c (val_len % 4294967296) % 65536 ≤ c.PPM_MAX_ARG_SIZE := by
    have := Nat.mod_le (dpi_lookahead c (val_len % 4294967296)) 65536
    unfold dpi_lookahead at this ⊢
    split_ifs at this ⊢ <;> omega
  have hla := differ_within_mono _ _ _ _ _ _ (Nat.le_refl _)
    (Nat.add_le_add_left hrs (Nat.land data.curoff c.SCRATCH_SIZE_HALF))
    (read_val_into_within c data (Nat.land data.curoff c.SCRATCH_SIZE_HALF) val
      (dpi_lookahead c (val_len % 4294967296) % 65536) mem)
  unfold bytebuf_payload
  simp only
  constructor
  · intro l d h
    split_ifs at h
    · simp only [Except.ok.injEq, Prod.mk.injEq] at h
      rw [← h.2]; exact hla
    · exact differ_within_trans _ _ _ _ _ hla
        ((bytebuf_read_payload_within c _ val _ mem).1 l d h)
    · exact (bytebuf_read_payload_within c _ val _ mem).1 l d h
    · exact (bytebuf_read_payload_within c _ val _ mem).1 l d h
    · simp only [Except.ok.injEq, Prod.mk.injEq] at h
      rw [← h.2]; exact differ_within_refl _ _ _
  · intro rc d h
    split_ifs at h
    · rw [(bytebuf_read_payload_within c _ val _ mem).2 rc d h]; exact hla
    · rw [(bytebuf_read_payload_within c _ val _ mem).2 rc d h]
      exact differ_within_refl _ _ _
    · rw [(bytebuf_read_payload_within c _ val _ mem).2 rc d h]
      exact differ_within_refl _ _ _

theorem charbuf_payload_within (c : driver_consts) (data : filler_data) (cb val val_len : Nat)
    (mem : read_memory) :
    (∀ l d, charbuf_payload c data cb val val_len mem = .ok (l, d) →
      differ_within data.buf d.buf cb (cb + c.PPM_MAX_ARG_SIZE)) ∧
    (∀ rc d, charbuf_payload c data cb val val_len mem = .error (rc, d) →
      differ_within data.buf d.buf cb (cb + c.PPM_MAX_ARG_SIZE)) := by
  have hr : differ_within data.buf (charbuf_read c data cb val mem).2 cb
      (cb + c.PPM_MAX_ARG_SIZE) := by
    unfold charbuf_read
    split_ifs
    · exact bpf_probe_read_str_within _ _ _ _ _
    · exact differ_within_refl _ _ _
  unfold charbuf_payload
  constructor
  · intro l d h
    split_ifs at h <;> simp only [Except.ok.injEq, Prod.mk.injEq] at h
    · rw [← h.2]; exact hr
    · rw [← h.2]; exact hr
    · rw [← h.2]; exact differ_within_refl _ _ _
  · intro rc d h
    split_ifs at h

theorem sockaddr_payload_within (data : filler_data) (val val_len lo hi : Nat) :
    (∀ l d, sockaddr_payload data val val_len = .ok (l, d) →
      differ_within data.buf d.buf lo hi) ∧
    (∀ rc d, sockaddr_payload data val val_len = .error (rc, d) →
      differ_within data.buf d.buf lo hi) := by
  unfold sockaddr_payload
  constructor
  · intro l d h
    split_ifs at h <;> simp only [Except.ok.injEq, Prod.mk.injEq, reduceCtorEq] at h <;>
      (rw [← h.2]; exact differ_within_refl _ _ _)
  · intro rc d h
    split_ifs at h
    simp only [Except.error.injEq, Prod.mk.injEq, reduceCtorEq] at h
    rw [← h.2]; exact differ_within_refl _ _ _

theorem fixed_payload_within (c : driver_consts) (data : filler_data) (cb val : Nat)
    (type : ppm_param_type) (hmax8 : 8 ≤ c.PPM_MAX_ARG_SIZE) :
    (∀ l d, fixed_payload data cb val type = .ok (l, d) →
      differ_within data.buf d.buf cb (cb + c.PPM_MAX_ARG_SIZE)) ∧
    (∀ rc d, fixed_payload data cb val type = .error (rc, d) →
      differ_within data.buf d.buf cb (cb + c.PPM_MAX_ARG_SIZE)) := by
  constructor
  · intro l d h
    unfold fixed_payload at h
    split at h
    · rename_i w hw
      have hmem := fixed_width_mem type w hw
      simp only [List.mem_cons, List.mem_singleton, List.not_mem_nil, or_false] at hmem
      simp only [Except.ok.injEq, Prod.mk.injEq] at h
      rw [← h.2]
      exact differ_within_buf_write _ _ _ _ (by rw [store_bytes_length]; omega)
    · simp only [reduceCtorEq] at h
  · intro rc d h
    unfold fixed_payload at h
    split at h
    · simp only [reduceCtorEq] at h
    · simp only [Except.error.injEq, Prod.mk.injEq] at h
      rw [← h.2]; exact differ_within_refl _ _ _

theorem val_to_ring_payload_within (c : driver_consts) (data : filler_data) (val val_len : Nat)
    (type : ppm_param_type) (enforce_snaplen : Bool) (mem : read_memory)
    (hmax8 : 8 ≤ c.PPM_MAX_ARG_SIZE) (hdpi : c.DPI_LOOKAHEAD_SIZE ≤ c.PPM_MAX_ARG_SIZE) :
    (∀ l d, val_to_ring_payload c data (Nat.land data.curoff c.SCRATCH_SIZE_HALF) val val_len
        type enforce_snaplen mem = .ok (l, d) →
      differ_within data.buf d.buf (Nat.land data.curoff c.SCRATCH_SIZE_HALF)
        (Nat.land data.curoff c.SCRATCH_SIZE_HALF + c.PPM_MAX_ARG_SIZE)) ∧
    (∀ rc d, val_to_ring_payload c data (Nat.land data.curoff c.SCRATCH_SIZE_HALF) val val_len
        type enforce_snaplen mem = .error (rc, d) →
      differ_within data.buf d.buf (Nat.land data.curoff c.SCRATCH_SIZE_HALF)
        (Nat.land data.curoff c.SCRATCH_SIZE_HALF + c.PPM_MAX_ARG_SIZE)) := by
  unfold val_to_ring_payload
  split
  · exact charbuf_payload_within c data _ val val_len mem
  · exact charbuf_payload_within c data _ val val_len mem
  · exact charbuf_payload_within c data _ val val_len mem
  · exact bytebuf_payload_within c data val val_len enforce_snaplen mem hdpi
  · exact sockaddr_payload_within data val val_len _ _
  · exact sockaddr_payload_within data val val_len _ _
  · exact sockaddr_payload_within data val val_len _ _
  · exact fixed_payload_within c data _ val _ hmax8

theorem half_mask (c : driver_consts) (k x : Nat) (hhalf : c.SCRATCH_SIZE_HALF = 2 ^ k - 1)
    (hx : x ≤ c.SCRATCH_SIZE_HALF) : Nat.land x c.SCRATCH_SIZE_HALF = x := by
  rw [hhalf] at hx ⊢
  have h := Nat.and_pow_two_sub_one_eq_mod x k
  have hp : 0 < 2 ^ k := Nat.pos_pow_of_pos k (by decide)
  exact h.trans (Nat.mod_eq_of_lt (by omega))

/-- The indices at which `__bpf_val_to_ring` changes the buffer. -/
theorem val_to_ring_within (c : driver_consts) (data : filler_data) (val val_len : Nat)
    (type : ppm_param_type) (dyn_idx : Nat) (enforce_snaplen : Bool) (mem : read_memory)
    (k i : Nat) (hhalf : c.SCRATCH_SIZE_HALF = 2 ^ k - 1) (hmax8 : 8 ≤ c.PPM_MAX_ARG_SIZE)
    (hdpi : c.DPI_LOOKAHEAD_SIZE ≤ c.PPM_MAX_ARG_SIZE)
    (hch : (__bpf_val_to_ring c data val val_len type dyn_idx enforce_snaplen mem).2.buf i
      ≠ data.buf i) :
    data.curoff ≤ c.SCRATCH_SIZE_HALF ∧
    Nat.land data.curoff c.SCRATCH_SIZE_HALF = data.curoff ∧
    data.curoff ≤ i ∧ i < data.curoff + len_dyn_of dyn_idx + c.PPM_MAX_ARG_SIZE ∧
    i < c.SCRATCH_SIZE_HALF + c.PPM_MAX_ARG_SIZE := by
  have hwf := write_dyn_idx_fields c data dyn_idx
  have hld := len_dyn_of_le dyn_idx
  by_cases h0 : data.curoff > c.SCRATCH_SIZE_HALF
  · exfalso
    apply hch
    unfold __bpf_val_to_ring
    rw [if_pos h0]
  have hm0 := half_mask c k data.curoff hhalf (by omega)
  have hdyn : differ_within data.buf (write_dyn_idx c data dyn_idx).buf data.curoff
      (data.curoff + len_dyn_of dyn_idx) := by
    unfold write_dyn_idx len_dyn_of
    split_ifs
    · rw [hm0]
      exact differ_within_buf_write _ _ _ _ (by simp)
    · exact differ_within_refl _ _ _
  by_cases h1 : (write_dyn_idx c data dyn_idx).curoff > c.SCRATCH_SIZE_HALF
  · have hfull : __bpf_val_to_ring c data val val_len type dyn_idx enforce_snaplen mem
        = (PPM_FAILURE_FRAME_SCRATCH_MAP_FULL, write_dyn_idx c data dyn_idx) := by
      unfold __bpf_val_to_ring
      simp only
      rw [if_neg h0, if_pos h1]
    rw [hfull] at hch
    have := hdyn i hch
    exact ⟨by omega, hm0, by omega, by omega, by omega⟩
  have hm1 := half_mask c k (write_dyn_idx c data dyn_idx).curoff hhalf (by omega)
  have hpw := val_to_ring_payload_within c (write_dyn_idx c data dyn_idx) val val_len type
    enforce_snaplen mem hmax8 hdpi
  rw [hm1, hwf.1] at hpw
  have hboth : ∀ d2 : filler_data,
      differ_within (write_dyn_idx c data dyn_idx).buf d2.buf
        (data.curoff + len_dyn_of dyn_idx)
        (data.curoff + len_dyn_of dyn_idx + c.PPM_MAX_ARG_SIZE) →
      d2.buf i ≠ data.buf i →
      data.curoff ≤ c.SCRATCH_SIZE_HALF ∧
      Nat.land data.curoff c.SCRATCH_SIZE_HALF = data.curoff ∧
      data.curoff ≤ i ∧ i < data.curoff + len_dyn_of dyn_idx + c.PPM_MAX_ARG_SIZE ∧
      i < c.SCRATCH_SIZE_HALF + c.PPM_MAX_ARG_SIZE := by
    intro d2 hd2 hne
    have hall := differ_within_trans _ _ _ data.curoff
      (data.curoff + len_dyn_of dyn_idx + c.PPM_MAX_ARG_SIZE)
      (differ_within_mono _ _ _ _ _ _ (Nat.le_refl _) (by omega) hdyn)
      (differ_within_mono _ _ _ _ _ _ (by omega) (Nat.le_refl _) hd2) i hne
    rw [hwf.1] at h1
    exact ⟨by omega, hm0, hall.1, hall.2, by omega⟩
  cases hp : val_to_ring_payload c (write_dyn_idx c data dyn_idx)
    (Nat.land (write_dyn_idx c data dyn_idx).curoff c.SCRATCH_SIZE_HALF) val val_len type
    enforce_snaplen mem with
  | error e =>
    have he := val_to_ring_of_payload_error c data val val_len type dyn_idx
      enforce_snaplen mem e (by omega) hp
    obtain ⟨rc, d⟩ := e
    rw [he] at hch
    rw [hm1, hwf.1] at hp
    exact hboth d (hpw.2 rc d hp) hch
  | ok p =>
    obtain ⟨len, d⟩ := p
    have he := val_to_ring_of_payload c data val val_len type dyn_idx
      enforce_snaplen mem len d (by omega) hp
    rw [he] at hch
    rw [hm1, hwf.1] at hp
    refine hboth d (hpw.1 len d hp) ?_
    split_ifs at hch
    · exact hch
    · exact hch

/-- The indices at which the common body of the push helpers changes the
buffer. -/
theorem push_to_ring_within (c : driver_consts) (data : filler_data) (w val k i : Nat)
    (hhalf : c.SCRATCH_SIZE_HALF = 2 ^ k - 1) (hw : w ≤ 8) (hmax8 : 8 ≤ c.PPM_MAX_ARG_SIZE)
    (hch : (push_to_ring c data w val).2.buf i ≠ data.buf i) :
    data.curoff ≤ c.SCRATCH_SIZE_HALF ∧
    Nat.land data.curoff c.SCRATCH_SIZE_HALF = data.curoff ∧
    data.curoff ≤ i ∧ i < data.curoff + w ∧
    i < c.SCRATCH_SIZE_HALF + c.PPM_MAX_ARG_SIZE := by
  by_cases h0 : data.curoff > c.SCRATCH_SIZE_HALF
  · exfalso
    apply hch
    rw [push_to_ring_full c data w val h0]
  have hm0 := half_mask c k data.curoff hhalf (by omega)
  unfold push_to_ring at hch
  rw [if_neg h0, hm0] at hch
  have := differ_within_buf_write data.buf data.curoff (store_bytes w val) w
    (by rw [store_bytes_length]) i hch
  exact ⟨by omega, hm0, by omega, by omega, by omega⟩

/-- Claim C35: for every state and every call of the encoder interface
(`__bpf_val_to_ring`, its wrappers and the eight `bpf_push_*_to_ring`
helpers), with `SCRATCH_SIZE_HALF` a mask `2^k - 1`, `PPM_MAX_ARG_SIZE` at
least 8 and at least `DPI_LOOKAHEAD_SIZE`, and
`SCRATCH_SIZE_HALF + PPM_MAX_ARG_SIZE <= SCRATCH_SIZE` (`SCRATCH_SIZE` is
`SCRATCH_SIZE_MAX + 1`): whenever the call changes the byte at index `i` of
the scratch buffer, the cursor on entry is at most `SCRATCH_SIZE_HALF`, its
masked value is the cursor itself (no wrap-around), `i` lies in the
`1 + PPM_MAX_ARG_SIZE` bytes from the cursor on (the dynamic-index byte and
the payload), and `i < SCRATCH_SIZE`. -/
theorem masked_writes_in_bounds (c : driver_consts) (data : filler_data) (op : encoder_op)
    (k i : Nat) (hhalf : c.SCRATCH_SIZE_HALF = 2 ^ k - 1) (hmax8 : 8 ≤ c.PPM_MAX_ARG_SIZE)
    (hdpi : c.DPI_LOOKAHEAD_SIZE ≤ c.PPM_MAX_ARG_SIZE)
    (hsize : c.SCRATCH_SIZE_HALF + c.PPM_MAX_ARG_SIZE ≤ c.SCRATCH_SIZE_MAX + 1)
    (hch : (apply_op c data op).2.buf i ≠ data.buf i) :
    data.curoff ≤ c.SCRATCH_SIZE_HALF ∧
    Nat.land data.curoff c.SCRATCH_SIZE_HALF = data.curoff ∧
    data.curoff ≤ i ∧ i < data.curoff + 1 + c.PPM_MAX_ARG_SIZE ∧
    i ≤ c.SCRATCH_SIZE_MAX := by
  have hv : ∀ (val val_len : Nat) (type : ppm_param_type) (dyn_idx : Nat) (enforce : Bool)
      (mem : read_memory),
      (__bpf_val_to_ring c data val val_len type dyn_idx enforce mem).2.buf i ≠ data.buf i →
      data.curoff ≤ c.SCRATCH_SIZE_HALF ∧
      Nat.land data.curoff c.SCRATCH_SIZE_HALF = data.curoff ∧
      data.curoff ≤ i ∧ i < data.curoff + 1 + c.PPM_MAX_ARG_SIZE ∧
      i ≤ c.SCRATCH_SIZE_MAX := by
    intro val val_len type dyn_idx enforce mem h
    have := val_to_ring_within c data val val_len type dyn_idx enforce mem k i hhalf hmax8 hdpi h
    have hld := len_dyn_of_le dyn_idx
    exact ⟨this.1, this.2.1, this.2.2.1, by omega, by omega⟩
  have hp : ∀ (w val : Nat), w ≤ 8 →
      (push_to_ring c data w val).2.buf i ≠ data.buf i →
      data.curoff ≤ c.SCRATCH_SIZE_HALF ∧
      Nat.land data.curoff c.SCRATCH_SIZE_HALF = data.curoff ∧
      data.curoff ≤ i ∧ i < data.curoff + 1 + c.PPM_MAX_ARG_SIZE ∧
      i ≤ c.SCRATCH_SIZE_MAX := by
    intro w val hw h
    have := push_to_ring_within c data w val k i hhalf hw hmax8 h
    exact ⟨this.1, this.2.1, this.2.2.1, by omega, by omega⟩
  cases op with
  | val_to_ring val val_len type dyn_idx enforce mem => exact hv _ _ _ _ _ _ hch
  | ring val =>
    change (bpf_val_to_ring c data val).2.buf i ≠ data.buf i at hch
    unfold bpf_val_to_ring at hch
    split_ifs at hch
    · exact absurd rfl hch
    · exact hv _ _ _ _ _ _ hch
  | ring_len val val_len =>
    change (bpf_val_to_ring_len c data val val_len).2.buf i ≠ data.buf i at hch
    unfold bpf_val_to_ring_len at hch
    split_ifs at hch
    · exact absurd rfl hch
    · exact hv _ _ _ _ _ _ hch
  | ring_mem val mem =>
    change (bpf_val_to_ring_mem c data val mem).2.buf i ≠ data.buf i at hch
    unfold bpf_val_to_ring_mem at hch
    split_ifs at hch
    · exact absurd rfl hch
    · exact hv _ _ _ _ _ _ hch
  | ring_dyn val type dyn_idx => exact hv _ _ _ _ _ _ hch
  | ring_type val type => exact hv _ _ _ _ _ _ hch
  | ring_type_mem val type mem => exact hv _ _ _ _ _ _ hch
  | push_s64 val => exact hp 8 _ (by omega) hch
  | push_u64 val => exact hp 8 _ (by omega) hch
  | push_s32 val => exact hp 4 _ (by omega) hch
  | push_u32 val => exact hp 4 _ (by omega) hch
  | push_s16 val => exact hp 2 _ (by omega) hch
  | push_u16 val => exact hp 2 _ (by omega) hch
  | push_s8 val => exact hp 1 _ (by omega) hch
  | push_u8 val => exact hp 1 _ (by omega) hch

/-- Witness of `masked_writes_in_bounds`: a `PT_UINT16` encode with a
dynamic-index byte at cursor 40 changes the byte at index 41. -/
theorem masked_writes_in_bounds_witness :
    (apply_op upstream_consts mid_event (encoder_op.ring_dyn 9 PT_UINT16 5)).2.buf 41
      ≠ mid_event.buf 41 ∧
    mid_event.curoff ≤ upstream_consts.SCRATCH_SIZE_HALF ∧
    Nat.land mid_event.curoff upstream_consts.SCRATCH_SIZE_HALF = mid_event.curoff ∧
    mid_event.curoff ≤ 41 ∧ 41 < mid_event.curoff + 1 + upstream_consts.PPM_MAX_ARG_SIZE ∧
    41 ≤ upstream_consts.SCRATCH_SIZE_MAX :=
  ⟨by decide, masked_writes_in_bounds upstream_consts mid_event
    (encoder_op.ring_dyn 9 PT_UINT16 5) 17 41 (by decide) (by decide) (by decide) (by decide)
    (by decide)⟩

end filler_helpers

/-!
# Theorems on the fixed-size events of the modern probe: claim C34
-/

namespace modern_bpf

/-- Claim C34: for semget, getdents, setgid, unshare, epoll_create and
timerfd_create, for every register state and return value, when the
programs reserve their space the exit program stores the return value as
parameter 1, as a signed 64-bit value, followed by exactly the parameters
that the enter program stores for the same registers, in the same order and
with the same values; `semget_x` stores exactly the 4 parameters res, key,
nsems, semflg, with key and nsems the 32-bit signed truncations of the
arguments 0 and 1 and semflg the value of `semget_flags_to_scap` on the
32-bit truncation of argument 2.  A program that cannot reserve its space
stores nothing. -/
theorem exit_events_carry_enter_parameters (semget_flags_to_scap : Nat → Nat)
    (clone_flags_to_scap : Int → Nat) (regs : Nat → Nat) (ret : Int) :
    (∃ ps, params_pushed (semget_e true semget_flags_to_scap regs) = some ps ∧
      params_pushed (semget_x true semget_flags_to_scap regs ret)
        = some (stored_param.s64 ret :: ps)) ∧
    (∃ ps, params_pushed (getdents_e true regs) = some ps ∧
      params_pushed (getdents_x true regs ret) = some (stored_param.s64 ret :: ps)) ∧
    (∃ ps, params_pushed (setgid_e true regs) = some ps ∧
      params_pushed (setgid_x true regs ret) = some (stored_param.s64 ret :: ps)) ∧
    (∃ ps, params_pushed (unshare_e true clone_flags_to_scap regs) = some ps ∧
      params_pushed (unshare_x true clone_flags_to_scap regs ret)
        = some (stored_param.s64 ret :: ps)) ∧
    (∃ ps, params_pushed (epoll_create_e true regs) = some ps ∧
      params_pushed (epoll_create_x true regs ret) = some (stored_param.s64 ret :: ps)) ∧
    (∃ ps, params_pushed (timerfd_create_e true regs) = some ps ∧
      params_pushed (timerfd_create_x true regs ret) = some (stored_param.s64 ret :: ps)) ∧
    params_pushed (semget_x true semget_flags_to_scap regs ret)
      = some [stored_param.s64 ret,
          stored_param.s32 (to_int32 (extract__syscall_argument regs 0)),
          stored_param.s32 (to_int32 (extract__syscall_argument regs 1)),
          stored_param.u32 (semget_flags_to_scap
            (to_uint32 (extract__syscall_argument regs 2)))] ∧
    (params_pushed (semget_x true semget_flags_to_scap regs ret)).map List.length = some 4 ∧
    (∀ k : Nat, to_int32 (extract__syscall_argument regs k) = to_int32 (regs k) ∧
      -2147483648 ≤ to_int32 (regs k) ∧ to_int32 (regs k) < 2147483648 ∧
      (to_int32 (regs k) - (regs k : Int)) % 4294967296 = 0) ∧
    params_pushed (semget_x false semget_flags_to_scap regs ret) = none ∧
    params_pushed (getdents_x false regs ret) = none ∧
    params_pushed (setgid_x false regs ret) = none ∧
    params_pushed (unshare_x false clone_flags_to_scap regs ret) = none ∧
    params_pushed (epoll_create_x false regs ret) = none ∧
    params_pushed (timerfd_create_x false regs ret) = none := by
  refine ⟨⟨_, rfl, rfl⟩, ⟨_, rfl, rfl⟩, ⟨_, rfl, rfl⟩, ⟨_, rfl, rfl⟩, ⟨_, rfl, rfl⟩,
    ⟨_, rfl, rfl⟩, rfl, rfl, ?_, rfl, rfl, rfl, rfl, rfl, rfl⟩
  intro k
  unfold to_int32 extract__syscall_argument
  have h1 : regs k % 18446744073709551616 % 4294967296 = regs k % 4294967296 := by omega
  rw [h1]
  refine ⟨rfl, ?_⟩
  split_ifs <;> omega

end modern_bpf
